import Mathlib

/-!
# Swapchain lifecycle and frame submission of the `moo` renderer

A shallow embedding of `VulkanSwapchain` (src/src/VulkanSwapchain.cpp), of the frame
driver `MApplication` (src/src/MApplication.cpp), of the event handling of `MWindow`
(src/src/MWindow.cpp), of `main` (src/src/main.cpp), of the memory type selection and the
support checks of `VulkanDevice` (src/src/VulkanDevice.cpp) and of
`VulkanEngine::pad_uniform_buffer_size` (src/src/vk_engine.cpp).

Conventions of the embedding:

* Vulkan handles are natural numbers and `VK_NULL_HANDLE` is `0`.
* `uint32_t` values are natural numbers; where the source does arithmetic on them the
  result is reduced modulo `2 ^ 32`.
* A `float` value is given by the whole number it equals (the source stores only whole
  numbers in `float`s); `static_cast_float` is the conversion from `uint32_t`.
* `VkResult` codes are integers, enumerants of `VkFormat`, `VkColorSpaceKHR` and
  `VkPresentModeKHR` are natural numbers, with the values of `vulkan_core.h`.
* Everything the Vulkan implementation answers (result codes, handles, acquired image
  index) is an explicit argument of the function that makes the call.
* A call into the Vulkan API or a write to `std::cout` is recorded as an `Effect`; a
  function that has effects returns the list of effects it issued, in order.
* The main loop runs over a script: one entry per iteration, with the events that
  `SDL_PollEvent` delivers in it and the answers of the environment to its frame.
* A C++ exception is `Except.error` carrying the `what()` text.  Behaviour the language
  leaves undefined (indexing a vector out of range, dereferencing a null pointer) is
  `none`.
-/

namespace moo

/-! ## Constants of the Vulkan headers -/

/-- Handle value `VK_NULL_HANDLE`. -/
def VK_NULL_HANDLE : Nat := 0

/-- Largest `uint32_t`, `std::numeric_limits<uint32_t>::max()`. -/
def UINT32_MAX : Nat := 4294967295

/-- Largest `uint64_t`, `UINT64_MAX`. -/
def UINT64_MAX : Nat := 18446744073709551615

/-- Result codes are the integers of `enum VkResult`. -/
abbrev VkResult := Int

def VK_SUCCESS : VkResult := 0
def VK_NOT_READY : VkResult := 1
def VK_TIMEOUT : VkResult := 2
def VK_ERROR_OUT_OF_HOST_MEMORY : VkResult := -1
def VK_ERROR_DEVICE_LOST : VkResult := -4
def VK_SUBOPTIMAL_KHR : VkResult := 1000001003
def VK_ERROR_OUT_OF_DATE_KHR : VkResult := -1000001004

def VK_FORMAT_B8G8R8A8_UNORM : Nat := 44
def VK_FORMAT_B8G8R8A8_SRGB : Nat := 50
def VK_COLOR_SPACE_SRGB_NONLINEAR_KHR : Nat := 0

def VK_PRESENT_MODE_IMMEDIATE_KHR : Nat := 0
def VK_PRESENT_MODE_MAILBOX_KHR : Nat := 1
def VK_PRESENT_MODE_FIFO_KHR : Nat := 2
def VK_PRESENT_MODE_FIFO_RELAXED_KHR : Nat := 3

def VK_PIPELINE_STAGE_COLOR_ATTACHMENT_OUTPUT_BIT : Nat := 1024

def VK_IMAGE_USAGE_COLOR_ATTACHMENT_BIT : Nat := 16
def VK_SHARING_MODE_EXCLUSIVE : Nat := 0
def VK_SHARING_MODE_CONCURRENT : Nat := 1
def VK_COMPOSITE_ALPHA_OPAQUE_BIT_KHR : Nat := 1
def VK_TRUE : Nat := 1
def VK_FENCE_CREATE_SIGNALED_BIT : Nat := 1

/-! ## Plain data of the Vulkan API -/

structure VkExtent2D where
  width : Nat
  height : Nat
deriving DecidableEq, Repr

structure VkSurfaceFormatKHR where
  format : Nat
  colorSpace : Nat
deriving DecidableEq, Repr

/-- The fields of `VkSurfaceCapabilitiesKHR` that `VulkanSwapchain` reads. -/
structure VkSurfaceCapabilitiesKHR where
  minImageCount : Nat
  maxImageCount : Nat
  currentExtent : VkExtent2D
  minImageExtent : VkExtent2D
  maxImageExtent : VkExtent2D
  currentTransform : Nat
deriving DecidableEq, Repr

/-- Mirror of `struct SwapChainSupportDetails` (VulkanDevice.h). -/
structure SwapChainSupportDetails where
  capabilities : VkSurfaceCapabilitiesKHR
  formats : List VkSurfaceFormatKHR
  presentModes : List Nat
deriving DecidableEq, Repr

/-- Mirror of `VkSubmitInfo` as filled by `submitCommandBuffers`. -/
structure VkSubmitInfo where
  pWaitSemaphores : List Nat
  pWaitDstStageMask : List Nat
  pCommandBuffers : List Nat
  pSignalSemaphores : List Nat
deriving DecidableEq, Repr

/-- Mirror of `VkPresentInfoKHR` as filled by `submitCommandBuffers`. -/
structure VkPresentInfoKHR where
  pWaitSemaphores : List Nat
  pSwapchains : List Nat
  pImageIndices : List Nat
deriving DecidableEq, Repr

/-- Mirror of `struct QueueFamilyIndices` (VulkanDevice.h 12-20). -/
structure QueueFamilyIndices where
  graphicsFamily : Option Nat
  presentFamily : Option Nat
  transfertFamily : Option Nat
deriving DecidableEq, Repr

/-- Mirror of `VkSwapchainCreateInfoKHR` as filled by `createSwapChain`; a null
`pQueueFamilyIndices` is the empty list. -/
structure VkSwapchainCreateInfoKHR where
  surface : Nat
  minImageCount : Nat
  imageFormat : Nat
  imageColorSpace : Nat
  imageExtent : VkExtent2D
  imageArrayLayers : Nat
  imageUsage : Nat
  imageSharingMode : Nat
  queueFamilyIndexCount : Nat
  pQueueFamilyIndices : List Nat
  preTransform : Nat
  compositeAlpha : Nat
  presentMode : Nat
  clipped : Nat
  oldSwapchain : Nat
deriving DecidableEq, Repr

/-- Number of low bits of `n` that do not fit into a significand of 24 bits, for
`n < 2 ^ (24 + fuel)`: 0 for `n < 2 ^ 24`, and `d` for `2 ^ (23 + d) ≤ n < 2 ^ (24 + d)`. -/
def static_cast_float.dropped (n : Nat) : Nat → Nat
  | 0 => 0
  | fuel + 1 =>
    if n < 2 ^ (24 + fuel) then static_cast_float.dropped n fuel else fuel + 1

/-- Value of `static_cast<float>(n)` for a `uint32_t` value `n`, given as the whole number the
resulting `float` equals.  `float` is IEEE binary32, with a significand of 24 bits: a value
that needs more bits (at most 8 more, for 32 bits) is rounded to the nearest representable
value, a tie going to the even significand.  Values up to `2 ^ 24` are kept exactly. -/
def static_cast_float (n : Nat) : Nat :=
  let dropped := static_cast_float.dropped n 8
  let unit := 2 ^ dropped
  let significand := n / unit
  let remainder := n % unit
  if 2 * remainder < unit ∨ (2 * remainder = unit ∧ significand % 2 = 0) then
    significand * unit
  else
    (significand + 1) * unit

/-- Mirror of `VkViewport`.  Its members are `float`s; every value the source stores in one
is a whole number, and the member holds that number. -/
structure VkViewport where
  x : Nat
  y : Nat
  width : Nat
  height : Nat
  minDepth : Nat
  maxDepth : Nat
deriving DecidableEq, Repr

/-- One observable action: a Vulkan API call that creates, destroys or uses an object or
queue, with the arguments the source computes, a call of `SDL_SetWindowFullscreen`, or a line
written to `std::cout` or `std::cerr`.  Queries (`vkGet...`) change nothing and are not
recorded; their answers are function arguments. -/
inductive Effect where
  | cout (text : String)
  | vkWaitForFences (fence : Nat) (timeout : Nat)
  | vkAcquireNextImageKHR (swapchain : Nat) (timeout : Nat) (semaphore : Nat) (fence : Nat)
  | vkResetFences (fence : Nat)
  | vkQueueSubmit (queue : Nat) (submitInfo : VkSubmitInfo) (fence : Nat)
  | vkQueuePresentKHR (queue : Nat) (presentInfo : VkPresentInfoKHR)
  | vkDeviceWaitIdle (device : Nat)
  | vkCreateSwapchainKHR (createInfo : VkSwapchainCreateInfoKHR)
  | vkCreateImageView (image : Nat) (format : Nat)
  | vkCreateRenderPass (attachmentFormat : Nat)
  | vkCreateFramebuffer (renderPass : Nat) (attachment : Nat) (extent : VkExtent2D)
  | vkCreateSemaphore (flags : Nat)
  | vkCreateFence (flags : Nat)
  | vkDestroyImageView (imageView : Nat)
  | vkDestroySwapchainKHR (swapchain : Nat)
  | vkDestroyImage (image : Nat)
  | vkFreeMemory (memory : Nat)
  | vkDestroyFramebuffer (framebuffer : Nat)
  | vkDestroyRenderPass (renderPass : Nat)
  | vkDestroySemaphore (semaphore : Nat)
  | vkDestroyFence (fence : Nat)
  | vkCreateShaderModule (filepath : String)
  | vkCreateGraphicsPipelines (layout : Nat) (renderPass : Nat) (subpass : Nat)
      (vertShaderModule : Nat) (fragShaderModule : Nat)
  | vkDestroyShaderModule (shaderModule : Nat)
  | vkDestroyPipeline (pipeline : Nat)
  | vkAllocateCommandBuffers (commandPool : Nat) (count : Nat)
  | vkFreeCommandBuffers (commandPool : Nat) (commandBuffers : List Nat)
  | vkBeginCommandBuffer (commandBuffer : Nat)
  | vkCmdBeginRenderPass (commandBuffer : Nat) (renderPass : Nat) (framebuffer : Nat)
      (renderAreaOffset : Nat × Nat) (renderAreaExtent : VkExtent2D) (clearColor : List Nat)
  | vkCmdSetViewport (commandBuffer : Nat) (viewport : VkViewport)
  | vkCmdSetScissor (commandBuffer : Nat) (offset : Nat × Nat) (extent : VkExtent2D)
  | vkCmdBindPipeline (commandBuffer : Nat) (pipeline : Nat)
  | vkCmdBindVertexBuffers (commandBuffer : Nat) (buffer : Nat)
  | vkCmdBindIndexBuffer (commandBuffer : Nat) (buffer : Nat)
  | vkCmdDrawIndexed (commandBuffer : Nat) (indexCount : Nat)
  | vkCmdDraw (commandBuffer : Nat) (vertexCount : Nat)
  | vkCmdEndRenderPass (commandBuffer : Nat)
  | vkEndCommandBuffer (commandBuffer : Nat)
  | vkCreatePipelineLayout
  | SDL_SetWindowFullscreen (flags : Nat)
  | cerr (text : String)
deriving DecidableEq, Repr

/-! ## Selection helpers of `VulkanSwapchain` -/

/-- Loop of `VulkanSwapchain::chooseSwapSurfaceFormat`: `rest` is the part of
`availableFormats` still to visit.  When the loop runs out the source returns
`availableFormats[0]`, which is undefined for an empty vector. -/
def VulkanSwapchain.chooseSwapSurfaceFormat.loop (availableFormats : List VkSurfaceFormatKHR) :
    List VkSurfaceFormatKHR → Option VkSurfaceFormatKHR
  | [] => availableFormats[0]?
  | availableFormat :: rest =>
    if availableFormat.format = VK_FORMAT_B8G8R8A8_SRGB
        ∧ availableFormat.colorSpace = VK_COLOR_SPACE_SRGB_NONLINEAR_KHR then
      some availableFormat
    else
      VulkanSwapchain.chooseSwapSurfaceFormat.loop availableFormats rest

/-- Embedding of `VulkanSwapchain::chooseSwapSurfaceFormat` (VulkanSwapchain.cpp 384-392). -/
def VulkanSwapchain.chooseSwapSurfaceFormat (availableFormats : List VkSurfaceFormatKHR) :
    Option VkSurfaceFormatKHR :=
  VulkanSwapchain.chooseSwapSurfaceFormat.loop availableFormats availableFormats

/-- Embedding of `VulkanSwapchain::chooseSwapPresentMode` (VulkanSwapchain.cpp 394-411):
the line written to `std::cout` and the returned mode. -/
def VulkanSwapchain.chooseSwapPresentMode : List Nat → List Effect × Nat
  | [] => ([Effect.cout "Present mode: V-Sync\n"], VK_PRESENT_MODE_FIFO_KHR)
  | availablePresentMode :: rest =>
    if availablePresentMode = VK_PRESENT_MODE_MAILBOX_KHR then
      ([Effect.cout "Present mode: Mailbox\n"], availablePresentMode)
    else
      VulkanSwapchain.chooseSwapPresentMode rest

/-- Embedding of `VulkanSwapchain::chooseSwapExtent` (VulkanSwapchain.cpp 413-422);
`m_windowExtent` is the member the constructor stored from its `extent` argument. -/
def VulkanSwapchain.chooseSwapExtent (m_windowExtent : VkExtent2D)
    (capabilities : VkSurfaceCapabilitiesKHR) : VkExtent2D :=
  if capabilities.currentExtent.width ≠ UINT32_MAX then
    capabilities.currentExtent
  else
    { width := max capabilities.minImageExtent.width
        (min capabilities.maxImageExtent.width m_windowExtent.width)
      height := max capabilities.minImageExtent.height
        (min capabilities.maxImageExtent.height m_windowExtent.height) }

/-- The local `imageCount` of `VulkanSwapchain::createSwapChain` after lines 131-134, the
value stored in `createInfo.minImageCount`.  The addition is `uint32_t` addition. -/
def VulkanSwapchain.createSwapChain.imageCount (capabilities : VkSurfaceCapabilitiesKHR) : Nat :=
  let imageCount := (capabilities.minImageCount + 1) % 2 ^ 32
  if capabilities.maxImageCount > 0 ∧ imageCount > capabilities.maxImageCount then
    capabilities.maxImageCount
  else
    imageCount

/-! ## Objects and outcomes -/

/-- The handles of `VulkanDevice` (VulkanDevice.h) that the swapchain and the application
read through its getters. -/
structure VulkanDevice where
  m_device : Nat
  m_surface : Nat
  m_graphicsQueue : Nat
  m_presentQueue : Nat
  m_commandPool : Nat
deriving DecidableEq, Repr

/-- What a call of a member function leaves behind: the object after the call, the effects
issued in order, and either the returned value or the exception that left the function. -/
structure Run (σ α : Type) where
  state : σ
  calls : List Effect
  result : Except String α

/-- Data members of `class VulkanSwapchain` (VulkanSwapchain.h 38-60).  The predecessor
pointer `m_oldSwapchain` is held only while the constructor runs and is an argument of the
construction functions. -/
structure VulkanSwapchain where
  device : VulkanDevice
  m_windowExtent : VkExtent2D
  m_swapChainImageFormat : Nat
  m_swapChainExtent : VkExtent2D
  m_swapChainFramebuffers : List Nat
  m_renderpass : Nat
  depthImages : List Nat
  depthImageMemorys : List Nat
  depthImageViews : List Nat
  m_swapChainImages : List Nat
  m_swapChainImageViews : List Nat
  m_swapchain : Nat
  imageAvailableSemaphores : List Nat
  renderFinishedSemaphores : List Nat
  inFlightFences : List Nat
  imagesInFlight : List Nat
  currentFrame : Nat
deriving DecidableEq, Repr

/-- Constant `VulkanSwapchain::MAX_FRAMES_IN_FLIGHT` (VulkanSwapchain.h 11). -/
def VulkanSwapchain.MAX_FRAMES_IN_FLIGHT : Nat := 2

/-- Getter `VulkanSwapchain::imageCount` (VulkanSwapchain.h 23). -/
def VulkanSwapchain.imageCount (sc : VulkanSwapchain) : Nat :=
  sc.m_swapChainImages.length

/-! ## Frame operations of `VulkanSwapchain` -/

/-- Embedding of `VulkanSwapchain::acquireNextImage` (VulkanSwapchain.cpp 68-76).
`answer` is what `vkAcquireNextImageKHR` answers: its result code and the value it leaves in
`*imageIndex`.  The value returned by `vkWaitForFences` is discarded by the source. -/
def VulkanSwapchain.acquireNextImage (sc : VulkanSwapchain) (answer : VkResult × Nat) :
    Option (Run VulkanSwapchain (VkResult × Nat)) :=
  match sc.inFlightFences[sc.currentFrame]?, sc.imageAvailableSemaphores[sc.currentFrame]? with
  | some fence, some imageAvailable =>
    some {
      state := sc
      calls := [Effect.vkWaitForFences fence UINT64_MAX,
        Effect.vkAcquireNextImageKHR sc.m_swapchain UINT64_MAX imageAvailable VK_NULL_HANDLE]
      result := Except.ok answer }
  | _, _ => none

/-- Embedding of `VulkanSwapchain::submitCommandBuffers` (VulkanSwapchain.cpp 78-122).
`buffers` is the command buffer handle the pointer argument designates, `imageIndex` the
value of `*imageIndex`; `queueSubmitResult` and `queuePresentResult` are the answers of
`vkQueueSubmit` and `vkQueuePresentKHR`. -/
def VulkanSwapchain.submitCommandBuffers (sc : VulkanSwapchain) (buffers : Nat) (imageIndex : Nat)
    (queueSubmitResult queuePresentResult : VkResult) : Option (Run VulkanSwapchain VkResult) :=
  match sc.imagesInFlight[imageIndex]?, sc.inFlightFences[sc.currentFrame]?,
      sc.imageAvailableSemaphores[sc.currentFrame]?,
      sc.renderFinishedSemaphores[sc.currentFrame]? with
  | some imageFence, some slotFence, some imageAvailable, some renderFinished =>
    let waitCalls :=
      if imageFence ≠ VK_NULL_HANDLE then [Effect.vkWaitForFences imageFence UINT64_MAX] else []
    let sc1 := { sc with imagesInFlight := sc.imagesInFlight.set imageIndex slotFence }
    let submitInfo : VkSubmitInfo := {
      pWaitSemaphores := [imageAvailable]
      pWaitDstStageMask := [VK_PIPELINE_STAGE_COLOR_ATTACHMENT_OUTPUT_BIT]
      pCommandBuffers := [buffers]
      pSignalSemaphores := [renderFinished] }
    let submitCalls := [Effect.vkResetFences slotFence,
      Effect.vkQueueSubmit sc.device.m_graphicsQueue submitInfo slotFence]
    if queueSubmitResult ≠ VK_SUCCESS then
      some {
        state := sc1
        calls := waitCalls ++ submitCalls
        result := Except.error "Failed to submit draw command buffer." }
    else
      let presentInfo : VkPresentInfoKHR := {
        pWaitSemaphores := [renderFinished]
        pSwapchains := [sc.m_swapchain]
        pImageIndices := [imageIndex] }
      some {
        state := { sc1 with
          currentFrame := (sc.currentFrame + 1) % VulkanSwapchain.MAX_FRAMES_IN_FLIGHT }
        calls := waitCalls ++ submitCalls
          ++ [Effect.vkQueuePresentKHR sc.device.m_presentQueue presentInfo]
        result := Except.ok queuePresentResult }
  | _, _, _, _ => none

/-- Sizes that `createSyncObjects` establishes and the frame operations rely on: the three
per-slot vectors have `MAX_FRAMES_IN_FLIGHT` entries, the per-image fence vector has one
entry per image, and the slot index is below `MAX_FRAMES_IN_FLIGHT`. -/
def VulkanSwapchain.WellFormed (sc : VulkanSwapchain) : Prop :=
  sc.imageAvailableSemaphores.length = VulkanSwapchain.MAX_FRAMES_IN_FLIGHT
  ∧ sc.renderFinishedSemaphores.length = VulkanSwapchain.MAX_FRAMES_IN_FLIGHT
  ∧ sc.inFlightFences.length = VulkanSwapchain.MAX_FRAMES_IN_FLIGHT
  ∧ sc.imagesInFlight.length = sc.imageCount
  ∧ sc.currentFrame < VulkanSwapchain.MAX_FRAMES_IN_FLIGHT

instance (sc : VulkanSwapchain) : Decidable sc.WellFormed := by
  unfold VulkanSwapchain.WellFormed
  infer_instance

/-- Answers of the Vulkan implementation during one frame cycle on a chain, and the command
buffer the caller submits. -/
structure CycleAnswers where
  acquire : VkResult × Nat
  commandBuffer : Nat
  queueSubmit : VkResult
  queuePresent : VkResult

/-- One frame cycle on a chain: `acquireNextImage` followed by `submitCommandBuffers` for
the image index that the acquire left in `*imageIndex`. -/
def VulkanSwapchain.frameCycle (sc : VulkanSwapchain) (a : CycleAnswers) :
    Option (Run VulkanSwapchain VkResult) :=
  match sc.acquireNextImage a.acquire with
  | none => none
  | some acquired =>
    match acquired.state.submitCommandBuffers a.commandBuffer a.acquire.2
        a.queueSubmit a.queuePresent with
    | none => none
    | some submitted =>
      some { submitted with calls := acquired.calls ++ submitted.calls }

/-- A sequence of frame cycles on one chain; an exception ends the sequence. -/
def VulkanSwapchain.frameCycles (sc : VulkanSwapchain) :
    List CycleAnswers → Option (Run VulkanSwapchain Unit)
  | [] => some { state := sc, calls := [], result := Except.ok () }
  | a :: rest =>
    match sc.frameCycle a with
    | none => none
    | some first =>
      match first.result with
      | Except.error e => some { state := first.state, calls := first.calls, result := Except.error e }
      | Except.ok _ =>
        match VulkanSwapchain.frameCycles first.state rest with
        | none => none
        | some later => some { later with calls := first.calls ++ later.calls }

/-- Bookkeeping of outstanding submissions along a list of effects: `vkQueueSubmit` with
fence `f` makes a submission outstanding and records `f`; `vkWaitForFences f` with the
unbounded timeout returns once `f` is signalled, so the submissions recorded under `f` are
no longer outstanding.  Other effects change nothing. -/
def pendingStep (pending : List Nat) : Effect → List Nat
  | Effect.vkQueueSubmit _ _ fence => fence :: pending
  | Effect.vkWaitForFences fence _ => pending.filter (fun f => f ≠ fence)
  | _ => pending

/-- Fences of the submissions of `calls` that have not been waited for since they were
submitted, most recent first. -/
def pendingFences (calls : List Effect) : List Nat :=
  calls.foldl pendingStep []

/-- Bookkeeping of completed waits along a list of effects: `vkWaitForFences f` records
`f`, and `vkQueueSubmit` with fence `f` forgets it, so the recorded fences are those waited
for with no submission under them since. -/
def waitedStep (waited : List Nat) : Effect → List Nat
  | Effect.vkWaitForFences fence _ => fence :: waited
  | Effect.vkQueueSubmit _ _ fence => waited.filter (fun f => f ≠ fence)
  | _ => waited

/-- Step-by-step form of the fence discipline, starting from the outstanding fences
`pending` and the waited-for fences `waited`: at every point at most `bound` submissions are
outstanding, and every `vkResetFences f` finds `f` among the waited-for fences. -/
def FenceDiscipline (bound : Nat) : List Nat → List Nat → List Effect → Prop
  | pending, _, [] => pending.length ≤ bound
  | pending, waited, e :: rest =>
    pending.length ≤ bound
    ∧ (∀ fence, e = Effect.vkResetFences fence → fence ∈ waited)
    ∧ FenceDiscipline bound (pendingStep pending e) (waitedStep waited e) rest

/-- A chain as the constructor leaves it for a surface with three images: two frame slots,
no image owned by a fence yet, slot index 0. -/
def exampleChain : VulkanSwapchain := {
  device := {
    m_device := 1
    m_surface := 2
    m_graphicsQueue := 3
    m_presentQueue := 4
    m_commandPool := 5 }
  m_windowExtent := ⟨1024, 768⟩
  m_swapChainImageFormat := 50
  m_swapChainExtent := ⟨1024, 768⟩
  m_swapChainFramebuffers := [61, 62, 63]
  m_renderpass := 70
  depthImages := []
  depthImageMemorys := []
  depthImageViews := []
  m_swapChainImages := [41, 42, 43]
  m_swapChainImageViews := [51, 52, 53]
  m_swapchain := 40
  imageAvailableSemaphores := [11, 12]
  renderFinishedSemaphores := [21, 22]
  inFlightFences := [31, 32]
  imagesInFlight := [0, 0, 0]
  currentFrame := 0 }

/-! ## Construction and destruction of `VulkanSwapchain` -/

/-- Sequencing of two `void` steps on one object: the second step runs on the state the
first one left, unless the first threw; undefined behaviour in either step makes the whole
undefined. -/
def Run.andThen {σ β : Type} (first : Option (Run σ Unit)) (next : σ → Option (Run σ β)) :
    Option (Run σ β) :=
  match first with
  | none => none
  | some r =>
    match r.result with
    | Except.error e => some { state := r.state, calls := r.calls, result := Except.error e }
    | Except.ok _ =>
      match next r.state with
      | none => none
      | some r2 => some { r2 with calls := r.calls ++ r2.calls }

/-- Answers of the Vulkan implementation while one `VulkanSwapchain` is constructed:
the support query and queue families reported through `VulkanDevice`, and for every creation
call its result code and the handle it writes.  Calls made in a loop are indexed by the loop
counter. -/
structure ChainAnswers where
  swapChainSupport : SwapChainSupportDetails
  queueFamilies : QueueFamilyIndices
  createSwapchain : VkResult × Nat
  swapChainImages : List Nat
  createImageView : Nat → VkResult × Nat
  createRenderPass : VkResult × Nat
  createFramebuffer : Nat → VkResult × Nat
  createImageAvailableSemaphore : Nat → VkResult × Nat
  createRenderFinishedSemaphore : Nat → VkResult × Nat
  createFence : Nat → VkResult × Nat

/-- Embedding of `VulkanSwapchain::createSwapChain` (VulkanSwapchain.cpp 124-183).
`m_oldSwapchain` is the predecessor pointer member; `value()` of an empty optional throws
`std::bad_optional_access`. -/
def VulkanSwapchain.createSwapChain (sc : VulkanSwapchain)
    (m_oldSwapchain : Option VulkanSwapchain) (answers : ChainAnswers) :
    Option (Run VulkanSwapchain Unit) :=
  let swapChainSupport := answers.swapChainSupport
  match VulkanSwapchain.chooseSwapSurfaceFormat swapChainSupport.formats with
  | none => none
  | some surfaceFormat =>
    let presentMode := VulkanSwapchain.chooseSwapPresentMode swapChainSupport.presentModes
    let extent :=
      VulkanSwapchain.chooseSwapExtent sc.m_windowExtent swapChainSupport.capabilities
    let imageCount := VulkanSwapchain.createSwapChain.imageCount swapChainSupport.capabilities
    let indices := answers.queueFamilies
    match indices.graphicsFamily, indices.presentFamily, indices.transfertFamily with
    | some graphicsFamily, some presentFamily, some transfertFamily =>
      let createInfo : VkSwapchainCreateInfoKHR := {
        surface := sc.device.m_surface
        minImageCount := imageCount
        imageFormat := surfaceFormat.format
        imageColorSpace := surfaceFormat.colorSpace
        imageExtent := extent
        imageArrayLayers := 1
        imageUsage := VK_IMAGE_USAGE_COLOR_ATTACHMENT_BIT
        imageSharingMode :=
          if graphicsFamily ≠ presentFamily then VK_SHARING_MODE_CONCURRENT
          else VK_SHARING_MODE_EXCLUSIVE
        queueFamilyIndexCount := if graphicsFamily ≠ presentFamily then 3 else 0
        pQueueFamilyIndices :=
          if graphicsFamily ≠ presentFamily then [graphicsFamily, presentFamily, transfertFamily]
          else []
        preTransform := swapChainSupport.capabilities.currentTransform
        compositeAlpha := VK_COMPOSITE_ALPHA_OPAQUE_BIT_KHR
        presentMode := presentMode.2
        clipped := VK_TRUE
        oldSwapchain :=
          match m_oldSwapchain with
          | none => VK_NULL_HANDLE
          | some old => old.m_swapchain }
      if answers.createSwapchain.1 ≠ VK_SUCCESS then
        some {
          state := sc
          calls := presentMode.1 ++ [Effect.vkCreateSwapchainKHR createInfo]
          result := Except.error "Failed to create swapchain." }
      else
        some {
          state := { sc with
            m_swapchain := answers.createSwapchain.2
            m_swapChainImages := answers.swapChainImages
            m_swapChainImageFormat := surfaceFormat.format
            m_swapChainExtent := extent }
          calls := presentMode.1 ++ [Effect.vkCreateSwapchainKHR createInfo]
          result := Except.ok () }
    | _, _, _ =>
      some { state := sc, calls := presentMode.1, result := Except.error "bad optional access" }

/-- Loop of `VulkanSwapchain::createImageViews`: `i` is the loop counter and the list holds
`m_swapChainImages[i], ...`; the result is the views created, in order. -/
def VulkanSwapchain.createImageViews.loop (format : Nat) (answer : Nat → VkResult × Nat) :
    Nat → List Nat → List Effect × Except String (List Nat)
  | _, [] => ([], Except.ok [])
  | i, image :: rest =>
    if (answer i).1 ≠ VK_SUCCESS then
      ([Effect.vkCreateImageView image format],
        Except.error "Failed to create texture image view.")
    else
      let later := VulkanSwapchain.createImageViews.loop format answer (i + 1) rest
      (Effect.vkCreateImageView image format :: later.1,
        match later.2 with
        | Except.error e => Except.error e
        | Except.ok views => Except.ok ((answer i).2 :: views))

/-- Embedding of `VulkanSwapchain::createImageViews` (VulkanSwapchain.cpp 185-210). -/
def VulkanSwapchain.createImageViews (sc : VulkanSwapchain) (answers : ChainAnswers) :
    Option (Run VulkanSwapchain Unit) :=
  let created := VulkanSwapchain.createImageViews.loop sc.m_swapChainImageFormat
    answers.createImageView 0 sc.m_swapChainImages
  match created.2 with
  | Except.error e => some { state := sc, calls := created.1, result := Except.error e }
  | Except.ok views =>
    some { state := { sc with m_swapChainImageViews := views }, calls := created.1,
           result := Except.ok () }

/-- Embedding of `VulkanSwapchain::createRenderPass` (VulkanSwapchain.cpp 212-299).  The
render pass description is constant except for the attachment format, which is the chain's
image format. -/
def VulkanSwapchain.createRenderPass (sc : VulkanSwapchain) (answers : ChainAnswers) :
    Option (Run VulkanSwapchain Unit) :=
  if answers.createRenderPass.1 ≠ VK_SUCCESS then
    some {
      state := sc
      calls := [Effect.vkCreateRenderPass sc.m_swapChainImageFormat]
      result := Except.error "Failed to create renderpass." }
  else
    some {
      state := { sc with m_renderpass := answers.createRenderPass.2 }
      calls := [Effect.vkCreateRenderPass sc.m_swapChainImageFormat]
      result := Except.ok () }

/-- Loop of `VulkanSwapchain::createFramebuffers`: `remaining` iterations are left and `i`
is the loop counter; `m_swapChainImageViews[i]` is read in each iteration. -/
def VulkanSwapchain.createFramebuffers.loop (sc : VulkanSwapchain)
    (answer : Nat → VkResult × Nat) :
    Nat → Nat → Option (List Effect × Except String (List Nat))
  | 0, _ => some ([], Except.ok [])
  | remaining + 1, i =>
    match sc.m_swapChainImageViews[i]? with
    | none => none
    | some view =>
      if (answer i).1 ≠ VK_SUCCESS then
        some ([Effect.vkCreateFramebuffer sc.m_renderpass view sc.m_swapChainExtent],
          Except.error "Failed to create framebuffers.")
      else
        match VulkanSwapchain.createFramebuffers.loop sc answer remaining (i + 1) with
        | none => none
        | some later =>
          some (Effect.vkCreateFramebuffer sc.m_renderpass view sc.m_swapChainExtent :: later.1,
            match later.2 with
            | Except.error e => Except.error e
            | Except.ok framebuffers => Except.ok ((answer i).2 :: framebuffers))

/-- Embedding of `VulkanSwapchain::createFramebuffers` (VulkanSwapchain.cpp 301-316). -/
def VulkanSwapchain.createFramebuffers (sc : VulkanSwapchain) (answers : ChainAnswers) :
    Option (Run VulkanSwapchain Unit) :=
  match VulkanSwapchain.createFramebuffers.loop sc answers.createFramebuffer sc.imageCount 0 with
  | none => none
  | some created =>
    match created.2 with
    | Except.error e => some { state := sc, calls := created.1, result := Except.error e }
    | Except.ok framebuffers =>
      some { state := { sc with m_swapChainFramebuffers := framebuffers }, calls := created.1,
             result := Except.ok () }

/-- Loop of `VulkanSwapchain::createSyncObjects`: `remaining` iterations are left and `i` is
the loop counter.  The three creation calls of one iteration are joined by `||`, so a failed
call skips the ones after it.  The result lists the image-available semaphores, the
render-finished semaphores and the fences created. -/
def VulkanSwapchain.createSyncObjects.loop (answers : ChainAnswers) :
    Nat → Nat → List Effect × Except String (List Nat × List Nat × List Nat)
  | 0, _ => ([], Except.ok ([], [], []))
  | remaining + 1, i =>
    if (answers.createImageAvailableSemaphore i).1 ≠ VK_SUCCESS then
      ([Effect.vkCreateSemaphore 0],
        Except.error "Failed to create synchronization objects for a frame.")
    else if (answers.createRenderFinishedSemaphore i).1 ≠ VK_SUCCESS then
      ([Effect.vkCreateSemaphore 0, Effect.vkCreateSemaphore 0],
        Except.error "Failed to create synchronization objects for a frame.")
    else if (answers.createFence i).1 ≠ VK_SUCCESS then
      ([Effect.vkCreateSemaphore 0, Effect.vkCreateSemaphore 0,
          Effect.vkCreateFence VK_FENCE_CREATE_SIGNALED_BIT],
        Except.error "Failed to create synchronization objects for a frame.")
    else
      let later := VulkanSwapchain.createSyncObjects.loop answers remaining (i + 1)
      ([Effect.vkCreateSemaphore 0, Effect.vkCreateSemaphore 0,
          Effect.vkCreateFence VK_FENCE_CREATE_SIGNALED_BIT] ++ later.1,
        match later.2 with
        | Except.error e => Except.error e
        | Except.ok (imageAvailable, renderFinished, fences) =>
          Except.ok ((answers.createImageAvailableSemaphore i).2 :: imageAvailable,
            (answers.createRenderFinishedSemaphore i).2 :: renderFinished,
            (answers.createFence i).2 :: fences))

/-- Embedding of `VulkanSwapchain::createSyncObjects` (VulkanSwapchain.cpp 366-382).  The
three per-slot vectors are resized to `MAX_FRAMES_IN_FLIGHT` and every entry is then written
by its creation call; `imagesInFlight.resize(imageCount(), VK_NULL_HANDLE)` keeps the entries
the vector already has, up to the new size, and fills the rest with the null handle. -/
def VulkanSwapchain.createSyncObjects (sc : VulkanSwapchain) (answers : ChainAnswers) :
    Option (Run VulkanSwapchain Unit) :=
  let created :=
    VulkanSwapchain.createSyncObjects.loop answers VulkanSwapchain.MAX_FRAMES_IN_FLIGHT 0
  match created.2 with
  | Except.error e => some { state := sc, calls := created.1, result := Except.error e }
  | Except.ok (imageAvailable, renderFinished, fences) =>
    some {
      state := { sc with
        imageAvailableSemaphores := imageAvailable
        renderFinishedSemaphores := renderFinished
        inFlightFences := fences
        imagesInFlight := sc.imagesInFlight.take sc.imageCount
          ++ List.replicate (sc.imageCount - sc.imagesInFlight.length) VK_NULL_HANDLE }
      calls := created.1
      result := Except.ok () }

/-- Embedding of `VulkanSwapchain::init` (VulkanSwapchain.cpp 28-35). -/
def VulkanSwapchain.init (sc : VulkanSwapchain) (m_oldSwapchain : Option VulkanSwapchain)
    (answers : ChainAnswers) : Option (Run VulkanSwapchain Unit) :=
  Run.andThen (sc.createSwapChain m_oldSwapchain answers) fun sc =>
  Run.andThen (sc.createImageViews answers) fun sc =>
  Run.andThen (sc.createRenderPass answers) fun sc =>
  Run.andThen (sc.createFramebuffers answers) fun sc =>
  sc.createSyncObjects answers

/-- Depth-resource loop of the destructor (VulkanSwapchain.cpp 48-52): `remaining`
iterations are left and `i` is the loop counter. -/
def VulkanSwapchain.destroyDepthResources (sc : VulkanSwapchain) :
    Nat → Nat → Option (List Effect)
  | 0, _ => some []
  | remaining + 1, i =>
    match sc.depthImageViews[i]?, sc.depthImages[i]?, sc.depthImageMemorys[i]? with
    | some view, some image, some memory =>
      match VulkanSwapchain.destroyDepthResources sc remaining (i + 1) with
      | none => none
      | some later =>
        some ([Effect.vkDestroyImageView view, Effect.vkDestroyImage image,
          Effect.vkFreeMemory memory] ++ later)
    | _, _, _ => none

/-- Synchronization-object loop of the destructor (VulkanSwapchain.cpp 61-65). -/
def VulkanSwapchain.destroySyncObjects (sc : VulkanSwapchain) :
    Nat → Nat → Option (List Effect)
  | 0, _ => some []
  | remaining + 1, i =>
    match sc.renderFinishedSemaphores[i]?, sc.imageAvailableSemaphores[i]?,
        sc.inFlightFences[i]? with
    | some renderFinished, some imageAvailable, some fence =>
      match VulkanSwapchain.destroySyncObjects sc remaining (i + 1) with
      | none => none
      | some later =>
        some ([Effect.vkDestroySemaphore renderFinished,
          Effect.vkDestroySemaphore imageAvailable, Effect.vkDestroyFence fence] ++ later)
    | _, _, _ => none

/-- Embedding of `VulkanSwapchain::~VulkanSwapchain` (VulkanSwapchain.cpp 37-66): the
destroy calls issued, in order. -/
def VulkanSwapchain.destructor (sc : VulkanSwapchain) : Option (List Effect) :=
  match sc.destroyDepthResources sc.depthImages.length 0,
      sc.destroySyncObjects VulkanSwapchain.MAX_FRAMES_IN_FLIGHT 0 with
  | some depthCalls, some syncCalls =>
    some (sc.m_swapChainImageViews.map Effect.vkDestroyImageView
      ++ (if sc.m_swapchain ≠ VK_NULL_HANDLE then [Effect.vkDestroySwapchainKHR sc.m_swapchain]
          else [])
      ++ depthCalls
      ++ sc.m_swapChainFramebuffers.map Effect.vkDestroyFramebuffer
      ++ [Effect.vkDestroyRenderPass sc.m_renderpass]
      ++ syncCalls)
  | _, _ => none

/-- Embedding of the two constructors `VulkanSwapchain::VulkanSwapchain`
(VulkanSwapchain.cpp 16-26); `previous = none` is the two-argument overload.  The object
starts with empty vectors, slot index 0 and no handles, and `init` fills it.  The shared
pointer `previous` is the last owner of the predecessor once `m_oldSwapchain` is cleared (or
destroyed by the exception), so the predecessor's destructor runs when the constructor call
ends, after the effects of `init`.  The result is the effects and the constructed chain, or
the exception. -/
def VulkanSwapchain.constructor (deviceRef : VulkanDevice) (extent : VkExtent2D)
    (previous : Option VulkanSwapchain) (answers : ChainAnswers) :
    Option (List Effect × Except String VulkanSwapchain) :=
  let blank : VulkanSwapchain := {
    device := deviceRef
    m_windowExtent := extent
    m_swapChainImageFormat := 0
    m_swapChainExtent := ⟨0, 0⟩
    m_swapChainFramebuffers := []
    m_renderpass := VK_NULL_HANDLE
    depthImages := []
    depthImageMemorys := []
    depthImageViews := []
    m_swapChainImages := []
    m_swapChainImageViews := []
    m_swapchain := VK_NULL_HANDLE
    imageAvailableSemaphores := []
    renderFinishedSemaphores := []
    inFlightFences := []
    imagesInFlight := []
    currentFrame := 0 }
  match blank.init previous answers with
  | none => none
  | some built =>
    let release : Option (List Effect) :=
      match previous with
      | none => some []
      | some old => old.destructor
    match release with
    | none => none
    | some releaseCalls =>
      some (built.calls ++ releaseCalls,
        match built.result with
        | Except.error e => Except.error e
        | Except.ok _ => Except.ok built.state)

/-! ## Pipeline and mesh objects -/

/-- The members of `VulkanPipeline::PipelineConfigInfo` that `createPipeline` sets; the
fixed-function state filled by `defaultPipelineConfigInfo` is constant. -/
structure PipelineConfigInfo where
  pipelineLayout : Nat
  renderpass : Nat
  subpass : Nat
deriving DecidableEq, Repr

/-- Data members of `class VulkanPipeline` (VulkanPipeline.h 33-36). -/
structure VulkanPipeline where
  m_graphicsPipeline : Nat
  m_vertShaderModule : Nat
  m_fragShaderModule : Nat
deriving DecidableEq, Repr

/-- Answers of the environment while one `VulkanPipeline` is constructed: whether each
shader file opens, and the result code and handle of each creation call. -/
structure PipelineAnswers where
  vertFileOpens : Bool
  fragFileOpens : Bool
  createVertShaderModule : VkResult × Nat
  createFragShaderModule : VkResult × Nat
  createGraphicsPipelines : VkResult × Nat
deriving DecidableEq, Repr

/-- Embedding of the constructor `VulkanPipeline::VulkanPipeline` with
`createGraphicsPipeline`, `readFile` and `createShaderModule` (VulkanPipeline.cpp 12-119).
A failed `assert` ends the process and is treated as undefined. -/
def VulkanPipeline.constructor (vertFilepath fragFilepath : String)
    (configInfo : PipelineConfigInfo) (answers : PipelineAnswers) :
    Option (List Effect × Except String VulkanPipeline) :=
  if configInfo.pipelineLayout = VK_NULL_HANDLE ∨ configInfo.renderpass = VK_NULL_HANDLE then
    none
  else if answers.vertFileOpens = false then
    some ([], Except.error ("Failed to open file: " ++ vertFilepath))
  else if answers.fragFileOpens = false then
    some ([], Except.error ("Failed to open file: " ++ fragFilepath))
  else if answers.createVertShaderModule.1 ≠ VK_SUCCESS then
    some ([Effect.vkCreateShaderModule vertFilepath],
      Except.error ("Failed to create shader module: " ++ vertFilepath))
  else if answers.createFragShaderModule.1 ≠ VK_SUCCESS then
    some ([Effect.vkCreateShaderModule vertFilepath, Effect.vkCreateShaderModule fragFilepath],
      Except.error ("Failed to create shader module: " ++ fragFilepath))
  else
    let calls := [Effect.vkCreateShaderModule vertFilepath,
      Effect.vkCreateShaderModule fragFilepath,
      Effect.vkCreateGraphicsPipelines configInfo.pipelineLayout configInfo.renderpass
        configInfo.subpass answers.createVertShaderModule.2 answers.createFragShaderModule.2]
    if answers.createGraphicsPipelines.1 ≠ VK_SUCCESS then
      some (calls, Except.error "Failed to create graphics pipeline.")
    else
      some (calls, Except.ok {
        m_graphicsPipeline := answers.createGraphicsPipelines.2
        m_vertShaderModule := answers.createVertShaderModule.2
        m_fragShaderModule := answers.createFragShaderModule.2 })

/-- Embedding of `VulkanPipeline::~VulkanPipeline` (VulkanPipeline.cpp 16-20). -/
def VulkanPipeline.destructor (pipeline : VulkanPipeline) : List Effect :=
  [Effect.vkDestroyShaderModule pipeline.m_vertShaderModule,
    Effect.vkDestroyShaderModule pipeline.m_fragShaderModule,
    Effect.vkDestroyPipeline pipeline.m_graphicsPipeline]

/-- Embedding of `VulkanPipeline::bind` (VulkanPipeline.cpp 144-147); a failed `assert` is
undefined. -/
def VulkanPipeline.bind (pipeline : VulkanPipeline) (commandBuffer : Nat) :
    Option (List Effect) :=
  if pipeline.m_graphicsPipeline = VK_NULL_HANDLE then none
  else some [Effect.vkCmdBindPipeline commandBuffer pipeline.m_graphicsPipeline]

/-- Data members of `class VulkanModel` (VulkanModel.h 19-25); a `VulkanBuffer` is
represented by its buffer handle. -/
structure VulkanModel where
  m_vertexBuffer : Nat
  m_vertexCount : Nat
  m_hasIndexBuffer : Bool
  m_indexBuffer : Nat
  m_indexCount : Nat
deriving DecidableEq, Repr

/-- Embedding of `VulkanModel::bind` (VulkanModel.cpp 94-102). -/
def VulkanModel.bind (model : VulkanModel) (cmd : Nat) : List Effect :=
  Effect.vkCmdBindVertexBuffers cmd model.m_vertexBuffer
    :: (if model.m_hasIndexBuffer then [Effect.vkCmdBindIndexBuffer cmd model.m_indexBuffer]
        else [])

/-- Embedding of `VulkanModel::draw` (VulkanModel.cpp 104-110). -/
def VulkanModel.draw (model : VulkanModel) (cmd : Nat) : List Effect :=
  if model.m_hasIndexBuffer then [Effect.vkCmdDrawIndexed cmd model.m_indexCount]
  else [Effect.vkCmdDraw cmd model.m_vertexCount]

/-! ## The window and the frame driver -/

/-- Data members of `class MWindow` (MWindow.h 30-33) apart from the SDL window pointer and
the title. -/
structure MWindow where
  m_width : Int
  m_height : Int
  m_quit : Bool
  m_framebufferResized : Bool
  m_fullscreen : Bool
  m_minimized : Bool
deriving DecidableEq, Repr

/-- Getter `MWindow::getExtent` (MWindow.h 21): the `int` members cast to `uint32_t`. -/
def MWindow.getExtent (w : MWindow) : VkExtent2D :=
  { width := (w.m_width % 2 ^ 32).toNat, height := (w.m_height % 2 ^ 32).toNat }

/-- Getter `MWindow::isMinimized` (MWindow.h 22). -/
def MWindow.isMinimized (w : MWindow) : Bool := w.m_minimized

/-- Getter `MWindow::wasWindowResized` (MWindow.h 23). -/
def MWindow.wasWindowResized (w : MWindow) : Bool := w.m_framebufferResized

/-- Embedding of `MWindow::resetWindowResizedFlag` (MWindow.h 24). -/
def MWindow.resetWindowResizedFlag (w : MWindow) : MWindow :=
  { w with m_framebufferResized := false }

/-- Getter `MWindow::isClosing` (MWindow.h 25). -/
def MWindow.isClosing (w : MWindow) : Bool := w.m_quit

/-- Data members of `class MApplication` (MApplication.h 19-26); a null smart pointer is
`none`. -/
structure MApplication where
  m_window : MWindow
  m_device : VulkanDevice
  m_swapchain : Option VulkanSwapchain
  m_pipeline : Option VulkanPipeline
  m_pipelineLayout : Nat
  m_commandBuffers : List Nat
  model1 : Option VulkanModel
deriving DecidableEq, Repr

/-- Answers of the environment during one run of `reCreateSwapchain`: those of the chain
construction, of `vkAllocateCommandBuffers` (result code and the handle written for each
index) and of the pipeline construction. -/
structure RecreateAnswers where
  chain : ChainAnswers
  allocateCommandBuffers : VkResult × (Nat → Nat)
  pipeline : PipelineAnswers

/-- Embedding of `MApplication::createPipeline` (MApplication.cpp 51-62).  The assignment
to `m_pipeline` destroys the pipeline held before, after the new one is constructed. -/
def MApplication.createPipeline (app : MApplication) (answers : PipelineAnswers) :
    Option (Run MApplication Unit) :=
  match app.m_swapchain with
  | none => none
  | some swapchain =>
    if app.m_pipelineLayout = VK_NULL_HANDLE then none
    else
      let pipelineConfig : PipelineConfigInfo := {
        renderpass := swapchain.m_renderpass
        pipelineLayout := app.m_pipelineLayout
        subpass := 0 }
      match VulkanPipeline.constructor "./../shaders/shader.vert.spv"
          "./../shaders/shader.frag.spv" pipelineConfig answers with
      | none => none
      | some (calls, Except.error e) =>
        some { state := app, calls := calls, result := Except.error e }
      | some (calls, Except.ok pipeline) =>
        some {
          state := { app with m_pipeline := some pipeline }
          calls := calls ++
            (match app.m_pipeline with
             | none => []
             | some old => old.destructor)
          result := Except.ok () }

/-- Embedding of `MApplication::createCommandBuffers` (MApplication.cpp 85-93). -/
def MApplication.createCommandBuffers (app : MApplication)
    (answer : VkResult × (Nat → Nat)) : Option (Run MApplication Unit) :=
  match app.m_swapchain with
  | none => none
  | some swapchain =>
    let count := swapchain.imageCount
    let resized := (app.m_commandBuffers ++ List.replicate count VK_NULL_HANDLE).take count
    if answer.1 ≠ VK_SUCCESS then
      some {
        state := { app with m_commandBuffers := resized }
        calls := [Effect.vkAllocateCommandBuffers app.m_device.m_commandPool count]
        result := Except.error "Failed to allocate command buffers." }
    else
      some {
        state := { app with m_commandBuffers := (List.range count).map answer.2 }
        calls := [Effect.vkAllocateCommandBuffers app.m_device.m_commandPool count]
        result := Except.ok () }

/-- Embedding of `MApplication::freeCommandBuffers` (MApplication.cpp 95-98). -/
def MApplication.freeCommandBuffers (app : MApplication) : Option (Run MApplication Unit) :=
  some {
    state := { app with m_commandBuffers := [] }
    calls := [Effect.vkFreeCommandBuffers app.m_device.m_commandPool app.m_commandBuffers]
    result := Except.ok () }

/-- Embedding of `MApplication::reCreateSwapchain` (MApplication.cpp 64-83):
`vkDeviceWaitIdle` first, then the effects of the rest of the body.  In the second branch
the old chain is moved out of `m_swapchain` before the constructor runs, so `m_swapchain` is
null if the constructor throws. -/
def MApplication.reCreateSwapchain (app : MApplication) (answers : RecreateAnswers) :
    Option (Run MApplication Unit) :=
  let extent := app.m_window.getExtent
  let finish (app1 : MApplication) : Option (Run MApplication Unit) :=
    Run.andThen (app1.createPipeline answers.pipeline) fun app2 =>
      some {
        state := app2
        calls := [Effect.cout ("width: " ++ toString app2.m_window.getExtent.width
          ++ "; height: " ++ toString app2.m_window.getExtent.height ++ "\n")]
        result := Except.ok () }
  let afterWaitIdle : Option (Run MApplication Unit) :=
    match app.m_swapchain with
    | none =>
      match VulkanSwapchain.constructor app.m_device extent none answers.chain with
      | none => none
      | some (calls, Except.error e) =>
        some { state := app, calls := calls, result := Except.error e }
      | some (calls, Except.ok swapchain) =>
        Run.andThen
          (some { state := { app with m_swapchain := some swapchain }, calls := calls,
                  result := Except.ok () })
          finish
    | some old =>
      match VulkanSwapchain.constructor app.m_device extent (some old) answers.chain with
      | none => none
      | some (calls, Except.error e) =>
        some { state := { app with m_swapchain := none }, calls := calls,
               result := Except.error e }
      | some (calls, Except.ok swapchain) =>
        Run.andThen
          (some { state := { app with m_swapchain := some swapchain }, calls := calls,
                  result := Except.ok () })
          fun app1 =>
            if swapchain.imageCount ≠ app1.m_commandBuffers.length then
              Run.andThen app1.freeCommandBuffers fun app2 =>
              Run.andThen (app2.createCommandBuffers answers.allocateCommandBuffers) finish
            else
              finish app1
  match afterWaitIdle with
  | none => none
  | some r => some { r with calls := Effect.vkDeviceWaitIdle app.m_device.m_device :: r.calls }

/-- Embedding of `MApplication::recordCommandBuffer` (MApplication.cpp 100-151).
`beginResult` and `endResult` are the answers of `vkBeginCommandBuffer` and
`vkEndCommandBuffer`.  The clear colour is `(0, 0, 0, 1)`; the viewport has origin `(0, 0)`,
depth range `(0, 1)` and, as width and height, the width and height of the chain extent cast
to `float` (MApplication.cpp 124-125); the scissor has the chain extent itself. -/
def MApplication.recordCommandBuffer (app : MApplication) (imgIndex : Nat)
    (beginResult endResult : VkResult) : Option (Run MApplication Unit) :=
  match app.m_commandBuffers[imgIndex]? with
  | none => none
  | some commandBuffer =>
    if beginResult ≠ VK_SUCCESS then
      some {
        state := app
        calls := [Effect.vkBeginCommandBuffer commandBuffer]
        result := Except.error "Failed to begin recording command buffer." }
    else
      match app.m_swapchain with
      | none => none
      | some swapchain =>
        match swapchain.m_swapChainFramebuffers[imgIndex]?, app.m_pipeline, app.model1 with
        | some framebuffer, some pipeline, some model =>
          match pipeline.bind commandBuffer with
          | none => none
          | some bindCalls =>
            let viewport : VkViewport := {
              x := 0
              y := 0
              width := static_cast_float swapchain.m_swapChainExtent.width
              height := static_cast_float swapchain.m_swapChainExtent.height
              minDepth := 0
              maxDepth := 1 }
            let calls :=
              [Effect.vkBeginCommandBuffer commandBuffer,
                Effect.vkCmdBeginRenderPass commandBuffer swapchain.m_renderpass framebuffer
                  (0, 0) swapchain.m_swapChainExtent [0, 0, 0, 1],
                Effect.vkCmdSetViewport commandBuffer viewport,
                Effect.vkCmdSetScissor commandBuffer (0, 0) swapchain.m_swapChainExtent]
              ++ bindCalls ++ model.bind commandBuffer ++ model.draw commandBuffer
              ++ [Effect.vkCmdEndRenderPass commandBuffer,
                Effect.vkEndCommandBuffer commandBuffer]
            if endResult ≠ VK_SUCCESS then
              some { state := app, calls := calls,
                     result := Except.error "Failed to record command buffer." }
            else
              some { state := app, calls := calls, result := Except.ok () }
        | _, _, _ => none

/-- Answers of the environment during one call of `drawFrame`. -/
structure FrameAnswers where
  acquire : VkResult × Nat
  beginCommandBuffer : VkResult
  endCommandBuffer : VkResult
  queueSubmit : VkResult
  queuePresent : VkResult
  recreate : RecreateAnswers

/-- Embedding of `MApplication::drawFrame` (MApplication.cpp 153-176). -/
def MApplication.drawFrame (app : MApplication) (answers : FrameAnswers) :
    Option (Run MApplication Unit) :=
  match app.m_swapchain with
  | none => none
  | some swapchain =>
    match swapchain.acquireNextImage answers.acquire with
    | none => none
    | some acquired =>
      let result := answers.acquire.1
      let imageIndex := answers.acquire.2
      if result = VK_ERROR_OUT_OF_DATE_KHR then
        match app.reCreateSwapchain answers.recreate with
        | none => none
        | some recreated =>
          match recreated.result with
          | Except.error e =>
            some { state := recreated.state, calls := acquired.calls ++ recreated.calls,
                   result := Except.error e }
          | Except.ok _ =>
            some {
              state := recreated.state
              calls := acquired.calls ++ recreated.calls
                ++ [Effect.cout "VK_ERROR_OUT_OF_DATE_KHR\n"]
              result := Except.ok () }
      else if result ≠ VK_SUCCESS ∧ result ≠ VK_SUBOPTIMAL_KHR then
        some { state := app, calls := acquired.calls,
               result := Except.error "Failed to acquire swapchain image." }
      else
        match app.recordCommandBuffer imageIndex answers.beginCommandBuffer
            answers.endCommandBuffer with
        | none => none
        | some recorded =>
          match recorded.result with
          | Except.error e =>
            some { state := recorded.state, calls := acquired.calls ++ recorded.calls,
                   result := Except.error e }
          | Except.ok _ =>
            match app.m_commandBuffers[imageIndex]? with
            | none => none
            | some commandBuffer =>
              match swapchain.submitCommandBuffers commandBuffer imageIndex answers.queueSubmit
                  answers.queuePresent with
              | none => none
              | some submitted =>
                let app1 := { app with m_swapchain := some submitted.state }
                let frameCalls := acquired.calls ++ recorded.calls ++ submitted.calls
                match submitted.result with
                | Except.error e =>
                  some { state := app1, calls := frameCalls, result := Except.error e }
                | Except.ok result =>
                  if result = VK_ERROR_OUT_OF_DATE_KHR ∨ result = VK_SUBOPTIMAL_KHR
                      ∨ app1.m_window.wasWindowResized = true then
                    let app2 := { app1 with m_window := app1.m_window.resetWindowResizedFlag }
                    match app2.reCreateSwapchain answers.recreate with
                    | none => none
                    | some recreated =>
                      match recreated.result with
                      | Except.error e =>
                        some { state := recreated.state, calls := frameCalls ++ recreated.calls,
                               result := Except.error e }
                      | Except.ok _ =>
                        some {
                          state := recreated.state
                          calls := frameCalls ++ recreated.calls
                            ++ [Effect.cout "m_window.wasWindowResized()\n"]
                          result := Except.ok () }
                  else if result ≠ VK_SUCCESS then
                    some { state := app1, calls := frameCalls,
                           result := Except.error "Failed to present swapchain image." }
                  else
                    some { state := app1, calls := frameCalls, result := Except.ok () }

/-! ## Classification of effects and preconditions of a frame -/

/-- Effects that record a command into a command buffer. -/
def Effect.isCommandRecording : Effect → Bool
  | Effect.vkBeginCommandBuffer _ => true
  | Effect.vkCmdBeginRenderPass _ _ _ _ _ _ => true
  | Effect.vkCmdSetViewport _ _ => true
  | Effect.vkCmdSetScissor _ _ _ => true
  | Effect.vkCmdBindPipeline _ _ => true
  | Effect.vkCmdBindVertexBuffers _ _ => true
  | Effect.vkCmdBindIndexBuffer _ _ => true
  | Effect.vkCmdDrawIndexed _ _ => true
  | Effect.vkCmdDraw _ _ => true
  | Effect.vkCmdEndRenderPass _ => true
  | Effect.vkEndCommandBuffer _ => true
  | _ => false

/-- Effects that hand work to a queue: a submission or a present. -/
def Effect.isQueueOperation : Effect → Bool
  | Effect.vkQueueSubmit _ _ _ => true
  | Effect.vkQueuePresentKHR _ _ => true
  | _ => false

/-- Effects that create, allocate, destroy or free an object, or write to `std::cout`. -/
def Effect.isLifecycle : Effect → Bool
  | Effect.cout _ => true
  | Effect.vkCreateSwapchainKHR _ => true
  | Effect.vkCreateImageView _ _ => true
  | Effect.vkCreateRenderPass _ => true
  | Effect.vkCreateFramebuffer _ _ _ => true
  | Effect.vkCreateSemaphore _ => true
  | Effect.vkCreateFence _ => true
  | Effect.vkDestroyImageView _ => true
  | Effect.vkDestroySwapchainKHR _ => true
  | Effect.vkDestroyImage _ => true
  | Effect.vkFreeMemory _ => true
  | Effect.vkDestroyFramebuffer _ => true
  | Effect.vkDestroyRenderPass _ => true
  | Effect.vkDestroySemaphore _ => true
  | Effect.vkDestroyFence _ => true
  | Effect.vkCreateShaderModule _ => true
  | Effect.vkCreateGraphicsPipelines _ _ _ _ _ => true
  | Effect.vkDestroyShaderModule _ => true
  | Effect.vkDestroyPipeline _ => true
  | Effect.vkAllocateCommandBuffers _ _ => true
  | Effect.vkFreeCommandBuffers _ _ => true
  | _ => false

/-- The application as `run` hands it to `drawFrame`: chain, pipeline and mesh exist, the
chain has the sizes its constructor establishes and no depth resources, there is one
framebuffer and one command buffer per image, and the handles checked by the `assert`s of
the source are not null. -/
def MApplication.Ready (app : MApplication) : Prop :=
  ∃ swapchain pipeline model,
    app.m_swapchain = some swapchain
    ∧ app.m_pipeline = some pipeline
    ∧ app.model1 = some model
    ∧ swapchain.WellFormed
    ∧ swapchain.depthImages = []
    ∧ swapchain.m_swapChainFramebuffers.length = swapchain.imageCount
    ∧ app.m_commandBuffers.length = swapchain.imageCount
    ∧ pipeline.m_graphicsPipeline ≠ VK_NULL_HANDLE
    ∧ app.m_pipelineLayout ≠ VK_NULL_HANDLE

/-- Answers a conforming Vulkan implementation gives during a recreation, as far as the
source relies on them: the surface supports at least one format (checked by
`isDeviceSuitable`), and a render pass that was created has a non-null handle. -/
def RecreateAnswers.Conforming (answers : RecreateAnswers) : Prop :=
  answers.chain.swapChainSupport.formats ≠ []
  ∧ (answers.chain.createRenderPass.1 = VK_SUCCESS →
    answers.chain.createRenderPass.2 ≠ VK_NULL_HANDLE)

/-- Driver answers for the construction of a chain with three images on an 800 x 600
surface, every call succeeding. -/
def exampleChainAnswers : ChainAnswers := {
  swapChainSupport := {
    capabilities := {
      minImageCount := 2
      maxImageCount := 8
      currentExtent := ⟨800, 600⟩
      minImageExtent := ⟨1, 1⟩
      maxImageExtent := ⟨4096, 4096⟩
      currentTransform := 1 }
    formats := [⟨44, 0⟩, ⟨50, 0⟩]
    presentModes := [2, 1] }
  queueFamilies := ⟨some 0, some 0, some 1⟩
  createSwapchain := (0, 140)
  swapChainImages := [141, 142, 143]
  createImageView := fun i => (0, 151 + i)
  createRenderPass := (0, 170)
  createFramebuffer := fun i => (0, 161 + i)
  createImageAvailableSemaphore := fun i => (0, 111 + i)
  createRenderFinishedSemaphore := fun i => (0, 121 + i)
  createFence := fun i => (0, 131 + i) }

/-- An application in the render loop that owns `exampleChain`; its window has been resized
to 800 x 600 and the resized flag is set. -/
def exampleApplication : MApplication := {
  m_window := {
    m_width := 800
    m_height := 600
    m_quit := false
    m_framebufferResized := true
    m_fullscreen := false
    m_minimized := false }
  m_device := exampleChain.device
  m_swapchain := some exampleChain
  m_pipeline := some ⟨90, 91, 92⟩
  m_pipelineLayout := 95
  m_commandBuffers := [81, 82, 83]
  model1 := some ⟨96, 4, true, 97, 6⟩ }

/-- Answers for one frame in which every call succeeds and image 1 is acquired. -/
def exampleFrameAnswers : FrameAnswers := {
  acquire := (VK_SUCCESS, 1)
  beginCommandBuffer := VK_SUCCESS
  endCommandBuffer := VK_SUCCESS
  queueSubmit := VK_SUCCESS
  queuePresent := VK_SUCCESS
  recreate := {
    chain := exampleChainAnswers
    allocateCommandBuffers := (VK_SUCCESS, fun i => 181 + i)
    pipeline := {
      vertFileOpens := true
      fragFileOpens := true
      createVertShaderModule := (VK_SUCCESS, 191)
      createFragShaderModule := (VK_SUCCESS, 192)
      createGraphicsPipelines := (VK_SUCCESS, 190) } } }

/-- Answers for one frame in which the acquire reports the surface out of date. -/
def exampleOutOfDateAnswers : FrameAnswers :=
  { exampleFrameAnswers with acquire := (VK_ERROR_OUT_OF_DATE_KHR, 0) }

/-- Answers for one frame in which the acquire reports the surface out of date and, during
the recreation, `vkCreateSwapchainKHR` fails with `VK_ERROR_DEVICE_LOST`. -/
def exampleFailedRecreationAnswers : FrameAnswers :=
  { exampleOutOfDateAnswers with
    recreate := { exampleOutOfDateAnswers.recreate with
      chain := { exampleChainAnswers with createSwapchain := (VK_ERROR_DEVICE_LOST, 0) } } }

/-! ## Fence waits with their answers -/

/-- The timeout argument of an effect that takes one: a fence wait or an image acquire. -/
def Effect.timeout : Effect → Option Nat
  | Effect.vkWaitForFences _ timeout => some timeout
  | Effect.vkAcquireNextImageKHR _ timeout _ _ => some timeout
  | _ => none

/-- `VulkanSwapchain::acquireNextImage` with the answer of its `vkWaitForFences` call made
an argument.  The call is an expression statement (VulkanSwapchain.cpp 69): its value is
neither stored nor tested, and the function goes on to the acquire whatever it is. -/
def VulkanSwapchain.acquireNextImage.withWaitResult (sc : VulkanSwapchain)
    (waitForFences : VkResult) (answer : VkResult × Nat) :
    Option (Run VulkanSwapchain (VkResult × Nat)) :=
  let _discarded : VkResult := waitForFences
  sc.acquireNextImage answer

/-- `VulkanSwapchain::submitCommandBuffers` with the answer of the `vkWaitForFences` call of
line 80 made an argument (it is given only when `imagesInFlight[*imageIndex]` is not null).
That call too is an expression statement whose value is neither stored nor tested. -/
def VulkanSwapchain.submitCommandBuffers.withWaitResult (sc : VulkanSwapchain)
    (waitForFences : VkResult) (buffers : Nat) (imageIndex : Nat)
    (queueSubmitResult queuePresentResult : VkResult) : Option (Run VulkanSwapchain VkResult) :=
  let _discarded : VkResult := waitForFences
  sc.submitCommandBuffers buffers imageIndex queueSubmitResult queuePresentResult

/-- One frame cycle with the answers of the two fence waits made arguments: `slotWait` for
the wait in `acquireNextImage`, `imageWait` for the wait in `submitCommandBuffers`. -/
def VulkanSwapchain.frameCycle.withWaitResults (sc : VulkanSwapchain)
    (slotWait imageWait : VkResult) (a : CycleAnswers) : Option (Run VulkanSwapchain VkResult) :=
  match VulkanSwapchain.acquireNextImage.withWaitResult sc slotWait a.acquire with
  | none => none
  | some acquired =>
    match VulkanSwapchain.submitCommandBuffers.withWaitResult acquired.state imageWait
        a.commandBuffer a.acquire.2 a.queueSubmit a.queuePresent with
    | none => none
    | some submitted =>
      some { submitted with calls := acquired.calls ++ submitted.calls }

/-- The chain `exampleChain` after image 1 has been submitted under the fence of slot 1. -/
def exampleBusyChain : VulkanSwapchain :=
  { exampleChain with imagesInFlight := [0, 32, 0] }

/-! ## Window events and the main loop -/

/-! Values of the SDL2 headers: event types (`SDL_events.h`), window event ids
(`SDL_video.h`), the key code of the return key (`SDL_keycode.h`) and `SDL_bool`
(`SDL_stdinc.h`). -/

def SDL_QUIT : Nat := 256
def SDL_WINDOWEVENT : Nat := 512
def SDL_KEYDOWN : Nat := 768

def SDL_WINDOWEVENT_RESIZED : Nat := 5
def SDL_WINDOWEVENT_SIZE_CHANGED : Nat := 6
def SDL_WINDOWEVENT_MINIMIZED : Nat := 7
def SDL_WINDOWEVENT_MAXIMIZED : Nat := 8
def SDL_WINDOWEVENT_RESTORED : Nat := 9

def SDLK_RETURN : Int := 13

def SDL_FALSE : Nat := 0
def SDL_TRUE : Nat := 1

/-- The members of the union `SDL_Event` that `MWindow::handleEvent` reads: `type`,
`window.event`, `window.data1`, `window.data2` and `key.keysym.sym`.  The record keeps each
as a field of its own; which bytes of the union they share is a matter of the SDL headers. -/
structure SDL_Event where
  type : Nat
  window_event : Nat
  window_data1 : Int
  window_data2 : Int
  key_keysym_sym : Int
deriving DecidableEq, Repr

/-- Inner `switch (e.window.event)` of `MWindow::handleEvent` (MWindow.cpp 59-84). -/
def MWindow.handleEvent.windowEvent (w : MWindow) (e : SDL_Event) : MWindow × List Effect :=
  if e.window_event = SDL_WINDOWEVENT_SIZE_CHANGED then
    (w, [])
  else if e.window_event = SDL_WINDOWEVENT_RESIZED then
    ({ w with m_width := e.window_data1, m_height := e.window_data2,
              m_framebufferResized := true },
      [Effect.cout "resized\n"])
  else if e.window_event = SDL_WINDOWEVENT_MINIMIZED then
    ({ w with m_minimized := true }, [Effect.cout "minimized\n"])
  else if e.window_event = SDL_WINDOWEVENT_MAXIMIZED then
    ({ w with m_minimized := false }, [Effect.cout "maximized\n"])
  else if e.window_event = SDL_WINDOWEVENT_RESTORED then
    ({ w with m_minimized := false }, [Effect.cout "restored\n"])
  else
    (w, [])

/-- Inner `switch (e.key.keysym.sym)` of `MWindow::handleEvent` (MWindow.cpp 86-101). -/
def MWindow.handleEvent.keyDown (w : MWindow) (e : SDL_Event) : MWindow × List Effect :=
  if e.key_keysym_sym = SDLK_RETURN then
    if w.m_fullscreen = true then
      ({ w with m_fullscreen := false }, [Effect.SDL_SetWindowFullscreen SDL_FALSE])
    else
      ({ w with m_fullscreen := true, m_minimized := false },
        [Effect.SDL_SetWindowFullscreen SDL_TRUE])
  else
    (w, [])

/-- Embedding of `MWindow::handleEvent` (MWindow.cpp 51-106): the window after the event and
the effects issued.  The `case SDL_WINDOWEVENT` group does not end in `break`, so control
falls through into the statements of `case SDL_KEYDOWN`. -/
def MWindow.handleEvent (w : MWindow) (e : SDL_Event) : MWindow × List Effect :=
  if e.type = SDL_QUIT then
    ({ w with m_quit := true }, [])
  else if e.type = SDL_WINDOWEVENT then
    let window := MWindow.handleEvent.windowEvent w e
    let key := MWindow.handleEvent.keyDown window.1 e
    (key.1, window.2 ++ key.2)
  else if e.type = SDL_KEYDOWN then
    MWindow.handleEvent.keyDown w e
  else
    (w, [])

/-- The event loop `while (SDL_PollEvent(&e) != 0) m_window.handleEvent(e)` of
`MApplication::run` (MApplication.cpp 29-32); `events` are the events `SDL_PollEvent`
delivers before it returns 0. -/
def MApplication.run.pollEvents (w : MWindow) : List SDL_Event → MWindow × List Effect
  | [] => (w, [])
  | e :: rest =>
    let handled := w.handleEvent e
    let later := MApplication.run.pollEvents handled.1 rest
    (later.1, handled.2 ++ later.2)

/-- One pass through the body of the outer loop of `MApplication::run`
(MApplication.cpp 29-37): the pending events are handled, then `drawFrame` is called unless
the window is minimized. -/
def MApplication.run.iteration (app : MApplication) (events : List SDL_Event)
    (answers : FrameAnswers) : Option (Run MApplication Unit) :=
  let polled := MApplication.run.pollEvents app.m_window events
  let app1 := { app with m_window := polled.1 }
  if app1.m_window.isMinimized = false then
    match app1.drawFrame answers with
    | none => none
    | some drawn => some { drawn with calls := polled.2 ++ drawn.calls }
  else
    some { state := app1, calls := polled.2, result := Except.ok () }

/-- Embedding of `MApplication::run` (MApplication.cpp 24-41) over a script: one entry per
iteration of the outer loop, holding the events delivered in it and the answers of the
environment to its frame.  The result value is `true` when `run` returned (the window was
closing, `vkDeviceWaitIdle` was called) and `false` when the script ended with the loop
still going. -/
def MApplication.run (app : MApplication) :
    List (List SDL_Event × FrameAnswers) → Option (Run MApplication Bool)
  | [] =>
    if app.m_window.isClosing = true then
      some { state := app, calls := [Effect.vkDeviceWaitIdle app.m_device.m_device],
             result := Except.ok true }
    else
      some { state := app, calls := [], result := Except.ok false }
  | (events, answers) :: rest =>
    if app.m_window.isClosing = true then
      some { state := app, calls := [Effect.vkDeviceWaitIdle app.m_device.m_device],
             result := Except.ok true }
    else
      match MApplication.run.iteration app events answers with
      | none => none
      | some first =>
        match first.result with
        | Except.error e =>
          some { state := first.state, calls := first.calls, result := Except.error e }
        | Except.ok _ =>
          match MApplication.run first.state rest with
          | none => none
          | some later => some { later with calls := first.calls ++ later.calls }

/-! ## Construction of the application and `main` -/

/-- Answers of SDL while `MWindow::init` runs: the value of `SDL_Init`, the pointer returned
by `SDL_CreateWindow` (0 for null) and the text of `SDL_GetError`. -/
structure WindowAnswers where
  sdlInit : Int
  createWindow : Nat
  getError : String
deriving DecidableEq, Repr

/-- Embedding of the constructor `MWindow::MWindow` with `MWindow::init`
(MWindow.cpp 9-49). -/
def MWindow.constructor (w h : Int) (answers : WindowAnswers) : Except String MWindow :=
  if answers.sdlInit < 0 then
    Except.error ("Failed to initialize SDL: " ++ answers.getError)
  else if answers.createWindow = 0 then
    Except.error ("Failed to create SDL window: " ++ answers.getError)
  else
    Except.ok {
      m_width := w
      m_height := h
      m_quit := false
      m_framebufferResized := false
      m_fullscreen := false
      m_minimized := false }

/-- Constants `MApplication::WIDTH` and `MApplication::HEIGHT` (MApplication.h 15-16). -/
def MApplication.WIDTH : Int := 1024
def MApplication.HEIGHT : Int := 768

/-- Answers of the environment while `MApplication` is constructed.  The construction of the
member `m_device` and the body of `loadModels` are taken by their outcome: the object built,
or the exception thrown. -/
structure ConstructionAnswers where
  window : WindowAnswers
  device : Except String VulkanDevice
  loadModels : Except String VulkanModel
  createPipelineLayout : VkResult × Nat
  recreate : RecreateAnswers
  allocateCommandBuffers : VkResult × (Nat → Nat)

/-- Embedding of `MApplication::createPipelineLayout` (MApplication.cpp 43-49). -/
def MApplication.createPipelineLayout (app : MApplication) (answer : VkResult × Nat) :
    Option (Run MApplication Unit) :=
  if answer.1 ≠ VK_SUCCESS then
    some { state := app, calls := [Effect.vkCreatePipelineLayout],
           result := Except.error "Failed to create pipeline layout." }
  else
    some { state := { app with m_pipelineLayout := answer.2 },
           calls := [Effect.vkCreatePipelineLayout], result := Except.ok () }

/-- Embedding of the constructor `MApplication::MApplication` (MApplication.cpp 12-18) with
the member initializers of MApplication.h 19-26.  `m_pipelineLayout` has no initializer; it
is not read before `createPipelineLayout` writes it and starts here as the null handle.  The
result is the effects of the constructor body and the constructed application, or the
exception that left the constructor. -/
def MApplication.constructor (answers : ConstructionAnswers) :
    Option (List Effect × Except String MApplication) :=
  match MWindow.constructor MApplication.WIDTH MApplication.HEIGHT answers.window with
  | Except.error e => some ([], Except.error e)
  | Except.ok window =>
    match answers.device with
    | Except.error e => some ([], Except.error e)
    | Except.ok device =>
      match answers.loadModels with
      | Except.error e => some ([], Except.error e)
      | Except.ok model =>
        let app0 : MApplication := {
          m_window := window
          m_device := device
          m_swapchain := none
          m_pipeline := none
          m_pipelineLayout := VK_NULL_HANDLE
          m_commandBuffers := []
          model1 := some model }
        let body : Option (Run MApplication Unit) :=
          Run.andThen (app0.createPipelineLayout answers.createPipelineLayout) fun app1 =>
          Run.andThen (app1.reCreateSwapchain answers.recreate) fun app2 =>
          app2.createCommandBuffers answers.allocateCommandBuffers
        match body with
        | none => none
        | some built =>
          some (built.calls,
            match built.result with
            | Except.error e => Except.error e
            | Except.ok _ => Except.ok built.state)

/-- How the process ends: `main` returns an exit code, `std::terminate` is called because an
exception left `main`, or the script of the main loop ended with the loop still going. -/
inductive ProcessEnd where
  | exit (code : Nat)
  | terminate (what : String)
  | running
deriving DecidableEq, Repr

/-- Exit codes `EXIT_SUCCESS` and `EXIT_FAILURE` of `<cstdlib>`. -/
def EXIT_SUCCESS : Nat := 0
def EXIT_FAILURE : Nat := 1

/-- Embedding of `main` (main.cpp 11-36) without `_OLD_SYS_`.  The object `app` is defined
before the `try` block, so an exception of its constructor is not inside any handler and
leaves `main`.  Inside the `try` block every exception of this program derives from
`std::exception` and reaches the handler, which writes `what()` and a newline to
`std::cerr`.  The effects listed are those up to the end of `main`'s own statements. -/
def main (construction : ConstructionAnswers) (script : List (List SDL_Event × FrameAnswers)) :
    Option (List Effect × ProcessEnd) :=
  match MApplication.constructor construction with
  | none => none
  | some (calls, Except.error e) => some (calls, ProcessEnd.terminate e)
  | some (calls, Except.ok app) =>
    match app.run script with
    | none => none
    | some ran =>
      match ran.result with
      | Except.error e =>
        some (calls ++ ran.calls ++ [Effect.cerr (e ++ "\n")], ProcessEnd.exit EXIT_FAILURE)
      | Except.ok true => some (calls ++ ran.calls, ProcessEnd.exit EXIT_SUCCESS)
      | Except.ok false => some (calls ++ ran.calls, ProcessEnd.running)

/-- Answers for one frame in which every call succeeds except the present, which reports
`VK_ERROR_DEVICE_LOST`. -/
def examplePresentFailureAnswers : FrameAnswers :=
  { exampleFrameAnswers with queuePresent := VK_ERROR_DEVICE_LOST }

/-- Answers for one frame in which image 1 is acquired and `vkBeginCommandBuffer` fails. -/
def exampleFailedRecordingAnswers : FrameAnswers :=
  { exampleFrameAnswers with beginCommandBuffer := VK_ERROR_OUT_OF_HOST_MEMORY }

/-- The application `exampleApplication` with a window whose requested extent is 0 x 0. -/
def exampleZeroExtentApplication : MApplication :=
  { exampleApplication with
    m_window := { exampleApplication.m_window with m_width := 0, m_height := 0 } }

/-- Answers of the environment for a construction of the application in which every call
succeeds; the chain has three images. -/
def exampleConstruction : ConstructionAnswers := {
  window := ⟨0, 7, ""⟩
  device := Except.ok exampleChain.device
  loadModels := Except.ok ⟨96, 4, true, 97, 6⟩
  createPipelineLayout := (VK_SUCCESS, 95)
  recreate := exampleFrameAnswers.recreate
  allocateCommandBuffers := (VK_SUCCESS, fun i => 81 + i) }

/-- Answers for a construction in which `vkCreatePipelineLayout` fails. -/
def exampleFailedConstruction : ConstructionAnswers :=
  { exampleConstruction with createPipelineLayout := (VK_ERROR_OUT_OF_HOST_MEMORY, 0) }

/-- Answers for a recreation in which the implementation reports two images for the new
chain; every call succeeds. -/
def exampleTwoImageAnswers : RecreateAnswers :=
  { exampleFrameAnswers.recreate with
    chain := { exampleChainAnswers with swapChainImages := [141, 142] } }

/-! ## Memory types, extension support and buffer padding -/

/-- The fields of `VkPhysicalDeviceMemoryProperties` that `findMemoryType` reads:
`memoryTypeCount` and, for each entry of the array `memoryTypes`, its `propertyFlags`. -/
structure VkPhysicalDeviceMemoryProperties where
  memoryTypeCount : Nat
  memoryTypes : List Nat
deriving DecidableEq, Repr

/-- Size `VK_MAX_MEMORY_TYPES` of the array `memoryTypes` (`vulkan_core.h`). -/
def VK_MAX_MEMORY_TYPES : Nat := 32

/-- Loop of `VulkanDevice::findMemoryType` (VulkanDevice.cpp 412-417): `remaining`
iterations are left and `i` is the loop counter.  `1 << i` is a shift of a 32-bit `int`,
undefined for `i` of 32 or more; `&&` reads `memoryTypes[i]` only when the filter bit is
set, and a read past the end of the array is undefined. -/
def VulkanDevice.findMemoryType.loop (memProperties : VkPhysicalDeviceMemoryProperties)
    (typeFilter properties : Nat) : Nat → Nat → Option (Except String Nat)
  | 0, _ => some (Except.error "Failed to find suitable memory type.")
  | remaining + 1, i =>
    if 32 ≤ i then none
    else if typeFilter &&& (1 <<< i) ≠ 0 then
      match memProperties.memoryTypes[i]? with
      | none => none
      | some propertyFlags =>
        if propertyFlags &&& properties = properties then some (Except.ok i)
        else VulkanDevice.findMemoryType.loop memProperties typeFilter properties remaining (i + 1)
    else VulkanDevice.findMemoryType.loop memProperties typeFilter properties remaining (i + 1)

/-- Embedding of `VulkanDevice::findMemoryType` (VulkanDevice.cpp 409-420); `memProperties`
is what `vkGetPhysicalDeviceMemoryProperties` answers. -/
def VulkanDevice.findMemoryType (memProperties : VkPhysicalDeviceMemoryProperties)
    (typeFilter properties : Nat) : Option (Except String Nat) :=
  VulkanDevice.findMemoryType.loop memProperties typeFilter properties
    memProperties.memoryTypeCount 0

/-- Inner loop of `VulkanDevice::checkValidationLayerSupport` (VulkanDevice.cpp 235-240): the
value of `layerFound` when the loop is left.  `strcmp` returns 0 exactly for equal names. -/
def VulkanDevice.checkValidationLayerSupport.layerFound (layerName : String) :
    List String → Bool
  | [] => false
  | layerProperties :: rest =>
    if layerName = layerProperties then true
    else VulkanDevice.checkValidationLayerSupport.layerFound layerName rest

/-- Embedding of `VulkanDevice::checkValidationLayerSupport` (VulkanDevice.cpp 224-248);
`availableLayers` holds the layer names `vkEnumerateInstanceLayerProperties` answers. -/
def VulkanDevice.checkValidationLayerSupport (availableLayers : List String) :
    List String → Bool
  | [] => true
  | layerName :: rest =>
    if VulkanDevice.checkValidationLayerSupport.layerFound layerName availableLayers = false then
      false
    else VulkanDevice.checkValidationLayerSupport availableLayers rest

/-- Inner loop of `VulkanDevice::checkExtensionSupport` (VulkanDevice.cpp 261-266): the value
of `extensionFound` when the loop is left. -/
def VulkanDevice.checkExtensionSupport.extensionFound (extensionName : String) :
    List String → Bool
  | [] => false
  | extensionProperties :: rest =>
    if extensionName = extensionProperties then true
    else VulkanDevice.checkExtensionSupport.extensionFound extensionName rest

/-- Embedding of `VulkanDevice::checkExtensionSupport` (VulkanDevice.cpp 250-274);
`availableExtensions` holds the extension names `vkEnumerateInstanceExtensionProperties`
answers. -/
def VulkanDevice.checkExtensionSupport (availableExtensions : List String) :
    List String → Bool
  | [] => true
  | extensionName :: rest =>
    if VulkanDevice.checkExtensionSupport.extensionFound extensionName availableExtensions
        = false then
      false
    else VulkanDevice.checkExtensionSupport availableExtensions rest

/-- Embedding of `VulkanDevice::checkDeviceExtensionSupport` (VulkanDevice.cpp 350-364);
`availableExtensions` holds the extension names `vkEnumerateDeviceExtensionProperties`
answers.  The `std::set<std::string>` is a finite set of names. -/
def VulkanDevice.checkDeviceExtensionSupport (availableExtensions : List String)
    (deviceExtensions : List String) : Bool :=
  let requiredExtensions : Finset String := deviceExtensions.toFinset
  let requiredExtensions :=
    availableExtensions.foldl (fun required extension => required.erase extension)
      requiredExtensions
  decide (requiredExtensions = ∅)

/-- Embedding of `VulkanEngine::pad_uniform_buffer_size` (vk_engine.cpp 1298-1307), a member
of the class `VulkanEngine` of the namespace `mii`.  `minUniformBufferOffsetAlignment` is
the device limit read from `m_deviceProperties`.  `size_t` is 64 bits wide: the sum is
reduced modulo `2 ^ 64` and `~x` is `2 ^ 64 - 1 - x`. -/
def VulkanEngine.pad_uniform_buffer_size (minUniformBufferOffsetAlignment : Nat)
    (originalSize : Nat) : Nat :=
  let minUboAlignment := minUniformBufferOffsetAlignment
  let alignedSize := originalSize
  if minUboAlignment > 0 then
    ((alignedSize + minUboAlignment - 1) % 2 ^ 64) &&& (2 ^ 64 - 1 - (minUboAlignment - 1))
  else
    alignedSize

/-- The vectors a frame indexes have the sizes the frame relies on: the application holds a
chain with the sizes of `VulkanSwapchain.WellFormed`, and the image views, the framebuffers
and the command buffers are one per image. -/
def MApplication.VectorsSized (app : MApplication) : Prop :=
  ∃ swapchain,
    app.m_swapchain = some swapchain
    ∧ swapchain.WellFormed
    ∧ swapchain.m_swapChainImageViews.length = swapchain.imageCount
    ∧ swapchain.m_swapChainFramebuffers.length = swapchain.imageCount
    ∧ app.m_commandBuffers.length = swapchain.imageCount

/-- The application `exampleApplication` after a frame for image 1 has been submitted in
slot 0: the slot index is 1 and image 1 is owned by the fence of slot 0. -/
def exampleSecondSlotApplication : MApplication :=
  { exampleApplication with
    m_swapchain := some { exampleChain with imagesInFlight := [0, 31, 0], currentFrame := 1 } }

/-- A window event as SDL 2 delivers it.  In the union `SDL_Event` of SDL 2 the member
`key.keysym.sym` occupies the bytes of `window.data2`, so reading it from a window event
gives the value of `data2`. -/
def SDL_Event.ofWindowEvent (event : Nat) (data1 data2 : Int) : SDL_Event := {
  type := SDL_WINDOWEVENT
  window_event := event
  window_data1 := data1
  window_data2 := data2
  key_keysym_sym := data2 }

/-- A window that is neither fullscreen nor minimized, 800 x 600. -/
def exampleWindow : MWindow := exampleApplication.m_window

/-- Effects that allocate or free command buffers. -/
def Effect.isCommandBufferAllocation : Effect → Bool
  | Effect.vkAllocateCommandBuffers _ _ => true
  | Effect.vkFreeCommandBuffers _ _ => true
  | _ => false

/-- The application inside its constructor with `exampleConstruction`, after
`createPipelineLayout` and before the call of `reCreateSwapchain` (MApplication.cpp 16): the
window is 1024 x 768, the pipeline layout exists, there is no chain, no pipeline and no
command buffer yet. -/
def exampleConstructingApplication : MApplication := {
  m_window := {
    m_width := 1024
    m_height := 768
    m_quit := false
    m_framebufferResized := false
    m_fullscreen := false
    m_minimized := false }
  m_device := exampleChain.device
  m_swapchain := none
  m_pipeline := none
  m_pipelineLayout := 95
  m_commandBuffers := []
  model1 := some ⟨96, 4, true, 97, 6⟩ }

/-- The application `exampleApplication` with a chain whose extent is 16777217 x 768; the
width is `2 ^ 24 + 1`, which no `float` equals. -/
def exampleWideApplication : MApplication :=
  { exampleApplication with
    m_swapchain := some { exampleChain with m_swapChainExtent := ⟨16777217, 768⟩ } }

/-! # Theorems -/

/-! ## Surface format selection -/

theorem VulkanSwapchain.chooseSwapSurfaceFormat.loop_hit (all pre post : List VkSurfaceFormatKHR)
    (f : VkSurfaceFormatKHR)
    (hf : f.format = VK_FORMAT_B8G8R8A8_SRGB ∧ f.colorSpace = VK_COLOR_SPACE_SRGB_NONLINEAR_KHR)
    (hpre : ∀ g ∈ pre, ¬ (g.format = VK_FORMAT_B8G8R8A8_SRGB
      ∧ g.colorSpace = VK_COLOR_SPACE_SRGB_NONLINEAR_KHR)) :
    VulkanSwapchain.chooseSwapSurfaceFormat.loop all (pre ++ f :: post) = some f := by
  induction pre with
  | nil => simp [VulkanSwapchain.chooseSwapSurfaceFormat.loop, hf]
  | cons g pre ih =>
    have hg := hpre g (List.mem_cons_self g pre)
    have hrest : ∀ x ∈ pre, ¬ (x.format = VK_FORMAT_B8G8R8A8_SRGB
        ∧ x.colorSpace = VK_COLOR_SPACE_SRGB_NONLINEAR_KHR) :=
      fun x hx => hpre x (List.mem_cons_of_mem g hx)
    simp only [List.cons_append, VulkanSwapchain.chooseSwapSurfaceFormat.loop, if_neg hg]
    exact ih hrest

theorem VulkanSwapchain.chooseSwapSurfaceFormat.loop_miss (all rest : List VkSurfaceFormatKHR)
    (hrest : ∀ g ∈ rest, ¬ (g.format = VK_FORMAT_B8G8R8A8_SRGB
      ∧ g.colorSpace = VK_COLOR_SPACE_SRGB_NONLINEAR_KHR)) :
    VulkanSwapchain.chooseSwapSurfaceFormat.loop all rest = all[0]? := by
  induction rest with
  | nil => simp [VulkanSwapchain.chooseSwapSurfaceFormat.loop]
  | cons g rest ih =>
    have hg := hrest g (List.mem_cons_self g rest)
    simp only [VulkanSwapchain.chooseSwapSurfaceFormat.loop, if_neg hg]
    exact ih (fun x hx => hrest x (List.mem_cons_of_mem g hx))

/-- C1: for every non-empty list of supported surface formats,
`chooseSwapSurfaceFormat` returns the first entry that is `B8G8R8A8_SRGB` with colour space
`SRGB_NONLINEAR` (the entry `f` with no such entry before it) when there is one, and returns
the first entry of the list when there is none. -/
theorem VulkanSwapchain.chooseSwapSurfaceFormat_first_match_or_head
    (availableFormats : List VkSurfaceFormatKHR) (hne : availableFormats ≠ []) :
    (∀ pre f post, availableFormats = pre ++ f :: post →
      (f.format = VK_FORMAT_B8G8R8A8_SRGB ∧ f.colorSpace = VK_COLOR_SPACE_SRGB_NONLINEAR_KHR) →
      (∀ g ∈ pre, ¬ (g.format = VK_FORMAT_B8G8R8A8_SRGB
        ∧ g.colorSpace = VK_COLOR_SPACE_SRGB_NONLINEAR_KHR)) →
      VulkanSwapchain.chooseSwapSurfaceFormat availableFormats = some f)
    ∧ ((∀ g ∈ availableFormats, ¬ (g.format = VK_FORMAT_B8G8R8A8_SRGB
        ∧ g.colorSpace = VK_COLOR_SPACE_SRGB_NONLINEAR_KHR)) →
      VulkanSwapchain.chooseSwapSurfaceFormat availableFormats
        = some (availableFormats.head hne)) := by
  constructor
  · intro pre f post hsplit hf hpre
    unfold VulkanSwapchain.chooseSwapSurfaceFormat
    nth_rewrite 2 [hsplit]
    exact VulkanSwapchain.chooseSwapSurfaceFormat.loop_hit availableFormats pre post f hf hpre
  · intro hnone
    unfold VulkanSwapchain.chooseSwapSurfaceFormat
    rw [VulkanSwapchain.chooseSwapSurfaceFormat.loop_miss availableFormats availableFormats hnone]
    cases availableFormats with
    | nil => exact absurd rfl hne
    | cons a as => simp

/-- Witness of C1 on the list `[(B8G8R8A8_UNORM, 0), (B8G8R8A8_SRGB, 0)]`. -/
theorem VulkanSwapchain.chooseSwapSurfaceFormat_first_match_or_head_witness :
    ([⟨44, 0⟩, ⟨50, 0⟩] : List VkSurfaceFormatKHR) ≠ []
    ∧ VulkanSwapchain.chooseSwapSurfaceFormat [⟨44, 0⟩, ⟨50, 0⟩] = some ⟨50, 0⟩ :=
  ⟨by decide,
    (VulkanSwapchain.chooseSwapSurfaceFormat_first_match_or_head [⟨44, 0⟩, ⟨50, 0⟩]
      (by decide)).1 [⟨44, 0⟩] ⟨50, 0⟩ [] rfl (by decide) (by decide)⟩

/-! ## Present mode selection -/

/-- C2: for every list of supported present modes, `chooseSwapPresentMode` returns
`MAILBOX` when the list contains `MAILBOX` and returns `FIFO` otherwise; the empty list and
lists without `FIFO` are covered by the second case. -/
theorem VulkanSwapchain.chooseSwapPresentMode_mailbox_or_fifo (availablePresentModes : List Nat) :
    (VK_PRESENT_MODE_MAILBOX_KHR ∈ availablePresentModes →
      (VulkanSwapchain.chooseSwapPresentMode availablePresentModes).2
        = VK_PRESENT_MODE_MAILBOX_KHR)
    ∧ (VK_PRESENT_MODE_MAILBOX_KHR ∉ availablePresentModes →
      (VulkanSwapchain.chooseSwapPresentMode availablePresentModes).2
        = VK_PRESENT_MODE_FIFO_KHR) := by
  induction availablePresentModes with
  | nil => simp [VulkanSwapchain.chooseSwapPresentMode]
  | cons m rest ih =>
    by_cases hm : m = VK_PRESENT_MODE_MAILBOX_KHR
    · simp [VulkanSwapchain.chooseSwapPresentMode, hm]
    · have hm2 : ¬ VK_PRESENT_MODE_MAILBOX_KHR = m := fun h => hm h.symm
      simp only [VulkanSwapchain.chooseSwapPresentMode, if_neg hm, List.mem_cons, hm2,
        false_or]
      exact ih

/-! ## Extent selection -/

/-- Counterexample to C3 as stated: with the sentinel width and a capabilities value whose
`minImageExtent` (10 x 10) exceeds its `maxImageExtent` (5 x 5), the extent chosen for a
7 x 7 window is 10 x 10, which does not lie below the maximum. -/
theorem VulkanSwapchain.chooseSwapExtent_min_above_max :
    VulkanSwapchain.chooseSwapExtent ⟨7, 7⟩
        { minImageCount := 2, maxImageCount := 3, currentExtent := ⟨UINT32_MAX, UINT32_MAX⟩,
          minImageExtent := ⟨10, 10⟩, maxImageExtent := ⟨5, 5⟩, currentTransform := 1 }
      = ⟨10, 10⟩
    ∧ ¬ ((VulkanSwapchain.chooseSwapExtent ⟨7, 7⟩
        { minImageCount := 2, maxImageCount := 3, currentExtent := ⟨UINT32_MAX, UINT32_MAX⟩,
          minImageExtent := ⟨10, 10⟩, maxImageExtent := ⟨5, 5⟩, currentTransform := 1 }).width
      ≤ 5) := by
  decide

/-- C3 (amended): `chooseSwapExtent` returns `capabilities.currentExtent` exactly when
`currentExtent.width` is not `0xFFFFFFFF`.  When it is `0xFFFFFFFF`, each returned component
is at least the corresponding minimum, and for a component whose minimum does not exceed its
maximum the returned value is the window value clamped into `[min, max]`: it lies between
min and max, equals the window value when that is in range, equals min when the window
value is below min and equals max when the window value is above max. -/
theorem VulkanSwapchain.chooseSwapExtent_clamps (m_windowExtent : VkExtent2D)
    (capabilities : VkSurfaceCapabilitiesKHR) :
    (capabilities.currentExtent.width ≠ UINT32_MAX →
      VulkanSwapchain.chooseSwapExtent m_windowExtent capabilities = capabilities.currentExtent)
    ∧ (capabilities.currentExtent.width = UINT32_MAX →
      (capabilities.minImageExtent.width
          ≤ (VulkanSwapchain.chooseSwapExtent m_windowExtent capabilities).width
        ∧ capabilities.minImageExtent.height
          ≤ (VulkanSwapchain.chooseSwapExtent m_windowExtent capabilities).height)
      ∧ (capabilities.minImageExtent.width ≤ capabilities.maxImageExtent.width →
        (VulkanSwapchain.chooseSwapExtent m_windowExtent capabilities).width
            ≤ capabilities.maxImageExtent.width
          ∧ (capabilities.minImageExtent.width ≤ m_windowExtent.width
              ∧ m_windowExtent.width ≤ capabilities.maxImageExtent.width →
            (VulkanSwapchain.chooseSwapExtent m_windowExtent capabilities).width
              = m_windowExtent.width)
          ∧ (m_windowExtent.width < capabilities.minImageExtent.width →
            (VulkanSwapchain.chooseSwapExtent m_windowExtent capabilities).width
              = capabilities.minImageExtent.width)
          ∧ (capabilities.maxImageExtent.width < m_windowExtent.width →
            (VulkanSwapchain.chooseSwapExtent m_windowExtent capabilities).width
              = capabilities.maxImageExtent.width))
      ∧ (capabilities.minImageExtent.height ≤ capabilities.maxImageExtent.height →
        (VulkanSwapchain.chooseSwapExtent m_windowExtent capabilities).height
            ≤ capabilities.maxImageExtent.height
          ∧ (capabilities.minImageExtent.height ≤ m_windowExtent.height
              ∧ m_windowExtent.height ≤ capabilities.maxImageExtent.height →
            (VulkanSwapchain.chooseSwapExtent m_windowExtent capabilities).height
              = m_windowExtent.height)
          ∧ (m_windowExtent.height < capabilities.minImageExtent.height →
            (VulkanSwapchain.chooseSwapExtent m_windowExtent capabilities).height
              = capabilities.minImageExtent.height)
          ∧ (capabilities.maxImageExtent.height < m_windowExtent.height →
            (VulkanSwapchain.chooseSwapExtent m_windowExtent capabilities).height
              = capabilities.maxImageExtent.height))) := by
  constructor
  · intro h
    simp [VulkanSwapchain.chooseSwapExtent, h]
  · intro h
    simp only [VulkanSwapchain.chooseSwapExtent, h, ne_eq, not_true_eq_false, if_false]
    refine ⟨⟨le_max_left _ _, le_max_left _ _⟩, ?_, ?_⟩
    · intro hmm
      refine ⟨?_, ?_, ?_, ?_⟩
      · exact max_le hmm (min_le_left _ _)
      · rintro ⟨h1, h2⟩
        rw [min_eq_right h2, max_eq_right h1]
      · intro h1
        exact max_eq_left (le_trans (min_le_right _ _) (le_of_lt h1))
      · intro h1
        rw [min_eq_left (le_of_lt h1), max_eq_right hmm]
    · intro hmm
      refine ⟨?_, ?_, ?_, ?_⟩
      · exact max_le hmm (min_le_left _ _)
      · rintro ⟨h1, h2⟩
        rw [min_eq_right h2, max_eq_right h1]
      · intro h1
        exact max_eq_left (le_trans (min_le_right _ _) (le_of_lt h1))
      · intro h1
        rw [min_eq_left (le_of_lt h1), max_eq_right hmm]

/-! ## Image count -/

/-- Counterexample to C4 as stated: for `(minImageCount, maxImageCount) = (5, 3)` the
requested count is 3, below the minimum; and for `minImageCount = 0xFFFFFFFF` with no cap
the `uint32_t` addition wraps and the requested count is 0. -/
theorem VulkanSwapchain.createSwapChain.imageCount_below_min :
    (VulkanSwapchain.createSwapChain.imageCount
        { minImageCount := 5, maxImageCount := 3, currentExtent := ⟨800, 600⟩,
          minImageExtent := ⟨1, 1⟩, maxImageExtent := ⟨4096, 4096⟩, currentTransform := 1 } = 3
      ∧ ¬ (5 ≤ 3))
    ∧ (VulkanSwapchain.createSwapChain.imageCount
        { minImageCount := 4294967295, maxImageCount := 0, currentExtent := ⟨800, 600⟩,
          minImageExtent := ⟨1, 1⟩, maxImageExtent := ⟨4096, 4096⟩, currentTransform := 1 } = 0
      ∧ ¬ (4294967295 ≤ 0)) := by
  decide

/-- C4 (amended): for 32-bit `minImageCount` and `maxImageCount`, the requested image count
is at least `minImageCount` exactly when `minImageCount` is not `0xFFFFFFFF` and
`maxImageCount` is zero or at least `minImageCount`; it is at most `maxImageCount` whenever
`maxImageCount` is nonzero; and it equals `minImageCount + 1` whenever `minImageCount + 1`
does not exceed a nonzero `maxImageCount`. -/
theorem VulkanSwapchain.createSwapChain.imageCount_bounds
    (capabilities : VkSurfaceCapabilitiesKHR)
    (hmin : capabilities.minImageCount < 2 ^ 32) (hmax : capabilities.maxImageCount < 2 ^ 32) :
    (capabilities.minImageCount ≤ VulkanSwapchain.createSwapChain.imageCount capabilities
      ↔ (capabilities.minImageCount ≠ UINT32_MAX
        ∧ (capabilities.maxImageCount = 0
          ∨ capabilities.minImageCount ≤ capabilities.maxImageCount)))
    ∧ (capabilities.maxImageCount ≠ 0 →
      VulkanSwapchain.createSwapChain.imageCount capabilities ≤ capabilities.maxImageCount)
    ∧ (capabilities.maxImageCount ≠ 0 →
      capabilities.minImageCount + 1 ≤ capabilities.maxImageCount →
      VulkanSwapchain.createSwapChain.imageCount capabilities
        = capabilities.minImageCount + 1) := by
  unfold VulkanSwapchain.createSwapChain.imageCount UINT32_MAX
  simp only
  by_cases hw : capabilities.minImageCount = 4294967295
  · have h0 : (capabilities.minImageCount + 1) % 2 ^ 32 = 0 := by rw [hw]; norm_num
    rw [h0]
    refine ⟨?_, ?_, ?_⟩
    · simp only [gt_iff_lt, Nat.not_lt_zero, and_false, if_false]
      constructor
      · intro h; omega
      · rintro ⟨h, _⟩; exact absurd hw h
    · intro _; simp
    · intro _ h; omega
  · have h1 : (capabilities.minImageCount + 1) % 2 ^ 32 = capabilities.minImageCount + 1 := by
      apply Nat.mod_eq_of_lt; omega
    rw [h1]
    refine ⟨?_, ?_, ?_⟩
    · split_ifs with hc
      · constructor
        · intro h; exact ⟨hw, Or.inr h⟩
        · rintro ⟨_, h⟩; omega
      · constructor
        · intro _; refine ⟨hw, ?_⟩; omega
        · intro _; omega
    · intro hz
      split_ifs with hc
      · exact le_refl _
      · omega
    · intro hz hle
      split_ifs with hc
      · omega
      · rfl

/-- Witness of C4 (amended) for `(minImageCount, maxImageCount) = (2, 8)`: the 32-bit
hypotheses hold and the requested count is `3`. -/
theorem VulkanSwapchain.createSwapChain.imageCount_bounds_witness :
    (2 : Nat) < 2 ^ 32 ∧ (8 : Nat) < 2 ^ 32
    ∧ VulkanSwapchain.createSwapChain.imageCount
        { minImageCount := 2, maxImageCount := 8, currentExtent := ⟨800, 600⟩,
          minImageExtent := ⟨1, 1⟩, maxImageExtent := ⟨4096, 4096⟩, currentTransform := 1 }
      = 2 + 1 :=
  ⟨by decide, by decide,
    (VulkanSwapchain.createSwapChain.imageCount_bounds
      { minImageCount := 2, maxImageCount := 8, currentExtent := ⟨800, 600⟩,
        minImageExtent := ⟨1, 1⟩, maxImageExtent := ⟨4096, 4096⟩, currentTransform := 1 }
      (by decide) (by decide)).2.2 (by decide) (by decide)⟩

/-! ## Frame operations: shared lemmas -/

theorem VulkanSwapchain.WellFormed.lookups {sc : VulkanSwapchain} (h : sc.WellFormed)
    {imageIndex : Nat} (hi : imageIndex < sc.imageCount) :
    ∃ imageFence slotFence imageAvailable renderFinished,
      sc.imagesInFlight[imageIndex]? = some imageFence
      ∧ sc.inFlightFences[sc.currentFrame]? = some slotFence
      ∧ sc.imageAvailableSemaphores[sc.currentFrame]? = some imageAvailable
      ∧ sc.renderFinishedSemaphores[sc.currentFrame]? = some renderFinished := by
  obtain ⟨h1, h2, h3, h4, h5⟩ := h
  have hi2 : imageIndex < sc.imagesInFlight.length := by rw [h4]; exact hi
  have hc1 : sc.currentFrame < sc.inFlightFences.length := by rw [h3]; exact h5
  have hc2 : sc.currentFrame < sc.imageAvailableSemaphores.length := by rw [h1]; exact h5
  have hc3 : sc.currentFrame < sc.renderFinishedSemaphores.length := by rw [h2]; exact h5
  exact ⟨_, _, _, _, List.getElem?_eq_getElem hi2, List.getElem?_eq_getElem hc1,
    List.getElem?_eq_getElem hc2, List.getElem?_eq_getElem hc3⟩

theorem VulkanSwapchain.submitCommandBuffers_of_success {sc : VulkanSwapchain}
    {imageIndex imageFence slotFence imageAvailable renderFinished : Nat}
    (h1 : sc.imagesInFlight[imageIndex]? = some imageFence)
    (h2 : sc.inFlightFences[sc.currentFrame]? = some slotFence)
    (h3 : sc.imageAvailableSemaphores[sc.currentFrame]? = some imageAvailable)
    (h4 : sc.renderFinishedSemaphores[sc.currentFrame]? = some renderFinished)
    (buffers : Nat) (queuePresentResult : VkResult) :
    sc.submitCommandBuffers buffers imageIndex VK_SUCCESS queuePresentResult = some {
      state := { sc with
        imagesInFlight := sc.imagesInFlight.set imageIndex slotFence
        currentFrame := (sc.currentFrame + 1) % VulkanSwapchain.MAX_FRAMES_IN_FLIGHT }
      calls :=
        (if imageFence ≠ VK_NULL_HANDLE then [Effect.vkWaitForFences imageFence UINT64_MAX]
          else [])
        ++ [Effect.vkResetFences slotFence,
            Effect.vkQueueSubmit sc.device.m_graphicsQueue
              ⟨[imageAvailable], [VK_PIPELINE_STAGE_COLOR_ATTACHMENT_OUTPUT_BIT], [buffers],
                [renderFinished]⟩ slotFence]
        ++ [Effect.vkQueuePresentKHR sc.device.m_presentQueue
            ⟨[renderFinished], [sc.m_swapchain], [imageIndex]⟩]
      result := Except.ok queuePresentResult } := by
  simp only [VulkanSwapchain.submitCommandBuffers, h1, h2, h3, h4]
  rfl

theorem VulkanSwapchain.submitCommandBuffers_of_failure {sc : VulkanSwapchain}
    {imageIndex imageFence slotFence imageAvailable renderFinished : Nat}
    (h1 : sc.imagesInFlight[imageIndex]? = some imageFence)
    (h2 : sc.inFlightFences[sc.currentFrame]? = some slotFence)
    (h3 : sc.imageAvailableSemaphores[sc.currentFrame]? = some imageAvailable)
    (h4 : sc.renderFinishedSemaphores[sc.currentFrame]? = some renderFinished)
    (buffers : Nat) {queueSubmitResult : VkResult} (hq : queueSubmitResult ≠ VK_SUCCESS)
    (queuePresentResult : VkResult) :
    sc.submitCommandBuffers buffers imageIndex queueSubmitResult queuePresentResult = some {
      state := { sc with imagesInFlight := sc.imagesInFlight.set imageIndex slotFence }
      calls :=
        (if imageFence ≠ VK_NULL_HANDLE then [Effect.vkWaitForFences imageFence UINT64_MAX]
          else [])
        ++ [Effect.vkResetFences slotFence,
            Effect.vkQueueSubmit sc.device.m_graphicsQueue
              ⟨[imageAvailable], [VK_PIPELINE_STAGE_COLOR_ATTACHMENT_OUTPUT_BIT], [buffers],
                [renderFinished]⟩ slotFence]
      result := Except.error "Failed to submit draw command buffer." } := by
  simp only [VulkanSwapchain.submitCommandBuffers, h1, h2, h3, h4]
  rw [if_pos hq]


/-! ## Fence discipline over frame cycles -/

theorem FenceDiscipline.append_calls {bound : Nat} {first : List Effect} :
    ∀ {pending waited : List Nat} {later : List Effect},
      FenceDiscipline bound pending waited first →
      FenceDiscipline bound (first.foldl pendingStep pending) (first.foldl waitedStep waited)
        later →
      FenceDiscipline bound pending waited (first ++ later) := by
  induction first with
  | nil =>
    intro pending waited later _ h2
    simpa using h2
  | cons e rest ih =>
    intro pending waited later h1 h2
    obtain ⟨hb, hr, hrest⟩ := h1
    exact ⟨hb, hr, ih hrest h2⟩

theorem FenceDiscipline.bound_at {bound : Nat} {calls : List Effect} :
    ∀ {pending waited : List Nat}, FenceDiscipline bound pending waited calls →
      ∀ pre post, calls = pre ++ post → (pre.foldl pendingStep pending).length ≤ bound := by
  induction calls with
  | nil =>
    intro pending waited h pre post hsplit
    have hpre : pre = [] := (List.append_eq_nil.mp hsplit.symm).1
    subst hpre
    exact h
  | cons e rest ih =>
    intro pending waited h pre post hsplit
    obtain ⟨hb, _, hrest⟩ := h
    cases pre with
    | nil => exact hb
    | cons p pre =>
      simp only [List.cons_append, List.cons.injEq] at hsplit
      obtain ⟨hp, hsplit⟩ := hsplit
      subst hp
      exact ih hrest pre post hsplit

theorem FenceDiscipline.waited_at {bound : Nat} {calls : List Effect} :
    ∀ {pending waited : List Nat}, FenceDiscipline bound pending waited calls →
      ∀ pre fence post, calls = pre ++ Effect.vkResetFences fence :: post →
        fence ∈ pre.foldl waitedStep waited := by
  induction calls with
  | nil =>
    intro pending waited _ pre fence post hsplit
    simp at hsplit
  | cons e rest ih =>
    intro pending waited h pre fence post hsplit
    obtain ⟨_, hr, hrest⟩ := h
    cases pre with
    | nil =>
      simp only [List.nil_append, List.cons.injEq] at hsplit
      exact hr fence hsplit.1
    | cons p pre =>
      simp only [List.cons_append, List.cons.injEq] at hsplit
      obtain ⟨hp, hsplit⟩ := hsplit
      subst hp
      exact ih hrest pre fence post hsplit

/-- A fence among the waited-for fences of `pre` was waited for in `pre` with no submission
under it afterwards. -/
theorem mem_waited_foldl (fence : Nat) (pre : List Effect) :
    fence ∈ pre.foldl waitedStep [] →
      ∃ before timeout since, pre = before ++ Effect.vkWaitForFences fence timeout :: since
        ∧ ∀ queue submitInfo, Effect.vkQueueSubmit queue submitInfo fence ∉ since := by
  induction pre using List.reverseRecOn with
  | nil => intro h; simp at h
  | append_singleton init e ih =>
    intro h
    rw [List.foldl_append] at h
    simp only [List.foldl_cons, List.foldl_nil] at h
    have keep : fence ∈ init.foldl waitedStep [] →
        (∀ queue submitInfo, e ≠ Effect.vkQueueSubmit queue submitInfo fence) →
        ∃ before timeout since,
          init ++ [e] = before ++ Effect.vkWaitForFences fence timeout :: since
          ∧ ∀ queue submitInfo, Effect.vkQueueSubmit queue submitInfo fence ∉ since := by
      intro hmem hne
      obtain ⟨before, timeout, since, hsplit, hno⟩ := ih hmem
      refine ⟨before, timeout, since ++ [e], by simp [hsplit], ?_⟩
      intro queue submitInfo hin
      rcases List.mem_append.mp hin with hin | hin
      · exact hno queue submitInfo hin
      · exact hne queue submitInfo (List.mem_singleton.mp hin).symm
    cases e with
    | vkWaitForFences f t =>
      simp only [waitedStep, List.mem_cons] at h
      rcases h with h | h
      · subst h
        exact ⟨init, t, [], rfl, by simp⟩
      · exact keep h (by intro q s hc; cases hc)
    | vkQueueSubmit q s f =>
      simp only [waitedStep, List.mem_filter, decide_eq_true_eq] at h
      refine keep h.1 ?_
      intro q2 s2 hc
      injection hc with _ _ hf
      exact h.2 hf.symm
    | _ => exact keep h (by intro q s hc; cases hc)

theorem length_le_of_nodup_of_subset {pending fences : List Nat} (hnd : pending.Nodup)
    (hsub : ∀ f ∈ pending, f ∈ fences) : pending.length ≤ fences.length :=
  (List.Nodup.subperm hnd hsub).length_le

theorem FenceDiscipline.submit_part {bound : Nat} {pending : List Nat} (waited : List Nat)
    {slotFence : Nat}
    (hlen : pending.length + 1 ≤ bound) (hwaited : slotFence ∈ waited)
    (queue : Nat) (submitInfo : VkSubmitInfo) (tail : List Effect)
    (htail : tail = [] ∨ ∃ q p, tail = [Effect.vkQueuePresentKHR q p]) :
    FenceDiscipline bound pending waited
        ([Effect.vkResetFences slotFence, Effect.vkQueueSubmit queue submitInfo slotFence] ++ tail)
      ∧ ([Effect.vkResetFences slotFence, Effect.vkQueueSubmit queue submitInfo slotFence]
          ++ tail).foldl pendingStep pending = slotFence :: pending := by
  have hlen0 : pending.length ≤ bound := by omega
  have hreset : ∀ fence, Effect.vkResetFences slotFence = Effect.vkResetFences fence →
      fence ∈ waited := by
    intro fence hf
    injection hf with hf
    exact hf ▸ hwaited
  rcases htail with h | ⟨q, p, h⟩
  · subst h
    exact ⟨⟨hlen0, hreset, hlen0, by simp, by simpa [pendingStep] using hlen⟩, rfl⟩
  · subst h
    exact ⟨⟨hlen0, hreset, hlen0, by simp, by simpa [pendingStep] using hlen, by simp,
      by simpa [pendingStep] using hlen⟩, rfl⟩

/-- The effects of one frame cycle keep the discipline and the invariant on the outstanding
fences: they are pairwise different slot fences. -/
theorem FenceDiscipline.cycle_calls {fences pending : List Nat} (waited : List Nat)
    {slotFence : Nat}
    (hslot : slotFence ∈ fences) (hnd : pending.Nodup) (hsub : ∀ f ∈ pending, f ∈ fences)
    (timeout : Nat) (acquire : Effect)
    (hacquire : ∃ a b c d, acquire = Effect.vkAcquireNextImageKHR a b c d)
    (waitCalls : List Effect)
    (hwait : waitCalls = [] ∨ ∃ g t, waitCalls = [Effect.vkWaitForFences g t])
    (queue : Nat) (submitInfo : VkSubmitInfo) (tail : List Effect)
    (htail : tail = [] ∨ ∃ q p, tail = [Effect.vkQueuePresentKHR q p]) :
    FenceDiscipline fences.length pending waited
        ([Effect.vkWaitForFences slotFence timeout, acquire] ++ (waitCalls
          ++ ([Effect.vkResetFences slotFence, Effect.vkQueueSubmit queue submitInfo slotFence]
            ++ tail)))
      ∧ (([Effect.vkWaitForFences slotFence timeout, acquire] ++ (waitCalls
          ++ ([Effect.vkResetFences slotFence, Effect.vkQueueSubmit queue submitInfo slotFence]
            ++ tail))).foldl pendingStep pending).Nodup
      ∧ ∀ f ∈ ([Effect.vkWaitForFences slotFence timeout, acquire] ++ (waitCalls
          ++ ([Effect.vkResetFences slotFence, Effect.vkQueueSubmit queue submitInfo slotFence]
            ++ tail))).foldl pendingStep pending, f ∈ fences := by
  obtain ⟨a, b, c, d, hacq⟩ := hacquire
  subst hacq
  have hnd1 : (pending.filter (fun f => f ≠ slotFence)).Nodup := hnd.filter _
  have hsub1 : ∀ f ∈ pending.filter (fun f => f ≠ slotFence), f ∈ fences :=
    fun f hf => hsub f (List.mem_filter.mp hf).1
  have hnot1 : slotFence ∉ pending.filter (fun f => f ≠ slotFence) := by
    intro hf
    simpa using (List.mem_filter.mp hf).2
  have hcons : ∀ l : List Nat, l.Nodup → (∀ f ∈ l, f ∈ fences) → slotFence ∉ l →
      (slotFence :: l).Nodup ∧ (∀ f ∈ slotFence :: l, f ∈ fences)
      ∧ l.length + 1 ≤ fences.length := by
    intro l hl hs hn
    have h1 : (slotFence :: l).Nodup := List.nodup_cons.mpr ⟨hn, hl⟩
    have h2 : ∀ f ∈ slotFence :: l, f ∈ fences := by
      intro f hf
      rcases List.mem_cons.mp hf with h | h
      · exact h ▸ hslot
      · exact hs f h
    exact ⟨h1, h2, by simpa using length_le_of_nodup_of_subset h1 h2⟩
  have hlen0 : pending.length ≤ fences.length := length_le_of_nodup_of_subset hnd hsub
  have hlen1 : (pending.filter (fun f => f ≠ slotFence)).length ≤ fences.length :=
    length_le_of_nodup_of_subset hnd1 hsub1
  rcases hwait with hw | ⟨g, t, hw⟩
  · subst hw
    obtain ⟨k1, k2, k3⟩ := hcons _ hnd1 hsub1 hnot1
    obtain ⟨s1, s2⟩ := FenceDiscipline.submit_part (slotFence :: waited) k3
      (List.mem_cons_self _ _) queue submitInfo tail htail
    refine ⟨⟨hlen0, by simp, hlen1, by simp, s1⟩, ?_, ?_⟩
    · simp only [List.cons_append, List.nil_append, List.foldl_cons, pendingStep]
      simp only [List.cons_append, List.nil_append, List.foldl_cons, pendingStep] at s2
      rw [s2]
      exact k1
    · simp only [List.cons_append, List.nil_append, List.foldl_cons, pendingStep]
      simp only [List.cons_append, List.nil_append, List.foldl_cons, pendingStep] at s2
      rw [s2]
      exact k2
  · subst hw
    have hnd2 : ((pending.filter (fun f => f ≠ slotFence)).filter (fun f => f ≠ g)).Nodup :=
      hnd1.filter _
    have hsub2 : ∀ f ∈ (pending.filter (fun f => f ≠ slotFence)).filter (fun f => f ≠ g),
        f ∈ fences := fun f hf => hsub1 f (List.mem_filter.mp hf).1
    have hnot2 : slotFence ∉ (pending.filter (fun f => f ≠ slotFence)).filter
        (fun f => f ≠ g) := fun hf => hnot1 (List.mem_filter.mp hf).1
    obtain ⟨k1, k2, k3⟩ := hcons _ hnd2 hsub2 hnot2
    obtain ⟨s1, s2⟩ := FenceDiscipline.submit_part (g :: slotFence :: waited) k3
      (List.mem_cons_of_mem _ (List.mem_cons_self _ _)) queue submitInfo tail htail
    refine ⟨⟨hlen0, by simp, hlen1, by simp, hlen1, by simp, s1⟩, ?_, ?_⟩
    · simp only [List.cons_append, List.nil_append, List.foldl_cons, pendingStep]
      simp only [List.cons_append, List.nil_append, List.foldl_cons, pendingStep] at s2
      rw [s2]
      exact k1
    · simp only [List.cons_append, List.nil_append, List.foldl_cons, pendingStep]
      simp only [List.cons_append, List.nil_append, List.foldl_cons, pendingStep] at s2
      rw [s2]
      exact k2

theorem VulkanSwapchain.frameCycle_eq {sc : VulkanSwapchain} {a : CycleAnswers}
    {acquired : Run VulkanSwapchain (VkResult × Nat)} {submitted : Run VulkanSwapchain VkResult}
    (h1 : sc.acquireNextImage a.acquire = some acquired)
    (h2 : acquired.state.submitCommandBuffers a.commandBuffer a.acquire.2 a.queueSubmit
      a.queuePresent = some submitted) :
    sc.frameCycle a = some { submitted with calls := acquired.calls ++ submitted.calls } := by
  simp only [VulkanSwapchain.frameCycle, h1, h2]

theorem VulkanSwapchain.frameCycles_cons_error {sc : VulkanSwapchain} {a : CycleAnswers}
    {rest : List CycleAnswers} {first : Run VulkanSwapchain VkResult} {e : String}
    (h1 : sc.frameCycle a = some first) (h2 : first.result = Except.error e) :
    sc.frameCycles (a :: rest)
      = some { state := first.state, calls := first.calls, result := Except.error e } := by
  simp only [VulkanSwapchain.frameCycles, h1, h2]

theorem VulkanSwapchain.frameCycles_cons_ok {sc : VulkanSwapchain} {a : CycleAnswers}
    {rest : List CycleAnswers} {first : Run VulkanSwapchain VkResult} {v : VkResult}
    {later : Run VulkanSwapchain Unit}
    (h1 : sc.frameCycle a = some first) (h2 : first.result = Except.ok v)
    (h3 : first.state.frameCycles rest = some later) :
    sc.frameCycles (a :: rest) = some { later with calls := first.calls ++ later.calls } := by
  simp only [VulkanSwapchain.frameCycles, h1, h2, h3]

/-- Shape of one frame cycle on a well-formed chain: it returns, keeps the chain
well-formed with the same slot fences and image count, and its effects are the wait and the
acquire of `acquireNextImage` followed by the effects of `submitCommandBuffers`. -/
theorem VulkanSwapchain.frameCycle_shape (sc : VulkanSwapchain) (hwf : sc.WellFormed)
    (a : CycleAnswers) (hi : a.acquire.2 < sc.imageCount) :
    ∃ r slotFence acquire waitCalls queue submitInfo tail,
      sc.frameCycle a = some r
      ∧ r.state.WellFormed
      ∧ r.state.inFlightFences = sc.inFlightFences
      ∧ r.state.imageCount = sc.imageCount
      ∧ slotFence ∈ sc.inFlightFences
      ∧ (∃ a b c d, acquire = Effect.vkAcquireNextImageKHR a b c d)
      ∧ (waitCalls = [] ∨ ∃ g t, waitCalls = [Effect.vkWaitForFences g t])
      ∧ (tail = [] ∨ ∃ q p, tail = [Effect.vkQueuePresentKHR q p])
      ∧ r.calls = [Effect.vkWaitForFences slotFence UINT64_MAX, acquire] ++ (waitCalls
          ++ ([Effect.vkResetFences slotFence, Effect.vkQueueSubmit queue submitInfo slotFence]
            ++ tail)) := by
  obtain ⟨imageFence, slotFence, imageAvailable, renderFinished, h1, h2, h3, h4⟩ :=
    hwf.lookups hi
  obtain ⟨w1, w2, w3, w4, w5⟩ := hwf
  have hacq : sc.acquireNextImage a.acquire = some {
      state := sc
      calls := [Effect.vkWaitForFences slotFence UINT64_MAX,
        Effect.vkAcquireNextImageKHR sc.m_swapchain UINT64_MAX imageAvailable VK_NULL_HANDLE]
      result := Except.ok a.acquire } := by
    simp only [VulkanSwapchain.acquireNextImage, h2, h3]
  have hwaitshape : (if imageFence ≠ VK_NULL_HANDLE then
        [Effect.vkWaitForFences imageFence UINT64_MAX] else []) = []
      ∨ ∃ g t, (if imageFence ≠ VK_NULL_HANDLE then
        [Effect.vkWaitForFences imageFence UINT64_MAX] else [])
          = [Effect.vkWaitForFences g t] := by
    by_cases hnull : imageFence ≠ VK_NULL_HANDLE
    · exact Or.inr ⟨imageFence, UINT64_MAX, by rw [if_pos hnull]⟩
    · exact Or.inl (by rw [if_neg hnull])
  have hlenset : (sc.imagesInFlight.set a.acquire.2 slotFence).length = sc.imageCount := by
    rw [List.length_set]
    exact w4
  by_cases hq : a.queueSubmit = VK_SUCCESS
  · have hsubmit := VulkanSwapchain.submitCommandBuffers_of_success h1 h2 h3 h4
      a.commandBuffer a.queuePresent
    rw [← hq] at hsubmit
    exact ⟨_, slotFence,
      Effect.vkAcquireNextImageKHR sc.m_swapchain UINT64_MAX imageAvailable VK_NULL_HANDLE,
      (if imageFence ≠ VK_NULL_HANDLE then [Effect.vkWaitForFences imageFence UINT64_MAX]
        else []),
      sc.device.m_graphicsQueue,
      ⟨[imageAvailable], [VK_PIPELINE_STAGE_COLOR_ATTACHMENT_OUTPUT_BIT], [a.commandBuffer],
        [renderFinished]⟩,
      [Effect.vkQueuePresentKHR sc.device.m_presentQueue
        ⟨[renderFinished], [sc.m_swapchain], [a.acquire.2]⟩],
      VulkanSwapchain.frameCycle_eq hacq hsubmit,
      ⟨w1, w2, w3, hlenset,
        Nat.mod_lt _ (show 0 < VulkanSwapchain.MAX_FRAMES_IN_FLIGHT by decide)⟩,
      rfl, rfl, List.getElem?_mem h2, ⟨_, _, _, _, rfl⟩, hwaitshape,
      Or.inr ⟨_, _, rfl⟩, by simp⟩
  · have hsubmit := VulkanSwapchain.submitCommandBuffers_of_failure h1 h2 h3 h4
      a.commandBuffer hq a.queuePresent
    exact ⟨_, slotFence,
      Effect.vkAcquireNextImageKHR sc.m_swapchain UINT64_MAX imageAvailable VK_NULL_HANDLE,
      (if imageFence ≠ VK_NULL_HANDLE then [Effect.vkWaitForFences imageFence UINT64_MAX]
        else []),
      sc.device.m_graphicsQueue,
      ⟨[imageAvailable], [VK_PIPELINE_STAGE_COLOR_ATTACHMENT_OUTPUT_BIT], [a.commandBuffer],
        [renderFinished]⟩,
      [],
      VulkanSwapchain.frameCycle_eq hacq hsubmit,
      ⟨w1, w2, w3, hlenset, w5⟩,
      rfl, rfl, List.getElem?_mem h2, ⟨_, _, _, _, rfl⟩, hwaitshape, Or.inl rfl, by simp⟩

theorem VulkanSwapchain.frameCycles_discipline (answers : List CycleAnswers) :
    ∀ (sc : VulkanSwapchain) (pending waited : List Nat), sc.WellFormed →
      (∀ a ∈ answers, a.acquire.2 < sc.imageCount) →
      pending.Nodup → (∀ f ∈ pending, f ∈ sc.inFlightFences) →
      ∃ r, sc.frameCycles answers = some r
        ∧ FenceDiscipline VulkanSwapchain.MAX_FRAMES_IN_FLIGHT pending waited r.calls := by
  induction answers with
  | nil =>
    intro sc pending waited hwf _ hnd hsub
    refine ⟨_, rfl, ?_⟩
    show pending.length ≤ VulkanSwapchain.MAX_FRAMES_IN_FLIGHT
    rw [← hwf.2.2.1]
    exact length_le_of_nodup_of_subset hnd hsub
  | cons a rest ih =>
    intro sc pending waited hwf hidx hnd hsub
    obtain ⟨r, slotFence, acquire, waitCalls, queue, submitInfo, tail, hr, hwf2, hfences,
      hcount, hslot, hacquire, hwait, htail, hcalls⟩ :=
      sc.frameCycle_shape hwf a (hidx a (List.mem_cons_self _ _))
    obtain ⟨d1, d2, d3⟩ := FenceDiscipline.cycle_calls waited hslot hnd hsub
      UINT64_MAX acquire hacquire waitCalls hwait queue submitInfo tail htail
    rw [← hcalls, hwf.2.2.1] at d1
    rw [← hcalls] at d2 d3
    cases hres : r.result with
    | error e =>
      exact ⟨_, VulkanSwapchain.frameCycles_cons_error hr hres, d1⟩
    | ok v =>
      obtain ⟨later, hlater, dlater⟩ := ih r.state (r.calls.foldl pendingStep pending)
        (r.calls.foldl waitedStep waited) hwf2
        (fun b hb => by rw [hcount]; exact hidx b (List.mem_cons_of_mem _ hb))
        d2 (fun f hf => by rw [hfences]; exact d3 f hf)
      exact ⟨_, VulkanSwapchain.frameCycles_cons_ok hr hres hlater,
        FenceDiscipline.append_calls d1 dlater⟩

/-- C5: in every sequence of frame cycles on one chain (each cycle is `acquireNextImage`
followed by `submitCommandBuffers` for the acquired image, the acquired index being below
the image count), every `vkResetFences` of a fence comes after a `vkWaitForFences` on that
same fence with no `vkQueueSubmit` under that fence in between, and at every point of the
sequence at most `MAX_FRAMES_IN_FLIGHT` submissions are outstanding (submitted and not yet
waited for). -/
theorem VulkanSwapchain.frameCycles_fence_discipline (sc : VulkanSwapchain) (hwf : sc.WellFormed) (answers : List CycleAnswers)
    (hidx : ∀ a ∈ answers, a.acquire.2 < sc.imageCount) :
    ∃ r, sc.frameCycles answers = some r
      ∧ (∀ pre fence post, r.calls = pre ++ Effect.vkResetFences fence :: post →
        ∃ before timeout since,
          pre = before ++ Effect.vkWaitForFences fence timeout :: since
          ∧ ∀ queue submitInfo, Effect.vkQueueSubmit queue submitInfo fence ∉ since)
      ∧ (∀ pre post, r.calls = pre ++ post →
        (pendingFences pre).length ≤ VulkanSwapchain.MAX_FRAMES_IN_FLIGHT) := by
  obtain ⟨r, hr, hd⟩ := VulkanSwapchain.frameCycles_discipline answers sc [] [] hwf hidx
    List.nodup_nil (fun f hf => absurd hf (List.not_mem_nil f))
  refine ⟨r, hr, ?_, ?_⟩
  · intro pre fence post hsplit
    exact mem_waited_foldl fence pre (hd.waited_at pre fence post hsplit)
  · intro pre post hsplit
    exact hd.bound_at pre post hsplit


/-- Witness of C5: three frame cycles on `exampleChain` acquiring images 1, 2 and 1. -/
theorem VulkanSwapchain.frameCycles_fence_discipline_witness :
    exampleChain.WellFormed
    ∧ (∀ a ∈ [(⟨(0, 1), 81, 0, 0⟩ : CycleAnswers), ⟨(0, 2), 82, 0, 0⟩, ⟨(0, 1), 81, 0, 0⟩],
      a.acquire.2 < exampleChain.imageCount)
    ∧ ∃ r, exampleChain.frameCycles
          [⟨(0, 1), 81, 0, 0⟩, ⟨(0, 2), 82, 0, 0⟩, ⟨(0, 1), 81, 0, 0⟩] = some r
      ∧ (∀ pre fence post, r.calls = pre ++ Effect.vkResetFences fence :: post →
        ∃ before timeout since,
          pre = before ++ Effect.vkWaitForFences fence timeout :: since
          ∧ ∀ queue submitInfo, Effect.vkQueueSubmit queue submitInfo fence ∉ since)
      ∧ (∀ pre post, r.calls = pre ++ post →
        (pendingFences pre).length ≤ VulkanSwapchain.MAX_FRAMES_IN_FLIGHT) :=
  ⟨by decide, by decide,
    VulkanSwapchain.frameCycles_fence_discipline exampleChain (by decide)
      [⟨(0, 1), 81, 0, 0⟩, ⟨(0, 2), 82, 0, 0⟩, ⟨(0, 1), 81, 0, 0⟩] (by decide)⟩

/-! ## `submitCommandBuffers`: slot index, effect order, per-image fence -/

/-- Counterexample to C6 as stated: when `vkQueueSubmit` answers `VK_ERROR_DEVICE_LOST`
the call leaves the slot index of `exampleChain` at 0, while `(0 + 1) mod 2` is 1. -/
theorem VulkanSwapchain.submitCommandBuffers_failed_submit_keeps_slot :
    (exampleChain.submitCommandBuffers 82 1 VK_ERROR_DEVICE_LOST VK_SUCCESS).map
        (fun r => r.state.currentFrame) = some 0
    ∧ (exampleChain.currentFrame + 1) % VulkanSwapchain.MAX_FRAMES_IN_FLIGHT = 1 := by
  decide

/-- C6 (amended): on a chain with the sizes its constructor establishes and for an image
index below the image count, `submitCommandBuffers` returns or throws (it is defined); when
`vkQueueSubmit` answers `VK_SUCCESS` it returns the present result, whatever that is, and
leaves the slot index at `(previous index + 1) mod MAX_FRAMES_IN_FLIGHT`; for every other
answer of `vkQueueSubmit` it throws "Failed to submit draw command buffer." and leaves the
slot index unchanged. -/
theorem VulkanSwapchain.submitCommandBuffers_slot_index (sc : VulkanSwapchain) (hwf : sc.WellFormed)
    (buffers imageIndex : Nat) (hi : imageIndex < sc.imageCount)
    (queueSubmitResult queuePresentResult : VkResult) :
    ∃ r, sc.submitCommandBuffers buffers imageIndex queueSubmitResult queuePresentResult = some r
      ∧ (queueSubmitResult = VK_SUCCESS →
        r.result = Except.ok queuePresentResult
        ∧ r.state.currentFrame
          = (sc.currentFrame + 1) % VulkanSwapchain.MAX_FRAMES_IN_FLIGHT)
      ∧ (queueSubmitResult ≠ VK_SUCCESS →
        r.result = Except.error "Failed to submit draw command buffer."
        ∧ r.state.currentFrame = sc.currentFrame) := by
  obtain ⟨imageFence, slotFence, imageAvailable, renderFinished, h1, h2, h3, h4⟩ :=
    hwf.lookups hi
  by_cases hq : queueSubmitResult = VK_SUCCESS
  · subst hq
    exact ⟨_, VulkanSwapchain.submitCommandBuffers_of_success h1 h2 h3 h4 _ _,
      fun _ => ⟨rfl, rfl⟩, fun h => absurd rfl h⟩
  · exact ⟨_, VulkanSwapchain.submitCommandBuffers_of_failure h1 h2 h3 h4 _ hq _,
      fun h => absurd h hq, fun _ => ⟨rfl, rfl⟩⟩


/-- Witness of C6 (amended) on `exampleChain`, image index 1, a successful submission and a
suboptimal present. -/
theorem VulkanSwapchain.submitCommandBuffers_slot_index_witness :
    exampleChain.WellFormed ∧ 1 < exampleChain.imageCount
    ∧ ∃ r, exampleChain.submitCommandBuffers 82 1 VK_SUCCESS VK_SUBOPTIMAL_KHR = some r
      ∧ (VK_SUCCESS = VK_SUCCESS →
        r.result = Except.ok VK_SUBOPTIMAL_KHR
        ∧ r.state.currentFrame
          = (exampleChain.currentFrame + 1) % VulkanSwapchain.MAX_FRAMES_IN_FLIGHT)
      ∧ (VK_SUCCESS ≠ VK_SUCCESS →
        r.result = Except.error "Failed to submit draw command buffer."
        ∧ r.state.currentFrame = exampleChain.currentFrame) :=
  ⟨by decide, by decide,
    VulkanSwapchain.submitCommandBuffers_slot_index exampleChain (by decide) 82 1 (by decide)
      VK_SUCCESS VK_SUBOPTIMAL_KHR⟩

/-- Counterexample to C7 as stated: when `vkQueueSubmit` answers `VK_ERROR_DEVICE_LOST`
the effects of the call on `exampleChain` are the fence reset and the submission only; no
present follows. -/
theorem VulkanSwapchain.submitCommandBuffers_failed_submit_no_present :
    (exampleChain.submitCommandBuffers 82 1 VK_ERROR_DEVICE_LOST VK_SUCCESS).map
        (fun r => r.calls)
      = some [Effect.vkResetFences 31,
          Effect.vkQueueSubmit 3 ⟨[11], [1024], [82], [21]⟩ 31] := by
  decide

/-- C7 (amended): on a chain with the sizes its constructor establishes and for an image
index `i` below the image count, the effects of `submitCommandBuffers` are, in this order
and all with the slot index as it was before the call: a wait on `imagesInFlight[i]` if and
only if it is non-null; the reset of `inFlightFences[currentFrame]`; the submission of the
command buffer to the graphics queue, waiting on `imageAvailableSemaphores[currentFrame]`
at the colour-attachment-output stage and signalling `renderFinishedSemaphores[currentFrame]`
and `inFlightFences[currentFrame]`; and then, if and only if `vkQueueSubmit` answered
`VK_SUCCESS`, the present of image `i` on the present queue waiting on
`renderFinishedSemaphores[currentFrame]`. -/
theorem VulkanSwapchain.submitCommandBuffers_effect_order (sc : VulkanSwapchain) (hwf : sc.WellFormed)
    (buffers imageIndex : Nat) (hi : imageIndex < sc.imageCount)
    (queueSubmitResult queuePresentResult : VkResult) :
    ∃ r imageFence slotFence imageAvailable renderFinished,
      sc.submitCommandBuffers buffers imageIndex queueSubmitResult queuePresentResult = some r
      ∧ sc.imagesInFlight[imageIndex]? = some imageFence
      ∧ sc.inFlightFences[sc.currentFrame]? = some slotFence
      ∧ sc.imageAvailableSemaphores[sc.currentFrame]? = some imageAvailable
      ∧ sc.renderFinishedSemaphores[sc.currentFrame]? = some renderFinished
      ∧ r.calls =
        (if imageFence ≠ VK_NULL_HANDLE then [Effect.vkWaitForFences imageFence UINT64_MAX]
          else [])
        ++ [Effect.vkResetFences slotFence,
            Effect.vkQueueSubmit sc.device.m_graphicsQueue
              { pWaitSemaphores := [imageAvailable]
                pWaitDstStageMask := [VK_PIPELINE_STAGE_COLOR_ATTACHMENT_OUTPUT_BIT]
                pCommandBuffers := [buffers]
                pSignalSemaphores := [renderFinished] }
              slotFence]
        ++ (if queueSubmitResult = VK_SUCCESS then
            [Effect.vkQueuePresentKHR sc.device.m_presentQueue
              { pWaitSemaphores := [renderFinished]
                pSwapchains := [sc.m_swapchain]
                pImageIndices := [imageIndex] }]
          else []) := by
  obtain ⟨imageFence, slotFence, imageAvailable, renderFinished, h1, h2, h3, h4⟩ :=
    hwf.lookups hi
  by_cases hq : queueSubmitResult = VK_SUCCESS
  · subst hq
    exact ⟨_, imageFence, slotFence, imageAvailable, renderFinished,
      VulkanSwapchain.submitCommandBuffers_of_success h1 h2 h3 h4 _ _, h1, h2, h3, h4,
      by simp⟩
  · exact ⟨_, imageFence, slotFence, imageAvailable, renderFinished,
      VulkanSwapchain.submitCommandBuffers_of_failure h1 h2 h3 h4 _ hq _, h1, h2, h3, h4,
      by simp [hq]⟩


/-- Witness of C7 (amended) on `exampleChain`, image index 1, every call succeeding. -/
theorem VulkanSwapchain.submitCommandBuffers_effect_order_witness :
    exampleChain.WellFormed ∧ 1 < exampleChain.imageCount
    ∧ ∃ r, exampleChain.submitCommandBuffers 82 1 VK_SUCCESS VK_SUCCESS = some r
      ∧ r.calls = [Effect.vkResetFences 31,
          Effect.vkQueueSubmit 3 ⟨[11], [1024], [82], [21]⟩ 31,
          Effect.vkQueuePresentKHR 4 ⟨[21], [40], [1]⟩] := by
  obtain ⟨r, imageFence, slotFence, imageAvailable, renderFinished, hr, h1, h2, h3, h4,
    hcalls⟩ := VulkanSwapchain.submitCommandBuffers_effect_order exampleChain (by decide) 82 1
      (by decide) VK_SUCCESS VK_SUCCESS
  have e1 : imageFence = 0 := by
    have : exampleChain.imagesInFlight[1]? = some 0 := by decide
    rw [this] at h1
    exact (Option.some.inj h1).symm
  have e2 : slotFence = 31 := by
    have : exampleChain.inFlightFences[exampleChain.currentFrame]? = some 31 := by decide
    rw [this] at h2
    exact (Option.some.inj h2).symm
  have e3 : imageAvailable = 11 := by
    have : exampleChain.imageAvailableSemaphores[exampleChain.currentFrame]? = some 11 := by
      decide
    rw [this] at h3
    exact (Option.some.inj h3).symm
  have e4 : renderFinished = 21 := by
    have : exampleChain.renderFinishedSemaphores[exampleChain.currentFrame]? = some 21 := by
      decide
    rw [this] at h4
    exact (Option.some.inj h4).symm
  subst e1 e2 e3 e4
  exact ⟨by decide, by decide, r, hr, by rw [hcalls]; decide⟩

/-- C8: after `submitCommandBuffers` is called with image index `i` (below the image
count) while the slot index is `k`, whether it returns or throws, the per-image fence
mapping holds `inFlightFences[k]` at index `i`, every other entry of the mapping is
unchanged, and the semaphore and fence handles of the chain are unchanged. -/
theorem VulkanSwapchain.submitCommandBuffers_image_fence (sc : VulkanSwapchain) (hwf : sc.WellFormed)
    (buffers imageIndex : Nat) (hi : imageIndex < sc.imageCount)
    (queueSubmitResult queuePresentResult : VkResult) :
    ∃ r slotFence,
      sc.submitCommandBuffers buffers imageIndex queueSubmitResult queuePresentResult = some r
      ∧ sc.inFlightFences[sc.currentFrame]? = some slotFence
      ∧ r.state.imagesInFlight[imageIndex]? = some slotFence
      ∧ (∀ j, j ≠ imageIndex → r.state.imagesInFlight[j]? = sc.imagesInFlight[j]?)
      ∧ r.state.imagesInFlight.length = sc.imagesInFlight.length
      ∧ r.state.imageAvailableSemaphores = sc.imageAvailableSemaphores
      ∧ r.state.renderFinishedSemaphores = sc.renderFinishedSemaphores
      ∧ r.state.inFlightFences = sc.inFlightFences := by
  obtain ⟨imageFence, slotFence, imageAvailable, renderFinished, h1, h2, h3, h4⟩ :=
    hwf.lookups hi
  have hi2 : imageIndex < sc.imagesInFlight.length := by rw [hwf.2.2.2.1]; exact hi
  have hset : (sc.imagesInFlight.set imageIndex slotFence)[imageIndex]? = some slotFence := by
    simp [hi2]
  have hother : ∀ j, j ≠ imageIndex →
      (sc.imagesInFlight.set imageIndex slotFence)[j]? = sc.imagesInFlight[j]? :=
    fun j hj => List.getElem?_set_ne (Ne.symm hj)
  by_cases hq : queueSubmitResult = VK_SUCCESS
  · subst hq
    exact ⟨_, slotFence, VulkanSwapchain.submitCommandBuffers_of_success h1 h2 h3 h4 _ _, h2,
      hset, hother, List.length_set _ _ _, rfl, rfl, rfl⟩
  · exact ⟨_, slotFence, VulkanSwapchain.submitCommandBuffers_of_failure h1 h2 h3 h4 _ hq _, h2,
      hset, hother, List.length_set _ _ _, rfl, rfl, rfl⟩

/-- Witness of C8 on `exampleChain` with image index 1 and slot index 0. -/
theorem VulkanSwapchain.submitCommandBuffers_image_fence_witness :
    exampleChain.WellFormed ∧ 1 < exampleChain.imageCount
    ∧ ∃ r slotFence,
      exampleChain.submitCommandBuffers 82 1 VK_SUCCESS VK_SUCCESS = some r
      ∧ exampleChain.inFlightFences[exampleChain.currentFrame]? = some slotFence
      ∧ r.state.imagesInFlight[1]? = some slotFence
      ∧ (∀ j, j ≠ 1 → r.state.imagesInFlight[j]? = exampleChain.imagesInFlight[j]?)
      ∧ r.state.imagesInFlight.length = exampleChain.imagesInFlight.length
      ∧ r.state.imageAvailableSemaphores = exampleChain.imageAvailableSemaphores
      ∧ r.state.renderFinishedSemaphores = exampleChain.renderFinishedSemaphores
      ∧ r.state.inFlightFences = exampleChain.inFlightFences :=
  ⟨by decide, by decide,
    VulkanSwapchain.submitCommandBuffers_image_fence exampleChain (by decide) 82 1 (by decide)
      VK_SUCCESS VK_SUCCESS⟩

/-! ## Construction and recreation: definedness and effects -/

theorem Run.andThen_spec {σ β : Type} {first : Option (Run σ Unit)}
    (next : σ → Option (Run σ β)) {r1 : Run σ Unit} (h1 : first = some r1) :
    (∀ e, r1.result = Except.error e →
      Run.andThen first next
        = some { state := r1.state, calls := r1.calls, result := Except.error e })
    ∧ (∀ u r2, r1.result = Except.ok u → next r1.state = some r2 →
      Run.andThen first next = some { r2 with calls := r1.calls ++ r2.calls })
    ∧ (∀ u, r1.result = Except.ok u → next r1.state = none → Run.andThen first next = none) := by
  subst h1
  refine ⟨?_, ?_, ?_⟩
  · intro e he
    simp only [Run.andThen, he]
  · intro u r2 hu h2
    simp only [Run.andThen, hu, h2]
  · intro u hu h2
    simp only [Run.andThen, hu, h2]

theorem VulkanSwapchain.chooseSwapPresentMode_lifecycle (modes : List Nat) :
    ∀ e ∈ (VulkanSwapchain.chooseSwapPresentMode modes).1, e.isLifecycle = true := by
  induction modes with
  | nil => simp [VulkanSwapchain.chooseSwapPresentMode, Effect.isLifecycle]
  | cons m rest ih =>
    by_cases hm : m = VK_PRESENT_MODE_MAILBOX_KHR
    · simp [VulkanSwapchain.chooseSwapPresentMode, hm, Effect.isLifecycle]
    · simpa [VulkanSwapchain.chooseSwapPresentMode, hm] using ih

theorem VulkanSwapchain.chooseSwapSurfaceFormat_isSome (formats : List VkSurfaceFormatKHR)
    (hne : formats ≠ []) : ∃ f, VulkanSwapchain.chooseSwapSurfaceFormat formats = some f := by
  have hloop : ∀ rest : List VkSurfaceFormatKHR,
      ∃ f, VulkanSwapchain.chooseSwapSurfaceFormat.loop formats rest = some f := by
    intro rest
    induction rest with
    | nil =>
      cases formats with
      | nil => exact absurd rfl hne
      | cons a as => exact ⟨a, by simp [VulkanSwapchain.chooseSwapSurfaceFormat.loop]⟩
    | cons g rest ih =>
      by_cases hg : g.format = VK_FORMAT_B8G8R8A8_SRGB
          ∧ g.colorSpace = VK_COLOR_SPACE_SRGB_NONLINEAR_KHR
      · exact ⟨g, by simp only [VulkanSwapchain.chooseSwapSurfaceFormat.loop, if_pos hg]⟩
      · simpa only [VulkanSwapchain.chooseSwapSurfaceFormat.loop, if_neg hg] using ih
  exact hloop formats

theorem VulkanSwapchain.createSwapChain_spec (sc : VulkanSwapchain)
    (old : Option VulkanSwapchain) (answers : ChainAnswers)
    (hne : answers.swapChainSupport.formats ≠ []) :
    ∃ r, sc.createSwapChain old answers = some r
      ∧ (∀ e ∈ r.calls, e.isLifecycle = true) := by
  obtain ⟨f, hf⟩ := VulkanSwapchain.chooseSwapSurfaceFormat_isSome _ hne
  have hmode := VulkanSwapchain.chooseSwapPresentMode_lifecycle
    answers.swapChainSupport.presentModes
  unfold VulkanSwapchain.createSwapChain
  simp only [hf]
  split
  · split
    · refine ⟨_, rfl, ?_⟩
      intro e he
      rcases List.mem_append.mp he with h | h
      · exact hmode e h
      · rw [List.mem_singleton.mp h]; rfl
    · refine ⟨_, rfl, ?_⟩
      intro e he
      rcases List.mem_append.mp he with h | h
      · exact hmode e h
      · rw [List.mem_singleton.mp h]; rfl
  · exact ⟨_, rfl, hmode⟩

/-- Sequencing lemma: if the first step is defined and establishes `I` when it returns, and
the second step is defined on every state with `I` and establishes `J`, then the sequence is
defined and establishes `J`; effects of both keep `P`. -/
theorem Run.andThen_chain {σ β : Type} (P : Effect → Prop) (I J : σ → Prop)
    {first : Option (Run σ Unit)} {next : σ → Option (Run σ β)}
    (hfirst : ∃ r1, first = some r1 ∧ (∀ e ∈ r1.calls, P e)
      ∧ (∀ u, r1.result = Except.ok u → I r1.state))
    (hnext : ∀ s, I s → ∃ r2, next s = some r2 ∧ (∀ e ∈ r2.calls, P e)
      ∧ (∀ u, r2.result = Except.ok u → J r2.state)) :
    ∃ r, Run.andThen first next = some r ∧ (∀ e ∈ r.calls, P e)
      ∧ (∀ u, r.result = Except.ok u → J r.state) := by
  obtain ⟨r1, h1, hp1, hi1⟩ := hfirst
  obtain ⟨herr, hok, _⟩ := Run.andThen_spec next h1
  cases hres : r1.result with
  | error e =>
    refine ⟨_, herr e hres, hp1, ?_⟩
    intro u hu
    cases hu
  | ok u =>
    obtain ⟨r2, h2, hp2, hj2⟩ := hnext r1.state (hi1 u hres)
    refine ⟨_, hok u r2 hres h2, ?_, hj2⟩
    intro e he
    rcases List.mem_append.mp he with h | h
    · exact hp1 e h
    · exact hp2 e h

theorem VulkanSwapchain.createImageViews.loop_views (format : Nat)
    (answer : Nat → VkResult × Nat) (images : List Nat) :
    ∀ i, (∀ e ∈ (VulkanSwapchain.createImageViews.loop format answer i images).1,
        e.isLifecycle = true)
      ∧ (∀ views, (VulkanSwapchain.createImageViews.loop format answer i images).2
          = Except.ok views → views.length = images.length) := by
  induction images with
  | nil =>
    intro i
    refine ⟨by simp [VulkanSwapchain.createImageViews.loop], ?_⟩
    intro views hv
    simp only [VulkanSwapchain.createImageViews.loop] at hv
    injection hv with hv
    rw [← hv]
  | cons image rest ih =>
    intro i
    obtain ⟨ih1, ih2⟩ := ih (i + 1)
    by_cases ha : (answer i).1 ≠ VK_SUCCESS
    · simp only [VulkanSwapchain.createImageViews.loop, if_pos ha]
      refine ⟨by simp [Effect.isLifecycle], ?_⟩
      intro views hv
      cases hv
    · simp only [VulkanSwapchain.createImageViews.loop, if_neg ha]
      refine ⟨?_, ?_⟩
      · intro e he
        rcases List.mem_cons.mp he with h | h
        · rw [h]; rfl
        · exact ih1 e h
      · intro views hv
        cases hlater : (VulkanSwapchain.createImageViews.loop format answer (i + 1) rest).2 with
        | error e => rw [hlater] at hv; cases hv
        | ok later =>
          rw [hlater] at hv
          injection hv with hv
          rw [← hv, List.length_cons, List.length_cons, ih2 later hlater]

theorem VulkanSwapchain.createImageViews_spec (sc : VulkanSwapchain) (answers : ChainAnswers) :
    ∃ r, sc.createImageViews answers = some r
      ∧ (∀ e ∈ r.calls, e.isLifecycle = true)
      ∧ (∀ u, r.result = Except.ok u →
        r.state.m_swapChainImageViews.length = r.state.imageCount) := by
  obtain ⟨h1, h2⟩ := VulkanSwapchain.createImageViews.loop_views sc.m_swapChainImageFormat
    answers.createImageView sc.m_swapChainImages 0
  unfold VulkanSwapchain.createImageViews
  cases hres : (VulkanSwapchain.createImageViews.loop sc.m_swapChainImageFormat
      answers.createImageView 0 sc.m_swapChainImages).2 with
  | error e =>
    simp only [hres]
    refine ⟨_, rfl, h1, ?_⟩
    intro u hu
    cases hu
  | ok views =>
    simp only [hres]
    refine ⟨_, rfl, h1, ?_⟩
    intro u _
    exact h2 views hres

theorem VulkanSwapchain.createRenderPass_spec (sc : VulkanSwapchain) (answers : ChainAnswers)
    (hviews : sc.m_swapChainImageViews.length = sc.imageCount) :
    ∃ r, sc.createRenderPass answers = some r
      ∧ (∀ e ∈ r.calls, e.isLifecycle = true)
      ∧ (∀ u, r.result = Except.ok u →
        r.state.m_swapChainImageViews.length = r.state.imageCount
        ∧ r.state.m_renderpass = answers.createRenderPass.2
        ∧ answers.createRenderPass.1 = VK_SUCCESS) := by
  unfold VulkanSwapchain.createRenderPass
  by_cases ha : answers.createRenderPass.1 ≠ VK_SUCCESS
  · rw [if_pos ha]
    refine ⟨_, rfl, by simp [Effect.isLifecycle], ?_⟩
    intro u hu
    cases hu
  · rw [if_neg ha]
    exact ⟨_, rfl, by simp [Effect.isLifecycle], fun _ _ => ⟨hviews, rfl, not_not.mp ha⟩⟩

theorem VulkanSwapchain.createFramebuffers.loop_defined (sc : VulkanSwapchain)
    (answer : Nat → VkResult × Nat) :
    ∀ remaining i, i + remaining ≤ sc.m_swapChainImageViews.length →
      ∃ out, VulkanSwapchain.createFramebuffers.loop sc answer remaining i = some out
        ∧ (∀ e ∈ out.1, e.isLifecycle = true) := by
  intro remaining
  induction remaining with
  | zero =>
    intro i _
    exact ⟨_, rfl, by simp⟩
  | succ remaining ih =>
    intro i hi
    have hlt : i < sc.m_swapChainImageViews.length := by omega
    obtain ⟨later, hlater, hlife⟩ := ih (i + 1) (by omega)
    by_cases ha : (answer i).1 ≠ VK_SUCCESS
    · simp only [VulkanSwapchain.createFramebuffers.loop, List.getElem?_eq_getElem hlt,
        if_pos ha]
      exact ⟨_, rfl, by simp [Effect.isLifecycle]⟩
    · simp only [VulkanSwapchain.createFramebuffers.loop, List.getElem?_eq_getElem hlt,
        if_neg ha, hlater]
      refine ⟨_, rfl, ?_⟩
      intro e he
      rcases List.mem_cons.mp he with h | h
      · rw [h]; rfl
      · exact hlife e h

theorem VulkanSwapchain.createFramebuffers_spec (sc : VulkanSwapchain) (answers : ChainAnswers)
    (hviews : sc.m_swapChainImageViews.length = sc.imageCount) :
    ∃ r, sc.createFramebuffers answers = some r
      ∧ (∀ e ∈ r.calls, e.isLifecycle = true)
      ∧ (∀ u, r.result = Except.ok u → r.state.m_renderpass = sc.m_renderpass) := by
  obtain ⟨out, hout, hlife⟩ := VulkanSwapchain.createFramebuffers.loop_defined sc
    answers.createFramebuffer sc.imageCount 0 (by omega)
  unfold VulkanSwapchain.createFramebuffers
  cases hres : out.2 with
  | error e =>
    simp only [hout, hres]
    refine ⟨_, rfl, hlife, ?_⟩
    intro u hu
    cases hu
  | ok framebuffers =>
    simp only [hout, hres]
    exact ⟨_, rfl, hlife, fun _ _ => rfl⟩

theorem VulkanSwapchain.createSyncObjects.loop_lifecycle (answers : ChainAnswers) :
    ∀ remaining i,
      ∀ e ∈ (VulkanSwapchain.createSyncObjects.loop answers remaining i).1,
        e.isLifecycle = true := by
  intro remaining
  induction remaining with
  | zero =>
    intro i
    simp [VulkanSwapchain.createSyncObjects.loop]
  | succ remaining ih =>
    intro i
    unfold VulkanSwapchain.createSyncObjects.loop
    split_ifs
    · simp [Effect.isLifecycle]
    · simp [Effect.isLifecycle]
    · simp [Effect.isLifecycle]
    · intro e he
      rcases List.mem_append.mp he with h | h
      · simp only [List.mem_cons, List.mem_singleton, List.not_mem_nil, or_false] at h
        rcases h with h | h | h <;> (rw [h]; rfl)
      · exact ih (i + 1) e h

theorem VulkanSwapchain.createSyncObjects_spec (sc : VulkanSwapchain) (answers : ChainAnswers) :
    ∃ r, sc.createSyncObjects answers = some r
      ∧ (∀ e ∈ r.calls, e.isLifecycle = true)
      ∧ (∀ u, r.result = Except.ok u → r.state.m_renderpass = sc.m_renderpass) := by
  have hlife := VulkanSwapchain.createSyncObjects.loop_lifecycle answers
    VulkanSwapchain.MAX_FRAMES_IN_FLIGHT 0
  unfold VulkanSwapchain.createSyncObjects
  cases hres : (VulkanSwapchain.createSyncObjects.loop answers
      VulkanSwapchain.MAX_FRAMES_IN_FLIGHT 0).2 with
  | error e =>
    simp only [hres]
    refine ⟨_, rfl, hlife, ?_⟩
    intro u hu
    cases hu
  | ok created =>
    obtain ⟨a, b, c⟩ := created
    simp only [hres]
    exact ⟨_, rfl, hlife, fun _ _ => rfl⟩

theorem VulkanSwapchain.init_spec (sc : VulkanSwapchain) (old : Option VulkanSwapchain)
    (answers : ChainAnswers) (hne : answers.swapChainSupport.formats ≠ []) :
    ∃ r, sc.init old answers = some r
      ∧ (∀ e ∈ r.calls, e.isLifecycle = true)
      ∧ (∀ u, r.result = Except.ok u →
        r.state.m_renderpass = answers.createRenderPass.2
        ∧ answers.createRenderPass.1 = VK_SUCCESS) := by
  unfold VulkanSwapchain.init
  refine Run.andThen_chain (fun e => e.isLifecycle = true) (fun _ : VulkanSwapchain => True)
    (fun s : VulkanSwapchain => s.m_renderpass = answers.createRenderPass.2
      ∧ answers.createRenderPass.1 = VK_SUCCESS) ?_ ?_
  · obtain ⟨r, hr, hl⟩ := sc.createSwapChain_spec old answers hne
    exact ⟨r, hr, hl, fun _ _ => trivial⟩
  intro s1 _
  refine Run.andThen_chain (fun e => e.isLifecycle = true)
    (fun s : VulkanSwapchain => s.m_swapChainImageViews.length = s.imageCount)
    (fun s : VulkanSwapchain => s.m_renderpass = answers.createRenderPass.2
      ∧ answers.createRenderPass.1 = VK_SUCCESS) (s1.createImageViews_spec answers) ?_
  intro s2 h2
  refine Run.andThen_chain (fun e => e.isLifecycle = true)
    (fun s : VulkanSwapchain => s.m_swapChainImageViews.length = s.imageCount
      ∧ s.m_renderpass = answers.createRenderPass.2
      ∧ answers.createRenderPass.1 = VK_SUCCESS)
    (fun s : VulkanSwapchain => s.m_renderpass = answers.createRenderPass.2
      ∧ answers.createRenderPass.1 = VK_SUCCESS) (s2.createRenderPass_spec answers h2) ?_
  intro s3 h3
  refine Run.andThen_chain (fun e => e.isLifecycle = true)
    (fun s : VulkanSwapchain => s.m_renderpass = answers.createRenderPass.2
      ∧ answers.createRenderPass.1 = VK_SUCCESS)
    (fun s : VulkanSwapchain => s.m_renderpass = answers.createRenderPass.2
      ∧ answers.createRenderPass.1 = VK_SUCCESS) ?_ ?_
  · obtain ⟨r, hr, hl, hs⟩ := s3.createFramebuffers_spec answers h3.1
    exact ⟨r, hr, hl, fun u hu => ⟨(hs u hu).trans h3.2.1, h3.2.2⟩⟩
  intro s4 h4
  obtain ⟨r, hr, hl, hs⟩ := s4.createSyncObjects_spec answers
  exact ⟨r, hr, hl, fun u hu => ⟨(hs u hu).trans h4.1, h4.2⟩⟩

theorem VulkanSwapchain.destructor_spec (sc : VulkanSwapchain) (hwf : sc.WellFormed)
    (hdepth : sc.depthImages = []) :
    ∃ calls, sc.destructor = some calls ∧ ∀ e ∈ calls, e.isLifecycle = true := by
  obtain ⟨w1, w2, w3, _, _⟩ := hwf
  have hlen : VulkanSwapchain.MAX_FRAMES_IN_FLIGHT = 2 := rfl
  rw [hlen] at w1 w2 w3
  have a0 : sc.imageAvailableSemaphores[0]? = some sc.imageAvailableSemaphores[0] :=
    List.getElem?_eq_getElem (by omega)
  have a1 : sc.imageAvailableSemaphores[1]? = some sc.imageAvailableSemaphores[1] :=
    List.getElem?_eq_getElem (by omega)
  have b0 : sc.renderFinishedSemaphores[0]? = some sc.renderFinishedSemaphores[0] :=
    List.getElem?_eq_getElem (by omega)
  have b1 : sc.renderFinishedSemaphores[1]? = some sc.renderFinishedSemaphores[1] :=
    List.getElem?_eq_getElem (by omega)
  have c0 : sc.inFlightFences[0]? = some sc.inFlightFences[0] :=
    List.getElem?_eq_getElem (by omega)
  have c1 : sc.inFlightFences[1]? = some sc.inFlightFences[1] :=
    List.getElem?_eq_getElem (by omega)
  simp only [VulkanSwapchain.destructor, hdepth, List.length_nil,
    VulkanSwapchain.destroyDepthResources, hlen, VulkanSwapchain.destroySyncObjects,
    a0, a1, b0, b1, c0, c1]
  refine ⟨_, rfl, ?_⟩
  have hviews : ∀ e ∈ sc.m_swapChainImageViews.map Effect.vkDestroyImageView,
      e.isLifecycle = true := by
    intro e he
    obtain ⟨v, _, hv⟩ := List.mem_map.mp he
    rw [← hv]; rfl
  have hframebuffers : ∀ e ∈ sc.m_swapChainFramebuffers.map Effect.vkDestroyFramebuffer,
      e.isLifecycle = true := by
    intro e he
    obtain ⟨v, _, hv⟩ := List.mem_map.mp he
    rw [← hv]; rfl
  have hchain : ∀ e ∈ (if sc.m_swapchain ≠ VK_NULL_HANDLE then
      [Effect.vkDestroySwapchainKHR sc.m_swapchain] else []), e.isLifecycle = true := by
    intro e he
    split at he
    · rw [List.mem_singleton.mp he]; rfl
    · exact absurd he (List.not_mem_nil e)
  refine List.forall_mem_append.mpr ⟨List.forall_mem_append.mpr ⟨List.forall_mem_append.mpr
    ⟨List.forall_mem_append.mpr ⟨List.forall_mem_append.mpr ⟨hviews, hchain⟩, by simp⟩,
      hframebuffers⟩, by simp [Effect.isLifecycle]⟩, by simp [Effect.isLifecycle]⟩

theorem VulkanSwapchain.chain_constructor_spec (deviceRef : VulkanDevice) (extent : VkExtent2D)
    (previous : Option VulkanSwapchain) (answers : ChainAnswers)
    (hne : answers.swapChainSupport.formats ≠ [])
    (hprev : ∀ old, previous = some old → old.WellFormed ∧ old.depthImages = []) :
    ∃ out, VulkanSwapchain.constructor deviceRef extent previous answers = some out
      ∧ (∀ e ∈ out.1, e.isLifecycle = true)
      ∧ (∀ sc, out.2 = Except.ok sc →
        sc.m_renderpass = answers.createRenderPass.2
        ∧ answers.createRenderPass.1 = VK_SUCCESS) := by
  unfold VulkanSwapchain.constructor
  simp only
  obtain ⟨built, hbuilt, hlife, hstate⟩ := VulkanSwapchain.init_spec _ previous answers hne
  rw [hbuilt]
  have hrelease : ∃ releaseCalls,
      (match previous with
        | none => some []
        | some old => old.destructor) = some releaseCalls
      ∧ ∀ e ∈ releaseCalls, e.isLifecycle = true := by
    cases previous with
    | none => exact ⟨[], rfl, by simp⟩
    | some old =>
      obtain ⟨hwf, hdepth⟩ := hprev old rfl
      exact old.destructor_spec hwf hdepth
  obtain ⟨releaseCalls, hrel, hrellife⟩ := hrelease
  simp only [hrel]
  refine ⟨_, rfl, ?_, ?_⟩
  · intro e he
    rcases List.mem_append.mp he with h | h
    · exact hlife e h
    · exact hrellife e h
  · intro sc hsc
    cases hres : built.result with
    | error e => simp only [hres] at hsc; cases hsc
    | ok u =>
      simp only [hres] at hsc
      injection hsc with hsc
      rw [← hsc]
      exact hstate u hres

theorem VulkanPipeline.pipeline_constructor_spec (vertFilepath fragFilepath : String)
    (configInfo : PipelineConfigInfo) (answers : PipelineAnswers)
    (hlayout : configInfo.pipelineLayout ≠ VK_NULL_HANDLE)
    (hpass : configInfo.renderpass ≠ VK_NULL_HANDLE) :
    ∃ out, VulkanPipeline.constructor vertFilepath fragFilepath configInfo answers = some out
      ∧ ∀ e ∈ out.1, e.isLifecycle = true := by
  unfold VulkanPipeline.constructor
  rw [if_neg (by simp [hlayout, hpass])]
  split_ifs
  · exact ⟨_, rfl, by simp⟩
  · exact ⟨_, rfl, by simp⟩
  · exact ⟨_, rfl, by simp [Effect.isLifecycle]⟩
  · exact ⟨_, rfl, by simp [Effect.isLifecycle]⟩
  · exact ⟨_, rfl, by simp [Effect.isLifecycle]⟩
  · exact ⟨_, rfl, by simp [Effect.isLifecycle]⟩

theorem MApplication.createPipeline_spec (app : MApplication) (answers : PipelineAnswers)
    (swapchain : VulkanSwapchain) (hsc : app.m_swapchain = some swapchain)
    (hpass : swapchain.m_renderpass ≠ VK_NULL_HANDLE)
    (hlayout : app.m_pipelineLayout ≠ VK_NULL_HANDLE) :
    ∃ r, app.createPipeline answers = some r
      ∧ (∀ e ∈ r.calls, e.isLifecycle = true)
      ∧ r.state.m_window = app.m_window := by
  obtain ⟨out, hout, hlife⟩ := VulkanPipeline.pipeline_constructor_spec "./../shaders/shader.vert.spv"
    "./../shaders/shader.frag.spv"
    { renderpass := swapchain.m_renderpass, pipelineLayout := app.m_pipelineLayout,
      subpass := 0 } answers hlayout hpass
  unfold MApplication.createPipeline
  simp only [hsc, if_neg hlayout, hout]
  obtain ⟨calls, result⟩ := out
  cases result with
  | error e => exact ⟨_, rfl, hlife, rfl⟩
  | ok pipeline =>
    refine ⟨_, rfl, ?_, rfl⟩
    intro e he
    rcases List.mem_append.mp he with h | h
    · exact hlife e h
    · cases hold : app.m_pipeline with
      | none => rw [hold] at h; exact absurd h (List.not_mem_nil e)
      | some old =>
        rw [hold] at h
        simp only [VulkanPipeline.destructor, List.mem_cons, List.mem_singleton,
          List.not_mem_nil, or_false] at h
        rcases h with h | h | h <;> (rw [h]; rfl)

/-- Sequencing lemma with a property `K` of the state that holds however the steps end. -/
theorem Run.andThen_chain_state {σ β : Type} (P : Effect → Prop) (I J K : σ → Prop)
    (first : Option (Run σ Unit)) (next : σ → Option (Run σ β))
    (hfirst : ∃ r1, first = some r1 ∧ (∀ e ∈ r1.calls, P e) ∧ K r1.state
      ∧ (∀ u, r1.result = Except.ok u → I r1.state))
    (hnext : ∀ s, I s → K s → ∃ r2, next s = some r2 ∧ (∀ e ∈ r2.calls, P e) ∧ K r2.state
      ∧ (∀ u, r2.result = Except.ok u → J r2.state)) :
    ∃ r, Run.andThen first next = some r ∧ (∀ e ∈ r.calls, P e) ∧ K r.state
      ∧ (∀ u, r.result = Except.ok u → J r.state) := by
  obtain ⟨r1, h1, hp1, hk1, hi1⟩ := hfirst
  obtain ⟨herr, hok, _⟩ := Run.andThen_spec next h1
  cases hres : r1.result with
  | error e =>
    refine ⟨_, herr e hres, hp1, hk1, ?_⟩
    intro u hu
    cases hu
  | ok u =>
    obtain ⟨r2, h2, hp2, hk2, hj2⟩ := hnext r1.state (hi1 u hres) hk1
    refine ⟨_, hok u r2 hres h2, ?_, hk2, hj2⟩
    intro e he
    rcases List.mem_append.mp he with h | h
    · exact hp1 e h
    · exact hp2 e h

/-- The tail of `reCreateSwapchain`, `createPipeline` followed by the line on `std::cout`,
is defined on an application that holds a chain with a render pass. -/
theorem MApplication.reCreateSwapchain_finish_spec (window : MWindow)
    (answers : PipelineAnswers) (app1 : MApplication)
    (hchain : ∃ swapchain, app1.m_swapchain = some swapchain
      ∧ swapchain.m_renderpass ≠ VK_NULL_HANDLE)
    (hlayout : app1.m_pipelineLayout ≠ VK_NULL_HANDLE)
    (hwindow : app1.m_window = window) :
    ∃ r, (Run.andThen (app1.createPipeline answers) fun app2 =>
        some {
          state := app2
          calls := [Effect.cout ("width: " ++ toString app2.m_window.getExtent.width
            ++ "; height: " ++ toString app2.m_window.getExtent.height ++ "\n")]
          result := Except.ok () }) = some r
      ∧ (∀ e ∈ r.calls, e.isLifecycle = true)
      ∧ r.state.m_window = window
      ∧ (∀ u, r.result = Except.ok u → True) := by
  obtain ⟨swapchain, hsc, hpass⟩ := hchain
  refine Run.andThen_chain_state (fun e => e.isLifecycle = true)
    (fun _ : MApplication => True) (fun _ : MApplication => True)
    (fun s : MApplication => s.m_window = window) _ _ ?_ ?_
  · obtain ⟨r, hr, hl, hw⟩ := app1.createPipeline_spec answers swapchain hsc hpass hlayout
    exact ⟨r, hr, hl, hw.trans hwindow, fun _ _ => trivial⟩
  · intro s _ hs
    exact ⟨_, rfl, by simp [Effect.isLifecycle], hs, fun _ _ => trivial⟩

theorem MApplication.reCreateSwapchain_spec (app : MApplication) (answers : RecreateAnswers)
    (hold : ∀ old, app.m_swapchain = some old → old.WellFormed ∧ old.depthImages = [])
    (hlayout : app.m_pipelineLayout ≠ VK_NULL_HANDLE) (hconf : answers.Conforming) :
    ∃ r rest, app.reCreateSwapchain answers = some r
      ∧ r.calls = Effect.vkDeviceWaitIdle app.m_device.m_device :: rest
      ∧ (∀ e ∈ rest, e.isLifecycle = true)
      ∧ r.state.m_window = app.m_window := by
  obtain ⟨hformats, hpassok⟩ := hconf
  obtain ⟨out, hout, hlife, hbuilt⟩ := VulkanSwapchain.chain_constructor_spec app.m_device
    app.m_window.getExtent app.m_swapchain answers.chain hformats hold
  obtain ⟨calls, result⟩ := out
  have hbody : ∃ r0, (match app.m_swapchain with
      | none =>
        match VulkanSwapchain.constructor app.m_device app.m_window.getExtent none
            answers.chain with
        | none => none
        | some (calls, Except.error e) =>
          some { state := app, calls := calls, result := Except.error e }
        | some (calls, Except.ok swapchain) =>
          Run.andThen
            (some { state := { app with m_swapchain := some swapchain }, calls := calls,
                    result := Except.ok () })
            fun app1 =>
              Run.andThen (app1.createPipeline answers.pipeline) fun app2 =>
                some {
                  state := app2
                  calls := [Effect.cout ("width: " ++ toString app2.m_window.getExtent.width
                    ++ "; height: " ++ toString app2.m_window.getExtent.height ++ "\n")]
                  result := Except.ok () }
      | some old =>
        match VulkanSwapchain.constructor app.m_device app.m_window.getExtent (some old)
            answers.chain with
        | none => none
        | some (calls, Except.error e) =>
          some { state := { app with m_swapchain := none }, calls := calls,
                 result := Except.error e }
        | some (calls, Except.ok swapchain) =>
          Run.andThen
            (some { state := { app with m_swapchain := some swapchain }, calls := calls,
                    result := Except.ok () })
            fun app1 =>
              if swapchain.imageCount ≠ app1.m_commandBuffers.length then
                Run.andThen app1.freeCommandBuffers fun app2 =>
                Run.andThen (app2.createCommandBuffers answers.allocateCommandBuffers)
                  fun app1 =>
                    Run.andThen (app1.createPipeline answers.pipeline) fun app2 =>
                      some {
                        state := app2
                        calls := [Effect.cout ("width: "
                          ++ toString app2.m_window.getExtent.width
                          ++ "; height: " ++ toString app2.m_window.getExtent.height ++ "\n")]
                        result := Except.ok () }
              else
                Run.andThen (app1.createPipeline answers.pipeline) fun app2 =>
                  some {
                    state := app2
                    calls := [Effect.cout ("width: " ++ toString app2.m_window.getExtent.width
                      ++ "; height: " ++ toString app2.m_window.getExtent.height ++ "\n")]
                    result := Except.ok () }) = some r0
      ∧ (∀ e ∈ r0.calls, e.isLifecycle = true)
      ∧ r0.state.m_window = app.m_window := by
    cases hsc : app.m_swapchain with
    | none =>
      rw [hsc] at hout
      simp only [hout]
      cases result with
      | error e => exact ⟨_, rfl, hlife, rfl⟩
      | ok swapchain =>
        obtain ⟨hpass, hok⟩ := hbuilt swapchain rfl
        simp only
        obtain ⟨r, hr, hl, hw, _⟩ := Run.andThen_chain_state (fun e => e.isLifecycle = true)
          (fun s : MApplication => (∃ sc, s.m_swapchain = some sc
            ∧ sc.m_renderpass ≠ VK_NULL_HANDLE) ∧ s.m_pipelineLayout ≠ VK_NULL_HANDLE)
          (fun _ : MApplication => True)
          (fun s : MApplication => s.m_window = app.m_window)
          (some { state := { app with m_swapchain := some swapchain },
                  calls := calls, result := Except.ok () })
          (fun app1 =>
            Run.andThen (app1.createPipeline answers.pipeline) fun app2 =>
              some {
                state := app2
                calls := [Effect.cout ("width: " ++ toString app2.m_window.getExtent.width
                  ++ "; height: " ++ toString app2.m_window.getExtent.height ++ "\n")]
                result := Except.ok () })
          ⟨_, rfl, hlife, rfl, fun _ _ => ⟨⟨swapchain, rfl, by rw [hpass]; exact hpassok hok⟩,
            hlayout⟩⟩
          (fun s hs hk => MApplication.reCreateSwapchain_finish_spec app.m_window
            answers.pipeline s hs.1 hs.2 hk)
        exact ⟨r, hr, hl, hw⟩
    | some old =>
      rw [hsc] at hout
      simp only [hout]
      cases result with
      | error e => exact ⟨_, rfl, hlife, rfl⟩
      | ok swapchain =>
        obtain ⟨hpass, hok⟩ := hbuilt swapchain rfl
        simp only
        have hnonnull : swapchain.m_renderpass ≠ VK_NULL_HANDLE := by
          rw [hpass]; exact hpassok hok
        obtain ⟨r, hr, hl, hw, _⟩ := Run.andThen_chain_state (fun e => e.isLifecycle = true)
          (fun s : MApplication => s = { app with m_swapchain := some swapchain })
          (fun _ : MApplication => True)
          (fun s : MApplication => s.m_window = app.m_window)
          (some { state := { app with m_swapchain := some swapchain },
                  calls := calls, result := Except.ok () })
          (fun app1 =>
              if swapchain.imageCount ≠ app1.m_commandBuffers.length then
                Run.andThen app1.freeCommandBuffers fun app2 =>
                Run.andThen (app2.createCommandBuffers answers.allocateCommandBuffers)
                  fun app1 =>
                    Run.andThen (app1.createPipeline answers.pipeline) fun app2 =>
                      some {
                        state := app2
                        calls := [Effect.cout ("width: "
                          ++ toString app2.m_window.getExtent.width
                          ++ "; height: " ++ toString app2.m_window.getExtent.height ++ "\n")]
                        result := Except.ok () }
              else
                Run.andThen (app1.createPipeline answers.pipeline) fun app2 =>
                  some {
                    state := app2
                    calls := [Effect.cout ("width: " ++ toString app2.m_window.getExtent.width
                      ++ "; height: " ++ toString app2.m_window.getExtent.height ++ "\n")]
                    result := Except.ok () })
          ⟨_, rfl, hlife, rfl, fun _ _ => rfl⟩
          (by
            intro s hs _
            subst hs
            by_cases hcount : swapchain.imageCount ≠ app.m_commandBuffers.length
            · simp only [if_pos hcount]
              refine Run.andThen_chain_state (fun e => e.isLifecycle = true)
                (fun s : MApplication => s.m_swapchain = some swapchain
                  ∧ s.m_pipelineLayout = app.m_pipelineLayout)
                (fun _ : MApplication => True)
                (fun s : MApplication => s.m_window = app.m_window) _ _
                ⟨_, rfl, by simp [Effect.isLifecycle], rfl, fun _ _ => ⟨rfl, rfl⟩⟩ ?_
              intro s2 hs2 hk2
              refine Run.andThen_chain_state (fun e => e.isLifecycle = true)
                (fun s : MApplication => s.m_swapchain = some swapchain
                  ∧ s.m_pipelineLayout = app.m_pipelineLayout)
                (fun _ : MApplication => True)
                (fun s : MApplication => s.m_window = app.m_window) _ _ ?_ ?_
              · unfold MApplication.createCommandBuffers
                simp only [hs2.1]
                split_ifs
                · exact ⟨_, rfl, by simp [Effect.isLifecycle], hk2, fun _ hu => by cases hu⟩
                · exact ⟨_, rfl, by simp [Effect.isLifecycle], hk2,
                    fun _ _ => ⟨rfl, hs2.2⟩⟩
              · intro s3 hs3 hk3
                exact MApplication.reCreateSwapchain_finish_spec app.m_window answers.pipeline
                  s3 ⟨swapchain, hs3.1, hnonnull⟩ (by rw [hs3.2]; exact hlayout) hk3
            · simp only [if_neg hcount]
              exact MApplication.reCreateSwapchain_finish_spec app.m_window answers.pipeline
                _ ⟨swapchain, rfl, hnonnull⟩ hlayout rfl)
        exact ⟨r, hr, hl, hw⟩
  obtain ⟨r0, hr0, hl0, hw0⟩ := hbody
  refine ⟨{ r0 with calls := Effect.vkDeviceWaitIdle app.m_device.m_device :: r0.calls },
    r0.calls, ?_, rfl, hl0, hw0⟩
  unfold MApplication.reCreateSwapchain
  simp only
  rw [hr0]

/-! ## The frame driver -/

theorem Effect.not_recording_of_lifecycle {e : Effect} (h : e.isLifecycle = true) :
    e.isCommandRecording = false ∧ e.isQueueOperation = false
      ∧ ∀ device, e ≠ Effect.vkDeviceWaitIdle device := by
  cases e <;> simp_all [Effect.isLifecycle, Effect.isCommandRecording, Effect.isQueueOperation]

theorem VulkanSwapchain.acquireNextImage_of_wellFormed (sc : VulkanSwapchain)
    (hwf : sc.WellFormed) (answer : VkResult × Nat) :
    ∃ fence imageAvailable,
      sc.acquireNextImage answer = some {
        state := sc
        calls := [Effect.vkWaitForFences fence UINT64_MAX,
          Effect.vkAcquireNextImageKHR sc.m_swapchain UINT64_MAX imageAvailable VK_NULL_HANDLE]
        result := Except.ok answer } := by
  obtain ⟨w1, _, w3, _, w5⟩ := hwf
  have h2 : sc.inFlightFences[sc.currentFrame]? = some sc.inFlightFences[sc.currentFrame] :=
    List.getElem?_eq_getElem (by rw [w3]; exact w5)
  have h3 : sc.imageAvailableSemaphores[sc.currentFrame]?
      = some sc.imageAvailableSemaphores[sc.currentFrame] :=
    List.getElem?_eq_getElem (by rw [w1]; exact w5)
  exact ⟨sc.inFlightFences[sc.currentFrame], sc.imageAvailableSemaphores[sc.currentFrame],
    by simp only [VulkanSwapchain.acquireNextImage, h2, h3]⟩

/-- Counterexample to C9 as stated: the acquire on `exampleApplication` reports out of date
and `vkCreateSwapchainKHR` fails during the recreation; `drawFrame` does not return, the
exception "Failed to create swapchain." leaves it. -/
theorem MApplication.drawFrame_out_of_date_recreation_throws :
    (exampleApplication.drawFrame exampleFailedRecreationAnswers).map (fun r => r.result)
      = some (Except.error "Failed to create swapchain.") := by
  rfl

/-- C9 (amended): whenever `acquireNextImage` returns `VK_ERROR_OUT_OF_DATE_KHR`,
`drawFrame` does the wait and the acquire, runs `reCreateSwapchain` exactly once (its
effects and nothing else follow, with one `vkDeviceWaitIdle`), and ends as the recreation
ends: it returns when the recreation returns, after one line on `std::cout`, and it throws
what the recreation throws.  In both cases no effect of the frame records into a command
buffer, submits to a queue or presents. -/
theorem MApplication.drawFrame_acquire_out_of_date (app : MApplication) (answers : FrameAnswers)
    (hready : app.Ready) (hconf : answers.recreate.Conforming)
    (hacquire : answers.acquire.1 = VK_ERROR_OUT_OF_DATE_KHR) :
    ∃ swapchain acquired recreated r,
      app.m_swapchain = some swapchain
      ∧ swapchain.acquireNextImage answers.acquire = some acquired
      ∧ app.reCreateSwapchain answers.recreate = some recreated
      ∧ app.drawFrame answers = some r
      ∧ r.state = recreated.state
      ∧ r.result = recreated.result
      ∧ r.calls = acquired.calls ++ recreated.calls
          ++ (match recreated.result with
              | Except.ok _ => [Effect.cout "VK_ERROR_OUT_OF_DATE_KHR\n"]
              | Except.error _ => [])
      ∧ r.calls.count (Effect.vkDeviceWaitIdle app.m_device.m_device) = 1
      ∧ (∀ e ∈ r.calls, e.isCommandRecording = false ∧ e.isQueueOperation = false) := by
  obtain ⟨swapchain, pipeline, model, hsc, _, _, hwf, hdepth, _, _, _, hlayout⟩ := hready
  obtain ⟨fence, imageAvailable, hacq⟩ := swapchain.acquireNextImage_of_wellFormed hwf
    answers.acquire
  obtain ⟨recreated, rest, hrec, hcalls, hrest, _⟩ := app.reCreateSwapchain_spec
    answers.recreate
    (fun old hold => by
      rw [hsc] at hold
      injection hold with hold
      rw [← hold]
      exact ⟨hwf, hdepth⟩)
    hlayout hconf
  have hcount : ∀ l : List Effect, (∀ e ∈ l, e.isLifecycle = true) →
      l.count (Effect.vkDeviceWaitIdle app.m_device.m_device) = 0 := by
    intro l hl
    apply List.count_eq_zero.mpr
    intro hmem
    exact (Effect.not_recording_of_lifecycle (hl _ hmem)).2.2 _ rfl
  have hclean : ∀ e ∈ recreated.calls,
      e.isCommandRecording = false ∧ e.isQueueOperation = false := by
    intro e he
    rw [hcalls] at he
    rcases List.mem_cons.mp he with h | h
    · rw [h]; exact ⟨rfl, rfl⟩
    · exact ⟨(Effect.not_recording_of_lifecycle (hrest e h)).1,
        (Effect.not_recording_of_lifecycle (hrest e h)).2.1⟩
  have hdraw : app.drawFrame answers = some {
      state := recreated.state
      calls := [Effect.vkWaitForFences fence UINT64_MAX,
          Effect.vkAcquireNextImageKHR swapchain.m_swapchain UINT64_MAX imageAvailable
            VK_NULL_HANDLE] ++ recreated.calls
        ++ (match recreated.result with
            | Except.ok _ => [Effect.cout "VK_ERROR_OUT_OF_DATE_KHR\n"]
            | Except.error _ => [])
      result := recreated.result } := by
    cases hres : recreated.result with
    | error e =>
      simp only [MApplication.drawFrame, hsc, hacq, hacquire, if_true, hrec, hres,
        List.append_nil]
    | ok u =>
      simp only [MApplication.drawFrame, hsc, hacq, hacquire, if_true, hrec, hres]
  have htail : ∀ e ∈ (match recreated.result with
      | Except.ok _ => [Effect.cout "VK_ERROR_OUT_OF_DATE_KHR\n"]
      | Except.error _ => []), e.isLifecycle = true := by
    intro e he
    split at he
    · rw [List.mem_singleton.mp he]; rfl
    · exact absurd he (List.not_mem_nil e)
  refine ⟨swapchain, _, recreated, _, hsc, hacq, hrec, hdraw, rfl, rfl, rfl, ?_, ?_⟩
  · simp only [hcalls, List.cons_append, List.nil_append, List.count_cons, List.count_append,
      hcount rest hrest, hcount _ htail]
    simp
  · intro x hx
    rcases List.mem_append.mp hx with h | h
    · rcases List.mem_append.mp h with h | h
      · simp only [List.mem_cons, List.mem_singleton, List.not_mem_nil, or_false] at h
        rcases h with h | h <;> (rw [h]; exact ⟨rfl, rfl⟩)
      · exact hclean x h
    · exact ⟨(Effect.not_recording_of_lifecycle (htail x h)).1,
        (Effect.not_recording_of_lifecycle (htail x h)).2.1⟩

/-- Witness of C9 (amended) on `exampleApplication` with an out-of-date acquire. -/
theorem MApplication.drawFrame_acquire_out_of_date_witness :
    exampleApplication.Ready
    ∧ exampleOutOfDateAnswers.recreate.Conforming
    ∧ exampleOutOfDateAnswers.acquire.1 = VK_ERROR_OUT_OF_DATE_KHR
    ∧ ∃ r, exampleApplication.drawFrame exampleOutOfDateAnswers = some r
      ∧ r.calls.count (Effect.vkDeviceWaitIdle exampleApplication.m_device.m_device) = 1
      ∧ (∀ e ∈ r.calls, e.isCommandRecording = false ∧ e.isQueueOperation = false) := by
  have hready : exampleApplication.Ready :=
    ⟨exampleChain, ⟨90, 91, 92⟩, ⟨96, 4, true, 97, 6⟩, rfl, rfl, rfl, by decide, rfl, rfl, rfl,
      by decide, by decide⟩
  have hconf : exampleOutOfDateAnswers.recreate.Conforming :=
    ⟨by decide, fun _ => by decide⟩
  obtain ⟨_, _, _, r, _, _, _, hdraw, _, _, _, hcount, hclean⟩ :=
    MApplication.drawFrame_acquire_out_of_date exampleApplication exampleOutOfDateAnswers
      hready hconf rfl
  exact ⟨hready, hconf, rfl, r, hdraw, hcount, hclean⟩

theorem MApplication.recordCommandBuffer_of_ready (app : MApplication) (hready : app.Ready)
    (imgIndex : Nat)
    (hindex : ∀ swapchain, app.m_swapchain = some swapchain → imgIndex < swapchain.imageCount) :
    ∃ commandBuffer calls,
      app.m_commandBuffers[imgIndex]? = some commandBuffer
      ∧ app.recordCommandBuffer imgIndex VK_SUCCESS VK_SUCCESS
        = some { state := app, calls := calls, result := Except.ok () }
      ∧ ∀ e ∈ calls, e.isCommandRecording = true := by
  obtain ⟨swapchain, pipeline, model, hsc, hpipe, hmodel, _, _, hfb, hcb, hhandle, _⟩ := hready
  have hi := hindex swapchain hsc
  have h1 : app.m_commandBuffers[imgIndex]? = some app.m_commandBuffers[imgIndex] :=
    List.getElem?_eq_getElem (by rw [hcb]; exact hi)
  have h2 : swapchain.m_swapChainFramebuffers[imgIndex]?
      = some swapchain.m_swapChainFramebuffers[imgIndex] :=
    List.getElem?_eq_getElem (by rw [hfb]; exact hi)
  refine ⟨app.m_commandBuffers[imgIndex],
    [Effect.vkBeginCommandBuffer app.m_commandBuffers[imgIndex],
      Effect.vkCmdBeginRenderPass app.m_commandBuffers[imgIndex] swapchain.m_renderpass
        swapchain.m_swapChainFramebuffers[imgIndex] (0, 0) swapchain.m_swapChainExtent
        [0, 0, 0, 1],
      Effect.vkCmdSetViewport app.m_commandBuffers[imgIndex]
        ⟨0, 0, static_cast_float swapchain.m_swapChainExtent.width,
          static_cast_float swapchain.m_swapChainExtent.height, 0, 1⟩,
      Effect.vkCmdSetScissor app.m_commandBuffers[imgIndex] (0, 0)
        swapchain.m_swapChainExtent]
    ++ [Effect.vkCmdBindPipeline app.m_commandBuffers[imgIndex] pipeline.m_graphicsPipeline]
    ++ model.bind app.m_commandBuffers[imgIndex] ++ model.draw app.m_commandBuffers[imgIndex]
    ++ [Effect.vkCmdEndRenderPass app.m_commandBuffers[imgIndex],
      Effect.vkEndCommandBuffer app.m_commandBuffers[imgIndex]], h1, ?_, ?_⟩
  · simp only [MApplication.recordCommandBuffer, h1, hsc, h2, hpipe, hmodel,
      VulkanPipeline.bind, if_neg hhandle, ne_eq, not_true_eq_false, if_false]
  · have hbind : ∀ e ∈ model.bind app.m_commandBuffers[imgIndex],
        e.isCommandRecording = true := by
      intro e he
      unfold VulkanModel.bind at he
      rcases List.mem_cons.mp he with h | h
      · rw [h]; rfl
      · split at h
        · rw [List.mem_singleton.mp h]; rfl
        · exact absurd h (List.not_mem_nil e)
    have hdrawcalls : ∀ e ∈ model.draw app.m_commandBuffers[imgIndex],
        e.isCommandRecording = true := by
      intro e he
      unfold VulkanModel.draw at he
      split at he
      · rw [List.mem_singleton.mp he]; rfl
      · rw [List.mem_singleton.mp he]; rfl
    exact List.forall_mem_append.mpr ⟨List.forall_mem_append.mpr ⟨List.forall_mem_append.mpr
      ⟨List.forall_mem_append.mpr ⟨by simp [Effect.isCommandRecording],
        by simp [Effect.isCommandRecording]⟩, hbind⟩, hdrawcalls⟩,
      by simp [Effect.isCommandRecording]⟩

/-- C10: after a frame has been submitted (the acquire answered `VK_SUCCESS` or
`VK_SUBOPTIMAL_KHR` with an index below the image count, recording succeeded and
`vkQueueSubmit` answered `VK_SUCCESS`), `drawFrame` runs `reCreateSwapchain` if and only if
the present result is `VK_ERROR_OUT_OF_DATE_KHR` or `VK_SUBOPTIMAL_KHR` or the resized flag
of the window is set.  When it does, the recreation starts from the application with the
flag reset, its effects follow those of the frame, and the flag is false afterwards however
the recreation ends; when it does not, the effects are those of the frame alone and contain
no `vkDeviceWaitIdle`. -/
theorem MApplication.drawFrame_recreates_after_submit (app : MApplication) (answers : FrameAnswers)
    (hready : app.Ready) (hconf : answers.recreate.Conforming)
    (hacquire : answers.acquire.1 = VK_SUCCESS ∨ answers.acquire.1 = VK_SUBOPTIMAL_KHR)
    (hindex : ∀ swapchain, app.m_swapchain = some swapchain →
      answers.acquire.2 < swapchain.imageCount)
    (hbegin : answers.beginCommandBuffer = VK_SUCCESS)
    (hend : answers.endCommandBuffer = VK_SUCCESS)
    (hsubmit : answers.queueSubmit = VK_SUCCESS) :
    ∃ swapchain commandBuffer acquired recorded submitted r,
      app.m_swapchain = some swapchain
      ∧ swapchain.acquireNextImage answers.acquire = some acquired
      ∧ app.recordCommandBuffer answers.acquire.2 answers.beginCommandBuffer
          answers.endCommandBuffer = some recorded
      ∧ app.m_commandBuffers[answers.acquire.2]? = some commandBuffer
      ∧ swapchain.submitCommandBuffers commandBuffer answers.acquire.2 answers.queueSubmit
          answers.queuePresent = some submitted
      ∧ submitted.result = Except.ok answers.queuePresent
      ∧ app.drawFrame answers = some r
      ∧ ((answers.queuePresent = VK_ERROR_OUT_OF_DATE_KHR
            ∨ answers.queuePresent = VK_SUBOPTIMAL_KHR
            ∨ app.m_window.wasWindowResized = true) →
          ∃ recreated,
            MApplication.reCreateSwapchain
                { app with
                  m_swapchain := some submitted.state
                  m_window := app.m_window.resetWindowResizedFlag }
                answers.recreate = some recreated
            ∧ r.state = recreated.state
            ∧ r.result = recreated.result
            ∧ r.calls = acquired.calls ++ recorded.calls ++ submitted.calls ++ recreated.calls
                ++ (match recreated.result with
                    | Except.ok _ => [Effect.cout "m_window.wasWindowResized()\n"]
                    | Except.error _ => [])
            ∧ r.state.m_window.wasWindowResized = false)
      ∧ (¬ (answers.queuePresent = VK_ERROR_OUT_OF_DATE_KHR
            ∨ answers.queuePresent = VK_SUBOPTIMAL_KHR
            ∨ app.m_window.wasWindowResized = true) →
          r.state = { app with m_swapchain := some submitted.state }
          ∧ r.calls = acquired.calls ++ recorded.calls ++ submitted.calls)
      ∧ ((∃ device, Effect.vkDeviceWaitIdle device ∈ r.calls)
          ↔ (answers.queuePresent = VK_ERROR_OUT_OF_DATE_KHR
            ∨ answers.queuePresent = VK_SUBOPTIMAL_KHR
            ∨ app.m_window.wasWindowResized = true)) := by
  obtain ⟨acquire, beginCommandBuffer, endCommandBuffer, queueSubmit, queuePresent,
    recreate⟩ := answers
  simp only at hconf hacquire hindex hbegin hend hsubmit ⊢
  subst hbegin hend hsubmit
  obtain ⟨commandBuffer, recordCalls, hcb, hrecord, hrecording⟩ :=
    app.recordCommandBuffer_of_ready hready acquire.2 hindex
  obtain ⟨swapchain, pipeline, model, hsc, _, _, hwf, hdepth, _, _, _, hlayout⟩ := hready
  have hi := hindex swapchain hsc
  obtain ⟨fence, imageAvailable, hacq⟩ := swapchain.acquireNextImage_of_wellFormed hwf
    acquire
  obtain ⟨imageFence, slotFence, imageAvailable2, renderFinished, h1, h2, h3, h4⟩ :=
    hwf.lookups hi
  have hsubmitted := VulkanSwapchain.submitCommandBuffers_of_success h1 h2 h3 h4 commandBuffer
    queuePresent
  have hnot1 : ¬ acquire.1 = VK_ERROR_OUT_OF_DATE_KHR := by
    rcases hacquire with h | h <;> (rw [h]; decide)
  have hnot2 : ¬ (acquire.1 ≠ VK_SUCCESS ∧ acquire.1 ≠ VK_SUBOPTIMAL_KHR) := by
    rintro ⟨ha, hb⟩
    rcases hacquire with h | h
    · exact ha h
    · exact hb h
  -- effects of the frame itself never include `vkDeviceWaitIdle`
  have hframe : ∀ device, Effect.vkDeviceWaitIdle device ∉
      [Effect.vkWaitForFences fence UINT64_MAX,
        Effect.vkAcquireNextImageKHR swapchain.m_swapchain UINT64_MAX imageAvailable
          VK_NULL_HANDLE] ++ recordCalls ++
      ((if imageFence ≠ VK_NULL_HANDLE then [Effect.vkWaitForFences imageFence UINT64_MAX]
          else [])
        ++ [Effect.vkResetFences slotFence,
            Effect.vkQueueSubmit swapchain.device.m_graphicsQueue
              ⟨[imageAvailable2], [VK_PIPELINE_STAGE_COLOR_ATTACHMENT_OUTPUT_BIT],
                [commandBuffer], [renderFinished]⟩ slotFence]
        ++ [Effect.vkQueuePresentKHR swapchain.device.m_presentQueue
            ⟨[renderFinished], [swapchain.m_swapchain], [acquire.2]⟩]) := by
    intro device hmem
    rcases List.mem_append.mp hmem with h | h
    · rcases List.mem_append.mp h with h | h
      · simp at h
      · have := hrecording _ h
        simp [Effect.isCommandRecording] at this
    · by_cases hnull : imageFence ≠ VK_NULL_HANDLE
      · simp [hnull] at h
      · simp [hnull] at h
  -- the state the recreation starts from
  have hold : ∀ old,
      ({ app with
          m_swapchain := some { swapchain with
            imagesInFlight := swapchain.imagesInFlight.set acquire.2 slotFence
            currentFrame :=
              (swapchain.currentFrame + 1) % VulkanSwapchain.MAX_FRAMES_IN_FLIGHT }
          m_window := app.m_window.resetWindowResizedFlag } : MApplication).m_swapchain
        = some old → old.WellFormed ∧ old.depthImages = [] := by
    intro old hold
    injection hold with hold
    rw [← hold]
    obtain ⟨w1, w2, w3, w4, _⟩ := hwf
    refine ⟨⟨w1, w2, w3, ?_, Nat.mod_lt _ (show 0 < VulkanSwapchain.MAX_FRAMES_IN_FLIGHT by decide)⟩,
      hdepth⟩
    simpa [VulkanSwapchain.imageCount] using w4
  obtain ⟨recreated, rest, hrec, hcalls, hrest, hwindow⟩ :=
    MApplication.reCreateSwapchain_spec _ recreate hold hlayout hconf
  by_cases hcond : queuePresent = VK_ERROR_OUT_OF_DATE_KHR
      ∨ queuePresent = VK_SUBOPTIMAL_KHR ∨ app.m_window.wasWindowResized = true
  · have hdraw : app.drawFrame ⟨acquire, VK_SUCCESS, VK_SUCCESS, VK_SUCCESS, queuePresent,
        recreate⟩ = some {
        state := recreated.state
        calls := [Effect.vkWaitForFences fence UINT64_MAX,
            Effect.vkAcquireNextImageKHR swapchain.m_swapchain UINT64_MAX imageAvailable
              VK_NULL_HANDLE] ++ recordCalls ++
          ((if imageFence ≠ VK_NULL_HANDLE then
              [Effect.vkWaitForFences imageFence UINT64_MAX] else [])
            ++ [Effect.vkResetFences slotFence,
                Effect.vkQueueSubmit swapchain.device.m_graphicsQueue
                  ⟨[imageAvailable2], [VK_PIPELINE_STAGE_COLOR_ATTACHMENT_OUTPUT_BIT],
                    [commandBuffer], [renderFinished]⟩ slotFence]
            ++ [Effect.vkQueuePresentKHR swapchain.device.m_presentQueue
                ⟨[renderFinished], [swapchain.m_swapchain], [acquire.2]⟩])
          ++ recreated.calls
          ++ (match recreated.result with
              | Except.ok _ => [Effect.cout "m_window.wasWindowResized()\n"]
              | Except.error _ => [])
        result := recreated.result } := by
      cases hres : recreated.result with
      | error e =>
        simp only [MApplication.drawFrame, hsc, hacq, if_neg hnot1, if_neg hnot2, hrecord, hcb,
          hsubmitted, if_pos hcond, hrec, hres, List.append_nil]
      | ok u =>
        simp only [MApplication.drawFrame, hsc, hacq, if_neg hnot1, if_neg hnot2, hrecord, hcb,
          hsubmitted, if_pos hcond, hrec, hres]
    refine ⟨swapchain, commandBuffer, _, _, _, _, hsc, hacq, hrecord, hcb, hsubmitted, rfl,
      hdraw, ?_, fun h => absurd hcond h, ?_⟩
    · intro _
      exact ⟨recreated, hrec, rfl, rfl, rfl, by
        show recreated.state.m_window.wasWindowResized = false
        rw [hwindow]; rfl⟩
    · refine ⟨fun _ => hcond, fun _ => ⟨app.m_device.m_device, ?_⟩⟩
      apply List.mem_append_left
      apply List.mem_append_right
      rw [hcalls]
      exact List.mem_cons_self _ _
  · have hdraw : app.drawFrame ⟨acquire, VK_SUCCESS, VK_SUCCESS, VK_SUCCESS, queuePresent,
        recreate⟩ = some {
        state := { app with
          m_swapchain := some { swapchain with
            imagesInFlight := swapchain.imagesInFlight.set acquire.2 slotFence
            currentFrame :=
              (swapchain.currentFrame + 1) % VulkanSwapchain.MAX_FRAMES_IN_FLIGHT } }
        calls := [Effect.vkWaitForFences fence UINT64_MAX,
            Effect.vkAcquireNextImageKHR swapchain.m_swapchain UINT64_MAX imageAvailable
              VK_NULL_HANDLE] ++ recordCalls ++
          ((if imageFence ≠ VK_NULL_HANDLE then
              [Effect.vkWaitForFences imageFence UINT64_MAX] else [])
            ++ [Effect.vkResetFences slotFence,
                Effect.vkQueueSubmit swapchain.device.m_graphicsQueue
                  ⟨[imageAvailable2], [VK_PIPELINE_STAGE_COLOR_ATTACHMENT_OUTPUT_BIT],
                    [commandBuffer], [renderFinished]⟩ slotFence]
            ++ [Effect.vkQueuePresentKHR swapchain.device.m_presentQueue
                ⟨[renderFinished], [swapchain.m_swapchain], [acquire.2]⟩])
        result :=
          if queuePresent ≠ VK_SUCCESS then
            Except.error "Failed to present swapchain image."
          else Except.ok () } := by
      by_cases hsucc : queuePresent ≠ VK_SUCCESS
      · simp only [MApplication.drawFrame, hsc, hacq, if_neg hnot1, if_neg hnot2, hrecord, hcb,
          hsubmitted, if_neg hcond, if_pos hsucc]
      · simp only [MApplication.drawFrame, hsc, hacq, if_neg hnot1, if_neg hnot2, hrecord, hcb,
          hsubmitted, if_neg hcond, if_neg hsucc]
    refine ⟨swapchain, commandBuffer, _, _, _, _, hsc, hacq, hrecord, hcb, hsubmitted, rfl,
      hdraw, fun h => absurd h hcond, fun _ => ⟨rfl, rfl⟩, ?_⟩
    constructor
    · rintro ⟨device, hmem⟩
      exact absurd hmem (hframe device)
    · intro h
      exact absurd h hcond

/-- Witness of C10 on `exampleApplication`, whose resized flag is set, with every call of
the frame succeeding. -/
theorem MApplication.drawFrame_recreates_after_submit_witness :
    exampleApplication.Ready
    ∧ exampleFrameAnswers.recreate.Conforming
    ∧ (exampleFrameAnswers.acquire.1 = VK_SUCCESS
      ∨ exampleFrameAnswers.acquire.1 = VK_SUBOPTIMAL_KHR)
    ∧ (∀ swapchain, exampleApplication.m_swapchain = some swapchain →
      exampleFrameAnswers.acquire.2 < swapchain.imageCount)
    ∧ exampleFrameAnswers.beginCommandBuffer = VK_SUCCESS
    ∧ exampleFrameAnswers.endCommandBuffer = VK_SUCCESS
    ∧ exampleFrameAnswers.queueSubmit = VK_SUCCESS
    ∧ ∃ r, exampleApplication.drawFrame exampleFrameAnswers = some r
      ∧ (∃ device, Effect.vkDeviceWaitIdle device ∈ r.calls)
      ∧ r.state.m_window.wasWindowResized = false := by
  have hready : exampleApplication.Ready :=
    ⟨exampleChain, ⟨90, 91, 92⟩, ⟨96, 4, true, 97, 6⟩, rfl, rfl, rfl, by decide, rfl, rfl, rfl,
      by decide, by decide⟩
  have hconf : exampleFrameAnswers.recreate.Conforming :=
    ⟨by decide, fun _ => by decide⟩
  have hindex : ∀ swapchain, exampleApplication.m_swapchain = some swapchain →
      exampleFrameAnswers.acquire.2 < swapchain.imageCount := by
    intro swapchain hsc
    have h : swapchain = exampleChain := (Option.some.inj hsc).symm
    rw [h]
    decide
  have hcond : exampleFrameAnswers.queuePresent = VK_ERROR_OUT_OF_DATE_KHR
      ∨ exampleFrameAnswers.queuePresent = VK_SUBOPTIMAL_KHR
      ∨ exampleApplication.m_window.wasWindowResized = true := Or.inr (Or.inr rfl)
  obtain ⟨_, _, _, _, _, r, _, _, _, _, _, _, hdraw, hrecreate, _, hmarker⟩ :=
    MApplication.drawFrame_recreates_after_submit exampleApplication exampleFrameAnswers
      hready hconf (Or.inl rfl) hindex rfl rfl rfl
  obtain ⟨_, _, _, _, _, hflag⟩ := hrecreate hcond
  exact ⟨hready, hconf, Or.inl rfl, hindex, rfl, rfl, rfl, r, hdraw, hmarker.mpr hcond, hflag⟩

/-! ## Timeouts and answers of the fence waits -/

/-- Counterexample to C13 as stated: the fence wait and the acquire of `acquireNextImage` on
`exampleChain`, and the fence wait of `submitCommandBuffers` on `exampleBusyChain`, are given
the timeout `UINT64_MAX`, which is not strictly below `UINT64_MAX`. -/
theorem VulkanSwapchain.acquireNextImage_timeout_is_unbounded :
    (exampleChain.acquireNextImage (VK_SUCCESS, 1)).map
        (fun r => r.calls.map Effect.timeout) = some [some UINT64_MAX, some UINT64_MAX]
    ∧ (exampleBusyChain.submitCommandBuffers 82 1 VK_SUCCESS VK_SUCCESS).map
        (fun r => r.calls.filterMap Effect.timeout) = some [UINT64_MAX]
    ∧ ¬ (UINT64_MAX < UINT64_MAX) := by
  decide

/-- C13 (amended): on a chain with the sizes its constructor establishes and for an image
index below the image count, `acquireNextImage` issues one fence wait and one acquire and
`submitCommandBuffers` issues one fence wait exactly when `imagesInFlight[i]` is non-null;
every one of these is given the timeout `UINT64_MAX`, the value that disables the timeout. -/
theorem VulkanSwapchain.frame_operations_timeouts (sc : VulkanSwapchain) (hwf : sc.WellFormed)
    (answer : VkResult × Nat) (buffers imageIndex : Nat) (hindex : imageIndex < sc.imageCount)
    (queueSubmitResult queuePresentResult : VkResult) :
    ∃ acquired submitted imageFence,
      sc.acquireNextImage answer = some acquired
      ∧ sc.submitCommandBuffers buffers imageIndex queueSubmitResult queuePresentResult
        = some submitted
      ∧ sc.imagesInFlight[imageIndex]? = some imageFence
      ∧ acquired.calls.map Effect.timeout = [some UINT64_MAX, some UINT64_MAX]
      ∧ submitted.calls.filterMap Effect.timeout
        = (if imageFence ≠ VK_NULL_HANDLE then [UINT64_MAX] else [])
      ∧ (∀ e ∈ acquired.calls ++ submitted.calls, ∀ t, e.timeout = some t → t = UINT64_MAX) := by
  obtain ⟨fence, imageAvailable, hacq⟩ := sc.acquireNextImage_of_wellFormed hwf answer
  obtain ⟨imageFence, slotFence, available, renderFinished, h1, h2, h3, h4⟩ :=
    hwf.lookups hindex
  have hsub : ∃ submitted,
      sc.submitCommandBuffers buffers imageIndex queueSubmitResult queuePresentResult
        = some submitted
      ∧ submitted.calls.filterMap Effect.timeout
        = (if imageFence ≠ VK_NULL_HANDLE then [UINT64_MAX] else []) := by
    by_cases hq : queueSubmitResult = VK_SUCCESS
    · subst hq
      refine ⟨_, VulkanSwapchain.submitCommandBuffers_of_success h1 h2 h3 h4 buffers
        queuePresentResult, ?_⟩
      by_cases hf : imageFence ≠ VK_NULL_HANDLE
      · simp only [if_pos hf]
        rfl
      · simp only [if_neg hf]
        rfl
    · refine ⟨_, VulkanSwapchain.submitCommandBuffers_of_failure h1 h2 h3 h4 buffers hq
        queuePresentResult, ?_⟩
      by_cases hf : imageFence ≠ VK_NULL_HANDLE
      · simp only [if_pos hf]
        rfl
      · simp only [if_neg hf]
        rfl
  obtain ⟨submitted, hsubmitted, htimeouts⟩ := hsub
  refine ⟨_, submitted, imageFence, hacq, hsubmitted, h1, rfl, htimeouts, ?_⟩
  intro e he t ht
  rcases List.mem_append.mp he with h | h
  · simp only [List.mem_cons, List.mem_singleton, List.not_mem_nil, or_false] at h
    rcases h with h | h
    · rw [h] at ht
      simp only [Effect.timeout, Option.some.injEq] at ht
      exact ht.symm
    · rw [h] at ht
      simp only [Effect.timeout, Option.some.injEq] at ht
      exact ht.symm
  · have hmem : t ∈ submitted.calls.filterMap Effect.timeout :=
      List.mem_filterMap.mpr ⟨e, h, ht⟩
    rw [htimeouts] at hmem
    split at hmem
    · exact List.mem_singleton.mp hmem
    · exact absurd hmem (List.not_mem_nil t)

/-- Witness of C13 (amended) on `exampleBusyChain`, image 1. -/
theorem VulkanSwapchain.frame_operations_timeouts_witness :
    exampleBusyChain.WellFormed ∧ 1 < exampleBusyChain.imageCount
    ∧ ∃ acquired submitted,
      exampleBusyChain.acquireNextImage (VK_SUCCESS, 1) = some acquired
      ∧ exampleBusyChain.submitCommandBuffers 82 1 VK_SUCCESS VK_SUCCESS = some submitted
      ∧ (∀ e ∈ acquired.calls ++ submitted.calls, ∀ t, e.timeout = some t → t = UINT64_MAX) := by
  obtain ⟨acquired, submitted, _, h1, h2, _, _, _, h3⟩ :=
    VulkanSwapchain.frame_operations_timeouts exampleBusyChain (by decide) (VK_SUCCESS, 1) 82 1
      (by decide) VK_SUCCESS VK_SUCCESS
  exact ⟨by decide, by decide, acquired, submitted, h1, h2, h3⟩

/-- Counterexample to C14 as stated: on `exampleBusyChain` the fence wait of
`acquireNextImage` answers `VK_TIMEOUT` and the fence wait of `submitCommandBuffers` answers
`VK_ERROR_DEVICE_LOST`; the image is acquired after the first wait, the command buffer is
submitted and presented after the second, and the frame cycle returns the present result. -/
theorem VulkanSwapchain.frameCycle_continues_after_failed_wait :
    (VulkanSwapchain.frameCycle.withWaitResults exampleBusyChain VK_TIMEOUT VK_ERROR_DEVICE_LOST
        ⟨(VK_SUCCESS, 1), 82, VK_SUCCESS, VK_SUCCESS⟩).map (fun r => (r.calls, r.result))
      = some ([Effect.vkWaitForFences 31 UINT64_MAX,
          Effect.vkAcquireNextImageKHR 40 UINT64_MAX 11 0,
          Effect.vkWaitForFences 32 UINT64_MAX,
          Effect.vkResetFences 31,
          Effect.vkQueueSubmit 3 ⟨[11], [1024], [82], [21]⟩ 31,
          Effect.vkQueuePresentKHR 4 ⟨[21], [40], [1]⟩], Except.ok VK_SUCCESS) := by
  rfl

/-- C14 (amended): whatever the fence waits inside `acquireNextImage` and
`submitCommandBuffers` answer, success or not, the answer is discarded and the frame goes on
as after a successful wait.  On a chain with the sizes its constructor establishes and for
an acquired index below the image count, `acquireNextImage` issues the acquire after its
wait and returns the acquire's answer; `submitCommandBuffers` issues, after its wait (made
exactly when `imagesInFlight[i]` is non-null), the fence reset and the submission of the
command buffer, and throws only when the submission itself fails; the whole frame cycle is
the one obtained with successful waits. -/
theorem VulkanSwapchain.frame_operations_discard_wait_result (sc : VulkanSwapchain)
    (hwf : sc.WellFormed) (slotWait imageWait : VkResult) (a : CycleAnswers)
    (hindex : a.acquire.2 < sc.imageCount) :
    ∃ slotFence imageFence imageAvailable renderFinished submitted,
      VulkanSwapchain.acquireNextImage.withWaitResult sc slotWait a.acquire = some {
        state := sc
        calls := [Effect.vkWaitForFences slotFence UINT64_MAX,
          Effect.vkAcquireNextImageKHR sc.m_swapchain UINT64_MAX imageAvailable VK_NULL_HANDLE]
        result := Except.ok a.acquire }
      ∧ VulkanSwapchain.submitCommandBuffers.withWaitResult sc imageWait a.commandBuffer
          a.acquire.2 a.queueSubmit a.queuePresent = some submitted
      ∧ submitted.calls =
          (if imageFence ≠ VK_NULL_HANDLE then [Effect.vkWaitForFences imageFence UINT64_MAX]
            else [])
          ++ [Effect.vkResetFences slotFence,
              Effect.vkQueueSubmit sc.device.m_graphicsQueue
                ⟨[imageAvailable], [VK_PIPELINE_STAGE_COLOR_ATTACHMENT_OUTPUT_BIT],
                  [a.commandBuffer], [renderFinished]⟩ slotFence]
          ++ (if a.queueSubmit = VK_SUCCESS then
                [Effect.vkQueuePresentKHR sc.device.m_presentQueue
                  ⟨[renderFinished], [sc.m_swapchain], [a.acquire.2]⟩]
              else [])
      ∧ submitted.result =
          (if a.queueSubmit = VK_SUCCESS then Except.ok a.queuePresent
            else Except.error "Failed to submit draw command buffer.")
      ∧ VulkanSwapchain.frameCycle.withWaitResults sc slotWait imageWait a
        = VulkanSwapchain.frameCycle.withWaitResults sc VK_SUCCESS VK_SUCCESS a := by
  obtain ⟨imageFence, slotFence, imageAvailable, renderFinished, h1, h2, h3, h4⟩ :=
    hwf.lookups hindex
  have hacq : VulkanSwapchain.acquireNextImage.withWaitResult sc slotWait a.acquire = some {
      state := sc
      calls := [Effect.vkWaitForFences slotFence UINT64_MAX,
        Effect.vkAcquireNextImageKHR sc.m_swapchain UINT64_MAX imageAvailable VK_NULL_HANDLE]
      result := Except.ok a.acquire } := by
    simp only [VulkanSwapchain.acquireNextImage.withWaitResult,
      VulkanSwapchain.acquireNextImage, h2, h3]
  by_cases hq : a.queueSubmit = VK_SUCCESS
  · have hs := VulkanSwapchain.submitCommandBuffers_of_success h1 h2 h3 h4 a.commandBuffer
      a.queuePresent
    rw [← hq] at hs
    refine ⟨slotFence, imageFence, imageAvailable, renderFinished, _, hacq, hs, ?_, ?_, rfl⟩
    · simp only [if_pos hq]
    · simp only [if_pos hq]
  · have hs := VulkanSwapchain.submitCommandBuffers_of_failure h1 h2 h3 h4 a.commandBuffer hq
      a.queuePresent
    refine ⟨slotFence, imageFence, imageAvailable, renderFinished, _, hacq, hs, ?_, ?_, rfl⟩
    · simp only [if_neg hq, List.append_nil]
    · simp only [if_neg hq]

/-- Witness of C14 (amended) on `exampleBusyChain`: both waits fail, the frame cycle is the
one with successful waits. -/
theorem VulkanSwapchain.frame_operations_discard_wait_result_witness :
    exampleBusyChain.WellFormed ∧ 1 < exampleBusyChain.imageCount
    ∧ VulkanSwapchain.frameCycle.withWaitResults exampleBusyChain VK_TIMEOUT
        VK_ERROR_DEVICE_LOST ⟨(VK_SUCCESS, 1), 82, VK_SUCCESS, VK_SUCCESS⟩
      = VulkanSwapchain.frameCycle.withWaitResults exampleBusyChain VK_SUCCESS VK_SUCCESS
        ⟨(VK_SUCCESS, 1), 82, VK_SUCCESS, VK_SUCCESS⟩ := by
  obtain ⟨_, _, _, _, _, _, _, _, _, h⟩ :=
    VulkanSwapchain.frame_operations_discard_wait_result exampleBusyChain (by decide)
      VK_TIMEOUT VK_ERROR_DEVICE_LOST ⟨(VK_SUCCESS, 1), 82, VK_SUCCESS, VK_SUCCESS⟩ (by decide)
  exact ⟨by decide, by decide, h⟩

/-! ## The frame driver: acquire and present outcomes -/

theorem MApplication.recordCommandBuffer_defined (app : MApplication) (hready : app.Ready)
    (imgIndex : Nat)
    (hindex : ∀ swapchain, app.m_swapchain = some swapchain → imgIndex < swapchain.imageCount)
    (beginResult endResult : VkResult) :
    ∃ commandBuffer recorded tail,
      app.m_commandBuffers[imgIndex]? = some commandBuffer
      ∧ app.recordCommandBuffer imgIndex beginResult endResult = some recorded
      ∧ recorded.state = app
      ∧ recorded.calls = Effect.vkBeginCommandBuffer commandBuffer :: tail
      ∧ (∀ e ∈ tail, e.isCommandRecording = true)
      ∧ recorded.result =
          (if beginResult ≠ VK_SUCCESS then
            Except.error "Failed to begin recording command buffer."
          else if endResult ≠ VK_SUCCESS then Except.error "Failed to record command buffer."
          else Except.ok ()) := by
  obtain ⟨commandBuffer, calls, hcb, hrecord, hrecording⟩ :=
    app.recordCommandBuffer_of_ready hready imgIndex hindex
  obtain ⟨swapchain, pipeline, model, hsc, hpipe, hmodel, _, _, hfb, _, hhandle, _⟩ := hready
  have hi := hindex swapchain hsc
  have h2 : swapchain.m_swapChainFramebuffers[imgIndex]?
      = some swapchain.m_swapChainFramebuffers[imgIndex] :=
    List.getElem?_eq_getElem (by rw [hfb]; exact hi)
  by_cases hb : beginResult ≠ VK_SUCCESS
  · refine ⟨commandBuffer, ⟨app, [Effect.vkBeginCommandBuffer commandBuffer],
      Except.error "Failed to begin recording command buffer."⟩, [], hcb, ?_, rfl, rfl,
      by simp, ?_⟩
    · simp only [MApplication.recordCommandBuffer, hcb, if_pos hb]
    · simp only [if_pos hb]
  · have hshape : ∃ tail, calls = Effect.vkBeginCommandBuffer commandBuffer :: tail := by
      simp only [MApplication.recordCommandBuffer, hcb, hsc, h2, hpipe, hmodel,
        VulkanPipeline.bind, if_neg hhandle, ne_eq, not_true_eq_false, if_false,
        Option.some.injEq, Run.mk.injEq, true_and, and_true] at hrecord
      exact ⟨_, hrecord.symm⟩
    obtain ⟨tail, htail⟩ := hshape
    have htailrec : ∀ e ∈ tail, e.isCommandRecording = true := by
      intro e he
      exact hrecording e (by rw [htail]; exact List.mem_cons_of_mem _ he)
    have hcalls : ∀ endResult : VkResult, ∃ recorded,
        app.recordCommandBuffer imgIndex beginResult endResult = some recorded
        ∧ recorded.state = app ∧ recorded.calls = calls
        ∧ recorded.result = (if endResult ≠ VK_SUCCESS then
            Except.error "Failed to record command buffer." else Except.ok ()) := by
      intro endResult
      simp only [MApplication.recordCommandBuffer, hcb, hsc, h2, hpipe, hmodel,
        VulkanPipeline.bind, if_neg hhandle, ne_eq, not_true_eq_false, if_false,
        Option.some.injEq, Run.mk.injEq, true_and, and_true] at hrecord
      by_cases he : endResult ≠ VK_SUCCESS
      · refine ⟨⟨app, calls, Except.error "Failed to record command buffer."⟩, ?_, rfl, rfl, ?_⟩
        · simp only [MApplication.recordCommandBuffer, hcb, if_neg hb, hsc, h2, hpipe, hmodel,
            VulkanPipeline.bind, if_neg hhandle, if_pos he, hrecord]
        · simp only [if_pos he]
      · refine ⟨⟨app, calls, Except.ok ()⟩, ?_, rfl, rfl, ?_⟩
        · simp only [MApplication.recordCommandBuffer, hcb, if_neg hb, hsc, h2, hpipe, hmodel,
            VulkanPipeline.bind, if_neg hhandle, if_neg he, hrecord]
        · simp only [if_neg he]
    obtain ⟨recorded, hrec, hstate, hrc, hres⟩ := hcalls endResult
    refine ⟨commandBuffer, recorded, tail, hcb, hrec, hstate, by rw [hrc, htail], htailrec, ?_⟩
    rw [hres, if_neg hb]

theorem MApplication.drawFrame_of_acquire_failure {app : MApplication} {answers : FrameAnswers}
    {swapchain : VulkanSwapchain} {acquired : Run VulkanSwapchain (VkResult × Nat)}
    (hsc : app.m_swapchain = some swapchain)
    (hacq : swapchain.acquireNextImage answers.acquire = some acquired)
    (h1 : answers.acquire.1 ≠ VK_ERROR_OUT_OF_DATE_KHR)
    (h2 : answers.acquire.1 ≠ VK_SUCCESS ∧ answers.acquire.1 ≠ VK_SUBOPTIMAL_KHR) :
    app.drawFrame answers = some {
      state := app
      calls := acquired.calls
      result := Except.error "Failed to acquire swapchain image." } := by
  simp only [MApplication.drawFrame, hsc, hacq, if_neg h1, if_pos h2]

theorem MApplication.drawFrame_of_record_failure {app : MApplication} {answers : FrameAnswers}
    {swapchain : VulkanSwapchain} {acquired : Run VulkanSwapchain (VkResult × Nat)}
    {recorded : Run MApplication Unit} {e : String}
    (hsc : app.m_swapchain = some swapchain)
    (hacq : swapchain.acquireNextImage answers.acquire = some acquired)
    (h1 : answers.acquire.1 ≠ VK_ERROR_OUT_OF_DATE_KHR)
    (h2 : ¬ (answers.acquire.1 ≠ VK_SUCCESS ∧ answers.acquire.1 ≠ VK_SUBOPTIMAL_KHR))
    (hrec : app.recordCommandBuffer answers.acquire.2 answers.beginCommandBuffer
      answers.endCommandBuffer = some recorded)
    (hres : recorded.result = Except.error e) :
    app.drawFrame answers = some {
      state := recorded.state
      calls := acquired.calls ++ recorded.calls
      result := Except.error e } := by
  simp only [MApplication.drawFrame, hsc, hacq, if_neg h1, if_neg h2, hrec, hres]

theorem MApplication.drawFrame_of_submit_failure {app : MApplication} {answers : FrameAnswers}
    {swapchain : VulkanSwapchain} {acquired : Run VulkanSwapchain (VkResult × Nat)}
    {recorded : Run MApplication Unit} {commandBuffer : Nat}
    {submitted : Run VulkanSwapchain VkResult} {e : String}
    (hsc : app.m_swapchain = some swapchain)
    (hacq : swapchain.acquireNextImage answers.acquire = some acquired)
    (h1 : answers.acquire.1 ≠ VK_ERROR_OUT_OF_DATE_KHR)
    (h2 : ¬ (answers.acquire.1 ≠ VK_SUCCESS ∧ answers.acquire.1 ≠ VK_SUBOPTIMAL_KHR))
    (hrec : app.recordCommandBuffer answers.acquire.2 answers.beginCommandBuffer
      answers.endCommandBuffer = some recorded)
    (hres : recorded.result = Except.ok ())
    (hcb : app.m_commandBuffers[answers.acquire.2]? = some commandBuffer)
    (hsub : swapchain.submitCommandBuffers commandBuffer answers.acquire.2 answers.queueSubmit
      answers.queuePresent = some submitted)
    (hsubres : submitted.result = Except.error e) :
    app.drawFrame answers = some {
      state := { app with m_swapchain := some submitted.state }
      calls := acquired.calls ++ recorded.calls ++ submitted.calls
      result := Except.error e } := by
  simp only [MApplication.drawFrame, hsc, hacq, if_neg h1, if_neg h2, hrec, hres, hcb, hsub,
    hsubres]

theorem MApplication.drawFrame_of_present_recreation {app : MApplication}
    {answers : FrameAnswers}
    {swapchain : VulkanSwapchain} {acquired : Run VulkanSwapchain (VkResult × Nat)}
    {recorded : Run MApplication Unit} {commandBuffer : Nat}
    {submitted : Run VulkanSwapchain VkResult} {present : VkResult}
    {recreated : Run MApplication Unit}
    (hsc : app.m_swapchain = some swapchain)
    (hacq : swapchain.acquireNextImage answers.acquire = some acquired)
    (h1 : answers.acquire.1 ≠ VK_ERROR_OUT_OF_DATE_KHR)
    (h2 : ¬ (answers.acquire.1 ≠ VK_SUCCESS ∧ answers.acquire.1 ≠ VK_SUBOPTIMAL_KHR))
    (hrec : app.recordCommandBuffer answers.acquire.2 answers.beginCommandBuffer
      answers.endCommandBuffer = some recorded)
    (hres : recorded.result = Except.ok ())
    (hcb : app.m_commandBuffers[answers.acquire.2]? = some commandBuffer)
    (hsub : swapchain.submitCommandBuffers commandBuffer answers.acquire.2 answers.queueSubmit
      answers.queuePresent = some submitted)
    (hsubres : submitted.result = Except.ok present)
    (hcond : present = VK_ERROR_OUT_OF_DATE_KHR ∨ present = VK_SUBOPTIMAL_KHR
      ∨ app.m_window.wasWindowResized = true)
    (hrecreate : MApplication.reCreateSwapchain
      { app with
        m_swapchain := some submitted.state
        m_window := app.m_window.resetWindowResizedFlag } answers.recreate = some recreated) :
    app.drawFrame answers = some {
      state := recreated.state
      calls := acquired.calls ++ recorded.calls ++ submitted.calls ++ recreated.calls
        ++ (match recreated.result with
            | Except.ok _ => [Effect.cout "m_window.wasWindowResized()\n"]
            | Except.error _ => [])
      result := recreated.result } := by
  cases hrr : recreated.result with
  | error e =>
    simp only [MApplication.drawFrame, hsc, hacq, if_neg h1, if_neg h2, hrec, hres, hcb, hsub,
      hsubres, if_pos hcond, hrecreate, hrr, List.append_nil]
  | ok u =>
    simp only [MApplication.drawFrame, hsc, hacq, if_neg h1, if_neg h2, hrec, hres, hcb, hsub,
      hsubres, if_pos hcond, hrecreate, hrr]

theorem MApplication.drawFrame_of_present_plain {app : MApplication}
    {answers : FrameAnswers}
    {swapchain : VulkanSwapchain} {acquired : Run VulkanSwapchain (VkResult × Nat)}
    {recorded : Run MApplication Unit} {commandBuffer : Nat}
    {submitted : Run VulkanSwapchain VkResult} {present : VkResult}
    (hsc : app.m_swapchain = some swapchain)
    (hacq : swapchain.acquireNextImage answers.acquire = some acquired)
    (h1 : answers.acquire.1 ≠ VK_ERROR_OUT_OF_DATE_KHR)
    (h2 : ¬ (answers.acquire.1 ≠ VK_SUCCESS ∧ answers.acquire.1 ≠ VK_SUBOPTIMAL_KHR))
    (hrec : app.recordCommandBuffer answers.acquire.2 answers.beginCommandBuffer
      answers.endCommandBuffer = some recorded)
    (hres : recorded.result = Except.ok ())
    (hcb : app.m_commandBuffers[answers.acquire.2]? = some commandBuffer)
    (hsub : swapchain.submitCommandBuffers commandBuffer answers.acquire.2 answers.queueSubmit
      answers.queuePresent = some submitted)
    (hsubres : submitted.result = Except.ok present)
    (hcond : ¬ (present = VK_ERROR_OUT_OF_DATE_KHR ∨ present = VK_SUBOPTIMAL_KHR
      ∨ app.m_window.wasWindowResized = true)) :
    app.drawFrame answers = some {
      state := { app with m_swapchain := some submitted.state }
      calls := acquired.calls ++ recorded.calls ++ submitted.calls
      result :=
        if present ≠ VK_SUCCESS then Except.error "Failed to present swapchain image."
        else Except.ok () } := by
  by_cases hp : present ≠ VK_SUCCESS
  · simp only [MApplication.drawFrame, hsc, hacq, if_neg h1, if_neg h2, hrec, hres, hcb, hsub,
      hsubres, if_neg hcond, if_pos hp]
  · simp only [MApplication.drawFrame, hsc, hacq, if_neg h1, if_neg h2, hrec, hres, hcb, hsub,
      hsubres, if_neg hcond, if_neg hp]
/-- Counterexample to C11 as stated: on `exampleApplication`, whose resized flag is set, the
present answers `VK_ERROR_DEVICE_LOST`, which is none of success, suboptimal and out of date;
`drawFrame` raises no error, it recreates the chain and returns. -/
theorem MApplication.drawFrame_present_failure_with_resize_returns :
    (exampleApplication.drawFrame examplePresentFailureAnswers).map (fun r => r.result)
      = some (Except.ok ())
    ∧ exampleApplication.m_window.wasWindowResized = true
    ∧ examplePresentFailureAnswers.queuePresent ≠ VK_SUCCESS
    ∧ examplePresentFailureAnswers.queuePresent ≠ VK_SUBOPTIMAL_KHR
    ∧ examplePresentFailureAnswers.queuePresent ≠ VK_ERROR_OUT_OF_DATE_KHR := by
  refine ⟨rfl, rfl, by decide, by decide, by decide⟩

/-- Counterexample to C12 as stated: on `exampleApplication` the acquire answers
`VK_SUCCESS` with image 1 and `vkBeginCommandBuffer` fails; `drawFrame` throws after the
begin call and submits nothing. -/
theorem MApplication.drawFrame_failed_recording_submits_nothing :
    (exampleApplication.drawFrame exampleFailedRecordingAnswers).map
        (fun r => (r.calls, r.result))
      = some ([Effect.vkWaitForFences 31 UINT64_MAX,
          Effect.vkAcquireNextImageKHR 40 UINT64_MAX 11 0,
          Effect.vkBeginCommandBuffer 82],
        Except.error "Failed to begin recording command buffer.") := by
  rfl
/-- C11 (amended): after a frame has been submitted (the acquire answered `VK_SUCCESS` or
`VK_SUBOPTIMAL_KHR` with an index below the image count, recording succeeded and
`vkQueueSubmit` answered `VK_SUCCESS`), for every present result that is none of
`VK_SUCCESS`, `VK_SUBOPTIMAL_KHR` and `VK_ERROR_OUT_OF_DATE_KHR`: when the resized flag of
the window is not set, `drawFrame` throws "Failed to present swapchain image." without any
recreation; when the flag is set, `drawFrame` resets the flag, runs `reCreateSwapchain` and
ends as the recreation ends, so the present failure raises no error. -/
theorem MApplication.drawFrame_present_failure (app : MApplication) (answers : FrameAnswers)
    (hready : app.Ready) (hconf : answers.recreate.Conforming)
    (hacquire : answers.acquire.1 = VK_SUCCESS ∨ answers.acquire.1 = VK_SUBOPTIMAL_KHR)
    (hindex : ∀ swapchain, app.m_swapchain = some swapchain →
      answers.acquire.2 < swapchain.imageCount)
    (hbegin : answers.beginCommandBuffer = VK_SUCCESS)
    (hend : answers.endCommandBuffer = VK_SUCCESS)
    (hsubmit : answers.queueSubmit = VK_SUCCESS)
    (hpresent : answers.queuePresent ≠ VK_SUCCESS ∧ answers.queuePresent ≠ VK_SUBOPTIMAL_KHR
      ∧ answers.queuePresent ≠ VK_ERROR_OUT_OF_DATE_KHR) :
    ∃ swapchain commandBuffer submitted r,
      app.m_swapchain = some swapchain
      ∧ app.m_commandBuffers[answers.acquire.2]? = some commandBuffer
      ∧ swapchain.submitCommandBuffers commandBuffer answers.acquire.2 answers.queueSubmit
          answers.queuePresent = some submitted
      ∧ submitted.result = Except.ok answers.queuePresent
      ∧ app.drawFrame answers = some r
      ∧ (app.m_window.wasWindowResized = false →
          r.result = Except.error "Failed to present swapchain image."
          ∧ r.state = { app with m_swapchain := some submitted.state }
          ∧ ∀ device, Effect.vkDeviceWaitIdle device ∉ r.calls)
      ∧ (app.m_window.wasWindowResized = true →
          ∃ recreated,
            MApplication.reCreateSwapchain
                { app with
                  m_swapchain := some submitted.state
                  m_window := app.m_window.resetWindowResizedFlag }
                answers.recreate = some recreated
            ∧ r.result = recreated.result
            ∧ r.state = recreated.state
            ∧ Effect.vkDeviceWaitIdle app.m_device.m_device ∈ r.calls
            ∧ r.state.m_window.wasWindowResized = false) := by
  obtain ⟨commandBuffer, recorded, tail, hcb, hrec, _, hreccalls, htail, hrecres⟩ :=
    app.recordCommandBuffer_defined hready answers.acquire.2 hindex answers.beginCommandBuffer
      answers.endCommandBuffer
  rw [hbegin, hend] at hrecres
  have hrecok : recorded.result = Except.ok () := by
    rw [hrecres]; rfl
  obtain ⟨swapchain, pipeline, model, hsc, _, _, hwf, hdepth, _, _, _, hlayout⟩ := hready
  have hi := hindex swapchain hsc
  obtain ⟨fence, imageAvailable, hacq⟩ := swapchain.acquireNextImage_of_wellFormed hwf
    answers.acquire
  obtain ⟨imageFence, slotFence, imageAvailable2, renderFinished, h1, h2, h3, h4⟩ :=
    hwf.lookups hi
  have hsub := VulkanSwapchain.submitCommandBuffers_of_success h1 h2 h3 h4 commandBuffer
    answers.queuePresent
  rw [← hsubmit] at hsub
  have hnot1 : answers.acquire.1 ≠ VK_ERROR_OUT_OF_DATE_KHR := by
    rcases hacquire with h | h <;> (rw [h]; decide)
  have hnot2 : ¬ (answers.acquire.1 ≠ VK_SUCCESS ∧ answers.acquire.1 ≠ VK_SUBOPTIMAL_KHR) := by
    rintro ⟨ha, hb⟩
    rcases hacquire with h | h
    · exact ha h
    · exact hb h
  by_cases hflag : app.m_window.wasWindowResized = true
  · have hold : ∀ old,
        ({ app with
            m_swapchain := some { swapchain with
              imagesInFlight := swapchain.imagesInFlight.set answers.acquire.2 slotFence
              currentFrame :=
                (swapchain.currentFrame + 1) % VulkanSwapchain.MAX_FRAMES_IN_FLIGHT }
            m_window := app.m_window.resetWindowResizedFlag } : MApplication).m_swapchain
          = some old → old.WellFormed ∧ old.depthImages = [] := by
      intro old hold
      injection hold with hold
      rw [← hold]
      obtain ⟨w1, w2, w3, w4, _⟩ := hwf
      refine ⟨⟨w1, w2, w3, ?_,
        Nat.mod_lt _ (show 0 < VulkanSwapchain.MAX_FRAMES_IN_FLIGHT by decide)⟩, hdepth⟩
      simpa [VulkanSwapchain.imageCount] using w4
    obtain ⟨recreated, rest, hrecreate, hcalls, _, hwindow⟩ :=
      MApplication.reCreateSwapchain_spec _ answers.recreate hold hlayout hconf
    have hdraw := MApplication.drawFrame_of_present_recreation hsc hacq hnot1 hnot2 hrec hrecok
      hcb hsub rfl (Or.inr (Or.inr hflag)) hrecreate
    refine ⟨swapchain, commandBuffer, _, _, hsc, hcb, hsub, rfl, hdraw, ?_, ?_⟩
    · intro hfalse
      rw [hflag] at hfalse
      cases hfalse
    · intro _
      refine ⟨recreated, hrecreate, rfl, rfl, ?_, ?_⟩
      · apply List.mem_append_left
        apply List.mem_append_right
        rw [hcalls]
        exact List.mem_cons_self _ _
      · show recreated.state.m_window.wasWindowResized = false
        rw [hwindow]
        rfl
  · have hcond : ¬ (answers.queuePresent = VK_ERROR_OUT_OF_DATE_KHR
        ∨ answers.queuePresent = VK_SUBOPTIMAL_KHR
        ∨ app.m_window.wasWindowResized = true) := by
      rintro (h | h | h)
      · exact hpresent.2.2 h
      · exact hpresent.2.1 h
      · exact hflag h
    have hdraw := MApplication.drawFrame_of_present_plain hsc hacq hnot1 hnot2 hrec hrecok
      hcb hsub rfl hcond
    refine ⟨swapchain, commandBuffer, _, _, hsc, hcb, hsub, rfl, hdraw, ?_, ?_⟩
    · intro _
      refine ⟨?_, rfl, ?_⟩
      · show (if answers.queuePresent ≠ VK_SUCCESS then
            Except.error "Failed to present swapchain image." else Except.ok ())
          = Except.error "Failed to present swapchain image."
        rw [if_pos hpresent.1]
      · intro device hmem
        rcases List.mem_append.mp hmem with h | h
        · rcases List.mem_append.mp h with h | h
          · simp at h
          · rw [hreccalls] at h
            rcases List.mem_cons.mp h with h | h
            · cases h
            · have := htail _ h
              simp [Effect.isCommandRecording] at this
        · by_cases hnull : imageFence ≠ VK_NULL_HANDLE
          · simp [hnull] at h
          · simp [hnull] at h
    · intro h
      exact absurd h hflag

/-- Witness of C11 (amended) on `exampleApplication`, whose resized flag is set, with a present
that answers `VK_ERROR_DEVICE_LOST`. -/
theorem MApplication.drawFrame_present_failure_witness :
    exampleApplication.Ready
    ∧ examplePresentFailureAnswers.recreate.Conforming
    ∧ ∃ r, exampleApplication.drawFrame examplePresentFailureAnswers = some r
      ∧ (exampleApplication.m_window.wasWindowResized = false →
          r.result = Except.error "Failed to present swapchain image.")
      ∧ (exampleApplication.m_window.wasWindowResized = true →
          r.state.m_window.wasWindowResized = false) := by
  have hready : exampleApplication.Ready :=
    ⟨exampleChain, ⟨90, 91, 92⟩, ⟨96, 4, true, 97, 6⟩, rfl, rfl, rfl, by decide, rfl, rfl, rfl,
      by decide, by decide⟩
  have hconf : examplePresentFailureAnswers.recreate.Conforming :=
    ⟨by decide, fun _ => by decide⟩
  obtain ⟨_, _, _, r, _, _, _, _, hdraw, hplain, hflag⟩ :=
    MApplication.drawFrame_present_failure exampleApplication examplePresentFailureAnswers
      hready hconf (Or.inl rfl)
      (fun swapchain hsc => by
        have h : swapchain = exampleChain := by
          injection hsc with hsc
          exact hsc.symm
        rw [h]
        decide)
      rfl rfl rfl ⟨by decide, by decide, by decide⟩
  exact ⟨hready, hconf, r, hdraw, fun h => (hplain h).1,
    fun h => by
      obtain ⟨_, _, _, _, _, hw⟩ := hflag h
      exact hw⟩
/-- C12 (amended): for every acquire result that is none of `VK_SUCCESS`,
`VK_SUBOPTIMAL_KHR` and `VK_ERROR_OUT_OF_DATE_KHR` (so also for `VK_TIMEOUT` and
`VK_NOT_READY`), `drawFrame` throws "Failed to acquire swapchain image." after the wait and
the acquire alone, before anything is recorded or submitted.  For `VK_SUCCESS` and
`VK_SUBOPTIMAL_KHR` with an index below the image count it goes on to record the command
buffer of the acquired image, starting with `vkBeginCommandBuffer` on it; when the recording
throws (the begin or the end call failed) `drawFrame` throws the same error and nothing
further is issued, and when the recording succeeds the submission of that command buffer
follows. -/
theorem MApplication.drawFrame_acquire_outcomes (app : MApplication) (answers : FrameAnswers)
    (hready : app.Ready) (hconf : answers.recreate.Conforming) :
    ∃ swapchain acquired,
      app.m_swapchain = some swapchain
      ∧ swapchain.acquireNextImage answers.acquire = some acquired
      ∧ (∀ e ∈ acquired.calls, e.isCommandRecording = false ∧ e.isQueueOperation = false)
      ∧ ((answers.acquire.1 ≠ VK_SUCCESS ∧ answers.acquire.1 ≠ VK_SUBOPTIMAL_KHR
            ∧ answers.acquire.1 ≠ VK_ERROR_OUT_OF_DATE_KHR) →
          app.drawFrame answers = some {
            state := app
            calls := acquired.calls
            result := Except.error "Failed to acquire swapchain image." })
      ∧ ((answers.acquire.1 = VK_SUCCESS ∨ answers.acquire.1 = VK_SUBOPTIMAL_KHR) →
          answers.acquire.2 < swapchain.imageCount →
          ∃ commandBuffer recorded recordTail r rest,
            app.m_commandBuffers[answers.acquire.2]? = some commandBuffer
            ∧ app.recordCommandBuffer answers.acquire.2 answers.beginCommandBuffer
                answers.endCommandBuffer = some recorded
            ∧ recorded.calls = Effect.vkBeginCommandBuffer commandBuffer :: recordTail
            ∧ recorded.result =
                (if answers.beginCommandBuffer ≠ VK_SUCCESS then
                  Except.error "Failed to begin recording command buffer."
                else if answers.endCommandBuffer ≠ VK_SUCCESS then
                  Except.error "Failed to record command buffer."
                else Except.ok ())
            ∧ app.drawFrame answers = some r
            ∧ r.calls = acquired.calls ++ recorded.calls ++ rest
            ∧ (∀ e, recorded.result = Except.error e → r.result = Except.error e ∧ rest = [])
            ∧ (recorded.result = Except.ok () →
                ∃ submitted later,
                  swapchain.submitCommandBuffers commandBuffer answers.acquire.2
                      answers.queueSubmit answers.queuePresent = some submitted
                  ∧ rest = submitted.calls ++ later
                  ∧ ∃ pre post info fence,
                    submitted.calls = pre ++ Effect.vkQueueSubmit
                      swapchain.device.m_graphicsQueue info fence :: post
                    ∧ info.pCommandBuffers = [commandBuffer])) := by
  have hready0 := hready
  obtain ⟨swapchain, pipeline, model, hsc, _, _, hwf, hdepth, _, _, _, hlayout⟩ := hready
  obtain ⟨fence, imageAvailable, hacq⟩ := swapchain.acquireNextImage_of_wellFormed hwf
    answers.acquire
  refine ⟨swapchain, _, hsc, hacq, ?_, ?_, ?_⟩
  · intro e he
    simp only [List.mem_cons, List.mem_singleton, List.not_mem_nil, or_false] at he
    rcases he with h | h <;> (rw [h]; exact ⟨rfl, rfl⟩)
  · intro hfatal
    exact MApplication.drawFrame_of_acquire_failure hsc hacq hfatal.2.2 ⟨hfatal.1, hfatal.2.1⟩
  · intro hacquire hi
    have hindex : ∀ sc, app.m_swapchain = some sc → answers.acquire.2 < sc.imageCount := by
      intro sc h
      rw [hsc] at h
      injection h with h
      rw [← h]
      exact hi
    obtain ⟨commandBuffer, recorded, tail, hcb, hrec, _, hreccalls, _, hrecres⟩ :=
      app.recordCommandBuffer_defined hready0 answers.acquire.2 hindex
        answers.beginCommandBuffer answers.endCommandBuffer
    have hnot1 : answers.acquire.1 ≠ VK_ERROR_OUT_OF_DATE_KHR := by
      rcases hacquire with h | h <;> (rw [h]; decide)
    have hnot2 : ¬ (answers.acquire.1 ≠ VK_SUCCESS
        ∧ answers.acquire.1 ≠ VK_SUBOPTIMAL_KHR) := by
      rintro ⟨ha, hb⟩
      rcases hacquire with h | h
      · exact ha h
      · exact hb h
    obtain ⟨imageFence, slotFence, imageAvailable2, renderFinished, h1, h2, h3, h4⟩ :=
      hwf.lookups hi
    cases hres : recorded.result with
    | error e =>
      have hdraw := MApplication.drawFrame_of_record_failure hsc hacq hnot1 hnot2 hrec hres
      refine ⟨commandBuffer, recorded, tail, _, [], hcb, hrec, hreccalls, ?_, hdraw, ?_, ?_, ?_⟩
      · rw [← hrecres, hres]
      · simp only [List.append_nil]
      · intro e2 he2
        rw [hres] at he2
        exact ⟨he2, rfl⟩
      · intro hok
        rw [hres] at hok
        cases hok
    | ok u =>
      have hrecok : recorded.result = Except.ok () := hres
      have hsubmit : ∃ submitted,
          swapchain.submitCommandBuffers commandBuffer answers.acquire.2 answers.queueSubmit
            answers.queuePresent = some submitted
          ∧ submitted.result =
              (if answers.queueSubmit = VK_SUCCESS then Except.ok answers.queuePresent
                else Except.error "Failed to submit draw command buffer.")
          ∧ ∃ pre post info fence,
              submitted.calls = pre ++ Effect.vkQueueSubmit
                swapchain.device.m_graphicsQueue info fence :: post
              ∧ info.pCommandBuffers = [commandBuffer] := by
        by_cases hq : answers.queueSubmit = VK_SUCCESS
        · have hsub := VulkanSwapchain.submitCommandBuffers_of_success h1 h2 h3 h4
            commandBuffer answers.queuePresent
          rw [← hq] at hsub
          exact ⟨_, hsub, by simp only [if_pos hq],
            (if imageFence ≠ VK_NULL_HANDLE then
              [Effect.vkWaitForFences imageFence UINT64_MAX] else [])
              ++ [Effect.vkResetFences slotFence],
            [Effect.vkQueuePresentKHR swapchain.device.m_presentQueue
              ⟨[renderFinished], [swapchain.m_swapchain], [answers.acquire.2]⟩],
            ⟨[imageAvailable2], [VK_PIPELINE_STAGE_COLOR_ATTACHMENT_OUTPUT_BIT],
              [commandBuffer], [renderFinished]⟩, slotFence, by simp, rfl⟩
        · have hsub := VulkanSwapchain.submitCommandBuffers_of_failure h1 h2 h3 h4
            commandBuffer hq answers.queuePresent
          exact ⟨_, hsub, by simp only [if_neg hq],
            (if imageFence ≠ VK_NULL_HANDLE then
              [Effect.vkWaitForFences imageFence UINT64_MAX] else [])
              ++ [Effect.vkResetFences slotFence], [],
            ⟨[imageAvailable2], [VK_PIPELINE_STAGE_COLOR_ATTACHMENT_OUTPUT_BIT],
              [commandBuffer], [renderFinished]⟩, slotFence, by simp, rfl⟩
      obtain ⟨submitted, hsub, hsubres, hshape⟩ := hsubmit
      by_cases hq : answers.queueSubmit = VK_SUCCESS
      · rw [if_pos hq] at hsubres
        by_cases hcond : answers.queuePresent = VK_ERROR_OUT_OF_DATE_KHR
            ∨ answers.queuePresent = VK_SUBOPTIMAL_KHR
            ∨ app.m_window.wasWindowResized = true
        · have hstate : submitted.state.WellFormed ∧ submitted.state.depthImages = [] := by
            have hs := VulkanSwapchain.submitCommandBuffers_of_success h1 h2 h3 h4
              commandBuffer answers.queuePresent
            rw [← hq, hsub] at hs
            injection hs with hs
            rw [hs]
            obtain ⟨w1, w2, w3, w4, _⟩ := hwf
            refine ⟨⟨w1, w2, w3, ?_,
              Nat.mod_lt _ (show 0 < VulkanSwapchain.MAX_FRAMES_IN_FLIGHT by decide)⟩, hdepth⟩
            simpa [VulkanSwapchain.imageCount] using w4
          have hold : ∀ old,
              ({ app with
                  m_swapchain := some submitted.state
                  m_window := app.m_window.resetWindowResizedFlag }
                : MApplication).m_swapchain
                = some old → old.WellFormed ∧ old.depthImages = [] := by
            intro old hold
            injection hold with hold
            rw [← hold]
            exact hstate
          obtain ⟨recreated, _, hrecreate, _, _, _⟩ :=
            MApplication.reCreateSwapchain_spec _ answers.recreate hold hlayout hconf
          have hdraw := MApplication.drawFrame_of_present_recreation hsc hacq hnot1 hnot2 hrec
            hrecok hcb hsub hsubres hcond hrecreate
          refine ⟨commandBuffer, recorded, tail, _,
            submitted.calls ++ (recreated.calls
              ++ (match recreated.result with
                  | Except.ok _ => [Effect.cout "m_window.wasWindowResized()\n"]
                  | Except.error _ => [])),
            hcb, hrec, hreccalls, ?_, hdraw, ?_, ?_, ?_⟩
          · rw [← hrecres, hres]
          · simp only [List.append_assoc]
          · intro e2 he2
            rw [hres] at he2
            cases he2
          · intro _
            exact ⟨submitted, _, hsub, rfl, hshape⟩
        · have hdraw := MApplication.drawFrame_of_present_plain hsc hacq hnot1 hnot2 hrec
            hrecok hcb hsub hsubres hcond
          refine ⟨commandBuffer, recorded, tail, _, submitted.calls, hcb, hrec, hreccalls, ?_,
            hdraw, rfl, ?_, ?_⟩
          · rw [← hrecres, hres]
          · intro e2 he2
            rw [hres] at he2
            cases he2
          · intro _
            exact ⟨submitted, [], hsub, by simp only [List.append_nil], hshape⟩
      · rw [if_neg hq] at hsubres
        have hdraw := MApplication.drawFrame_of_submit_failure hsc hacq hnot1 hnot2 hrec
          hrecok hcb hsub hsubres
        refine ⟨commandBuffer, recorded, tail, _, submitted.calls, hcb, hrec, hreccalls, ?_,
          hdraw, rfl, ?_, ?_⟩
        · rw [← hrecres, hres]
        · intro e2 he2
          rw [hres] at he2
          cases he2
        · intro _
          exact ⟨submitted, [], hsub, by simp only [List.append_nil], hshape⟩

/-- Witness of C12 (amended) on `exampleApplication`: with `exampleFrameAnswers` the acquire
succeeds and the frame goes on to record; the theorem applies to it. -/
theorem MApplication.drawFrame_acquire_outcomes_witness :
    exampleApplication.Ready
    ∧ exampleFrameAnswers.recreate.Conforming
    ∧ ∃ swapchain acquired,
      exampleApplication.m_swapchain = some swapchain
      ∧ swapchain.acquireNextImage exampleFrameAnswers.acquire = some acquired
      ∧ (∀ e ∈ acquired.calls, e.isCommandRecording = false ∧ e.isQueueOperation = false) := by
  have hready : exampleApplication.Ready :=
    ⟨exampleChain, ⟨90, 91, 92⟩, ⟨96, 4, true, 97, 6⟩, rfl, rfl, rfl, by decide, rfl, rfl, rfl,
      by decide, by decide⟩
  have hconf : exampleFrameAnswers.recreate.Conforming :=
    ⟨by decide, fun _ => by decide⟩
  obtain ⟨swapchain, acquired, hsc, hacq, hclean, _, _⟩ :=
    MApplication.drawFrame_acquire_outcomes exampleApplication exampleFrameAnswers hready hconf
  exact ⟨hready, hconf, swapchain, acquired, hsc, hacq, hclean⟩

/-! ## The main loop -/

theorem MWindow.handleEvent_effects (w : MWindow) (e : SDL_Event) :
    ∀ x ∈ (w.handleEvent e).2,
      (∃ text, x = Effect.cout text) ∨ (∃ flags, x = Effect.SDL_SetWindowFullscreen flags) := by
  have hkey : ∀ v : MWindow, ∀ x ∈ (MWindow.handleEvent.keyDown v e).2,
      (∃ text, x = Effect.cout text)
        ∨ (∃ flags, x = Effect.SDL_SetWindowFullscreen flags) := by
    intro v x hx
    unfold MWindow.handleEvent.keyDown at hx
    split_ifs at hx
    · exact Or.inr ⟨_, List.mem_singleton.mp hx⟩
    · exact Or.inr ⟨_, List.mem_singleton.mp hx⟩
    · exact absurd hx (List.not_mem_nil x)
  have hwindow : ∀ x ∈ (MWindow.handleEvent.windowEvent w e).2,
      (∃ text, x = Effect.cout text)
        ∨ (∃ flags, x = Effect.SDL_SetWindowFullscreen flags) := by
    intro x hx
    unfold MWindow.handleEvent.windowEvent at hx
    split_ifs at hx
    · exact absurd hx (List.not_mem_nil x)
    · exact Or.inl ⟨_, List.mem_singleton.mp hx⟩
    · exact Or.inl ⟨_, List.mem_singleton.mp hx⟩
    · exact Or.inl ⟨_, List.mem_singleton.mp hx⟩
    · exact Or.inl ⟨_, List.mem_singleton.mp hx⟩
    · exact absurd hx (List.not_mem_nil x)
  intro x hx
  unfold MWindow.handleEvent at hx
  split_ifs at hx
  · exact absurd hx (List.not_mem_nil x)
  · rcases List.mem_append.mp hx with h | h
    · exact hwindow x h
    · exact hkey _ x h
  · exact hkey _ x hx
  · exact absurd hx (List.not_mem_nil x)

theorem MApplication.run.pollEvents_effects (events : List SDL_Event) :
    ∀ w : MWindow, ∀ x ∈ (MApplication.run.pollEvents w events).2,
      (∃ text, x = Effect.cout text) ∨ (∃ flags, x = Effect.SDL_SetWindowFullscreen flags) := by
  induction events with
  | nil =>
    intro w x hx
    exact absurd hx (List.not_mem_nil x)
  | cons e rest ih =>
    intro w x hx
    simp only [MApplication.run.pollEvents] at hx
    rcases List.mem_append.mp hx with h | h
    · exact w.handleEvent_effects e x h
    · exact ih _ x h

/-- C15: in an iteration of the loop of `run` (the window is not closing when it starts) in
which the window is minimized once the events of the iteration have been handled,
`drawFrame` is not called: the iteration ends with the application unchanged except for the
window, whatever the environment would have answered to a frame; its effects are those of
the event handling alone, lines on `std::cout` and calls of `SDL_SetWindowFullscreen`, so no
image is acquired, nothing is recorded and nothing is handed to a queue; and `run` goes on
with the rest of the loop from that state. -/
theorem MApplication.run_skips_frame_when_minimized (app : MApplication)
    (events : List SDL_Event) (answers : FrameAnswers)
    (rest : List (List SDL_Event × FrameAnswers))
    (hopen : app.m_window.isClosing = false)
    (hminimized : (MApplication.run.pollEvents app.m_window events).1.isMinimized = true) :
    MApplication.run.iteration app events answers = some {
      state := { app with m_window := (MApplication.run.pollEvents app.m_window events).1 }
      calls := (MApplication.run.pollEvents app.m_window events).2
      result := Except.ok () }
    ∧ (∀ e ∈ (MApplication.run.pollEvents app.m_window events).2,
        (∀ swapchain timeout semaphore fence,
          e ≠ Effect.vkAcquireNextImageKHR swapchain timeout semaphore fence)
        ∧ e.isCommandRecording = false ∧ e.isQueueOperation = false)
    ∧ app.run ((events, answers) :: rest) =
        (match MApplication.run
            { app with m_window := (MApplication.run.pollEvents app.m_window events).1 }
            rest with
          | none => none
          | some later =>
            some { later with
              calls := (MApplication.run.pollEvents app.m_window events).2 ++ later.calls }) := by
  have hiter : MApplication.run.iteration app events answers = some {
      state := { app with m_window := (MApplication.run.pollEvents app.m_window events).1 }
      calls := (MApplication.run.pollEvents app.m_window events).2
      result := Except.ok () } := by
    simp only [MApplication.run.iteration, hminimized, Bool.true_eq_false, if_false]
  refine ⟨hiter, ?_, ?_⟩
  · intro e he
    rcases MApplication.run.pollEvents_effects events app.m_window e he with ⟨text, h⟩ | ⟨f, h⟩
    · rw [h]
      exact ⟨(fun _ _ _ _ hne => by cases hne), rfl, rfl⟩
    · rw [h]
      exact ⟨(fun _ _ _ _ hne => by cases hne), rfl, rfl⟩
  · simp only [MApplication.run, hopen, Bool.false_eq_true, if_false, hiter]

/-- Witness of C15 on `exampleApplication`: one iteration whose only event minimizes the
window. -/
theorem MApplication.run_skips_frame_when_minimized_witness :
    exampleApplication.m_window.isClosing = false
    ∧ (MApplication.run.pollEvents exampleApplication.m_window
        [⟨SDL_WINDOWEVENT, SDL_WINDOWEVENT_MINIMIZED, 0, 0, 0⟩]).1.isMinimized = true
    ∧ MApplication.run.iteration exampleApplication
        [⟨SDL_WINDOWEVENT, SDL_WINDOWEVENT_MINIMIZED, 0, 0, 0⟩] exampleFrameAnswers
      = some {
        state := { exampleApplication with
          m_window := { exampleApplication.m_window with m_minimized := true } }
        calls := [Effect.cout "minimized\n"]
        result := Except.ok () } :=
  ⟨rfl, rfl,
    (MApplication.run_skips_frame_when_minimized exampleApplication
      [⟨SDL_WINDOWEVENT, SDL_WINDOWEVENT_MINIMIZED, 0, 0, 0⟩] exampleFrameAnswers [] rfl rfl).1⟩

/-! ## Recreation: what a completed call leaves -/

/-- Inversion of a sequence that returned: both steps returned, the second from the state the
first left, and the effects are those of the first followed by those of the second. -/
theorem Run.andThen_ok {σ β : Type} {first : Option (Run σ Unit)} {next : σ → Option (Run σ β)}
    {r : Run σ β} {b : β} (h : Run.andThen first next = some r) (hok : r.result = Except.ok b) :
    ∃ r1 r2, first = some r1 ∧ r1.result = Except.ok () ∧ next r1.state = some r2
      ∧ r2.result = Except.ok b ∧ r.state = r2.state ∧ r.calls = r1.calls ++ r2.calls := by
  unfold Run.andThen at h
  cases first with
  | none => cases h
  | some r1 =>
    simp only at h
    cases hres : r1.result with
    | error e =>
      simp only [hres] at h
      injection h with h
      rw [← h] at hok
      cases hok
    | ok u =>
      simp only [hres] at h
      cases hn : next r1.state with
      | none =>
        simp only [hn] at h
        cases h
      | some r2 =>
        simp only [hn] at h
        injection h with h
        rw [← h] at hok
        exact ⟨r1, r2, rfl, hres, hn, hok, by rw [← h], by rw [← h]⟩

theorem MApplication.createPipeline_ok {app : MApplication} {answers : PipelineAnswers}
    {r : Run MApplication Unit} (h : app.createPipeline answers = some r)
    (hok : r.result = Except.ok ()) :
    ∃ swapchain pipelineCalls pipeline,
      app.m_swapchain = some swapchain
      ∧ app.m_pipelineLayout ≠ VK_NULL_HANDLE
      ∧ VulkanPipeline.constructor "./../shaders/shader.vert.spv" "./../shaders/shader.frag.spv"
          { pipelineLayout := app.m_pipelineLayout, renderpass := swapchain.m_renderpass,
            subpass := 0 } answers = some (pipelineCalls, Except.ok pipeline)
      ∧ r.state = { app with m_pipeline := some pipeline }
      ∧ r.calls = pipelineCalls ++
          (match app.m_pipeline with
           | none => []
           | some old => old.destructor) := by
  unfold MApplication.createPipeline at h
  cases hsc : app.m_swapchain with
  | none =>
    simp only [hsc] at h
    cases h
  | some swapchain =>
    simp only [hsc] at h
    by_cases hlayout : app.m_pipelineLayout = VK_NULL_HANDLE
    · simp only [if_pos hlayout] at h
      cases h
    · simp only [if_neg hlayout] at h
      cases hctor : VulkanPipeline.constructor "./../shaders/shader.vert.spv"
          "./../shaders/shader.frag.spv"
          { pipelineLayout := app.m_pipelineLayout, renderpass := swapchain.m_renderpass,
            subpass := 0 } answers with
      | none =>
        simp only [hctor] at h
        cases h
      | some out =>
        obtain ⟨calls, result⟩ := out
        cases result with
        | error e =>
          simp only [hctor] at h
          injection h with h
          rw [← h] at hok
          cases hok
        | ok pipeline =>
          simp only [hctor] at h
          injection h with h
          subst h
          exact ⟨swapchain, calls, pipeline, rfl, hlayout, hctor, rfl, rfl⟩

/-- The tail of `reCreateSwapchain`, `createPipeline` followed by the line on `std::cout`,
when it returned. -/
theorem MApplication.reCreateSwapchain_finish_ok {app1 : MApplication}
    {answers : PipelineAnswers} {r : Run MApplication Unit}
    (h : (Run.andThen (app1.createPipeline answers) fun app2 =>
        some {
          state := app2
          calls := [Effect.cout ("width: " ++ toString app2.m_window.getExtent.width
            ++ "; height: " ++ toString app2.m_window.getExtent.height ++ "\n")]
          result := Except.ok () }) = some r)
    (hok : r.result = Except.ok ()) :
    ∃ swapchain pipelineCalls pipeline,
      app1.m_swapchain = some swapchain
      ∧ app1.m_pipelineLayout ≠ VK_NULL_HANDLE
      ∧ VulkanPipeline.constructor "./../shaders/shader.vert.spv" "./../shaders/shader.frag.spv"
          { pipelineLayout := app1.m_pipelineLayout, renderpass := swapchain.m_renderpass,
            subpass := 0 } answers = some (pipelineCalls, Except.ok pipeline)
      ∧ r.state = { app1 with m_pipeline := some pipeline }
      ∧ r.calls = pipelineCalls ++
          (match app1.m_pipeline with
           | none => []
           | some old => old.destructor)
          ++ [Effect.cout ("width: " ++ toString app1.m_window.getExtent.width
            ++ "; height: " ++ toString app1.m_window.getExtent.height ++ "\n")] := by
  obtain ⟨r1, r2, h1, hok1, h2, _, hstate, hcalls⟩ := Run.andThen_ok h hok
  obtain ⟨swapchain, pipelineCalls, pipeline, hsc, hlayout, hctor, hs1, hc1⟩ :=
    MApplication.createPipeline_ok h1 hok1
  injection h2 with h2
  refine ⟨swapchain, pipelineCalls, pipeline, hsc, hlayout, hctor, ?_, ?_⟩
  · rw [hstate, ← h2, hs1]
  · rw [hcalls, ← h2, hc1, hs1]

theorem MApplication.createCommandBuffers_ok {app : MApplication}
    {answer : VkResult × (Nat → Nat)} {r : Run MApplication Unit}
    (h : app.createCommandBuffers answer = some r) (hok : r.result = Except.ok ()) :
    ∃ swapchain,
      app.m_swapchain = some swapchain
      ∧ answer.1 = VK_SUCCESS
      ∧ r.state = { app with
          m_commandBuffers := (List.range swapchain.imageCount).map answer.2 }
      ∧ r.calls = [Effect.vkAllocateCommandBuffers app.m_device.m_commandPool
          swapchain.imageCount] := by
  unfold MApplication.createCommandBuffers at h
  cases hsc : app.m_swapchain with
  | none =>
    simp only [hsc] at h
    cases h
  | some swapchain =>
    simp only [hsc] at h
    by_cases ha : answer.1 ≠ VK_SUCCESS
    · simp only [if_pos ha] at h
      injection h with h
      rw [← h] at hok
      cases hok
    · simp only [if_neg ha] at h
      injection h with h
      subst h
      exact ⟨swapchain, rfl, not_not.mp ha, rfl, rfl⟩

/-- What a call of `reCreateSwapchain` that returned has done: the chain constructor returned
a chain for the extent of the window, with the chain held before as predecessor; the
command buffers were freed and allocated anew exactly when a chain was held before and the
image count of the new chain differs from the number of command buffers; the pipeline
constructor returned a pipeline for the render pass of the new chain and the pipeline
layout of the application; nothing else of the application changed. -/
theorem MApplication.reCreateSwapchain_ok {app : MApplication} {answers : RecreateAnswers}
    {r : Run MApplication Unit} (h : app.reCreateSwapchain answers = some r)
    (hok : r.result = Except.ok ()) :
    ∃ chainCalls swapchain pipelineCalls pipeline,
      VulkanSwapchain.constructor app.m_device app.m_window.getExtent app.m_swapchain
          answers.chain = some (chainCalls, Except.ok swapchain)
      ∧ app.m_pipelineLayout ≠ VK_NULL_HANDLE
      ∧ VulkanPipeline.constructor "./../shaders/shader.vert.spv" "./../shaders/shader.frag.spv"
          { pipelineLayout := app.m_pipelineLayout, renderpass := swapchain.m_renderpass,
            subpass := 0 } answers.pipeline = some (pipelineCalls, Except.ok pipeline)
      ∧ r.state = { app with
          m_swapchain := some swapchain
          m_pipeline := some pipeline
          m_commandBuffers :=
            if app.m_swapchain.isSome = true
                ∧ swapchain.imageCount ≠ app.m_commandBuffers.length then
              (List.range swapchain.imageCount).map answers.allocateCommandBuffers.2
            else app.m_commandBuffers }
      ∧ r.calls = Effect.vkDeviceWaitIdle app.m_device.m_device ::
          (chainCalls
            ++ (if app.m_swapchain.isSome = true
                  ∧ swapchain.imageCount ≠ app.m_commandBuffers.length then
                [Effect.vkFreeCommandBuffers app.m_device.m_commandPool app.m_commandBuffers,
                  Effect.vkAllocateCommandBuffers app.m_device.m_commandPool
                    swapchain.imageCount]
              else [])
            ++ pipelineCalls
            ++ (match app.m_pipeline with
                | none => []
                | some old => old.destructor)
            ++ [Effect.cout ("width: " ++ toString app.m_window.getExtent.width
              ++ "; height: " ++ toString app.m_window.getExtent.height ++ "\n")]) := by
  unfold MApplication.reCreateSwapchain at h
  simp only at h
  cases hsc : app.m_swapchain with
  | none =>
    simp only [hsc] at h
    cases hctor : VulkanSwapchain.constructor app.m_device app.m_window.getExtent none
        answers.chain with
    | none =>
      simp only [hctor] at h
      cases h
    | some out =>
      obtain ⟨chainCalls, result⟩ := out
      cases result with
      | error e =>
        simp only [hctor] at h
        injection h with h
        rw [← h] at hok
        cases hok
      | ok swapchain =>
        simp only [hctor] at h
        cases hbody : (Run.andThen
            (some { state := { app with m_swapchain := some swapchain }, calls := chainCalls,
                    result := Except.ok () })
            fun app1 =>
              Run.andThen (app1.createPipeline answers.pipeline) fun app2 =>
                some {
                  state := app2
                  calls := [Effect.cout ("width: " ++ toString app2.m_window.getExtent.width
                    ++ "; height: " ++ toString app2.m_window.getExtent.height ++ "\n")]
                  result := Except.ok () }) with
        | none =>
          simp only [hbody] at h
          cases h
        | some r0 =>
          simp only [hbody] at h
          injection h with h
          have hok0 : r0.result = Except.ok () := by
            rw [← h] at hok
            exact hok
          obtain ⟨r1, r2, h1, _, h2, hok2, hstate, hcalls⟩ := Run.andThen_ok hbody hok0
          injection h1 with h1
          rw [← h1] at h2 hcalls
          obtain ⟨sc, pipelineCalls, pipeline, hsc1, hlayout, hpipe, hs2, hc2⟩ :=
            MApplication.reCreateSwapchain_finish_ok h2 hok2
          injection hsc1 with hsc1
          subst hsc1
          refine ⟨chainCalls, swapchain, pipelineCalls, pipeline, rfl, hlayout, hpipe, ?_, ?_⟩
          · rw [← h]
            show r0.state = _
            rw [hstate, hs2]
            simp [hsc]
          · rw [← h]
            show Effect.vkDeviceWaitIdle app.m_device.m_device :: r0.calls = _
            rw [hcalls, hc2]
            simp [hsc]
  | some old =>
    simp only [hsc] at h
    cases hctor : VulkanSwapchain.constructor app.m_device app.m_window.getExtent (some old)
        answers.chain with
    | none =>
      simp only [hctor] at h
      cases h
    | some out =>
      obtain ⟨chainCalls, result⟩ := out
      cases result with
      | error e =>
        simp only [hctor] at h
        injection h with h
        rw [← h] at hok
        cases hok
      | ok swapchain =>
        simp only [hctor] at h
        split at h
        · cases h
        · rename_i r0 hbody
          injection h with h
          have hok0 : r0.result = Except.ok () := by
            rw [← h] at hok
            exact hok
          obtain ⟨r1, r2, h1, _, h2, hok2, hstate, hcalls⟩ := Run.andThen_ok hbody hok0
          injection h1 with h1
          rw [← h1] at h2 hcalls
          simp only at h2 hcalls
          by_cases hcount : swapchain.imageCount ≠ app.m_commandBuffers.length
          · rw [if_pos hcount] at h2
            obtain ⟨r3, r4, h3, _, h4, hok4, hstate4, hcalls4⟩ := Run.andThen_ok h2 hok2
            simp only [MApplication.freeCommandBuffers] at h3
            injection h3 with h3
            rw [← h3] at h4 hcalls4
            simp only at h4 hcalls4
            obtain ⟨r5, r6, h5, hok5, h6, hok6, hstate6, hcalls6⟩ := Run.andThen_ok h4 hok4
            obtain ⟨sc5, hsc5, _, hs5, hc5⟩ := MApplication.createCommandBuffers_ok h5 hok5
            injection hsc5 with hsc5
            subst hsc5
            obtain ⟨sc, pipelineCalls, pipeline, hsc1, hlayout, hpipe, hs6, hc6⟩ :=
              MApplication.reCreateSwapchain_finish_ok h6 hok6
            rw [hs5] at hsc1 hlayout hpipe hs6 hc6
            injection hsc1 with hsc1
            subst hsc1
            refine ⟨chainCalls, swapchain, pipelineCalls, pipeline, rfl, hlayout, hpipe, ?_, ?_⟩
            · rw [← h]
              show r0.state = _
              rw [hstate, hstate4, hstate6, hs6]
              simp [hsc, hcount]
            · rw [← h]
              show Effect.vkDeviceWaitIdle app.m_device.m_device :: r0.calls = _
              rw [hcalls, hcalls4, hcalls6, hc6, hc5]
              simp [hsc, hcount]
          · rw [if_neg hcount] at h2
            obtain ⟨sc, pipelineCalls, pipeline, hsc1, hlayout, hpipe, hs2, hc2⟩ :=
              MApplication.reCreateSwapchain_finish_ok h2 hok2
            injection hsc1 with hsc1
            subst hsc1
            refine ⟨chainCalls, swapchain, pipelineCalls, pipeline, rfl, hlayout, hpipe, ?_, ?_⟩
            · rw [← h]
              show r0.state = _
              rw [hstate, hs2]
              simp [hsc, hcount]
            · rw [← h]
              show Effect.vkDeviceWaitIdle app.m_device.m_device :: r0.calls = _
              rw [hcalls, hc2]
              simp [hsc, hcount]

/-! ## Construction of a chain: what a completed constructor leaves -/

theorem VulkanSwapchain.createSwapChain_ok {sc : VulkanSwapchain}
    {old : Option VulkanSwapchain} {answers : ChainAnswers} {r : Run VulkanSwapchain Unit}
    (h : sc.createSwapChain old answers = some r) (hok : r.result = Except.ok ()) :
    ∃ surfaceFormat createInfo,
      VulkanSwapchain.chooseSwapSurfaceFormat answers.swapChainSupport.formats
        = some surfaceFormat
      ∧ r.state = { sc with
          m_swapchain := answers.createSwapchain.2
          m_swapChainImages := answers.swapChainImages
          m_swapChainImageFormat := surfaceFormat.format
          m_swapChainExtent := VulkanSwapchain.chooseSwapExtent sc.m_windowExtent
            answers.swapChainSupport.capabilities }
      ∧ r.calls = (VulkanSwapchain.chooseSwapPresentMode answers.swapChainSupport.presentModes).1
          ++ [Effect.vkCreateSwapchainKHR createInfo]
      ∧ createInfo.minImageCount
        = VulkanSwapchain.createSwapChain.imageCount answers.swapChainSupport.capabilities
      ∧ createInfo.imageFormat = surfaceFormat.format
      ∧ createInfo.imageColorSpace = surfaceFormat.colorSpace
      ∧ createInfo.imageExtent = VulkanSwapchain.chooseSwapExtent sc.m_windowExtent
          answers.swapChainSupport.capabilities
      ∧ createInfo.presentMode
        = (VulkanSwapchain.chooseSwapPresentMode answers.swapChainSupport.presentModes).2
      ∧ createInfo.oldSwapchain
        = (old.map fun previous => previous.m_swapchain).getD VK_NULL_HANDLE := by
  unfold VulkanSwapchain.createSwapChain at h
  simp only at h
  cases hf : VulkanSwapchain.chooseSwapSurfaceFormat answers.swapChainSupport.formats with
  | none =>
    simp only [hf] at h
    cases h
  | some surfaceFormat =>
    simp only [hf] at h
    split at h
    · split at h
      · injection h with h
        rw [← h] at hok
        cases hok
      · injection h with h
        subst h
        exact ⟨surfaceFormat, _, rfl, rfl, rfl, rfl, rfl, rfl, rfl, rfl,
          by cases old <;> rfl⟩
    · injection h with h
      rw [← h] at hok
      cases hok

theorem VulkanSwapchain.createImageViews_ok {sc : VulkanSwapchain} {answers : ChainAnswers}
    {r : Run VulkanSwapchain Unit}
    (h : sc.createImageViews answers = some r) (hok : r.result = Except.ok ()) :
    ∃ views, r.state = { sc with m_swapChainImageViews := views } := by
  unfold VulkanSwapchain.createImageViews at h
  simp only at h
  split at h
  · injection h with h
    rw [← h] at hok
    cases hok
  · injection h with h
    subst h
    exact ⟨_, rfl⟩

theorem VulkanSwapchain.createRenderPass_ok {sc : VulkanSwapchain} {answers : ChainAnswers}
    {r : Run VulkanSwapchain Unit}
    (h : sc.createRenderPass answers = some r) (hok : r.result = Except.ok ()) :
    r.state = { sc with m_renderpass := answers.createRenderPass.2 } := by
  unfold VulkanSwapchain.createRenderPass at h
  split at h
  · injection h with h
    rw [← h] at hok
    cases hok
  · injection h with h
    subst h
    rfl

theorem VulkanSwapchain.createFramebuffers_ok {sc : VulkanSwapchain} {answers : ChainAnswers}
    {r : Run VulkanSwapchain Unit}
    (h : sc.createFramebuffers answers = some r) (hok : r.result = Except.ok ()) :
    ∃ framebuffers, r.state = { sc with m_swapChainFramebuffers := framebuffers } := by
  unfold VulkanSwapchain.createFramebuffers at h
  split at h
  · cases h
  · split at h
    · injection h with h
      rw [← h] at hok
      cases hok
    · injection h with h
      subst h
      exact ⟨_, rfl⟩

theorem VulkanSwapchain.createSyncObjects_ok {sc : VulkanSwapchain} {answers : ChainAnswers}
    {r : Run VulkanSwapchain Unit}
    (h : sc.createSyncObjects answers = some r) (hok : r.result = Except.ok ()) :
    ∃ imageAvailable renderFinished fences,
      r.state = { sc with
        imageAvailableSemaphores := imageAvailable
        renderFinishedSemaphores := renderFinished
        inFlightFences := fences
        imagesInFlight := sc.imagesInFlight.take sc.imageCount
          ++ List.replicate (sc.imageCount - sc.imagesInFlight.length) VK_NULL_HANDLE } := by
  unfold VulkanSwapchain.createSyncObjects at h
  simp only at h
  split at h
  · injection h with h
    rw [← h] at hok
    cases hok
  · injection h with h
    subst h
    exact ⟨_, _, _, rfl⟩

/-- What a chain constructor that returned has built, as far as the choice of configuration
goes: the image format is that of the chosen surface format, the extent is the one
`chooseSwapExtent` gives for the extent passed in, the images are those the implementation
reported; and the effects begin with the line of `chooseSwapPresentMode` and the one call of
`vkCreateSwapchainKHR`, whose create info carries that configuration and names the
predecessor only in `oldSwapchain`. -/
theorem VulkanSwapchain.chain_constructor_ok {deviceRef : VulkanDevice} {extent : VkExtent2D}
    {previous : Option VulkanSwapchain} {answers : ChainAnswers} {calls : List Effect}
    {sc : VulkanSwapchain}
    (h : VulkanSwapchain.constructor deviceRef extent previous answers
      = some (calls, Except.ok sc)) :
    ∃ surfaceFormat createInfo rest,
      VulkanSwapchain.chooseSwapSurfaceFormat answers.swapChainSupport.formats
        = some surfaceFormat
      ∧ sc.device = deviceRef
      ∧ sc.m_windowExtent = extent
      ∧ sc.m_swapChainImageFormat = surfaceFormat.format
      ∧ sc.m_swapChainExtent
        = VulkanSwapchain.chooseSwapExtent extent answers.swapChainSupport.capabilities
      ∧ sc.m_swapChainImages = answers.swapChainImages
      ∧ sc.m_swapchain = answers.createSwapchain.2
      ∧ sc.m_renderpass = answers.createRenderPass.2
      ∧ sc.currentFrame = 0
      ∧ calls = (VulkanSwapchain.chooseSwapPresentMode answers.swapChainSupport.presentModes).1
          ++ Effect.vkCreateSwapchainKHR createInfo :: rest
      ∧ createInfo.minImageCount
        = VulkanSwapchain.createSwapChain.imageCount answers.swapChainSupport.capabilities
      ∧ createInfo.imageFormat = surfaceFormat.format
      ∧ createInfo.imageColorSpace = surfaceFormat.colorSpace
      ∧ createInfo.imageExtent
        = VulkanSwapchain.chooseSwapExtent extent answers.swapChainSupport.capabilities
      ∧ createInfo.presentMode
        = (VulkanSwapchain.chooseSwapPresentMode answers.swapChainSupport.presentModes).2
      ∧ createInfo.oldSwapchain
        = (previous.map fun old => old.m_swapchain).getD VK_NULL_HANDLE := by
  unfold VulkanSwapchain.constructor at h
  simp only at h
  split at h
  · cases h
  · rename_i built hbuilt
    split at h
    · cases h
    · rename_i releaseCalls hrelease
      injection h with h
      injection h with hcalls hresult
      cases hres : built.result with
      | error e =>
        rw [hres] at hresult
        cases hresult
      | ok u =>
        rw [hres] at hresult
        injection hresult with hstate
        unfold VulkanSwapchain.init at hbuilt
        obtain ⟨r1, r2, h1, hok1, h2, hok2, hs2, hc2⟩ := Run.andThen_ok hbuilt hres
        obtain ⟨r3, r4, h3, hok3, h4, hok4, hs4, hc4⟩ := Run.andThen_ok h2 hok2
        obtain ⟨r5, r6, h5, hok5, h6, hok6, hs6, hc6⟩ := Run.andThen_ok h4 hok4
        obtain ⟨r7, r8, h7, hok7, h8, hok8, hs8, hc8⟩ := Run.andThen_ok h6 hok6
        obtain ⟨surfaceFormat, createInfo, hformat, hstate1, hcalls1, hi1, hi2, hi3, hi4, hi5,
          hi6⟩ := VulkanSwapchain.createSwapChain_ok h1 hok1
        obtain ⟨views, hstate3⟩ := VulkanSwapchain.createImageViews_ok h3 hok3
        have hstate5 := VulkanSwapchain.createRenderPass_ok h5 hok5
        obtain ⟨framebuffers, hstate7⟩ := VulkanSwapchain.createFramebuffers_ok h7 hok7
        obtain ⟨imageAvailable, renderFinished, fences, hstate8⟩ :=
          VulkanSwapchain.createSyncObjects_ok h8 hok8
        have hfinal : sc = r8.state := by
          rw [← hstate, hs2, hs4, hs6, hs8]
        rw [hstate8, hstate7, hstate5, hstate3, hstate1] at hfinal
        refine ⟨surfaceFormat, createInfo,
          r3.calls ++ (r5.calls ++ (r7.calls ++ r8.calls)) ++ releaseCalls,
          hformat, ?_, ?_, ?_, ?_, ?_, ?_, ?_, ?_, ?_, hi1, hi2, hi3, hi4, hi5, hi6⟩
        · rw [hfinal]
        · rw [hfinal]
        · rw [hfinal]
        · rw [hfinal]
        · rw [hfinal]
        · rw [hfinal]
        · rw [hfinal]
        · rw [hfinal]
        · clear hfinal
          rw [← hcalls, hc2, hc4, hc6, hc8, hcalls1]
          simp

/-! ## Recreation: extent, configuration, command buffers, pipeline -/

theorem Run.andThen_calls {σ β : Type} {first : Option (Run σ Unit)}
    {next : σ → Option (Run σ β)} {r : Run σ β} (h : Run.andThen first next = some r) :
    ∃ r1 rest, first = some r1 ∧ r.calls = r1.calls ++ rest := by
  unfold Run.andThen at h
  cases first with
  | none => cases h
  | some r1 =>
    simp only at h
    cases hres : r1.result with
    | error e =>
      simp only [hres] at h
      injection h with h
      exact ⟨r1, [], rfl, by rw [← h, List.append_nil]⟩
    | ok u =>
      simp only [hres] at h
      cases hn : next r1.state with
      | none =>
        simp only [hn] at h
        cases h
      | some r2 =>
        simp only [hn] at h
        injection h with h
        exact ⟨r1, r2.calls, rfl, by rw [← h]⟩

/-- Whatever the extent of the window, `reCreateSwapchain` runs the chain constructor for
that extent right after `vkDeviceWaitIdle`; an exception of the constructor leaves
`reCreateSwapchain`. -/
theorem MApplication.reCreateSwapchain_begins_with_constructor {app : MApplication}
    {answers : RecreateAnswers} {r : Run MApplication Unit}
    (h : app.reCreateSwapchain answers = some r) :
    ∃ chainCalls outcome rest,
      VulkanSwapchain.constructor app.m_device app.m_window.getExtent app.m_swapchain
          answers.chain = some (chainCalls, outcome)
      ∧ r.calls = Effect.vkDeviceWaitIdle app.m_device.m_device :: (chainCalls ++ rest)
      ∧ (∀ e, outcome = Except.error e → r.result = Except.error e ∧ rest = []) := by
  unfold MApplication.reCreateSwapchain at h
  simp only at h
  cases hsc : app.m_swapchain with
  | none =>
    simp only [hsc] at h
    cases hctor : VulkanSwapchain.constructor app.m_device app.m_window.getExtent none
        answers.chain with
    | none =>
      simp only [hctor] at h
      cases h
    | some out =>
      obtain ⟨chainCalls, result⟩ := out
      cases result with
      | error e =>
        simp only [hctor] at h
        injection h with h
        refine ⟨chainCalls, Except.error e, [], rfl, by rw [← h, List.append_nil], ?_⟩
        intro e2 he2
        injection he2 with he2
        rw [← h, he2]
        exact ⟨rfl, rfl⟩
      | ok swapchain =>
        simp only [hctor] at h
        split at h
        · cases h
        · rename_i r0 hbody
          injection h with h
          obtain ⟨r1, rest, h1, hcalls⟩ := Run.andThen_calls hbody
          injection h1 with h1
          rw [← h1] at hcalls
          refine ⟨chainCalls, Except.ok swapchain, rest, rfl, by rw [← h, hcalls], ?_⟩
          intro e2 he2
          cases he2
  | some old =>
    simp only [hsc] at h
    cases hctor : VulkanSwapchain.constructor app.m_device app.m_window.getExtent (some old)
        answers.chain with
    | none =>
      simp only [hctor] at h
      cases h
    | some out =>
      obtain ⟨chainCalls, result⟩ := out
      cases result with
      | error e =>
        simp only [hctor] at h
        injection h with h
        refine ⟨chainCalls, Except.error e, [], rfl, by rw [← h, List.append_nil], ?_⟩
        intro e2 he2
        injection he2 with he2
        rw [← h, he2]
        exact ⟨rfl, rfl⟩
      | ok swapchain =>
        simp only [hctor] at h
        split at h
        · cases h
        · rename_i r0 hbody
          injection h with h
          obtain ⟨r1, rest, h1, hcalls⟩ := Run.andThen_calls hbody
          injection h1 with h1
          rw [← h1] at hcalls
          refine ⟨chainCalls, Except.ok swapchain, rest, rfl, by rw [← h, hcalls], ?_⟩
          intro e2 he2
          cases he2

/-- Counterexample to C16 as stated: `reCreateSwapchain` is entered on
`exampleZeroExtentApplication`, whose window extent is 0 x 0; it returns, its first effects
are `vkDeviceWaitIdle` and the chain construction (`vkCreateSwapchainKHR` with the old chain
40 as predecessor), and the application then holds the new chain 140, built for the window
extent 0 x 0. -/
theorem MApplication.reCreateSwapchain_zero_extent_constructs_chain :
    exampleZeroExtentApplication.m_window.getExtent = ⟨0, 0⟩
    ∧ (exampleZeroExtentApplication.reCreateSwapchain exampleFrameAnswers.recreate).map
        (fun r => (r.result, r.calls.take 3,
          r.state.m_swapchain.map (fun sc => (sc.m_swapchain, sc.m_windowExtent))))
      = some (Except.ok (),
        [Effect.vkDeviceWaitIdle 1, Effect.cout "Present mode: Mailbox\n",
          Effect.vkCreateSwapchainKHR {
            surface := 2
            minImageCount := 3
            imageFormat := 50
            imageColorSpace := 0
            imageExtent := ⟨800, 600⟩
            imageArrayLayers := 1
            imageUsage := 16
            imageSharingMode := 0
            queueFamilyIndexCount := 0
            pQueueFamilyIndices := []
            preTransform := 1
            compositeAlpha := 1
            presentMode := 1
            clipped := 1
            oldSwapchain := 40 }],
        some (140, ⟨0, 0⟩)) := by
  exact ⟨rfl, rfl⟩

/-- C16 (amended): `reCreateSwapchain` does not examine the extent of the window.  Entered
in the render loop with any requested extent, zero area included, it calls
`vkDeviceWaitIdle` and then at once runs the chain constructor for that extent, with the
chain held so far as predecessor; it issues no rendering (nothing is recorded, nothing is
handed to a queue); an exception of the constructor leaves it, and when it returns the
application holds the newly constructed chain, whose window extent is the requested one. -/
theorem MApplication.reCreateSwapchain_ignores_extent (app : MApplication)
    (answers : RecreateAnswers) (hready : app.Ready) (hconf : answers.Conforming) :
    ∃ r chainCalls outcome rest,
      app.reCreateSwapchain answers = some r
      ∧ VulkanSwapchain.constructor app.m_device app.m_window.getExtent app.m_swapchain
          answers.chain = some (chainCalls, outcome)
      ∧ r.calls = Effect.vkDeviceWaitIdle app.m_device.m_device :: (chainCalls ++ rest)
      ∧ (∀ e ∈ r.calls, e.isCommandRecording = false ∧ e.isQueueOperation = false)
      ∧ (∀ e, outcome = Except.error e → r.result = Except.error e ∧ rest = [])
      ∧ (r.result = Except.ok () →
          ∃ swapchain, outcome = Except.ok swapchain
            ∧ r.state.m_swapchain = some swapchain
            ∧ swapchain.m_windowExtent = app.m_window.getExtent) := by
  obtain ⟨swapchain, pipeline, model, hsc, _, _, hwf, hdepth, _, _, _, hlayout⟩ := hready
  obtain ⟨r, tail, hrec, hcalls, htail, _⟩ := app.reCreateSwapchain_spec answers
    (fun old hold => by
      rw [hsc] at hold
      injection hold with hold
      rw [← hold]
      exact ⟨hwf, hdepth⟩)
    hlayout hconf
  obtain ⟨chainCalls, outcome, rest, hctor, hshape, herr⟩ :=
    MApplication.reCreateSwapchain_begins_with_constructor hrec
  refine ⟨r, chainCalls, outcome, rest, hrec, hctor, hshape, ?_, herr, ?_⟩
  · intro e he
    rw [hcalls] at he
    rcases List.mem_cons.mp he with h | h
    · rw [h]
      exact ⟨rfl, rfl⟩
    · exact ⟨(Effect.not_recording_of_lifecycle (htail e h)).1,
        (Effect.not_recording_of_lifecycle (htail e h)).2.1⟩
  · intro hok
    obtain ⟨chainCalls2, built, _, _, hctor2, _, _, hstate, _⟩ :=
      MApplication.reCreateSwapchain_ok hrec hok
    rw [hctor] at hctor2
    injection hctor2 with hctor2
    injection hctor2 with _ hout
    obtain ⟨_, _, _, _, _, hextent, _⟩ := VulkanSwapchain.chain_constructor_ok
      (hout ▸ hctor)
    exact ⟨built, hout, by rw [hstate], hextent⟩

/-- Witness of C16 (amended) on `exampleZeroExtentApplication`, whose window extent is
0 x 0. -/
theorem MApplication.reCreateSwapchain_ignores_extent_witness :
    exampleZeroExtentApplication.Ready
    ∧ exampleFrameAnswers.recreate.Conforming
    ∧ exampleZeroExtentApplication.m_window.getExtent = ⟨0, 0⟩
    ∧ ∃ r chainCalls outcome rest,
      exampleZeroExtentApplication.reCreateSwapchain exampleFrameAnswers.recreate = some r
      ∧ VulkanSwapchain.constructor exampleZeroExtentApplication.m_device
          exampleZeroExtentApplication.m_window.getExtent
          exampleZeroExtentApplication.m_swapchain exampleFrameAnswers.recreate.chain
        = some (chainCalls, outcome)
      ∧ r.calls = Effect.vkDeviceWaitIdle exampleZeroExtentApplication.m_device.m_device
          :: (chainCalls ++ rest) := by
  have hready : exampleZeroExtentApplication.Ready :=
    ⟨exampleChain, ⟨90, 91, 92⟩, ⟨96, 4, true, 97, 6⟩, rfl, rfl, rfl, by decide, rfl, rfl, rfl,
      by decide, by decide⟩
  have hconf : exampleFrameAnswers.recreate.Conforming :=
    ⟨by decide, fun _ => by decide⟩
  obtain ⟨r, chainCalls, outcome, rest, h1, h2, h3, _⟩ :=
    MApplication.reCreateSwapchain_ignores_extent exampleZeroExtentApplication
      exampleFrameAnswers.recreate hready hconf
  exact ⟨hready, hconf, rfl, r, chainCalls, outcome, rest, h1, h2, h3⟩

/-- C17: when `reCreateSwapchain` is run twice in a row and both runs return, with the same
surface support report (capabilities, formats, present modes) answered in both, the second
chain has the same configuration as the first.  Both runs request the chain with
`vkCreateSwapchainKHR` right after `vkDeviceWaitIdle` and the line of
`chooseSwapPresentMode`; the two create infos agree in the requested image count (the value
`createSwapChain.imageCount` gives for the capabilities), image format, colour space, extent
and present mode, and the chains agree in image format and extent.  The predecessor enters
only as the `oldSwapchain` handle of the create info.  The number of images of each chain is
the number the implementation reported for it.  This holds for every window extent, zero or
not. -/
theorem MApplication.reCreateSwapchain_twice_same_configuration (app : MApplication)
    (first second : RecreateAnswers) (r1 r2 : Run MApplication Unit)
    (hsupport : first.chain.swapChainSupport = second.chain.swapChainSupport)
    (h1 : app.reCreateSwapchain first = some r1) (hok1 : r1.result = Except.ok ())
    (h2 : r1.state.reCreateSwapchain second = some r2) (hok2 : r2.result = Except.ok ()) :
    ∃ sc1 sc2 info1 info2 rest1 rest2,
      r1.state.m_swapchain = some sc1
      ∧ r2.state.m_swapchain = some sc2
      ∧ r1.calls = Effect.vkDeviceWaitIdle app.m_device.m_device ::
          ((VulkanSwapchain.chooseSwapPresentMode first.chain.swapChainSupport.presentModes).1
            ++ Effect.vkCreateSwapchainKHR info1 :: rest1)
      ∧ r2.calls = Effect.vkDeviceWaitIdle app.m_device.m_device ::
          ((VulkanSwapchain.chooseSwapPresentMode first.chain.swapChainSupport.presentModes).1
            ++ Effect.vkCreateSwapchainKHR info2 :: rest2)
      ∧ info1.minImageCount
        = VulkanSwapchain.createSwapChain.imageCount first.chain.swapChainSupport.capabilities
      ∧ info2.minImageCount = info1.minImageCount
      ∧ info2.imageFormat = info1.imageFormat
      ∧ info2.imageColorSpace = info1.imageColorSpace
      ∧ info2.imageExtent = info1.imageExtent
      ∧ info2.presentMode = info1.presentMode
      ∧ info2.oldSwapchain = sc1.m_swapchain
      ∧ sc1.m_swapChainImageFormat = info1.imageFormat
      ∧ sc1.m_swapChainExtent = info1.imageExtent
      ∧ sc2.m_swapChainImageFormat = sc1.m_swapChainImageFormat
      ∧ sc2.m_swapChainExtent = sc1.m_swapChainExtent
      ∧ sc1.imageCount = first.chain.swapChainImages.length
      ∧ sc2.imageCount = second.chain.swapChainImages.length := by
  obtain ⟨chainCalls1, sc1, pipelineCalls1, pipeline1, hctor1, _, _, hstate1, hcalls1⟩ :=
    MApplication.reCreateSwapchain_ok h1 hok1
  obtain ⟨chainCalls2, sc2, pipelineCalls2, pipeline2, hctor2, _, _, hstate2, hcalls2⟩ :=
    MApplication.reCreateSwapchain_ok h2 hok2
  have hdevice : r1.state.m_device = app.m_device := by rw [hstate1]
  have hwindow : r1.state.m_window = app.m_window := by rw [hstate1]
  have hchain : r1.state.m_swapchain = some sc1 := by rw [hstate1]
  rw [hdevice, hwindow, hchain] at hctor2
  rw [hdevice] at hcalls2
  obtain ⟨f1, info1, tail1, hf1, _, _, hformat1, hextent1, himages1, _, _, _, hc1, hi1, hj1,
    hk1, hl1, hm1, _⟩ := VulkanSwapchain.chain_constructor_ok hctor1
  obtain ⟨f2, info2, tail2, hf2, _, _, hformat2, hextent2, himages2, _, _, _, hc2, hi2, hj2,
    hk2, hl2, hm2, hn2⟩ := VulkanSwapchain.chain_constructor_ok hctor2
  rw [← hsupport] at hf2 hextent2 hc2 hi2 hl2 hm2
  have hf : f2 = f1 := by
    rw [hf1] at hf2
    injection hf2 with hf2
    exact hf2.symm
  subst hf
  rw [hc1] at hcalls1
  rw [hc2] at hcalls2
  simp only [List.append_assoc, List.cons_append] at hcalls1 hcalls2
  refine ⟨sc1, sc2, info1, info2, _, _, hchain, by rw [hstate2], hcalls1, hcalls2, hi1, ?_, ?_,
    ?_, ?_, ?_, ?_, ?_, ?_, ?_, ?_, ?_, ?_⟩
  · rw [hi2, hi1]
  · rw [hj2, hj1]
  · rw [hk2, hk1]
  · rw [hl2, hl1]
  · rw [hm2, hm1]
  · rw [hn2]
    rfl
  · rw [hformat1, hj1]
  · rw [hextent1, hl1]
  · rw [hformat2, hformat1]
  · rw [hextent2, hextent1]
  · show sc1.m_swapChainImages.length = _
    rw [himages1]
  · show sc2.m_swapChainImages.length = _
    rw [himages2]

/-- Witness of C17 on `exampleApplication`: two recreations in a row with the same answers
both return, and the two chains have the same image format and extent. -/
theorem MApplication.reCreateSwapchain_twice_same_configuration_witness :
    ∃ r1 r2 sc1 sc2,
      exampleApplication.reCreateSwapchain exampleFrameAnswers.recreate = some r1
      ∧ r1.result = Except.ok ()
      ∧ r1.state.reCreateSwapchain exampleFrameAnswers.recreate = some r2
      ∧ r2.result = Except.ok ()
      ∧ r1.state.m_swapchain = some sc1
      ∧ r2.state.m_swapchain = some sc2
      ∧ sc2.m_swapChainImageFormat = sc1.m_swapChainImageFormat
      ∧ sc2.m_swapChainExtent = sc1.m_swapChainExtent := by
  have hboth : ((exampleApplication.reCreateSwapchain exampleFrameAnswers.recreate).bind
      fun r1 => (r1.state.reCreateSwapchain exampleFrameAnswers.recreate).map
        fun r2 => (r1.result, r2.result)) = some (Except.ok (), Except.ok ()) := rfl
  cases h1 : exampleApplication.reCreateSwapchain exampleFrameAnswers.recreate with
  | none =>
    rw [h1] at hboth
    cases hboth
  | some r1 =>
    rw [h1] at hboth
    simp only [Option.some_bind] at hboth
    cases h2 : r1.state.reCreateSwapchain exampleFrameAnswers.recreate with
    | none =>
      rw [h2] at hboth
      cases hboth
    | some r2 =>
      rw [h2] at hboth
      simp only [Option.map_some', Option.some.injEq, Prod.mk.injEq] at hboth
      obtain ⟨sc1, sc2, _, _, _, _, hs1, hs2, _, _, _, _, _, _, _, _, _, _, _, hformat, hextent,
        _, _⟩ := MApplication.reCreateSwapchain_twice_same_configuration exampleApplication
          exampleFrameAnswers.recreate exampleFrameAnswers.recreate r1 r2 rfl h1 hboth.1 h2
          hboth.2
      exact ⟨r1, r2, sc1, sc2, rfl, hboth.1, h2, hboth.2, hs1, hs2, hformat, hextent⟩

theorem VulkanPipeline.pipeline_constructor_ok {vertFilepath fragFilepath : String}
    {configInfo : PipelineConfigInfo} {answers : PipelineAnswers} {calls : List Effect}
    {pipeline : VulkanPipeline}
    (h : VulkanPipeline.constructor vertFilepath fragFilepath configInfo answers
      = some (calls, Except.ok pipeline)) :
    calls = [Effect.vkCreateShaderModule vertFilepath, Effect.vkCreateShaderModule fragFilepath,
        Effect.vkCreateGraphicsPipelines configInfo.pipelineLayout configInfo.renderpass
          configInfo.subpass pipeline.m_vertShaderModule pipeline.m_fragShaderModule]
    ∧ pipeline = {
        m_graphicsPipeline := answers.createGraphicsPipelines.2
        m_vertShaderModule := answers.createVertShaderModule.2
        m_fragShaderModule := answers.createFragShaderModule.2 }
    ∧ answers.createGraphicsPipelines.1 = VK_SUCCESS
    ∧ configInfo.renderpass ≠ VK_NULL_HANDLE := by
  unfold VulkanPipeline.constructor at h
  split_ifs at h with hnull h1 h2 h3 h4 h5
  · injection h with h
    injection h with _ h
    cases h
  · injection h with h
    injection h with _ h
    cases h
  · injection h with h
    injection h with _ h
    cases h
  · injection h with h
    injection h with _ h
    cases h
  · injection h with h
    injection h with _ h
    cases h
  · injection h with h
    injection h with hcalls hp
    injection hp with hp
    subst hp
    refine ⟨hcalls.symm, rfl, not_not.mp h5, ?_⟩
    intro hpass
    exact hnull (Or.inr hpass)

theorem VulkanSwapchain.chooseSwapPresentMode_no_command_buffers (modes : List Nat) :
    ∀ e ∈ (VulkanSwapchain.chooseSwapPresentMode modes).1,
      e.isCommandBufferAllocation = false := by
  induction modes with
  | nil => simp [VulkanSwapchain.chooseSwapPresentMode, Effect.isCommandBufferAllocation]
  | cons m rest ih =>
    by_cases hm : m = VK_PRESENT_MODE_MAILBOX_KHR
    · simp [VulkanSwapchain.chooseSwapPresentMode, hm, Effect.isCommandBufferAllocation]
    · simpa [VulkanSwapchain.chooseSwapPresentMode, hm] using ih

theorem VulkanSwapchain.createSwapChain_no_command_buffers {sc : VulkanSwapchain}
    {old : Option VulkanSwapchain} {answers : ChainAnswers} {r : Run VulkanSwapchain Unit}
    (h : sc.createSwapChain old answers = some r) :
    ∀ e ∈ r.calls, e.isCommandBufferAllocation = false := by
  have hmode := VulkanSwapchain.chooseSwapPresentMode_no_command_buffers
    answers.swapChainSupport.presentModes
  have hboth : ∀ info, ∀ e ∈ (VulkanSwapchain.chooseSwapPresentMode
      answers.swapChainSupport.presentModes).1 ++ [Effect.vkCreateSwapchainKHR info],
      e.isCommandBufferAllocation = false := by
    intro info e he
    rcases List.mem_append.mp he with h1 | h1
    · exact hmode e h1
    · rw [List.mem_singleton.mp h1]
      rfl
  unfold VulkanSwapchain.createSwapChain at h
  simp only at h
  split at h
  · cases h
  · split at h
    · split at h
      · injection h with h
        rw [← h]
        exact hboth _
      · injection h with h
        rw [← h]
        exact hboth _
    · injection h with h
      rw [← h]
      exact hmode

theorem VulkanSwapchain.createImageViews_loop_no_command_buffers (format : Nat)
    (answer : Nat → VkResult × Nat) :
    ∀ (images : List Nat) (i : Nat),
      ∀ e ∈ (VulkanSwapchain.createImageViews.loop format answer i images).1,
        e.isCommandBufferAllocation = false := by
  intro images
  induction images with
  | nil =>
    intro i e he
    simp [VulkanSwapchain.createImageViews.loop] at he
  | cons image rest ih =>
    intro i e he
    unfold VulkanSwapchain.createImageViews.loop at he
    by_cases hfail : (answer i).1 ≠ VK_SUCCESS
    · rw [if_pos hfail] at he
      rw [List.mem_singleton.mp he]
      rfl
    · rw [if_neg hfail] at he
      rcases List.mem_cons.mp he with h1 | h1
      · rw [h1]
        rfl
      · exact ih (i + 1) e h1

theorem VulkanSwapchain.createImageViews_no_command_buffers {sc : VulkanSwapchain}
    {answers : ChainAnswers} {r : Run VulkanSwapchain Unit}
    (h : sc.createImageViews answers = some r) :
    ∀ e ∈ r.calls, e.isCommandBufferAllocation = false := by
  have hloop := VulkanSwapchain.createImageViews_loop_no_command_buffers
    sc.m_swapChainImageFormat answers.createImageView sc.m_swapChainImages 0
  unfold VulkanSwapchain.createImageViews at h
  simp only at h
  split at h
  · injection h with h
    rw [← h]
    exact hloop
  · injection h with h
    rw [← h]
    exact hloop

theorem VulkanSwapchain.createRenderPass_no_command_buffers {sc : VulkanSwapchain}
    {answers : ChainAnswers} {r : Run VulkanSwapchain Unit}
    (h : sc.createRenderPass answers = some r) :
    ∀ e ∈ r.calls, e.isCommandBufferAllocation = false := by
  unfold VulkanSwapchain.createRenderPass at h
  split at h
  · injection h with h
    rw [← h]
    intro e he
    rw [List.mem_singleton.mp he]
    rfl
  · injection h with h
    rw [← h]
    intro e he
    rw [List.mem_singleton.mp he]
    rfl

theorem VulkanSwapchain.createFramebuffers_loop_no_command_buffers (sc : VulkanSwapchain)
    (answer : Nat → VkResult × Nat) :
    ∀ (remaining i : Nat) (out : List Effect × Except String (List Nat)),
      VulkanSwapchain.createFramebuffers.loop sc answer remaining i = some out →
      ∀ e ∈ out.1, e.isCommandBufferAllocation = false := by
  intro remaining
  induction remaining with
  | zero =>
    intro i out h e he
    simp only [VulkanSwapchain.createFramebuffers.loop] at h
    injection h with h
    rw [← h] at he
    exact absurd he (List.not_mem_nil e)
  | succ remaining ih =>
    intro i out h e he
    unfold VulkanSwapchain.createFramebuffers.loop at h
    split at h
    · cases h
    · by_cases hfail : (answer i).1 ≠ VK_SUCCESS
      · rw [if_pos hfail] at h
        injection h with h
        rw [← h] at he
        rw [List.mem_singleton.mp he]
        rfl
      · rw [if_neg hfail] at h
        split at h
        · cases h
        · rename_i later hlater
          injection h with h
          rw [← h] at he
          rcases List.mem_cons.mp he with h1 | h1
          · rw [h1]
            rfl
          · exact ih (i + 1) later hlater e h1

theorem VulkanSwapchain.createFramebuffers_no_command_buffers {sc : VulkanSwapchain}
    {answers : ChainAnswers} {r : Run VulkanSwapchain Unit}
    (h : sc.createFramebuffers answers = some r) :
    ∀ e ∈ r.calls, e.isCommandBufferAllocation = false := by
  unfold VulkanSwapchain.createFramebuffers at h
  split at h
  · cases h
  · rename_i created hcreated
    have hloop := VulkanSwapchain.createFramebuffers_loop_no_command_buffers sc
      answers.createFramebuffer sc.imageCount 0 created hcreated
    split at h
    · injection h with h
      rw [← h]
      exact hloop
    · injection h with h
      rw [← h]
      exact hloop

theorem VulkanSwapchain.createSyncObjects_loop_no_command_buffers (answers : ChainAnswers) :
    ∀ remaining i,
      ∀ e ∈ (VulkanSwapchain.createSyncObjects.loop answers remaining i).1,
        e.isCommandBufferAllocation = false := by
  intro remaining
  induction remaining with
  | zero =>
    intro i
    simp [VulkanSwapchain.createSyncObjects.loop]
  | succ remaining ih =>
    intro i
    unfold VulkanSwapchain.createSyncObjects.loop
    split_ifs
    · simp [Effect.isCommandBufferAllocation]
    · simp [Effect.isCommandBufferAllocation]
    · simp [Effect.isCommandBufferAllocation]
    · intro e he
      rcases List.mem_append.mp he with h | h
      · simp only [List.mem_cons, List.mem_singleton, List.not_mem_nil, or_false] at h
        rcases h with h | h | h <;> (rw [h]; rfl)
      · exact ih (i + 1) e h

theorem VulkanSwapchain.createSyncObjects_no_command_buffers {sc : VulkanSwapchain}
    {answers : ChainAnswers} {r : Run VulkanSwapchain Unit}
    (h : sc.createSyncObjects answers = some r) :
    ∀ e ∈ r.calls, e.isCommandBufferAllocation = false := by
  have hloop := VulkanSwapchain.createSyncObjects_loop_no_command_buffers answers
    VulkanSwapchain.MAX_FRAMES_IN_FLIGHT 0
  unfold VulkanSwapchain.createSyncObjects at h
  simp only at h
  split at h
  · injection h with h
    rw [← h]
    exact hloop
  · injection h with h
    rw [← h]
    exact hloop

theorem Run.andThen_forall {σ β : Type} (P : Effect → Prop) {first : Option (Run σ Unit)}
    {next : σ → Option (Run σ β)} {r : Run σ β} (h : Run.andThen first next = some r)
    (h1 : ∀ r1, first = some r1 → ∀ e ∈ r1.calls, P e)
    (h2 : ∀ s r2, next s = some r2 → ∀ e ∈ r2.calls, P e) :
    ∀ e ∈ r.calls, P e := by
  unfold Run.andThen at h
  cases first with
  | none => cases h
  | some r1 =>
    simp only at h
    cases hres : r1.result with
    | error e =>
      simp only [hres] at h
      injection h with h
      rw [← h]
      exact h1 r1 rfl
    | ok u =>
      simp only [hres] at h
      cases hn : next r1.state with
      | none =>
        simp only [hn] at h
        cases h
      | some r2 =>
        simp only [hn] at h
        injection h with h
        rw [← h]
        intro e he
        rcases List.mem_append.mp he with h3 | h3
        · exact h1 r1 rfl e h3
        · exact h2 _ r2 hn e h3

theorem VulkanSwapchain.init_no_command_buffers {sc : VulkanSwapchain}
    {old : Option VulkanSwapchain} {answers : ChainAnswers} {r : Run VulkanSwapchain Unit}
    (h : sc.init old answers = some r) :
    ∀ e ∈ r.calls, e.isCommandBufferAllocation = false := by
  unfold VulkanSwapchain.init at h
  refine Run.andThen_forall (fun e => e.isCommandBufferAllocation = false) h
    (fun r1 h1 => VulkanSwapchain.createSwapChain_no_command_buffers h1) ?_
  intro s1 r2 h2
  refine Run.andThen_forall (fun e => e.isCommandBufferAllocation = false) h2
    (fun r1 h1 => VulkanSwapchain.createImageViews_no_command_buffers h1) ?_
  intro s2 r3 h3
  refine Run.andThen_forall (fun e => e.isCommandBufferAllocation = false) h3
    (fun r1 h1 => VulkanSwapchain.createRenderPass_no_command_buffers h1) ?_
  intro s3 r4 h4
  refine Run.andThen_forall (fun e => e.isCommandBufferAllocation = false) h4
    (fun r1 h1 => VulkanSwapchain.createFramebuffers_no_command_buffers h1) ?_
  intro s4 r5 h5
  exact VulkanSwapchain.createSyncObjects_no_command_buffers h5

theorem VulkanSwapchain.destroyDepthResources_no_command_buffers (sc : VulkanSwapchain) :
    ∀ (remaining i : Nat) (calls : List Effect),
      sc.destroyDepthResources remaining i = some calls →
      ∀ e ∈ calls, e.isCommandBufferAllocation = false := by
  intro remaining
  induction remaining with
  | zero =>
    intro i calls h e he
    simp only [VulkanSwapchain.destroyDepthResources] at h
    injection h with h
    rw [← h] at he
    exact absurd he (List.not_mem_nil e)
  | succ remaining ih =>
    intro i calls h e he
    unfold VulkanSwapchain.destroyDepthResources at h
    split at h
    · split at h
      · cases h
      · rename_i later hlater
        injection h with h
        rw [← h] at he
        rcases List.mem_append.mp he with h1 | h1
        · simp only [List.mem_cons, List.mem_singleton, List.not_mem_nil, or_false] at h1
          rcases h1 with h1 | h1 | h1 <;> (rw [h1]; rfl)
        · exact ih (i + 1) later hlater e h1
    · cases h

theorem VulkanSwapchain.destroySyncObjects_no_command_buffers (sc : VulkanSwapchain) :
    ∀ (remaining i : Nat) (calls : List Effect),
      sc.destroySyncObjects remaining i = some calls →
      ∀ e ∈ calls, e.isCommandBufferAllocation = false := by
  intro remaining
  induction remaining with
  | zero =>
    intro i calls h e he
    simp only [VulkanSwapchain.destroySyncObjects] at h
    injection h with h
    rw [← h] at he
    exact absurd he (List.not_mem_nil e)
  | succ remaining ih =>
    intro i calls h e he
    unfold VulkanSwapchain.destroySyncObjects at h
    split at h
    · split at h
      · cases h
      · rename_i later hlater
        injection h with h
        rw [← h] at he
        rcases List.mem_append.mp he with h1 | h1
        · simp only [List.mem_cons, List.mem_singleton, List.not_mem_nil, or_false] at h1
          rcases h1 with h1 | h1 | h1 <;> (rw [h1]; rfl)
        · exact ih (i + 1) later hlater e h1
    · cases h

theorem VulkanSwapchain.destructor_no_command_buffers {sc : VulkanSwapchain}
    {calls : List Effect} (h : sc.destructor = some calls) :
    ∀ e ∈ calls, e.isCommandBufferAllocation = false := by
  unfold VulkanSwapchain.destructor at h
  split at h
  · rename_i depthCalls syncCalls hdepth hsync
    injection h with h
    rw [← h]
    intro e he
    simp only [List.mem_append, List.mem_map, List.mem_singleton] at he
    rcases he with ((((⟨v, _, hv⟩ | h1) | h1) | ⟨v, _, hv⟩) | h1) | h1
    · rw [← hv]
      rfl
    · split at h1
      · rw [List.mem_singleton.mp h1]
        rfl
      · exact absurd h1 (List.not_mem_nil e)
    · exact sc.destroyDepthResources_no_command_buffers _ _ _ hdepth e h1
    · rw [← hv]
      rfl
    · rw [h1]
      rfl
    · exact sc.destroySyncObjects_no_command_buffers _ _ _ hsync e h1
  · cases h

theorem VulkanSwapchain.chain_constructor_no_command_buffers {deviceRef : VulkanDevice}
    {extent : VkExtent2D} {previous : Option VulkanSwapchain} {answers : ChainAnswers}
    {out : List Effect × Except String VulkanSwapchain}
    (h : VulkanSwapchain.constructor deviceRef extent previous answers = some out) :
    ∀ e ∈ out.1, e.isCommandBufferAllocation = false := by
  unfold VulkanSwapchain.constructor at h
  simp only at h
  split at h
  · cases h
  · rename_i built hbuilt
    split at h
    · cases h
    · rename_i releaseCalls hrelease
      injection h with h
      rw [← h]
      intro e he
      rcases List.mem_append.mp he with h1 | h1
      · exact VulkanSwapchain.init_no_command_buffers hbuilt e h1
      · cases previous with
        | none =>
          injection hrelease with hrelease
          rw [← hrelease] at h1
          exact absurd h1 (List.not_mem_nil e)
        | some old =>
          exact VulkanSwapchain.destructor_no_command_buffers hrelease e h1

theorem MApplication.reCreateSwapchain_command_buffer_calls {app : MApplication}
    {answers : RecreateAnswers} {r : Run MApplication Unit}
    (h : app.reCreateSwapchain answers = some r) (hok : r.result = Except.ok ()) :
    ∃ chainCalls swapchain pipelineCalls pipeline,
      VulkanSwapchain.constructor app.m_device app.m_window.getExtent app.m_swapchain
          answers.chain = some (chainCalls, Except.ok swapchain)
      ∧ VulkanPipeline.constructor "./../shaders/shader.vert.spv" "./../shaders/shader.frag.spv"
          { pipelineLayout := app.m_pipelineLayout, renderpass := swapchain.m_renderpass,
            subpass := 0 } answers.pipeline = some (pipelineCalls, Except.ok pipeline)
      ∧ r.state.m_swapchain = some swapchain
      ∧ r.state.m_commandBuffers =
          (if app.m_swapchain.isSome = true
              ∧ swapchain.imageCount ≠ app.m_commandBuffers.length then
            (List.range swapchain.imageCount).map answers.allocateCommandBuffers.2
          else app.m_commandBuffers)
      ∧ r.calls = Effect.vkDeviceWaitIdle app.m_device.m_device ::
          (chainCalls
            ++ ((if app.m_swapchain.isSome = true
                  ∧ swapchain.imageCount ≠ app.m_commandBuffers.length then
                [Effect.vkFreeCommandBuffers app.m_device.m_commandPool app.m_commandBuffers,
                  Effect.vkAllocateCommandBuffers app.m_device.m_commandPool
                    swapchain.imageCount]
              else [])
            ++ (pipelineCalls
              ++ ((match app.m_pipeline with
                  | none => []
                  | some old => old.destructor)
                ++ [Effect.cout ("width: " ++ toString app.m_window.getExtent.width
                  ++ "; height: " ++ toString app.m_window.getExtent.height ++ "\n")]))))
      ∧ r.calls.filter (fun e => e.isCommandBufferAllocation) =
          (if app.m_swapchain.isSome = true
              ∧ swapchain.imageCount ≠ app.m_commandBuffers.length then
            [Effect.vkFreeCommandBuffers app.m_device.m_commandPool app.m_commandBuffers,
              Effect.vkAllocateCommandBuffers app.m_device.m_commandPool swapchain.imageCount]
          else []) := by
  obtain ⟨chainCalls, swapchain, pipelineCalls, pipeline, hctor, _, hpipe, hstate, hcalls⟩ :=
    MApplication.reCreateSwapchain_ok h hok
  have hchain : chainCalls.filter (fun e => e.isCommandBufferAllocation) = [] := by
    rw [List.filter_eq_nil_iff]
    intro e he
    rw [VulkanSwapchain.chain_constructor_no_command_buffers hctor e he]
    exact Bool.false_ne_true
  obtain ⟨hpcalls, _, _, _⟩ := VulkanPipeline.pipeline_constructor_ok hpipe
  have hpipeline : pipelineCalls.filter (fun e => e.isCommandBufferAllocation) = [] := by
    rw [hpcalls]
    rfl
  simp only [List.append_assoc] at hcalls
  refine ⟨chainCalls, swapchain, pipelineCalls, pipeline, hctor, hpipe, by rw [hstate],
    by rw [hstate], hcalls, ?_⟩
  rw [hcalls, List.filter_cons_of_neg (by simp [Effect.isCommandBufferAllocation]),
    List.filter_append, List.filter_append, List.filter_append, List.filter_append, hchain,
    hpipeline]
  by_cases hcond : app.m_swapchain.isSome = true
      ∧ swapchain.imageCount ≠ app.m_commandBuffers.length
  · rw [if_pos hcond]
    cases app.m_pipeline <;> rfl
  · rw [if_neg hcond]
    cases app.m_pipeline <;> rfl

/-- Counterexample to C18 as stated: the call of `reCreateSwapchain` that the constructor
makes (MApplication.cpp 16), on the application that holds no chain and no command buffer
yet.  It returns; the chain then held has 3 images while the number of command buffers is 0;
and although the new image count differs from the previous command-buffer count, no command
buffer was freed or allocated during the call.  The effects of the constructor are
`vkCreatePipelineLayout`, the effects of this call, and the allocation by
`createCommandBuffers` that follows it. -/
theorem MApplication.reCreateSwapchain_in_constructor_allocates_nothing :
    (exampleConstructingApplication.reCreateSwapchain exampleConstruction.recreate).map
        (fun r => (r.result, r.state.m_swapchain.map (fun sc => sc.imageCount),
          r.state.m_commandBuffers, r.calls.filter (fun e => e.isCommandBufferAllocation)))
      = some (Except.ok (), some 3, [], [])
    ∧ (MApplication.constructor exampleConstruction).map (fun out => out.1)
      = (exampleConstructingApplication.reCreateSwapchain exampleConstruction.recreate).map
          (fun r => [Effect.vkCreatePipelineLayout] ++ r.calls
            ++ [Effect.vkAllocateCommandBuffers 5 3]) := by
  exact ⟨rfl, rfl⟩

/-- C18 (amended): after the constructor of `MApplication` has returned, the application holds
a chain and the number of command buffers is the image count of that chain.  After every
call of `reCreateSwapchain` that returned, made on an application that holds a chain (every
call after the constructor), the number of command buffers is the image count of the new
chain; the effects of the call are `vkDeviceWaitIdle`, those of the chain constructor, the
command buffer calls, those of the pipeline constructor, the destruction of the old
pipeline and the log line; the command buffer calls are `vkFreeCommandBuffers` of the old
command buffers followed by `vkAllocateCommandBuffers` of one per image exactly when the
image count of the new chain differs from the number of command buffers held before, and
then the command buffers are the newly allocated ones; otherwise no command buffer is freed
or allocated anywhere in the call and the command buffers are the ones held before.  The
call made on an application that holds no chain, as the constructor makes it, frees and
allocates nothing and leaves the command buffers as they are. -/
theorem MApplication.command_buffers_match_image_count :
    (∀ (construction : ConstructionAnswers) (calls : List Effect) (app : MApplication),
      MApplication.constructor construction = some (calls, Except.ok app) →
      ∃ swapchain, app.m_swapchain = some swapchain
        ∧ app.m_commandBuffers.length = swapchain.imageCount)
    ∧ (∀ (app : MApplication) (answers : RecreateAnswers) (r : Run MApplication Unit)
        (old : VulkanSwapchain),
      app.m_swapchain = some old → app.reCreateSwapchain answers = some r →
      r.result = Except.ok () →
      ∃ swapchain chainCalls pipelineCalls pipeline,
        r.state.m_swapchain = some swapchain
        ∧ r.state.m_commandBuffers.length = swapchain.imageCount
        ∧ VulkanSwapchain.constructor app.m_device app.m_window.getExtent (some old)
            answers.chain = some (chainCalls, Except.ok swapchain)
        ∧ VulkanPipeline.constructor "./../shaders/shader.vert.spv"
            "./../shaders/shader.frag.spv"
            { pipelineLayout := app.m_pipelineLayout, renderpass := swapchain.m_renderpass,
              subpass := 0 } answers.pipeline = some (pipelineCalls, Except.ok pipeline)
        ∧ r.calls = Effect.vkDeviceWaitIdle app.m_device.m_device ::
            (chainCalls
              ++ ((if swapchain.imageCount ≠ app.m_commandBuffers.length then
                  [Effect.vkFreeCommandBuffers app.m_device.m_commandPool app.m_commandBuffers,
                    Effect.vkAllocateCommandBuffers app.m_device.m_commandPool
                      swapchain.imageCount]
                else [])
              ++ (pipelineCalls
                ++ ((match app.m_pipeline with
                    | none => []
                    | some previous => previous.destructor)
                  ++ [Effect.cout ("width: " ++ toString app.m_window.getExtent.width
                    ++ "; height: " ++ toString app.m_window.getExtent.height ++ "\n")]))))
        ∧ r.calls.filter (fun e => e.isCommandBufferAllocation) =
            (if swapchain.imageCount ≠ app.m_commandBuffers.length then
              [Effect.vkFreeCommandBuffers app.m_device.m_commandPool app.m_commandBuffers,
                Effect.vkAllocateCommandBuffers app.m_device.m_commandPool
                  swapchain.imageCount]
            else [])
        ∧ r.state.m_commandBuffers =
            (if swapchain.imageCount ≠ app.m_commandBuffers.length then
              (List.range swapchain.imageCount).map answers.allocateCommandBuffers.2
            else app.m_commandBuffers))
    ∧ (∀ (app : MApplication) (answers : RecreateAnswers) (r : Run MApplication Unit),
      app.m_swapchain = none → app.reCreateSwapchain answers = some r →
      r.result = Except.ok () →
      r.state.m_commandBuffers = app.m_commandBuffers
      ∧ r.calls.filter (fun e => e.isCommandBufferAllocation) = []) := by
  refine ⟨?_, ?_, ?_⟩
  · intro construction calls app h
    unfold MApplication.constructor at h
    split at h
    · injection h with h
      injection h with _ h
      cases h
    · split at h
      · injection h with h
        injection h with _ h
        cases h
      · split at h
        · injection h with h
          injection h with _ h
          cases h
        · simp only at h
          split at h
          · cases h
          · rename_i built hbody
            injection h with h
            injection h with _ hresult
            cases hres : built.result with
            | error e =>
              rw [hres] at hresult
              cases hresult
            | ok u =>
              rw [hres] at hresult
              injection hresult with hstate
              obtain ⟨r1, r2, _, _, h2, hok2, hs2, _⟩ := Run.andThen_ok hbody hres
              obtain ⟨r3, r4, _, _, h4, hok4, hs4, _⟩ := Run.andThen_ok h2 hok2
              obtain ⟨swapchain, hsc, _, hs, _⟩ := MApplication.createCommandBuffers_ok h4 hok4
              refine ⟨swapchain, ?_, ?_⟩
              · rw [← hstate, hs2, hs4, hs]
                exact hsc
              · rw [← hstate, hs2, hs4, hs]
                simp
  · intro app answers r old hold h hok
    obtain ⟨chainCalls, swapchain, pipelineCalls, pipeline, hctor, hpipe, hsc, hbuffers, hcalls,
      hfilter⟩ := MApplication.reCreateSwapchain_command_buffer_calls h hok
    rw [hold] at hctor
    have hsome : app.m_swapchain.isSome = true := by rw [hold]; rfl
    simp only [hsome, true_and] at hbuffers hcalls hfilter
    refine ⟨swapchain, chainCalls, pipelineCalls, pipeline, hsc, ?_, hctor, hpipe, hcalls,
      hfilter, hbuffers⟩
    rw [hbuffers]
    by_cases hcount : swapchain.imageCount ≠ app.m_commandBuffers.length
    · rw [if_pos hcount, List.length_map, List.length_range]
    · rw [if_neg hcount]
      exact (not_not.mp hcount).symm
  · intro app answers r hnone h hok
    obtain ⟨chainCalls, swapchain, pipelineCalls, pipeline, _, _, _, hbuffers, _, hfilter⟩ :=
      MApplication.reCreateSwapchain_command_buffer_calls h hok
    have hsome : ¬ (app.m_swapchain.isSome = true) := by rw [hnone]; exact Bool.false_ne_true
    rw [if_neg (fun hc => hsome hc.1)] at hbuffers hfilter
    exact ⟨hbuffers, hfilter⟩

/-- Witness of C18 (amended): the constructor with `exampleConstruction` returns an
application with as many command buffers as its chain has images; a recreation on
`exampleApplication` (three command buffers) for which two images are reported returns with
the two newly allocated command buffers, having freed the three and allocated two; and a
recreation for which three images are reported frees and allocates nothing. -/
theorem MApplication.command_buffers_match_image_count_witness :
    (∃ calls app swapchain,
      MApplication.constructor exampleConstruction = some (calls, Except.ok app)
      ∧ app.m_swapchain = some swapchain
      ∧ app.m_commandBuffers.length = swapchain.imageCount)
    ∧ (∃ r swapchain,
      exampleApplication.reCreateSwapchain exampleTwoImageAnswers = some r
      ∧ r.result = Except.ok ()
      ∧ r.state.m_swapchain = some swapchain
      ∧ r.state.m_commandBuffers.length = swapchain.imageCount
      ∧ r.calls.filter (fun e => e.isCommandBufferAllocation)
        = [Effect.vkFreeCommandBuffers 5 [81, 82, 83], Effect.vkAllocateCommandBuffers 5 2])
    ∧ (∃ r,
      exampleApplication.reCreateSwapchain exampleFrameAnswers.recreate = some r
      ∧ r.result = Except.ok ()
      ∧ r.state.m_commandBuffers = [81, 82, 83]
      ∧ r.calls.filter (fun e => e.isCommandBufferAllocation) = []) := by
  refine ⟨?_, ?_, ?_⟩
  · have hok : (MApplication.constructor exampleConstruction).map
        (fun out => out.2.toOption.isSome) = some true := rfl
    cases h : MApplication.constructor exampleConstruction with
    | none =>
      rw [h] at hok
      cases hok
    | some out =>
      obtain ⟨calls, result⟩ := out
      cases result with
      | error e =>
        rw [h] at hok
        cases hok
      | ok app =>
        obtain ⟨swapchain, hsc, hlen⟩ :=
          MApplication.command_buffers_match_image_count.1 exampleConstruction calls app h
        exact ⟨calls, app, swapchain, rfl, hsc, hlen⟩
  · have hok : (exampleApplication.reCreateSwapchain exampleTwoImageAnswers).map
        (fun r => (r.result, r.state.m_swapchain.map (fun sc => sc.imageCount)))
        = some (Except.ok (), some 2) := rfl
    cases h : exampleApplication.reCreateSwapchain exampleTwoImageAnswers with
    | none =>
      rw [h] at hok
      cases hok
    | some r =>
      rw [h] at hok
      simp only [Option.map_some', Option.some.injEq, Prod.mk.injEq] at hok
      obtain ⟨swapchain, _, _, _, hsc, hlen, _, _, _, hfilter, _⟩ :=
        MApplication.command_buffers_match_image_count.2.1 exampleApplication
          exampleTwoImageAnswers r exampleChain rfl h hok.1
      have hcount : swapchain.imageCount = 2 := by
        have h2 := hok.2
        rw [hsc] at h2
        simp only [Option.map_some', Option.some.injEq] at h2
        exact h2
      rw [hcount] at hfilter
      exact ⟨r, swapchain, rfl, hok.1, hsc, hlen, hfilter⟩
  · have hok : (exampleApplication.reCreateSwapchain exampleFrameAnswers.recreate).map
        (fun r => (r.result, r.state.m_swapchain.map (fun sc => sc.imageCount)))
        = some (Except.ok (), some 3) := rfl
    cases h : exampleApplication.reCreateSwapchain exampleFrameAnswers.recreate with
    | none =>
      rw [h] at hok
      cases hok
    | some r =>
      rw [h] at hok
      simp only [Option.map_some', Option.some.injEq, Prod.mk.injEq] at hok
      obtain ⟨swapchain, _, _, _, hsc, _, _, _, _, hfilter, hbuffers⟩ :=
        MApplication.command_buffers_match_image_count.2.1 exampleApplication
          exampleFrameAnswers.recreate r exampleChain rfl h hok.1
      have hcount : swapchain.imageCount = 3 := by
        have h2 := hok.2
        rw [hsc] at h2
        simp only [Option.map_some', Option.some.injEq] at h2
        exact h2
      rw [hcount] at hfilter hbuffers
      exact ⟨r, rfl, hok.1, hbuffers, hfilter⟩

/-- C19: after every call of `reCreateSwapchain` that returned, the application holds the
chain the call constructed and a pipeline the call built: after the chain construction (and
the command buffer calls, if any) the effects are the two `vkCreateShaderModule` calls and
one `vkCreateGraphicsPipelines` call whose render pass is the render pass of the new chain,
the handle `vkCreateRenderPass` returned during this construction, and whose layout is the
pipeline layout of the application; the pipeline held afterwards consists of the handles
these calls returned; the pipeline held before, if any, is destroyed after the new one is
built; the pipeline layout is unchanged.  When the implementation gave the new render pass a
handle different from that of the predecessor chain, the configured render pass is not the
predecessor's. -/
theorem MApplication.reCreateSwapchain_rebuilds_pipeline (app : MApplication)
    (answers : RecreateAnswers) (r : Run MApplication Unit)
    (h : app.reCreateSwapchain answers = some r) (hok : r.result = Except.ok ()) :
    ∃ swapchain pipeline before,
      r.state.m_swapchain = some swapchain
      ∧ r.state.m_pipeline = some pipeline
      ∧ r.state.m_pipelineLayout = app.m_pipelineLayout
      ∧ swapchain.m_renderpass = answers.chain.createRenderPass.2
      ∧ swapchain.m_renderpass ≠ VK_NULL_HANDLE
      ∧ pipeline = {
          m_graphicsPipeline := answers.pipeline.createGraphicsPipelines.2
          m_vertShaderModule := answers.pipeline.createVertShaderModule.2
          m_fragShaderModule := answers.pipeline.createFragShaderModule.2 }
      ∧ r.calls = Effect.vkDeviceWaitIdle app.m_device.m_device ::
          (before
            ++ ([Effect.vkCreateShaderModule "./../shaders/shader.vert.spv",
                Effect.vkCreateShaderModule "./../shaders/shader.frag.spv",
                Effect.vkCreateGraphicsPipelines app.m_pipelineLayout swapchain.m_renderpass 0
                  pipeline.m_vertShaderModule pipeline.m_fragShaderModule]
              ++ ((match app.m_pipeline with
                  | none => []
                  | some old => old.destructor)
                ++ [Effect.cout ("width: " ++ toString app.m_window.getExtent.width
                  ++ "; height: " ++ toString app.m_window.getExtent.height ++ "\n")])))
      ∧ (∀ old, app.m_swapchain = some old →
          answers.chain.createRenderPass.2 ≠ old.m_renderpass →
          swapchain.m_renderpass ≠ old.m_renderpass) := by
  obtain ⟨chainCalls, swapchain, pipelineCalls, pipeline, hctor, _, hpipe, hstate, hcalls⟩ :=
    MApplication.reCreateSwapchain_ok h hok
  obtain ⟨_, _, _, _, _, _, _, _, _, _, hpass, _⟩ := VulkanSwapchain.chain_constructor_ok hctor
  obtain ⟨hpcalls, hpipeline, _, hnonnull⟩ := VulkanPipeline.pipeline_constructor_ok hpipe
  rw [hpcalls] at hcalls
  simp only [List.append_assoc] at hcalls
  rw [← List.append_assoc] at hcalls
  refine ⟨swapchain, pipeline, _, by rw [hstate], by rw [hstate], by rw [hstate], hpass,
    hnonnull, hpipeline, hcalls, ?_⟩
  intro old _ hfresh
  rw [hpass]
  exact hfresh

/-- Witness of C19 on `exampleApplication`: a recreation returns, and the pipeline held
afterwards is the one built for the render pass 170 of the new chain. -/
theorem MApplication.reCreateSwapchain_rebuilds_pipeline_witness :
    ∃ r swapchain pipeline,
      exampleApplication.reCreateSwapchain exampleFrameAnswers.recreate = some r
      ∧ r.result = Except.ok ()
      ∧ r.state.m_swapchain = some swapchain
      ∧ r.state.m_pipeline = some pipeline
      ∧ swapchain.m_renderpass = 170
      ∧ pipeline = ⟨190, 191, 192⟩ := by
  have hok : (exampleApplication.reCreateSwapchain exampleFrameAnswers.recreate).map
      (fun r => r.result) = some (Except.ok ()) := rfl
  cases h : exampleApplication.reCreateSwapchain exampleFrameAnswers.recreate with
  | none =>
    rw [h] at hok
    cases hok
  | some r =>
    rw [h] at hok
    simp only [Option.map_some', Option.some.injEq] at hok
    obtain ⟨swapchain, pipeline, _, hsc, hpipe, _, hpass, _, hp, _, _⟩ :=
      MApplication.reCreateSwapchain_rebuilds_pipeline exampleApplication
        exampleFrameAnswers.recreate r h hok
    exact ⟨r, swapchain, pipeline, rfl, hok, hsc, hpipe, hpass, hp⟩

/-! ## The process: `main` -/

theorem main_outcome (construction : ConstructionAnswers)
    (script : List (List SDL_Event × FrameAnswers)) :
    (∀ calls e, MApplication.constructor construction = some (calls, Except.error e) →
      main construction script = some (calls, ProcessEnd.terminate e))
    ∧ (∀ calls app ran, MApplication.constructor construction = some (calls, Except.ok app) →
      app.run script = some ran →
      (ran.result = Except.ok true →
        main construction script = some (calls ++ ran.calls, ProcessEnd.exit EXIT_SUCCESS))
      ∧ (∀ e, ran.result = Except.error e →
        main construction script
          = some (calls ++ ran.calls ++ [Effect.cerr (e ++ "\n")],
              ProcessEnd.exit EXIT_FAILURE))) := by
  refine ⟨?_, ?_⟩
  · intro calls e h
    simp only [main, h]
  · intro calls app ran h hrun
    refine ⟨?_, ?_⟩
    · intro hres
      simp only [main, h, hrun, hres]
    · intro e hres
      simp only [main, h, hrun, hres]

/-- C20, at the failing input: `vkCreatePipelineLayout` fails while the application object
is constructed.  The exception "Failed to create pipeline layout." leaves `main`, whatever
the script of the main loop: the process ends in `std::terminate`, the handler of `main` is
not reached, nothing is written to `std::cerr` by it and no exit code 1 is returned.  On the
paths through the `try` block the claim holds: with `exampleConstruction` and a script that
closes the window at once, `main` returns exit code 0; when the acquire of the first frame
fails, `main` writes the message and a newline to `std::cerr` and returns exit code 1. -/
theorem main_constructor_exception_terminates :
    (∀ script : List (List SDL_Event × FrameAnswers),
      main exampleFailedConstruction script
        = some ([Effect.vkCreatePipelineLayout],
            ProcessEnd.terminate "Failed to create pipeline layout."))
    ∧ (main exampleConstruction [([⟨SDL_QUIT, 0, 0, 0, 0⟩], exampleFrameAnswers)]).map
        (fun out => out.2) = some (ProcessEnd.exit EXIT_SUCCESS)
    ∧ (main exampleConstruction
        [([], { exampleFrameAnswers with acquire := (VK_ERROR_DEVICE_LOST, 0) })]).map
        (fun out => (out.1.reverse.head?, out.2))
      = some (some (Effect.cerr "Failed to acquire swapchain image.\n"),
          ProcessEnd.exit EXIT_FAILURE) := by
  refine ⟨?_, rfl, rfl⟩
  intro script
  exact (main_outcome exampleFailedConstruction script).1 [Effect.vkCreatePipelineLayout]
    "Failed to create pipeline layout." rfl

/-! ## Destruction of a chain and its synchronization objects -/

theorem list_length_two {α : Type} {l : List α} (h : l.length = 2) : ∃ a b, l = [a, b] := by
  match l, h with
  | [a, b], _ => exact ⟨a, b, rfl⟩

theorem VulkanSwapchain.destructor_of_wellFormed (sc : VulkanSwapchain) (hwf : sc.WellFormed)
    (hdepth : sc.depthImages = []) :
    sc.destructor = some (
      sc.m_swapChainImageViews.map Effect.vkDestroyImageView
      ++ (if sc.m_swapchain ≠ VK_NULL_HANDLE then [Effect.vkDestroySwapchainKHR sc.m_swapchain]
          else [])
      ++ sc.m_swapChainFramebuffers.map Effect.vkDestroyFramebuffer
      ++ [Effect.vkDestroyRenderPass sc.m_renderpass]
      ++ ((sc.renderFinishedSemaphores.zip
            (sc.imageAvailableSemaphores.zip sc.inFlightFences)).map
          (fun slot => [Effect.vkDestroySemaphore slot.1, Effect.vkDestroySemaphore slot.2.1,
            Effect.vkDestroyFence slot.2.2])).flatten) := by
  obtain ⟨w1, w2, w3, _, _⟩ := hwf
  obtain ⟨a0, a1, ha⟩ := list_length_two w1
  obtain ⟨b0, b1, hb⟩ := list_length_two w2
  obtain ⟨c0, c1, hc⟩ := list_length_two w3
  simp only [VulkanSwapchain.destructor, hdepth, List.length_nil,
    VulkanSwapchain.destroyDepthResources, VulkanSwapchain.MAX_FRAMES_IN_FLIGHT,
    VulkanSwapchain.destroySyncObjects, ha, hb, hc]
  simp

/-- C21: for every chain with `n` images, in the state its constructor establishes and its
frames keep (two frame slots, one image view and one framebuffer per image, no depth
resources, a native handle that is not null), the destructor issues exactly these destroy
calls, in this order: the `n` image views, then the native swapchain handle, then nothing
for the depth resources, then the `n` framebuffers, then the render pass, then for each of
the `MAX_FRAMES_IN_FLIGHT` slots in turn its render-finished semaphore, its image-available
semaphore and its fence. -/
theorem VulkanSwapchain.destructor_order (sc : VulkanSwapchain) (hwf : sc.WellFormed)
    (hdepth : sc.depthImages = [])
    (hviews : sc.m_swapChainImageViews.length = sc.imageCount)
    (hframebuffers : sc.m_swapChainFramebuffers.length = sc.imageCount)
    (hhandle : sc.m_swapchain ≠ VK_NULL_HANDLE) :
    ∃ viewCalls framebufferCalls slotCalls,
      sc.destructor = some (viewCalls ++ [Effect.vkDestroySwapchainKHR sc.m_swapchain]
        ++ framebufferCalls ++ [Effect.vkDestroyRenderPass sc.m_renderpass] ++ slotCalls)
      ∧ viewCalls = sc.m_swapChainImageViews.map Effect.vkDestroyImageView
      ∧ viewCalls.length = sc.imageCount
      ∧ framebufferCalls = sc.m_swapChainFramebuffers.map Effect.vkDestroyFramebuffer
      ∧ framebufferCalls.length = sc.imageCount
      ∧ slotCalls = ((sc.renderFinishedSemaphores.zip
            (sc.imageAvailableSemaphores.zip sc.inFlightFences)).map
          (fun slot => [Effect.vkDestroySemaphore slot.1, Effect.vkDestroySemaphore slot.2.1,
            Effect.vkDestroyFence slot.2.2])).flatten
      ∧ (sc.renderFinishedSemaphores.zip
          (sc.imageAvailableSemaphores.zip sc.inFlightFences)).length
        = VulkanSwapchain.MAX_FRAMES_IN_FLIGHT := by
  have hcalls := sc.destructor_of_wellFormed hwf hdepth
  rw [if_pos hhandle] at hcalls
  obtain ⟨w1, w2, w3, _, _⟩ := hwf
  refine ⟨_, _, _, hcalls, rfl, ?_, rfl, ?_, rfl, ?_⟩
  · rw [List.length_map, hviews]
  · rw [List.length_map, hframebuffers]
  · rw [List.length_zip, List.length_zip, w1, w2, w3]
    rfl

/-- Witness of C21 on `exampleChain`, a chain with three images. -/
theorem VulkanSwapchain.destructor_order_witness :
    exampleChain.destructor = some [
      Effect.vkDestroyImageView 51, Effect.vkDestroyImageView 52, Effect.vkDestroyImageView 53,
      Effect.vkDestroySwapchainKHR 40,
      Effect.vkDestroyFramebuffer 61, Effect.vkDestroyFramebuffer 62,
      Effect.vkDestroyFramebuffer 63,
      Effect.vkDestroyRenderPass 70,
      Effect.vkDestroySemaphore 21, Effect.vkDestroySemaphore 11, Effect.vkDestroyFence 31,
      Effect.vkDestroySemaphore 22, Effect.vkDestroySemaphore 12, Effect.vkDestroyFence 32] := by
  obtain ⟨viewCalls, framebufferCalls, slotCalls, hcalls, hv, _, hf, _, hs, _⟩ :=
    VulkanSwapchain.destructor_order exampleChain (by decide) rfl rfl rfl (by decide)
  rw [hcalls, hv, hf, hs]
  rfl

/-! ## Construction of a chain: the members of a constructed chain -/

theorem VulkanSwapchain.createImageViews.loop_handles (format : Nat) (answer : Nat → VkResult × Nat) :
    ∀ (images : List Nat) (i : Nat) (views : List Nat),
      (VulkanSwapchain.createImageViews.loop format answer i images).2 = Except.ok views →
      views = (List.range' i images.length).map (fun j => (answer j).2) := by
  intro images
  induction images with
  | nil =>
    intro i views h
    simp only [VulkanSwapchain.createImageViews.loop] at h
    injection h with h
    rw [← h]
    rfl
  | cons image rest ih =>
    intro i views h
    unfold VulkanSwapchain.createImageViews.loop at h
    by_cases hfail : (answer i).1 ≠ VK_SUCCESS
    · rw [if_pos hfail] at h
      cases h
    · rw [if_neg hfail] at h
      simp only at h
      cases hlater : (VulkanSwapchain.createImageViews.loop format answer (i + 1) rest).2 with
      | error e =>
        rw [hlater] at h
        cases h
      | ok later =>
        rw [hlater] at h
        injection h with h
        rw [← h, ih (i + 1) later hlater]
        simp [List.range'_succ]

theorem VulkanSwapchain.createFramebuffers.loop_framebuffers (sc : VulkanSwapchain)
    (answer : Nat → VkResult × Nat) :
    ∀ (remaining i : Nat) (calls : List Effect) (framebuffers : List Nat),
      VulkanSwapchain.createFramebuffers.loop sc answer remaining i
        = some (calls, Except.ok framebuffers) →
      framebuffers = (List.range' i remaining).map (fun j => (answer j).2) := by
  intro remaining
  induction remaining with
  | zero =>
    intro i calls framebuffers h
    simp only [VulkanSwapchain.createFramebuffers.loop] at h
    injection h with h
    injection h with _ h
    injection h with h
    rw [← h]
    rfl
  | succ remaining ih =>
    intro i calls framebuffers h
    unfold VulkanSwapchain.createFramebuffers.loop at h
    split at h
    · cases h
    · by_cases hfail : (answer i).1 ≠ VK_SUCCESS
      · rw [if_pos hfail] at h
        injection h with h
        injection h with _ h
        cases h
      · rw [if_neg hfail] at h
        split at h
        · cases h
        · rename_i later hlater
          injection h with h
          injection h with _ h
          obtain ⟨laterCalls, laterResult⟩ := later
          cases laterResult with
          | error e =>
            simp only at h
            cases h
          | ok fbs =>
            simp only at h
            injection h with h
            rw [← h, ih (i + 1) laterCalls fbs hlater]
            simp [List.range'_succ]

theorem VulkanSwapchain.createSyncObjects_created {sc : VulkanSwapchain}
    {answers : ChainAnswers} {r : Run VulkanSwapchain Unit}
    (h : sc.createSyncObjects answers = some r) (hok : r.result = Except.ok ()) :
    r.state = { sc with
        imageAvailableSemaphores := [(answers.createImageAvailableSemaphore 0).2,
          (answers.createImageAvailableSemaphore 1).2]
        renderFinishedSemaphores := [(answers.createRenderFinishedSemaphore 0).2,
          (answers.createRenderFinishedSemaphore 1).2]
        inFlightFences := [(answers.createFence 0).2, (answers.createFence 1).2]
        imagesInFlight := sc.imagesInFlight.take sc.imageCount
          ++ List.replicate (sc.imageCount - sc.imagesInFlight.length) VK_NULL_HANDLE }
    ∧ r.calls = [Effect.vkCreateSemaphore 0, Effect.vkCreateSemaphore 0,
        Effect.vkCreateFence VK_FENCE_CREATE_SIGNALED_BIT,
        Effect.vkCreateSemaphore 0, Effect.vkCreateSemaphore 0,
        Effect.vkCreateFence VK_FENCE_CREATE_SIGNALED_BIT]
    ∧ (∀ i, i < VulkanSwapchain.MAX_FRAMES_IN_FLIGHT →
        (answers.createImageAvailableSemaphore i).1 = VK_SUCCESS
        ∧ (answers.createRenderFinishedSemaphore i).1 = VK_SUCCESS
        ∧ (answers.createFence i).1 = VK_SUCCESS) := by
  unfold VulkanSwapchain.createSyncObjects at h
  simp only [VulkanSwapchain.MAX_FRAMES_IN_FLIGHT, VulkanSwapchain.createSyncObjects.loop] at h
  split_ifs at h with a0 b0 c0 a1 b1 c1
  · injection h with h
    rw [← h] at hok
    cases hok
  · injection h with h
    rw [← h] at hok
    cases hok
  · injection h with h
    rw [← h] at hok
    cases hok
  · injection h with h
    rw [← h] at hok
    cases hok
  · injection h with h
    rw [← h] at hok
    cases hok
  · injection h with h
    rw [← h] at hok
    cases hok
  · injection h with h
    subst h
    refine ⟨rfl, rfl, ?_⟩
    intro i hi
    have hi2 : i = 0 ∨ i = 1 := by
      have : i < 2 := hi
      omega
    rcases hi2 with hi2 | hi2
    · subst hi2
      exact ⟨not_not.mp a0, not_not.mp b0, not_not.mp c0⟩
    · subst hi2
      exact ⟨not_not.mp a1, not_not.mp b1, not_not.mp c1⟩

theorem VulkanSwapchain.createImageViews_created {sc : VulkanSwapchain} {answers : ChainAnswers}
    {r : Run VulkanSwapchain Unit}
    (h : sc.createImageViews answers = some r) (hok : r.result = Except.ok ()) :
    r.state = { sc with
      m_swapChainImageViews :=
        (List.range sc.imageCount).map (fun i => (answers.createImageView i).2) } := by
  unfold VulkanSwapchain.createImageViews at h
  simp only at h
  split at h
  · injection h with h
    rw [← h] at hok
    cases hok
  · rename_i views hviews
    injection h with h
    subst h
    rw [VulkanSwapchain.createImageViews.loop_handles _ _ _ _ _ hviews, List.range_eq_range']
    rfl

theorem VulkanSwapchain.createFramebuffers_created {sc : VulkanSwapchain}
    {answers : ChainAnswers} {r : Run VulkanSwapchain Unit}
    (h : sc.createFramebuffers answers = some r) (hok : r.result = Except.ok ()) :
    r.state = { sc with
      m_swapChainFramebuffers :=
        (List.range sc.imageCount).map (fun i => (answers.createFramebuffer i).2) } := by
  unfold VulkanSwapchain.createFramebuffers at h
  split at h
  · cases h
  · rename_i created hcreated
    obtain ⟨calls, result⟩ := created
    cases result with
    | error e =>
      simp only at h
      injection h with h
      rw [← h] at hok
      cases hok
    | ok framebuffers =>
      simp only at h
      injection h with h
      subst h
      rw [VulkanSwapchain.createFramebuffers.loop_framebuffers _ _ _ _ _ _ hcreated, List.range_eq_range']

/-- The chain a constructor that returned has built, member by member, and its effects: those
of `init` followed by those of the destructor of the predecessor, if one was given.  Every
member is determined by the device, the extent and the answers of the implementation. -/
theorem VulkanSwapchain.chain_constructor_members {deviceRef : VulkanDevice}
    {extent : VkExtent2D} {previous : Option VulkanSwapchain} {answers : ChainAnswers}
    {calls : List Effect} {sc : VulkanSwapchain}
    (h : VulkanSwapchain.constructor deviceRef extent previous answers
      = some (calls, Except.ok sc)) :
    ∃ surfaceFormat initCalls releaseCalls,
      VulkanSwapchain.chooseSwapSurfaceFormat answers.swapChainSupport.formats
        = some surfaceFormat
      ∧ sc = {
          device := deviceRef
          m_windowExtent := extent
          m_swapChainImageFormat := surfaceFormat.format
          m_swapChainExtent :=
            VulkanSwapchain.chooseSwapExtent extent answers.swapChainSupport.capabilities
          m_swapChainFramebuffers := (List.range answers.swapChainImages.length).map
            (fun i => (answers.createFramebuffer i).2)
          m_renderpass := answers.createRenderPass.2
          depthImages := []
          depthImageMemorys := []
          depthImageViews := []
          m_swapChainImages := answers.swapChainImages
          m_swapChainImageViews := (List.range answers.swapChainImages.length).map
            (fun i => (answers.createImageView i).2)
          m_swapchain := answers.createSwapchain.2
          imageAvailableSemaphores := [(answers.createImageAvailableSemaphore 0).2,
            (answers.createImageAvailableSemaphore 1).2]
          renderFinishedSemaphores := [(answers.createRenderFinishedSemaphore 0).2,
            (answers.createRenderFinishedSemaphore 1).2]
          inFlightFences := [(answers.createFence 0).2, (answers.createFence 1).2]
          imagesInFlight := List.replicate answers.swapChainImages.length VK_NULL_HANDLE
          currentFrame := 0 }
      ∧ calls = initCalls ++ releaseCalls
      ∧ (previous.map fun old => old.destructor).getD (some []) = some releaseCalls
      ∧ (∃ createInfo rest,
          initCalls
            = (VulkanSwapchain.chooseSwapPresentMode answers.swapChainSupport.presentModes).1
              ++ Effect.vkCreateSwapchainKHR createInfo :: rest
          ∧ createInfo.oldSwapchain
            = (previous.map fun old => old.m_swapchain).getD VK_NULL_HANDLE) := by
  unfold VulkanSwapchain.constructor at h
  simp only at h
  split at h
  · cases h
  · rename_i built hbuilt
    split at h
    · cases h
    · rename_i releaseCalls hrelease
      injection h with h
      injection h with hcalls hresult
      cases hres : built.result with
      | error e =>
        rw [hres] at hresult
        cases hresult
      | ok u =>
        rw [hres] at hresult
        injection hresult with hstate
        unfold VulkanSwapchain.init at hbuilt
        obtain ⟨r1, r2, h1, hok1, h2, hok2, hs2, hc2⟩ := Run.andThen_ok hbuilt hres
        obtain ⟨r3, r4, h3, hok3, h4, hok4, hs4, hc4⟩ := Run.andThen_ok h2 hok2
        obtain ⟨r5, r6, h5, hok5, h6, hok6, hs6, hc6⟩ := Run.andThen_ok h4 hok4
        obtain ⟨r7, r8, h7, hok7, h8, hok8, hs8, hc8⟩ := Run.andThen_ok h6 hok6
        obtain ⟨surfaceFormat, createInfo, hformat, hstate1, hcalls1, _, _, _, _, _, hold⟩ :=
          VulkanSwapchain.createSwapChain_ok h1 hok1
        have hstate3 := VulkanSwapchain.createImageViews_created h3 hok3
        have hstate5 := VulkanSwapchain.createRenderPass_ok h5 hok5
        have hstate7 := VulkanSwapchain.createFramebuffers_created h7 hok7
        obtain ⟨hstate8, _, _⟩ := VulkanSwapchain.createSyncObjects_created h8 hok8
        have hfinal : sc = r8.state := by
          rw [← hstate, hs2, hs4, hs6, hs8]
        rw [hstate8, hstate7, hstate5, hstate3, hstate1] at hfinal
        refine ⟨surfaceFormat, r1.calls ++ (r3.calls ++ (r5.calls ++ (r7.calls ++ r8.calls))),
          releaseCalls, hformat, ?_, ?_, ?_, ?_⟩
        · rw [hfinal]
          simp [VulkanSwapchain.imageCount]
        · rw [← hcalls, hc2, hc4, hc6, hc8]
        · clear hfinal
          cases previous <;> exact hrelease
        · refine ⟨createInfo, r3.calls ++ (r5.calls ++ (r7.calls ++ r8.calls)), ?_, hold⟩
          rw [hcalls1]
          simp

theorem VulkanSwapchain.createSyncObjects_of_success (sc : VulkanSwapchain)
    (answers : ChainAnswers)
    (hsuccess : ∀ i, i < VulkanSwapchain.MAX_FRAMES_IN_FLIGHT →
      (answers.createImageAvailableSemaphore i).1 = VK_SUCCESS
      ∧ (answers.createRenderFinishedSemaphore i).1 = VK_SUCCESS
      ∧ (answers.createFence i).1 = VK_SUCCESS) :
    ∃ r, sc.createSyncObjects answers = some r ∧ r.result = Except.ok () := by
  obtain ⟨a0, b0, c0⟩ := hsuccess 0 (by decide)
  obtain ⟨a1, b1, c1⟩ := hsuccess 1 (by decide)
  simp only [VulkanSwapchain.createSyncObjects, VulkanSwapchain.MAX_FRAMES_IN_FLIGHT,
    VulkanSwapchain.createSyncObjects.loop, a0, b0, c0, a1, b1, c1, ne_eq, not_true_eq_false,
    if_false]
  exact ⟨_, rfl, rfl⟩

/-- C22: `createSyncObjects` always returns or throws, and it returns when every creation
call succeeds.  After it has returned, run on a chain object whose per-image fence vector
holds no fence yet (in the constructors it is still empty), the chain holds exactly
`MAX_FRAMES_IN_FLIGHT` image-available semaphores, `MAX_FRAMES_IN_FLIGHT` render-finished
semaphores and `MAX_FRAMES_IN_FLIGHT` in-flight fences, the handles the creation calls
returned; every `vkCreateFence` was given `VK_FENCE_CREATE_SIGNALED_BIT`; the per-image
fence mapping has one entry per image and every entry is null; the slot index is untouched.
In every chain a constructor returns these members are as `createSyncObjects` left them
and the slot index is 0. -/
theorem VulkanSwapchain.createSyncObjects_establishes :
    (∀ (sc : VulkanSwapchain) (answers : ChainAnswers),
      (∀ fence ∈ sc.imagesInFlight, fence = VK_NULL_HANDLE) →
      ∃ r, sc.createSyncObjects answers = some r
        ∧ ((∀ i, i < VulkanSwapchain.MAX_FRAMES_IN_FLIGHT →
            (answers.createImageAvailableSemaphore i).1 = VK_SUCCESS
            ∧ (answers.createRenderFinishedSemaphore i).1 = VK_SUCCESS
            ∧ (answers.createFence i).1 = VK_SUCCESS) → r.result = Except.ok ())
        ∧ (r.result = Except.ok () →
          r.state.imageAvailableSemaphores
            = (List.range VulkanSwapchain.MAX_FRAMES_IN_FLIGHT).map
                (fun i => (answers.createImageAvailableSemaphore i).2)
          ∧ r.state.renderFinishedSemaphores
            = (List.range VulkanSwapchain.MAX_FRAMES_IN_FLIGHT).map
                (fun i => (answers.createRenderFinishedSemaphore i).2)
          ∧ r.state.inFlightFences
            = (List.range VulkanSwapchain.MAX_FRAMES_IN_FLIGHT).map
                (fun i => (answers.createFence i).2)
          ∧ r.state.imageAvailableSemaphores.length = VulkanSwapchain.MAX_FRAMES_IN_FLIGHT
          ∧ r.state.renderFinishedSemaphores.length = VulkanSwapchain.MAX_FRAMES_IN_FLIGHT
          ∧ r.state.inFlightFences.length = VulkanSwapchain.MAX_FRAMES_IN_FLIGHT
          ∧ r.calls = ((List.range VulkanSwapchain.MAX_FRAMES_IN_FLIGHT).map
              (fun _ => [Effect.vkCreateSemaphore 0, Effect.vkCreateSemaphore 0,
                Effect.vkCreateFence VK_FENCE_CREATE_SIGNALED_BIT])).flatten
          ∧ r.state.imagesInFlight.length = r.state.imageCount
          ∧ (∀ fence ∈ r.state.imagesInFlight, fence = VK_NULL_HANDLE)
          ∧ r.state.currentFrame = sc.currentFrame))
    ∧ (∀ (deviceRef : VulkanDevice) (extent : VkExtent2D) (previous : Option VulkanSwapchain)
        (answers : ChainAnswers) (calls : List Effect) (sc : VulkanSwapchain),
      VulkanSwapchain.constructor deviceRef extent previous answers
        = some (calls, Except.ok sc) →
      sc.imageAvailableSemaphores
        = (List.range VulkanSwapchain.MAX_FRAMES_IN_FLIGHT).map
            (fun i => (answers.createImageAvailableSemaphore i).2)
      ∧ sc.renderFinishedSemaphores
        = (List.range VulkanSwapchain.MAX_FRAMES_IN_FLIGHT).map
            (fun i => (answers.createRenderFinishedSemaphore i).2)
      ∧ sc.inFlightFences
        = (List.range VulkanSwapchain.MAX_FRAMES_IN_FLIGHT).map
            (fun i => (answers.createFence i).2)
      ∧ sc.imagesInFlight = List.replicate sc.imageCount VK_NULL_HANDLE
      ∧ sc.currentFrame = 0) := by
  constructor
  · intro sc answers hnull
    obtain ⟨r, hr, _, _⟩ := sc.createSyncObjects_spec answers
    refine ⟨r, hr, ?_, ?_⟩
    · intro hsuccess
      obtain ⟨r2, hr2, hok2⟩ := sc.createSyncObjects_of_success answers hsuccess
      rw [hr] at hr2
      injection hr2 with hr2
      rw [hr2]
      exact hok2
    · intro hok
      obtain ⟨hstate, hcalls, _⟩ := VulkanSwapchain.createSyncObjects_created hr hok
      rw [hstate, hcalls]
      refine ⟨rfl, rfl, rfl, rfl, rfl, rfl, rfl, ?_, ?_, rfl⟩
      · show (sc.imagesInFlight.take sc.imageCount
            ++ List.replicate (sc.imageCount - sc.imagesInFlight.length) VK_NULL_HANDLE).length
          = sc.imageCount
        rw [List.length_append, List.length_take, List.length_replicate]
        omega
      · intro fence hfence
        have hmem : fence ∈ sc.imagesInFlight.take sc.imageCount
            ++ List.replicate (sc.imageCount - sc.imagesInFlight.length) VK_NULL_HANDLE := hfence
        rcases List.mem_append.mp hmem with h | h
        · exact hnull fence (List.mem_of_mem_take h)
        · exact (List.mem_replicate.mp h).2
  · intro deviceRef extent previous answers calls sc h
    obtain ⟨surfaceFormat, initCalls, releaseCalls, _, hsc, _⟩ :=
      VulkanSwapchain.chain_constructor_members h
    rw [hsc]
    exact ⟨rfl, rfl, rfl, rfl, rfl⟩

/-- Witness of C22: on a blank chain object with the three images of `exampleChain`, with
the answers `exampleChainAnswers`, `createSyncObjects` returns and leaves two semaphores of
each kind, two fences, three null entries in the per-image fence mapping and slot index 0. -/
theorem VulkanSwapchain.createSyncObjects_establishes_witness :
    ∃ r, VulkanSwapchain.createSyncObjects
        { exampleChain with
          imageAvailableSemaphores := []
          renderFinishedSemaphores := []
          inFlightFences := []
          imagesInFlight := [] } exampleChainAnswers = some r
      ∧ r.result = Except.ok ()
      ∧ r.state.imageAvailableSemaphores = [111, 112]
      ∧ r.state.renderFinishedSemaphores = [121, 122]
      ∧ r.state.inFlightFences = [131, 132]
      ∧ r.state.imagesInFlight = [0, 0, 0]
      ∧ r.state.currentFrame = 0 := by
  obtain ⟨r, hr, hsuccess, hafter⟩ := VulkanSwapchain.createSyncObjects_establishes.1
    { exampleChain with
      imageAvailableSemaphores := []
      renderFinishedSemaphores := []
      inFlightFences := []
      imagesInFlight := [] } exampleChainAnswers (by simp)
  have hok : r.result = Except.ok () := hsuccess (fun i _ => ⟨rfl, rfl, rfl⟩)
  obtain ⟨h1, h2, h3, _, _, _, _, h8, h9, h10⟩ := hafter hok
  refine ⟨r, hr, hok, h1, h2, h3, ?_, h10⟩
  have hlen : r.state.imagesInFlight.length = 3 := by
    rw [h8]
    obtain ⟨hstate, _⟩ := VulkanSwapchain.createSyncObjects_created hr hok
    rw [hstate]
    rfl
  exact List.eq_replicate_iff.mpr ⟨hlen, h9⟩

theorem VulkanSwapchain.destructor_destroys_slots {sc : VulkanSwapchain} (hwf : sc.WellFormed)
    (hdepth : sc.depthImages = []) {calls : List Effect} (h : sc.destructor = some calls) :
    (∀ semaphore ∈ sc.imageAvailableSemaphores, Effect.vkDestroySemaphore semaphore ∈ calls)
    ∧ (∀ semaphore ∈ sc.renderFinishedSemaphores, Effect.vkDestroySemaphore semaphore ∈ calls)
    ∧ (∀ fence ∈ sc.inFlightFences, Effect.vkDestroyFence fence ∈ calls) := by
  rw [sc.destructor_of_wellFormed hwf hdepth] at h
  injection h with h
  obtain ⟨w1, w2, w3, _, _⟩ := hwf
  obtain ⟨a0, a1, ha⟩ := list_length_two w1
  obtain ⟨b0, b1, hb⟩ := list_length_two w2
  obtain ⟨c0, c1, hc⟩ := list_length_two w3
  rw [ha, hb, hc] at h
  rw [ha, hb, hc, ← h]
  refine ⟨?_, ?_, ?_⟩
  · intro s hs
    simp only [List.mem_cons, List.mem_singleton, List.not_mem_nil, or_false] at hs
    rcases hs with hs | hs <;> subst hs <;> simp
  · intro s hs
    simp only [List.mem_cons, List.mem_singleton, List.not_mem_nil, or_false] at hs
    rcases hs with hs | hs <;> subst hs <;> simp
  · intro s hs
    simp only [List.mem_cons, List.mem_singleton, List.not_mem_nil, or_false] at hs
    rcases hs with hs | hs <;> subst hs <;> simp

/-- Counterexample to C23 as stated: `exampleSecondSlotApplication` holds a chain whose slot
index is 1 and whose slots have the semaphores 11, 12, 21, 22 and the fences 31, 32.  A
recreation returns, and the chain held afterwards has slot index 0, the semaphores 111,
112, 121, 122 and the fences 131, 132; the old fence 31 has been destroyed. -/
theorem MApplication.reCreateSwapchain_replaces_slot_ring :
    exampleSecondSlotApplication.m_swapchain.map
        (fun sc => (sc.currentFrame, sc.imageAvailableSemaphores, sc.renderFinishedSemaphores,
          sc.inFlightFences))
      = some (1, [11, 12], [21, 22], [31, 32])
    ∧ (exampleSecondSlotApplication.reCreateSwapchain exampleFrameAnswers.recreate).map
        (fun r => (r.result, decide (Effect.vkDestroyFence 31 ∈ r.calls),
          r.state.m_swapchain.map
            (fun sc => (sc.currentFrame, sc.imageAvailableSemaphores,
              sc.renderFinishedSemaphores, sc.inFlightFences))))
      = some (Except.ok (), true, some (0, [111, 112], [121, 122], [131, 132])) := by
  exact ⟨rfl, rfl⟩

/-- C23 (amended): every chain owns its own frame-slot ring, and a recreation replaces the
ring with the chain.  After every call of `reCreateSwapchain` that returned, whatever the
slot index before and whatever the old and new image counts, the chain held has slot index
0, its semaphores and fences are the handles created during its construction
(`MAX_FRAMES_IN_FLIGHT` of each kind), and no image is owned by a fence; the semaphores and
fences of the chain held before were destroyed during the call. -/
theorem MApplication.reCreateSwapchain_new_slot_ring (app : MApplication)
    (answers : RecreateAnswers) (r : Run MApplication Unit)
    (h : app.reCreateSwapchain answers = some r) (hok : r.result = Except.ok ()) :
    ∃ swapchain,
      r.state.m_swapchain = some swapchain
      ∧ swapchain.currentFrame = 0
      ∧ swapchain.imageAvailableSemaphores
        = (List.range VulkanSwapchain.MAX_FRAMES_IN_FLIGHT).map
            (fun i => (answers.chain.createImageAvailableSemaphore i).2)
      ∧ swapchain.renderFinishedSemaphores
        = (List.range VulkanSwapchain.MAX_FRAMES_IN_FLIGHT).map
            (fun i => (answers.chain.createRenderFinishedSemaphore i).2)
      ∧ swapchain.inFlightFences
        = (List.range VulkanSwapchain.MAX_FRAMES_IN_FLIGHT).map
            (fun i => (answers.chain.createFence i).2)
      ∧ swapchain.imagesInFlight = List.replicate swapchain.imageCount VK_NULL_HANDLE
      ∧ swapchain.imageCount = answers.chain.swapChainImages.length
      ∧ ∀ old, app.m_swapchain = some old → old.WellFormed → old.depthImages = [] →
        (∀ semaphore ∈ old.imageAvailableSemaphores,
          Effect.vkDestroySemaphore semaphore ∈ r.calls)
        ∧ (∀ semaphore ∈ old.renderFinishedSemaphores,
          Effect.vkDestroySemaphore semaphore ∈ r.calls)
        ∧ (∀ fence ∈ old.inFlightFences, Effect.vkDestroyFence fence ∈ r.calls) := by
  obtain ⟨chainCalls, swapchain, pipelineCalls, pipeline, hctor, _, _, hstate, hcalls⟩ :=
    MApplication.reCreateSwapchain_ok h hok
  obtain ⟨surfaceFormat, initCalls, releaseCalls, _, hsc, hchain, hrelease, _⟩ :=
    VulkanSwapchain.chain_constructor_members hctor
  refine ⟨swapchain, by rw [hstate], ?_, ?_, ?_, ?_, ?_, ?_, ?_⟩
  · rw [hsc]
  · rw [hsc]
    rfl
  · rw [hsc]
    rfl
  · rw [hsc]
    rfl
  · rw [hsc]
    rfl
  · rw [hsc]
    rfl
  · intro old hold hwf hdepth
    rw [hold] at hrelease
    have hdestroyed := VulkanSwapchain.destructor_destroys_slots hwf hdepth hrelease
    have hsub : ∀ e ∈ releaseCalls, e ∈ r.calls := by
      intro e he
      rw [hcalls, hchain]
      simp [he]
    exact ⟨fun s hs => hsub _ (hdestroyed.1 s hs), fun s hs => hsub _ (hdestroyed.2.1 s hs),
      fun s hs => hsub _ (hdestroyed.2.2 s hs)⟩

/-- Witness of C23 (amended) on `exampleSecondSlotApplication`, whose chain has slot index
1: a recreation returns and the chain held afterwards has slot index 0 and the fences 131
and 132. -/
theorem MApplication.reCreateSwapchain_new_slot_ring_witness :
    ∃ r swapchain,
      exampleSecondSlotApplication.reCreateSwapchain exampleFrameAnswers.recreate = some r
      ∧ r.result = Except.ok ()
      ∧ r.state.m_swapchain = some swapchain
      ∧ swapchain.currentFrame = 0
      ∧ swapchain.inFlightFences = [131, 132] := by
  have hok : (exampleSecondSlotApplication.reCreateSwapchain exampleFrameAnswers.recreate).map
      (fun r => r.result) = some (Except.ok ()) := rfl
  cases h : exampleSecondSlotApplication.reCreateSwapchain exampleFrameAnswers.recreate with
  | none =>
    rw [h] at hok
    cases hok
  | some r =>
    rw [h] at hok
    simp only [Option.map_some', Option.some.injEq] at hok
    obtain ⟨swapchain, hsc, hslot, _, _, hfences, _⟩ :=
      MApplication.reCreateSwapchain_new_slot_ring exampleSecondSlotApplication
        exampleFrameAnswers.recreate r h hok
    exact ⟨r, swapchain, rfl, hok, hsc, hslot, hfences⟩

/-- C24: when a chain constructor has returned, the one `vkCreateSwapchainKHR` request it made
named the predecessor in `oldSwapchain` by its native handle, or carried the null handle when
no predecessor was given; the predecessor given was released when the construction
completed (its destructor ran after the effects of `init`); and the constructed chain keeps
nothing of the predecessor: a construction with the same device, extent and answers gives
the same chain whatever predecessor it is given. -/
theorem VulkanSwapchain.chain_constructor_predecessor (deviceRef : VulkanDevice)
    (extent : VkExtent2D) (previous : Option VulkanSwapchain) (answers : ChainAnswers)
    (calls : List Effect) (sc : VulkanSwapchain)
    (h : VulkanSwapchain.constructor deviceRef extent previous answers
      = some (calls, Except.ok sc)) :
    ∃ createInfo rest releaseCalls,
      calls = (VulkanSwapchain.chooseSwapPresentMode answers.swapChainSupport.presentModes).1
        ++ Effect.vkCreateSwapchainKHR createInfo :: (rest ++ releaseCalls)
      ∧ (previous = none → createInfo.oldSwapchain = VK_NULL_HANDLE ∧ releaseCalls = [])
      ∧ (∀ old, previous = some old →
          createInfo.oldSwapchain = old.m_swapchain ∧ old.destructor = some releaseCalls)
      ∧ ∀ (other : Option VulkanSwapchain) (otherCalls : List Effect)
          (otherChain : VulkanSwapchain),
        VulkanSwapchain.constructor deviceRef extent other answers
          = some (otherCalls, Except.ok otherChain) →
        otherChain = sc := by
  obtain ⟨surfaceFormat, initCalls, releaseCalls, hformat, hsc, hcalls, hrelease, createInfo,
    rest, hinit, hold⟩ := VulkanSwapchain.chain_constructor_members h
  refine ⟨createInfo, rest, releaseCalls, ?_, ?_, ?_, ?_⟩
  · rw [hcalls, hinit]
    simp
  · intro hnone
    rw [hnone] at hold hrelease
    injection hrelease with hrelease
    exact ⟨hold, hrelease.symm⟩
  · intro old hsome
    rw [hsome] at hold hrelease
    exact ⟨hold, hrelease⟩
  · intro other otherCalls otherChain hother
    obtain ⟨otherFormat, _, _, hformat2, hsc2, _⟩ :=
      VulkanSwapchain.chain_constructor_members hother
    rw [hformat] at hformat2
    injection hformat2 with hformat2
    rw [hsc, hsc2, hformat2]

/-- Witness of C24: the constructor given `exampleChain` (native handle 40) as predecessor
returns; its request names 40 as `oldSwapchain` and its effects end with the destruction of
the predecessor. -/
theorem VulkanSwapchain.chain_constructor_predecessor_witness :
    ∃ calls sc createInfo rest releaseCalls,
      VulkanSwapchain.constructor exampleChain.device ⟨800, 600⟩ (some exampleChain)
        exampleChainAnswers = some (calls, Except.ok sc)
      ∧ calls = (VulkanSwapchain.chooseSwapPresentMode
          exampleChainAnswers.swapChainSupport.presentModes).1
        ++ Effect.vkCreateSwapchainKHR createInfo :: (rest ++ releaseCalls)
      ∧ createInfo.oldSwapchain = 40
      ∧ exampleChain.destructor = some releaseCalls := by
  have hok : (VulkanSwapchain.constructor exampleChain.device ⟨800, 600⟩ (some exampleChain)
      exampleChainAnswers).map (fun out => out.2.toOption.isSome) = some true := rfl
  cases h : VulkanSwapchain.constructor exampleChain.device ⟨800, 600⟩ (some exampleChain)
      exampleChainAnswers with
  | none =>
    rw [h] at hok
    cases hok
  | some out =>
    obtain ⟨calls, result⟩ := out
    cases result with
    | error e =>
      rw [h] at hok
      cases hok
    | ok sc =>
      obtain ⟨createInfo, rest, releaseCalls, hcalls, _, hsome, _⟩ :=
        VulkanSwapchain.chain_constructor_predecessor exampleChain.device ⟨800, 600⟩
          (some exampleChain) exampleChainAnswers calls sc h
      exact ⟨calls, sc, createInfo, rest, releaseCalls, rfl, hcalls,
        (hsome exampleChain rfl).1, (hsome exampleChain rfl).2⟩

/-! ## Recording of a command buffer -/

theorem static_cast_float_exact (n : Nat) (h : n ≤ 2 ^ 24) : static_cast_float n = n := by
  rcases Nat.lt_or_ge n (2 ^ 24) with hlt | hge
  · have hdropped : static_cast_float.dropped n 8 = 0 := by
      simp only [static_cast_float.dropped]
      repeat rw [if_pos (by omega)]
    simp [static_cast_float, hdropped, Nat.mod_one]
  · have hn : n = 2 ^ 24 := Nat.le_antisymm h hge
    subst hn
    decide

/-- Counterexample to C25 as stated.  On `exampleApplication`, for image index 1 (below the
image count 3), `vkBeginCommandBuffer` answers `VK_ERROR_OUT_OF_HOST_MEMORY`:
`recordCommandBuffer` throws after that one call and emits none of the commands.  And on
`exampleWideApplication`, whose chain extent is 16777217 x 768, with both calls succeeding,
the viewport set has width 16777216, the `float` nearest to 16777217, while the scissor has
the extent itself. -/
theorem MApplication.recordCommandBuffer_failed_begin_emits_nothing :
    (exampleApplication.m_swapchain.map fun sc => decide (1 < sc.imageCount)) = some true
    ∧ (exampleApplication.recordCommandBuffer 1 VK_ERROR_OUT_OF_HOST_MEMORY VK_SUCCESS).map
        (fun r => (r.calls, r.result))
      = some ([Effect.vkBeginCommandBuffer 82],
          Except.error "Failed to begin recording command buffer.")
    ∧ (exampleWideApplication.recordCommandBuffer 1 VK_SUCCESS VK_SUCCESS).map
        (fun r => (r.result, (r.calls.drop 2).take 2))
      = some (Except.ok (),
          [Effect.vkCmdSetViewport 82 ⟨0, 0, 16777216, 768, 0, 1⟩,
            Effect.vkCmdSetScissor 82 (0, 0) ⟨16777217, 768⟩]) := by
  exact ⟨rfl, rfl, rfl⟩

/-- C25 (amended): on an application in its render-loop state and for every image index
below the image count, `recordCommandBuffer` begins the command buffer of that image; when
`vkBeginCommandBuffer` succeeds it emits into that command buffer exactly this sequence:
begin; begin render pass on the framebuffer of that image with the render pass of the chain,
one clear colour `(0, 0, 0, 1)` and the render area at offset `(0, 0)` with the chain extent;
set viewport, with origin `(0, 0)`, depth range `(0, 1)` and as width and height the width
and height of the chain extent cast to `float`; set scissor to the chain extent at offset
`(0, 0)`; bind pipeline; bind mesh; draw; end render pass; end; and it returns unless
`vkEndCommandBuffer` fails.  The viewport has exactly the chain extent whenever width and
height of the extent are at most `2 ^ 24`.  When `vkBeginCommandBuffer` fails it throws after
that call and emits nothing else. -/
theorem MApplication.recordCommandBuffer_sequence (app : MApplication) (hready : app.Ready)
    (imgIndex : Nat)
    (hindex : ∀ swapchain, app.m_swapchain = some swapchain → imgIndex < swapchain.imageCount)
    (beginResult endResult : VkResult) :
    ∃ swapchain pipeline model commandBuffer framebuffer viewport r,
      app.m_swapchain = some swapchain
      ∧ app.m_pipeline = some pipeline
      ∧ app.model1 = some model
      ∧ app.m_commandBuffers[imgIndex]? = some commandBuffer
      ∧ swapchain.m_swapChainFramebuffers[imgIndex]? = some framebuffer
      ∧ viewport = {
          x := 0
          y := 0
          width := static_cast_float swapchain.m_swapChainExtent.width
          height := static_cast_float swapchain.m_swapChainExtent.height
          minDepth := 0
          maxDepth := 1 }
      ∧ (swapchain.m_swapChainExtent.width ≤ 2 ^ 24 →
          swapchain.m_swapChainExtent.height ≤ 2 ^ 24 →
          viewport = {
            x := 0
            y := 0
            width := swapchain.m_swapChainExtent.width
            height := swapchain.m_swapChainExtent.height
            minDepth := 0
            maxDepth := 1 })
      ∧ app.recordCommandBuffer imgIndex beginResult endResult = some r
      ∧ r.state = app
      ∧ (beginResult = VK_SUCCESS →
          r.calls =
            [Effect.vkBeginCommandBuffer commandBuffer,
              Effect.vkCmdBeginRenderPass commandBuffer swapchain.m_renderpass framebuffer
                (0, 0) swapchain.m_swapChainExtent [0, 0, 0, 1],
              Effect.vkCmdSetViewport commandBuffer viewport,
              Effect.vkCmdSetScissor commandBuffer (0, 0) swapchain.m_swapChainExtent,
              Effect.vkCmdBindPipeline commandBuffer pipeline.m_graphicsPipeline]
            ++ model.bind commandBuffer ++ model.draw commandBuffer
            ++ [Effect.vkCmdEndRenderPass commandBuffer,
              Effect.vkEndCommandBuffer commandBuffer]
          ∧ r.result = (if endResult ≠ VK_SUCCESS then
              Except.error "Failed to record command buffer." else Except.ok ()))
      ∧ (beginResult ≠ VK_SUCCESS →
          r.calls = [Effect.vkBeginCommandBuffer commandBuffer]
          ∧ r.result = Except.error "Failed to begin recording command buffer.") := by
  obtain ⟨swapchain, pipeline, model, hsc, hpipe, hmodel, _, _, hfb, hcb, hhandle, _⟩ := hready
  have hi := hindex swapchain hsc
  have h1 : app.m_commandBuffers[imgIndex]? = some app.m_commandBuffers[imgIndex] :=
    List.getElem?_eq_getElem (by rw [hcb]; exact hi)
  have h2 : swapchain.m_swapChainFramebuffers[imgIndex]?
      = some swapchain.m_swapChainFramebuffers[imgIndex] :=
    List.getElem?_eq_getElem (by rw [hfb]; exact hi)
  have hexact : swapchain.m_swapChainExtent.width ≤ 2 ^ 24 →
      swapchain.m_swapChainExtent.height ≤ 2 ^ 24 →
      ({ x := 0
         y := 0
         width := static_cast_float swapchain.m_swapChainExtent.width
         height := static_cast_float swapchain.m_swapChainExtent.height
         minDepth := 0
         maxDepth := 1 } : VkViewport)
      = { x := 0
          y := 0
          width := swapchain.m_swapChainExtent.width
          height := swapchain.m_swapChainExtent.height
          minDepth := 0
          maxDepth := 1 } := by
    intro hw hh
    rw [static_cast_float_exact _ hw, static_cast_float_exact _ hh]
  by_cases hb : beginResult ≠ VK_SUCCESS
  · refine ⟨swapchain, pipeline, model, _, _, _,
      ⟨app, [Effect.vkBeginCommandBuffer app.m_commandBuffers[imgIndex]],
        Except.error "Failed to begin recording command buffer."⟩,
      hsc, hpipe, hmodel, h1, h2, rfl, hexact, ?_, rfl, fun hs => absurd hs hb,
      fun _ => ⟨rfl, rfl⟩⟩
    simp only [MApplication.recordCommandBuffer, h1, if_pos hb]
  · by_cases he : endResult ≠ VK_SUCCESS
    · refine ⟨swapchain, pipeline, model, _, _, _, ⟨app, _,
        Except.error "Failed to record command buffer."⟩,
        hsc, hpipe, hmodel, h1, h2, rfl, hexact, ?_, rfl, fun _ => ⟨rfl, by rw [if_pos he]⟩,
        fun hn => absurd hn hb⟩
      simp only [MApplication.recordCommandBuffer, h1, if_neg hb, hsc, h2, hpipe, hmodel,
        VulkanPipeline.bind, if_neg hhandle, if_pos he, List.append_assoc, List.cons_append,
        List.nil_append]
    · refine ⟨swapchain, pipeline, model, _, _, _, ⟨app, _, Except.ok ()⟩,
        hsc, hpipe, hmodel, h1, h2, rfl, hexact, ?_, rfl, fun _ => ⟨rfl, by rw [if_neg he]⟩,
        fun hn => absurd hn hb⟩
      simp only [MApplication.recordCommandBuffer, h1, if_neg hb, hsc, h2, hpipe, hmodel,
        VulkanPipeline.bind, if_neg hhandle, if_neg he, List.append_assoc, List.cons_append,
        List.nil_append]

/-- Witness of C25 (amended) on `exampleApplication` for image index 1 with both calls
succeeding: the sequence recorded into command buffer 82, with the viewport of the chain
extent 1024 x 768 and the indexed mesh bound and drawn. -/
theorem MApplication.recordCommandBuffer_sequence_witness :
    ∃ r, exampleApplication.recordCommandBuffer 1 VK_SUCCESS VK_SUCCESS = some r
      ∧ r.result = Except.ok ()
      ∧ r.calls = [Effect.vkBeginCommandBuffer 82,
          Effect.vkCmdBeginRenderPass 82 70 62 (0, 0) ⟨1024, 768⟩ [0, 0, 0, 1],
          Effect.vkCmdSetViewport 82 ⟨0, 0, 1024, 768, 0, 1⟩,
          Effect.vkCmdSetScissor 82 (0, 0) ⟨1024, 768⟩,
          Effect.vkCmdBindPipeline 82 90,
          Effect.vkCmdBindVertexBuffers 82 96,
          Effect.vkCmdBindIndexBuffer 82 97,
          Effect.vkCmdDrawIndexed 82 6,
          Effect.vkCmdEndRenderPass 82,
          Effect.vkEndCommandBuffer 82] := by
  have hready : exampleApplication.Ready :=
    ⟨exampleChain, ⟨90, 91, 92⟩, ⟨96, 4, true, 97, 6⟩, rfl, rfl, rfl, by decide, rfl, rfl, rfl,
      by decide, by decide⟩
  obtain ⟨swapchain, pipeline, model, commandBuffer, framebuffer, viewport, r, hsc, hpipe,
    hmodel, hcb, hfb, _, hview, hrec, _, hcalls, _⟩ :=
    MApplication.recordCommandBuffer_sequence exampleApplication hready 1
      (fun swapchain hsc => by
        have hchain : swapchain = exampleChain := by
          have : exampleApplication.m_swapchain = some exampleChain := rfl
          rw [this] at hsc
          injection hsc with hsc
          exact hsc.symm
        rw [hchain]
        decide)
      VK_SUCCESS VK_SUCCESS
  have hchain : swapchain = exampleChain := by
    have : exampleApplication.m_swapchain = some exampleChain := rfl
    rw [this] at hsc
    injection hsc with hsc
    exact hsc.symm
  have hp : pipeline = ⟨90, 91, 92⟩ := by
    have : exampleApplication.m_pipeline = some ⟨90, 91, 92⟩ := rfl
    rw [this] at hpipe
    injection hpipe with hpipe
    exact hpipe.symm
  have hm : model = ⟨96, 4, true, 97, 6⟩ := by
    have : exampleApplication.model1 = some ⟨96, 4, true, 97, 6⟩ := rfl
    rw [this] at hmodel
    injection hmodel with hmodel
    exact hmodel.symm
  have hc : commandBuffer = 82 := by
    have : exampleApplication.m_commandBuffers[1]? = some 82 := rfl
    rw [this] at hcb
    injection hcb with hcb
    exact hcb.symm
  subst hchain hp hm hc
  have hf : framebuffer = 62 := by
    have : exampleChain.m_swapChainFramebuffers[1]? = some 62 := rfl
    rw [this] at hfb
    injection hfb with hfb
    exact hfb.symm
  subst hf
  have hv : viewport = ⟨0, 0, 1024, 768, 0, 1⟩ := hview (by decide) (by decide)
  subst hv
  obtain ⟨hseq, hres⟩ := hcalls rfl
  exact ⟨r, hrec, hres, hseq⟩

/-! ## Sizes of the vectors a frame indexes -/

theorem VulkanSwapchain.chain_constructor_sized {deviceRef : VulkanDevice}
    {extent : VkExtent2D} {previous : Option VulkanSwapchain} {answers : ChainAnswers}
    {calls : List Effect} {sc : VulkanSwapchain}
    (h : VulkanSwapchain.constructor deviceRef extent previous answers
      = some (calls, Except.ok sc)) :
    sc.WellFormed
    ∧ sc.depthImages = []
    ∧ sc.m_swapChainImageViews.length = sc.imageCount
    ∧ sc.m_swapChainFramebuffers.length = sc.imageCount := by
  obtain ⟨surfaceFormat, initCalls, releaseCalls, _, hsc, _⟩ :=
    VulkanSwapchain.chain_constructor_members h
  rw [hsc]
  refine ⟨⟨rfl, rfl, rfl, ?_, ?_⟩, rfl, ?_, ?_⟩
  · simp [VulkanSwapchain.imageCount]
  · show 0 < 2
    omega
  · simp [VulkanSwapchain.imageCount]
  · simp [VulkanSwapchain.imageCount]

theorem VulkanSwapchain.submitCommandBuffers_preserves {sc : VulkanSwapchain}
    {buffers imageIndex : Nat} {queueSubmitResult queuePresentResult : VkResult}
    {r : Run VulkanSwapchain VkResult}
    (h : sc.submitCommandBuffers buffers imageIndex queueSubmitResult queuePresentResult
      = some r) (hwf : sc.WellFormed) :
    r.state.WellFormed
    ∧ r.state.m_swapChainImages = sc.m_swapChainImages
    ∧ r.state.m_swapChainImageViews = sc.m_swapChainImageViews
    ∧ r.state.m_swapChainFramebuffers = sc.m_swapChainFramebuffers
    ∧ r.state.depthImages = sc.depthImages := by
  obtain ⟨w1, w2, w3, w4, w5⟩ := hwf
  unfold VulkanSwapchain.submitCommandBuffers at h
  split at h
  · simp only at h
    by_cases hq : queueSubmitResult ≠ VK_SUCCESS
    · rw [if_pos hq] at h
      injection h with h
      subst h
      refine ⟨⟨w1, w2, w3, ?_, w5⟩, rfl, rfl, rfl, rfl⟩
      show (sc.imagesInFlight.set imageIndex _).length = sc.m_swapChainImages.length
      rw [List.length_set]
      exact w4
    · rw [if_neg hq] at h
      injection h with h
      subst h
      refine ⟨⟨w1, w2, w3, ?_, ?_⟩, rfl, rfl, rfl, rfl⟩
      · show (sc.imagesInFlight.set imageIndex _).length = sc.m_swapChainImages.length
        rw [List.length_set]
        exact w4
      · exact Nat.mod_lt _ (by decide)
  · cases h

theorem MApplication.reCreateSwapchain_sized {app : MApplication} {answers : RecreateAnswers}
    {r : Run MApplication Unit} (h : app.reCreateSwapchain answers = some r)
    (hok : r.result = Except.ok ()) :
    ∃ swapchain,
      r.state.m_swapchain = some swapchain
      ∧ swapchain.WellFormed
      ∧ swapchain.depthImages = []
      ∧ swapchain.m_swapChainImageViews.length = swapchain.imageCount
      ∧ swapchain.m_swapChainFramebuffers.length = swapchain.imageCount
      ∧ (app.m_swapchain.isSome = true →
          r.state.m_commandBuffers.length = swapchain.imageCount)
      ∧ (app.m_swapchain = none → r.state.m_commandBuffers = app.m_commandBuffers) := by
  obtain ⟨chainCalls, swapchain, pipelineCalls, pipeline, hctor, _, _, hstate, _⟩ :=
    MApplication.reCreateSwapchain_ok h hok
  obtain ⟨hwf, hdepth, hviews, hfbs⟩ := VulkanSwapchain.chain_constructor_sized hctor
  refine ⟨swapchain, by rw [hstate], hwf, hdepth, hviews, hfbs, ?_, ?_⟩
  · intro hsome
    rw [hstate]
    by_cases hcount : swapchain.imageCount ≠ app.m_commandBuffers.length
    · simp only [if_pos (And.intro hsome hcount), List.length_map, List.length_range]
    · rw [if_neg (fun hc => hcount hc.2)]
      exact (not_not.mp hcount).symm
  · intro hnone
    rw [hstate, hnone]
    rfl

theorem MApplication.constructor_sized {construction : ConstructionAnswers}
    {calls : List Effect} {app : MApplication}
    (h : MApplication.constructor construction = some (calls, Except.ok app)) :
    app.VectorsSized := by
  unfold MApplication.constructor at h
  split at h
  · injection h with h
    injection h with _ h
    cases h
  · split at h
    · injection h with h
      injection h with _ h
      cases h
    · split at h
      · injection h with h
        injection h with _ h
        cases h
      · simp only at h
        split at h
        · cases h
        · rename_i built hbody
          injection h with h
          injection h with _ hresult
          cases hres : built.result with
          | error e =>
            rw [hres] at hresult
            cases hresult
          | ok u =>
            rw [hres] at hresult
            injection hresult with hstate
            obtain ⟨r1, r2, _, _, h2, hok2, hs2, _⟩ := Run.andThen_ok hbody hres
            obtain ⟨r3, r4, h3, hok3, h4, hok4, hs4, _⟩ := Run.andThen_ok h2 hok2
            obtain ⟨swapchain, hsc, _, hs, _⟩ := MApplication.createCommandBuffers_ok h4 hok4
            obtain ⟨built2, hb2, hwf, _, hviews, hfbs, _, _⟩ :=
              MApplication.reCreateSwapchain_sized h3 hok3
            rw [hsc] at hb2
            injection hb2 with hb2
            subst hb2
            refine ⟨swapchain, ?_, hwf, hviews, hfbs, ?_⟩
            · rw [← hstate, hs2, hs4, hs]
              exact hsc
            · rw [← hstate, hs2, hs4, hs]
              simp

theorem MApplication.drawFrame_sized {app : MApplication} {answers : FrameAnswers}
    {r : Run MApplication Unit} (h : app.drawFrame answers = some r)
    (hok : r.result = Except.ok ()) (hsized : app.VectorsSized) :
    r.state.VectorsSized := by
  obtain ⟨swapchain, hsc, hwf, hviews, hfbs, hcb⟩ := hsized
  have hrecreated : ∀ (app2 : MApplication) (recreated : Run MApplication Unit),
      app2.m_swapchain.isSome = true →
      app2.reCreateSwapchain answers.recreate = some recreated →
      recreated.result = Except.ok () → recreated.state.VectorsSized := by
    intro app2 recreated hsome hrec hrok
    obtain ⟨sc2, h1, h2, _, h4, h5, h6, _⟩ := MApplication.reCreateSwapchain_sized hrec hrok
    exact ⟨sc2, h1, h2, h4, h5, h6 hsome⟩
  simp only [MApplication.drawFrame, hsc] at h
  cases hacq : swapchain.acquireNextImage answers.acquire with
  | none =>
    simp only [hacq] at h
    cases h
  | some acquired =>
    simp only [hacq] at h
    by_cases h1 : answers.acquire.1 = VK_ERROR_OUT_OF_DATE_KHR
    · simp only [if_pos h1] at h
      cases hrec : app.reCreateSwapchain answers.recreate with
      | none =>
        simp only [hrec] at h
        cases h
      | some recreated =>
        simp only [hrec] at h
        cases hrr : recreated.result with
        | error e =>
          simp only [hrr] at h
          injection h with h
          rw [← h] at hok
          cases hok
        | ok u =>
          simp only [hrr] at h
          injection h with h
          rw [← h]
          exact hrecreated app recreated (by rw [hsc]; rfl) hrec hrr
    · simp only [if_neg h1] at h
      by_cases h2 : answers.acquire.1 ≠ VK_SUCCESS ∧ answers.acquire.1 ≠ VK_SUBOPTIMAL_KHR
      · simp only [if_pos h2] at h
        injection h with h
        rw [← h] at hok
        cases hok
      · simp only [if_neg h2] at h
        cases hrecord : app.recordCommandBuffer answers.acquire.2 answers.beginCommandBuffer
            answers.endCommandBuffer with
        | none =>
          simp only [hrecord] at h
          cases h
        | some recorded =>
          simp only [hrecord] at h
          cases hrres : recorded.result with
          | error e =>
            simp only [hrres] at h
            injection h with h
            rw [← h] at hok
            cases hok
          | ok u =>
            simp only [hrres] at h
            cases hbuf : app.m_commandBuffers[answers.acquire.2]? with
            | none =>
              simp only [hbuf] at h
              cases h
            | some commandBuffer =>
              simp only [hbuf] at h
              cases hsub : swapchain.submitCommandBuffers commandBuffer answers.acquire.2
                  answers.queueSubmit answers.queuePresent with
              | none =>
                simp only [hsub] at h
                cases h
              | some submitted =>
                simp only [hsub] at h
                obtain ⟨hwf2, himages, hviews2, hfbs2, _⟩ :=
                  VulkanSwapchain.submitCommandBuffers_preserves hsub hwf
                have hcount : submitted.state.imageCount = swapchain.imageCount := by
                  show submitted.state.m_swapChainImages.length = _
                  rw [himages]
                  rfl
                cases hsres : submitted.result with
                | error e =>
                  simp only [hsres] at h
                  injection h with h
                  rw [← h] at hok
                  cases hok
                | ok present =>
                  simp only [hsres] at h
                  by_cases hcond : present = VK_ERROR_OUT_OF_DATE_KHR
                      ∨ present = VK_SUBOPTIMAL_KHR ∨ app.m_window.wasWindowResized = true
                  · simp only [if_pos hcond] at h
                    split at h
                    · cases h
                    · rename_i recreated hrec
                      cases hrr : recreated.result with
                      | error e =>
                        simp only [hrr] at h
                        injection h with h
                        rw [← h] at hok
                        cases hok
                      | ok u =>
                        simp only [hrr] at h
                        injection h with h
                        rw [← h]
                        refine hrecreated _ recreated ?_ hrec hrr
                        rfl
                  · simp only [if_neg hcond] at h
                    by_cases hp : present ≠ VK_SUCCESS
                    · simp only [if_pos hp] at h
                      injection h with h
                      rw [← h] at hok
                      cases hok
                    · simp only [if_neg hp] at h
                      injection h with h
                      rw [← h]
                      refine ⟨submitted.state, rfl, hwf2, ?_, ?_, ?_⟩
                      · rw [hviews2, hcount]
                        exact hviews
                      · rw [hfbs2, hcount]
                        exact hfbs
                      · rw [hcount]
                        exact hcb

theorem MApplication.drawFrame_defined (app : MApplication) (answers : FrameAnswers)
    (hready : app.Ready) (hconf : answers.recreate.Conforming)
    (hindex : ∀ swapchain, app.m_swapchain = some swapchain →
      answers.acquire.2 < swapchain.imageCount) :
    ∃ r, app.drawFrame answers = some r := by
  obtain ⟨commandBuffer, recorded, _, hbuf, hrecord, _, _, _, hrres⟩ :=
    app.recordCommandBuffer_defined hready answers.acquire.2 hindex answers.beginCommandBuffer
      answers.endCommandBuffer
  obtain ⟨swapchain, pipeline, model, hsc, _, _, hwf, hdepth, _, _, _, hlayout⟩ := hready
  have hi := hindex swapchain hsc
  obtain ⟨fence, imageAvailable, hacq⟩ :=
    swapchain.acquireNextImage_of_wellFormed hwf answers.acquire
  by_cases h1 : answers.acquire.1 = VK_ERROR_OUT_OF_DATE_KHR
  · obtain ⟨recreated, _, hrec, _⟩ := app.reCreateSwapchain_spec answers.recreate
      (fun old hold => by
        rw [hsc] at hold
        injection hold with hold
        rw [← hold]
        exact ⟨hwf, hdepth⟩)
      hlayout hconf
    cases hrr : recreated.result with
    | error e =>
      simp only [MApplication.drawFrame, hsc, hacq, if_pos h1, hrec, hrr]
      exact ⟨_, rfl⟩
    | ok u =>
      simp only [MApplication.drawFrame, hsc, hacq, if_pos h1, hrec, hrr]
      exact ⟨_, rfl⟩
  · by_cases h2 : answers.acquire.1 ≠ VK_SUCCESS ∧ answers.acquire.1 ≠ VK_SUBOPTIMAL_KHR
    · exact ⟨_, MApplication.drawFrame_of_acquire_failure hsc hacq h1 h2⟩
    · cases hres : recorded.result with
      | error e =>
        exact ⟨_, MApplication.drawFrame_of_record_failure hsc hacq h1 h2 hrecord hres⟩
      | ok u =>
        obtain ⟨imageFence, slotFence, imageAvailable2, renderFinished, l1, l2, l3, l4⟩ :=
          hwf.lookups hi
        by_cases hq : answers.queueSubmit = VK_SUCCESS
        · have hsub := VulkanSwapchain.submitCommandBuffers_of_success l1 l2 l3 l4 commandBuffer
            answers.queuePresent
          rw [← hq] at hsub
          by_cases hcond : answers.queuePresent = VK_ERROR_OUT_OF_DATE_KHR
              ∨ answers.queuePresent = VK_SUBOPTIMAL_KHR
              ∨ app.m_window.wasWindowResized = true
          · obtain ⟨hwf2, _, _, _, hdepth2⟩ :=
              VulkanSwapchain.submitCommandBuffers_preserves hsub hwf
            obtain ⟨recreated, _, hrec, _⟩ := MApplication.reCreateSwapchain_spec
              { app with
                m_swapchain := some { swapchain with
                  imagesInFlight := swapchain.imagesInFlight.set answers.acquire.2 slotFence
                  currentFrame :=
                    (swapchain.currentFrame + 1) % VulkanSwapchain.MAX_FRAMES_IN_FLIGHT }
                m_window := app.m_window.resetWindowResizedFlag }
              answers.recreate
              (fun old hold => by
                injection hold with hold
                rw [← hold]
                exact ⟨hwf2, hdepth2.trans hdepth⟩)
              hlayout hconf
            exact ⟨_, MApplication.drawFrame_of_present_recreation hsc hacq h1 h2 hrecord hres
              hbuf hsub rfl hcond hrec⟩
          · exact ⟨_, MApplication.drawFrame_of_present_plain hsc hacq h1 h2 hrecord hres hbuf
              hsub rfl hcond⟩
        · have hsub := VulkanSwapchain.submitCommandBuffers_of_failure l1 l2 l3 l4 commandBuffer
            hq answers.queuePresent
          exact ⟨_, MApplication.drawFrame_of_submit_failure hsc hacq h1 h2 hrecord hres hbuf
            hsub rfl⟩

/-- C26: every vector access made during a frame is in bounds.  (1) In every chain a
constructor returns, the slot index is below `MAX_FRAMES_IN_FLIGHT`, the three sync-object
vectors have length `MAX_FRAMES_IN_FLIGHT`, and the image-view, framebuffer and per-image
fence vectors have length `imageCount()`.  (2) On a chain with these sizes a frame cycle with
an acquired index below the image count is defined, so no index is out of range, and it
leaves these sizes and the image count as they were; the slot index stays below
`MAX_FRAMES_IN_FLIGHT` always.  (3) The application constructor returns an application whose
command-buffer vector too has length `imageCount()`.  (4) Every `drawFrame` that returns,
with or without a recreation, leaves all these sizes in place for the next frame.  (5) On an
application in its render-loop state, with an acquired index below the image count,
`drawFrame` is defined: no vector is indexed out of range. -/
theorem MApplication.frame_vector_accesses_in_bounds :
    (∀ (deviceRef : VulkanDevice) (extent : VkExtent2D) (previous : Option VulkanSwapchain)
        (answers : ChainAnswers) (calls : List Effect) (sc : VulkanSwapchain),
      VulkanSwapchain.constructor deviceRef extent previous answers
        = some (calls, Except.ok sc) →
      sc.currentFrame < VulkanSwapchain.MAX_FRAMES_IN_FLIGHT
      ∧ sc.imageAvailableSemaphores.length = VulkanSwapchain.MAX_FRAMES_IN_FLIGHT
      ∧ sc.renderFinishedSemaphores.length = VulkanSwapchain.MAX_FRAMES_IN_FLIGHT
      ∧ sc.inFlightFences.length = VulkanSwapchain.MAX_FRAMES_IN_FLIGHT
      ∧ sc.m_swapChainImageViews.length = sc.imageCount
      ∧ sc.m_swapChainFramebuffers.length = sc.imageCount
      ∧ sc.imagesInFlight.length = sc.imageCount)
    ∧ (∀ (sc : VulkanSwapchain) (a : CycleAnswers),
      sc.WellFormed → a.acquire.2 < sc.imageCount →
      ∃ r, sc.frameCycle a = some r
        ∧ r.state.WellFormed
        ∧ r.state.imageCount = sc.imageCount)
    ∧ (∀ (construction : ConstructionAnswers) (calls : List Effect) (app : MApplication),
      MApplication.constructor construction = some (calls, Except.ok app) →
      app.VectorsSized)
    ∧ (∀ (app : MApplication) (answers : FrameAnswers) (r : Run MApplication Unit),
      app.VectorsSized → app.drawFrame answers = some r → r.result = Except.ok () →
      r.state.VectorsSized)
    ∧ (∀ (app : MApplication) (answers : FrameAnswers),
      app.Ready → answers.recreate.Conforming →
      (∀ swapchain, app.m_swapchain = some swapchain →
        answers.acquire.2 < swapchain.imageCount) →
      ∃ r, app.drawFrame answers = some r) := by
  refine ⟨?_, ?_, ?_, ?_, ?_⟩
  · intro deviceRef extent previous answers calls sc h
    obtain ⟨⟨w1, w2, w3, w4, w5⟩, _, hviews, hfbs⟩ :=
      VulkanSwapchain.chain_constructor_sized h
    exact ⟨w5, w1, w2, w3, hviews, hfbs, w4⟩
  · intro sc a hwf hi
    obtain ⟨r, _, _, _, _, _, _, hr, hwf2, _, hcount, _⟩ := sc.frameCycle_shape hwf a hi
    exact ⟨r, hr, hwf2, hcount⟩
  · intro construction calls app h
    exact MApplication.constructor_sized h
  · intro app answers r hsized h hok
    exact MApplication.drawFrame_sized h hok hsized
  · intro app answers hready hconf hindex
    exact app.drawFrame_defined answers hready hconf hindex

/-- Witness of C26: the application built by the constructor with `exampleConstruction` has
its vectors sized, and `drawFrame` on `exampleApplication` with image 1 acquired (of three)
is defined and leaves the vectors sized. -/
theorem MApplication.frame_vector_accesses_in_bounds_witness :
    (∃ calls app, MApplication.constructor exampleConstruction = some (calls, Except.ok app)
      ∧ app.VectorsSized)
    ∧ (∃ r, exampleApplication.drawFrame exampleFrameAnswers = some r
      ∧ r.result = Except.ok ()
      ∧ r.state.VectorsSized) := by
  constructor
  · have hok : (MApplication.constructor exampleConstruction).map
        (fun out => out.2.toOption.isSome) = some true := rfl
    cases h : MApplication.constructor exampleConstruction with
    | none =>
      rw [h] at hok
      cases hok
    | some out =>
      obtain ⟨calls, result⟩ := out
      cases result with
      | error e =>
        rw [h] at hok
        cases hok
      | ok app =>
        exact ⟨calls, app, rfl,
          MApplication.frame_vector_accesses_in_bounds.2.2.1 exampleConstruction calls app h⟩
  · have hsized : exampleApplication.VectorsSized :=
      ⟨exampleChain, rfl, by decide, rfl, rfl, rfl⟩
    have hok : (exampleApplication.drawFrame exampleFrameAnswers).map (fun r => r.result)
        = some (Except.ok ()) := rfl
    cases h : exampleApplication.drawFrame exampleFrameAnswers with
    | none =>
      rw [h] at hok
      cases hok
    | some r =>
      rw [h] at hok
      simp only [Option.map_some', Option.some.injEq] at hok
      exact ⟨r, rfl, hok,
        MApplication.frame_vector_accesses_in_bounds.2.2.2.1 exampleApplication
          exampleFrameAnswers r hsized h hok⟩

/-! ## Memory type selection -/

theorem and_one_shiftLeft_ne_zero_iff (typeFilter i : Nat) :
    typeFilter &&& (1 <<< i) ≠ 0 ↔ typeFilter.testBit i = true := by
  rw [Nat.one_shiftLeft, Nat.and_two_pow]
  cases h : typeFilter.testBit i
  · simp
  · simp [Nat.pos_iff_ne_zero.mp (Nat.two_pow_pos i)]

theorem and_eq_right_iff_testBit (propertyFlags properties : Nat) :
    propertyFlags &&& properties = properties
      ↔ ∀ b, properties.testBit b = true → propertyFlags.testBit b = true := by
  constructor
  · intro h b hb
    rw [← h, Nat.testBit_and] at hb
    simp only [Bool.and_eq_true] at hb
    exact hb.1
  · intro h
    apply Nat.eq_of_testBit_eq
    intro b
    rw [Nat.testBit_and]
    cases hb : properties.testBit b
    · simp
    · simp [h b hb]

theorem VulkanDevice.findMemoryType.loop_spec (memProperties : VkPhysicalDeviceMemoryProperties)
    (typeFilter properties : Nat) :
    ∀ remaining i, i + remaining ≤ 32 → i + remaining ≤ memProperties.memoryTypes.length →
      (∃ k propertyFlags, i ≤ k ∧ k < i + remaining
        ∧ typeFilter &&& (1 <<< k) ≠ 0
        ∧ memProperties.memoryTypes[k]? = some propertyFlags
        ∧ propertyFlags &&& properties = properties
        ∧ (∀ j flags, i ≤ j → j < k → typeFilter &&& (1 <<< j) ≠ 0 →
            memProperties.memoryTypes[j]? = some flags → flags &&& properties ≠ properties)
        ∧ VulkanDevice.findMemoryType.loop memProperties typeFilter properties remaining i
          = some (Except.ok k))
      ∨ ((∀ j flags, i ≤ j → j < i + remaining → typeFilter &&& (1 <<< j) ≠ 0 →
            memProperties.memoryTypes[j]? = some flags → flags &&& properties ≠ properties)
        ∧ VulkanDevice.findMemoryType.loop memProperties typeFilter properties remaining i
          = some (Except.error "Failed to find suitable memory type.")) := by
  intro remaining
  induction remaining with
  | zero =>
    intro i _ _
    right
    refine ⟨?_, rfl⟩
    intro j flags h1 h2
    omega
  | succ remaining ih =>
    intro i h32 hlen
    have hi : ¬ 32 ≤ i := by omega
    have hget : memProperties.memoryTypes[i]? = some memProperties.memoryTypes[i] :=
      List.getElem?_eq_getElem (by omega)
    have hstep : ∀ out,
        ((typeFilter &&& (1 <<< i) ≠ 0
          ∧ memProperties.memoryTypes[i] &&& properties = properties) → False) →
        VulkanDevice.findMemoryType.loop memProperties typeFilter properties remaining (i + 1)
          = out →
        VulkanDevice.findMemoryType.loop memProperties typeFilter properties (remaining + 1) i
          = out := by
      intro out hno hout
      unfold VulkanDevice.findMemoryType.loop
      rw [if_neg hi]
      by_cases hbit : typeFilter &&& (1 <<< i) ≠ 0
      · rw [if_pos hbit]
        simp only [hget]
        rw [if_neg (fun hflags => hno ⟨hbit, hflags⟩)]
        exact hout
      · rw [if_neg hbit]
        exact hout
    by_cases hhere : typeFilter &&& (1 <<< i) ≠ 0
        ∧ memProperties.memoryTypes[i] &&& properties = properties
    · left
      refine ⟨i, memProperties.memoryTypes[i], le_refl i, by omega, hhere.1, hget, hhere.2, ?_, ?_⟩
      · intro j flags h1 h2
        omega
      · unfold VulkanDevice.findMemoryType.loop
        rw [if_neg hi, if_pos hhere.1]
        simp only [hget]
        rw [if_pos hhere.2]
    · have hnot : ∀ flags, typeFilter &&& (1 <<< i) ≠ 0 →
          memProperties.memoryTypes[i]? = some flags → flags &&& properties ≠ properties := by
        intro flags hbit hflags hcontains
        rw [hget] at hflags
        injection hflags with hflags
        rw [← hflags] at hcontains
        exact hhere ⟨hbit, hcontains⟩
      rcases ih (i + 1) (by omega) (by omega) with
        ⟨k, propertyFlags, h1, h2, h3, h4, h5, h6, h7⟩ | ⟨h6, h7⟩
      · left
        refine ⟨k, propertyFlags, by omega, by omega, h3, h4, h5, ?_, hstep _ hhere h7⟩
        intro j flags hj1 hj2 hbit hflags
        by_cases hji : j = i
        · subst hji
          exact hnot flags hbit hflags
        · exact h6 j flags (by omega) hj2 hbit hflags
      · right
        refine ⟨?_, hstep _ hhere h7⟩
        intro j flags hj1 hj2 hbit hflags
        by_cases hji : j = i
        · subst hji
          exact hnot flags hbit hflags
        · exact h6 j flags (by omega) (by omega) hbit hflags

/-- C27: for every memory-type table (`memoryTypeCount` at most `VK_MAX_MEMORY_TYPES`, the
size of the array `memoryTypes`), every type filter and all required property flags,
`findMemoryType` returns, and it returns the index `i` exactly when `i` is the smallest
index below `memoryTypeCount` such that bit `i` of the filter is set and the property flags
of `memoryTypes[i]` contain every required flag; it throws "Failed to find suitable memory
type." exactly when there is no such index. -/
theorem VulkanDevice.findMemoryType_smallest_suitable
    (memProperties : VkPhysicalDeviceMemoryProperties) (typeFilter properties : Nat)
    (harray : memProperties.memoryTypes.length = VK_MAX_MEMORY_TYPES)
    (hcount : memProperties.memoryTypeCount ≤ VK_MAX_MEMORY_TYPES) :
    (∃ out, VulkanDevice.findMemoryType memProperties typeFilter properties = some out)
    ∧ (∀ i, VulkanDevice.findMemoryType memProperties typeFilter properties
          = some (Except.ok i)
        ↔ i < memProperties.memoryTypeCount
          ∧ typeFilter.testBit i = true
          ∧ (∃ propertyFlags, memProperties.memoryTypes[i]? = some propertyFlags
            ∧ ∀ b, properties.testBit b = true → propertyFlags.testBit b = true)
          ∧ ∀ j, j < i →
            ¬ (typeFilter.testBit j = true
              ∧ ∃ propertyFlags, memProperties.memoryTypes[j]? = some propertyFlags
                ∧ ∀ b, properties.testBit b = true → propertyFlags.testBit b = true))
    ∧ (VulkanDevice.findMemoryType memProperties typeFilter properties
          = some (Except.error "Failed to find suitable memory type.")
        ↔ ∀ i, i < memProperties.memoryTypeCount →
            ¬ (typeFilter.testBit i = true
              ∧ ∃ propertyFlags, memProperties.memoryTypes[i]? = some propertyFlags
                ∧ ∀ b, properties.testBit b = true → propertyFlags.testBit b = true)) := by
  have hmax : VK_MAX_MEMORY_TYPES = 32 := rfl
  rw [hmax] at harray hcount
  have hsuit : ∀ j, (typeFilter.testBit j = true
        ∧ ∃ propertyFlags, memProperties.memoryTypes[j]? = some propertyFlags
          ∧ ∀ b, properties.testBit b = true → propertyFlags.testBit b = true)
      ↔ (typeFilter &&& (1 <<< j) ≠ 0
        ∧ ∃ propertyFlags, memProperties.memoryTypes[j]? = some propertyFlags
          ∧ propertyFlags &&& properties = properties) := by
    intro j
    rw [and_one_shiftLeft_ne_zero_iff]
    constructor
    · rintro ⟨h1, flags, h2, h3⟩
      exact ⟨h1, flags, h2, (and_eq_right_iff_testBit flags properties).mpr h3⟩
    · rintro ⟨h1, flags, h2, h3⟩
      exact ⟨h1, flags, h2, (and_eq_right_iff_testBit flags properties).mp h3⟩
  unfold VulkanDevice.findMemoryType
  rcases VulkanDevice.findMemoryType.loop_spec memProperties typeFilter properties
      memProperties.memoryTypeCount 0 (by omega) (by omega) with
    ⟨k, propertyFlags, _, h2, h3, h4, h5, h6, h7⟩ | ⟨h6, h7⟩
  · have hk : typeFilter.testBit k = true
        ∧ ∃ propertyFlags, memProperties.memoryTypes[k]? = some propertyFlags
          ∧ ∀ b, properties.testBit b = true → propertyFlags.testBit b = true :=
      (hsuit k).mpr ⟨h3, propertyFlags, h4, h5⟩
    have hbefore : ∀ j, j < k →
        ¬ (typeFilter.testBit j = true
          ∧ ∃ propertyFlags, memProperties.memoryTypes[j]? = some propertyFlags
            ∧ ∀ b, properties.testBit b = true → propertyFlags.testBit b = true) := by
      intro j hj hs
      obtain ⟨hbit, flags, hflags, hcontains⟩ := (hsuit j).mp hs
      exact h6 j flags (Nat.zero_le j) hj hbit hflags hcontains
    rw [h7]
    refine ⟨⟨_, rfl⟩, ?_, ?_⟩
    · intro i
      constructor
      · intro hi
        injection hi with hi
        injection hi with hi
        subst hi
        exact ⟨by omega, hk.1, hk.2, hbefore⟩
      · rintro ⟨hi1, hi2, hi3, hi4⟩
        have hik : i = k := by
          rcases Nat.lt_trichotomy i k with hlt | heq | hgt
          · exact absurd ⟨hi2, hi3⟩ (hbefore i hlt)
          · exact heq
          · exact absurd hk (hi4 k hgt)
        rw [hik]
    · constructor
      · intro he
        injection he with he
        cases he
      · intro hnone
        exact absurd hk (hnone k (by omega))
  · rw [h7]
    have hnone : ∀ i, i < memProperties.memoryTypeCount →
        ¬ (typeFilter.testBit i = true
          ∧ ∃ propertyFlags, memProperties.memoryTypes[i]? = some propertyFlags
            ∧ ∀ b, properties.testBit b = true → propertyFlags.testBit b = true) := by
      intro i hi hs
      obtain ⟨hbit, flags, hflags, hcontains⟩ := (hsuit i).mp hs
      exact h6 i flags (Nat.zero_le i) (by omega) hbit hflags hcontains
    refine ⟨⟨_, rfl⟩, ?_, ?_⟩
    · intro i
      constructor
      · intro hi
        injection hi with hi
        cases hi
      · rintro ⟨hi1, hi2, hi3, _⟩
        exact absurd ⟨hi2, hi3⟩ (hnone i hi1)
    · exact ⟨fun _ => hnone, fun _ => rfl⟩

/-- Witness of C27: a table with three memory types whose property flags are 1, 6 and 7, the
filter 6 (types 1 and 2) and the required flags 6: `findMemoryType` returns 1, the smaller
of the two suitable indices. -/
theorem VulkanDevice.findMemoryType_smallest_suitable_witness :
    VulkanDevice.findMemoryType ⟨3, [1, 6, 7] ++ List.replicate 29 0⟩ 6 6 = some (Except.ok 1)
    ∧ (1 < 3 ∧ Nat.testBit 6 1 = true
      ∧ (∃ propertyFlags, ([1, 6, 7] ++ List.replicate 29 0)[1]? = some propertyFlags
        ∧ ∀ b, Nat.testBit 6 b = true → propertyFlags.testBit b = true)
      ∧ ∀ j, j < 1 →
        ¬ (Nat.testBit 6 j = true
          ∧ ∃ propertyFlags, ([1, 6, 7] ++ List.replicate 29 0)[j]? = some propertyFlags
            ∧ ∀ b, Nat.testBit 6 b = true → propertyFlags.testBit b = true)) :=
  ⟨rfl, ((VulkanDevice.findMemoryType_smallest_suitable ⟨3, [1, 6, 7] ++ List.replicate 29 0⟩
    6 6 (by decide) (by decide)).2.1 1).mp rfl⟩

/-! ## Support checks of `VulkanDevice` -/

theorem VulkanDevice.checkValidationLayerSupport.layerFound_iff (layerName : String)
    (availableLayers : List String) :
    VulkanDevice.checkValidationLayerSupport.layerFound layerName availableLayers = true
      ↔ layerName ∈ availableLayers := by
  induction availableLayers with
  | nil => simp [VulkanDevice.checkValidationLayerSupport.layerFound]
  | cons head rest ih =>
    unfold VulkanDevice.checkValidationLayerSupport.layerFound
    by_cases h : layerName = head
    · simp [h]
    · simp [h, ih]

theorem VulkanDevice.checkValidationLayerSupport_iff (availableLayers : List String)
    (validationLayers : List String) :
    VulkanDevice.checkValidationLayerSupport availableLayers validationLayers = true
      ↔ ∀ layerName ∈ validationLayers, layerName ∈ availableLayers := by
  induction validationLayers with
  | nil => simp [VulkanDevice.checkValidationLayerSupport]
  | cons head rest ih =>
    unfold VulkanDevice.checkValidationLayerSupport
    by_cases h : VulkanDevice.checkValidationLayerSupport.layerFound head availableLayers = false
    · have hnot : head ∉ availableLayers := by
        intro hmem
        rw [(VulkanDevice.checkValidationLayerSupport.layerFound_iff head availableLayers).mpr
          hmem] at h
        cases h
      simp [h, hnot]
    · have hmem : head ∈ availableLayers :=
        (VulkanDevice.checkValidationLayerSupport.layerFound_iff head availableLayers).mp
          (by simpa using h)
      simp [h, ih, hmem]

theorem VulkanDevice.checkExtensionSupport.extensionFound_iff (extensionName : String)
    (availableExtensions : List String) :
    VulkanDevice.checkExtensionSupport.extensionFound extensionName availableExtensions = true
      ↔ extensionName ∈ availableExtensions := by
  induction availableExtensions with
  | nil => simp [VulkanDevice.checkExtensionSupport.extensionFound]
  | cons head rest ih =>
    unfold VulkanDevice.checkExtensionSupport.extensionFound
    by_cases h : extensionName = head
    · simp [h]
    · simp [h, ih]

theorem VulkanDevice.checkExtensionSupport_iff (availableExtensions : List String)
    (extensionList : List String) :
    VulkanDevice.checkExtensionSupport availableExtensions extensionList = true
      ↔ ∀ extensionName ∈ extensionList, extensionName ∈ availableExtensions := by
  induction extensionList with
  | nil => simp [VulkanDevice.checkExtensionSupport]
  | cons head rest ih =>
    unfold VulkanDevice.checkExtensionSupport
    by_cases h : VulkanDevice.checkExtensionSupport.extensionFound head availableExtensions
        = false
    · have hnot : head ∉ availableExtensions := by
        intro hmem
        rw [(VulkanDevice.checkExtensionSupport.extensionFound_iff head availableExtensions).mpr
          hmem] at h
        cases h
      simp [h, hnot]
    · have hmem : head ∈ availableExtensions :=
        (VulkanDevice.checkExtensionSupport.extensionFound_iff head availableExtensions).mp
          (by simpa using h)
      simp [h, ih, hmem]

theorem VulkanDevice.checkDeviceExtensionSupport.mem_erased (availableExtensions : List String) :
    ∀ (required : Finset String) (name : String),
      name ∈ availableExtensions.foldl (fun required extension => required.erase extension)
          required
        ↔ name ∈ required ∧ name ∉ availableExtensions := by
  induction availableExtensions with
  | nil => simp
  | cons head rest ih =>
    intro required name
    rw [List.foldl_cons, ih]
    simp only [Finset.mem_erase, List.mem_cons, not_or]
    tauto

theorem VulkanDevice.checkDeviceExtensionSupport_iff (availableExtensions : List String)
    (deviceExtensions : List String) :
    VulkanDevice.checkDeviceExtensionSupport availableExtensions deviceExtensions = true
      ↔ ∀ extensionName ∈ deviceExtensions, extensionName ∈ availableExtensions := by
  unfold VulkanDevice.checkDeviceExtensionSupport
  simp only [decide_eq_true_eq, Finset.eq_empty_iff_forall_not_mem,
    VulkanDevice.checkDeviceExtensionSupport.mem_erased, List.mem_toFinset, not_and, not_not]

/-- C28: for every list of requested names and every list of available names, each of
`checkExtensionSupport`, `checkValidationLayerSupport` (nested loops with `strcmp`) and
`checkDeviceExtensionSupport` (erasing from a `std::set`) returns `true` exactly when every
requested name occurs among the available names; so the three return the same value on
every input. -/
theorem VulkanDevice.support_checks_agree (available requested : List String) :
    (VulkanDevice.checkExtensionSupport available requested = true
      ↔ ∀ name ∈ requested, name ∈ available)
    ∧ (VulkanDevice.checkValidationLayerSupport available requested = true
      ↔ ∀ name ∈ requested, name ∈ available)
    ∧ (VulkanDevice.checkDeviceExtensionSupport available requested = true
      ↔ ∀ name ∈ requested, name ∈ available)
    ∧ VulkanDevice.checkExtensionSupport available requested
      = VulkanDevice.checkDeviceExtensionSupport available requested
    ∧ VulkanDevice.checkValidationLayerSupport available requested
      = VulkanDevice.checkDeviceExtensionSupport available requested := by
  have h1 := VulkanDevice.checkExtensionSupport_iff available requested
  have h2 := VulkanDevice.checkValidationLayerSupport_iff available requested
  have h3 := VulkanDevice.checkDeviceExtensionSupport_iff available requested
  refine ⟨h1, h2, h3, ?_, ?_⟩
  · rw [Bool.eq_iff_iff, h1, h3]
  · rw [Bool.eq_iff_iff, h2, h3]

/-! ## Window events -/

/-- C29, at the failing input: a window event of kind `SDL_WINDOWEVENT_RESIZED` with data
300 and 13, handled by a window that is not fullscreen.  After the statements of the window
event the `case SDL_WINDOWEVENT` group has no `break`, control falls through into
`case SDL_KEYDOWN`, `e.key.keysym.sym` reads 13, which is `SDLK_RETURN`, and the window calls
`SDL_SetWindowFullscreen` and sets the fullscreen flag; a minimize event with the same data
ends with the minimized flag cleared again.  In general, for every window event, whatever
its kind and data, the quit flag is unchanged and the width, height, resized and minimized
fields are first set as the kind dictates; the fullscreen flag is inverted exactly when the
value read as `e.key.keysym.sym` is `SDLK_RETURN`, and entering fullscreen clears the
minimized flag. -/
theorem MWindow.handleEvent_window_event_falls_through :
    exampleWindow.m_fullscreen = false
    ∧ exampleWindow.handleEvent (SDL_Event.ofWindowEvent SDL_WINDOWEVENT_RESIZED 300 13)
      = ({ exampleWindow with
            m_width := 300
            m_height := 13
            m_framebufferResized := true
            m_fullscreen := true },
          [Effect.cout "resized\n", Effect.SDL_SetWindowFullscreen SDL_TRUE])
    ∧ exampleWindow.handleEvent (SDL_Event.ofWindowEvent SDL_WINDOWEVENT_MINIMIZED 0 13)
      = ({ exampleWindow with m_fullscreen := true, m_minimized := false },
          [Effect.cout "minimized\n", Effect.SDL_SetWindowFullscreen SDL_TRUE])
    ∧ ∀ (w : MWindow) (event : Nat) (data1 data2 sym : Int),
      (w.handleEvent ⟨SDL_WINDOWEVENT, event, data1, data2, sym⟩).1.m_quit = w.m_quit
      ∧ (w.handleEvent ⟨SDL_WINDOWEVENT, event, data1, data2, sym⟩).1.m_fullscreen
        = (if sym = SDLK_RETURN then !w.m_fullscreen else w.m_fullscreen)
      ∧ (w.handleEvent ⟨SDL_WINDOWEVENT, event, data1, data2, sym⟩).1.m_width
        = (if event = SDL_WINDOWEVENT_RESIZED then data1 else w.m_width)
      ∧ (w.handleEvent ⟨SDL_WINDOWEVENT, event, data1, data2, sym⟩).1.m_height
        = (if event = SDL_WINDOWEVENT_RESIZED then data2 else w.m_height)
      ∧ (w.handleEvent ⟨SDL_WINDOWEVENT, event, data1, data2, sym⟩).1.m_framebufferResized
        = (if event = SDL_WINDOWEVENT_RESIZED then true else w.m_framebufferResized)
      ∧ (w.handleEvent ⟨SDL_WINDOWEVENT, event, data1, data2, sym⟩).1.m_minimized
        = (if sym = SDLK_RETURN ∧ w.m_fullscreen = false then false
          else if event = SDL_WINDOWEVENT_MINIMIZED then true
          else if event = SDL_WINDOWEVENT_MAXIMIZED ∨ event = SDL_WINDOWEVENT_RESTORED then false
          else w.m_minimized) := by
  refine ⟨rfl, rfl, rfl, ?_⟩
  intro w event data1 data2 sym
  have htype : (SDL_WINDOWEVENT = SDL_QUIT) = False := by decide
  simp only [MWindow.handleEvent, htype, if_false, if_true, MWindow.handleEvent.keyDown,
    MWindow.handleEvent.windowEvent]
  by_cases h6 : event = SDL_WINDOWEVENT_SIZE_CHANGED
  · subst h6
    by_cases hs : sym = SDLK_RETURN <;> cases hf : w.m_fullscreen <;>
      simp [hs, hf, SDL_WINDOWEVENT_SIZE_CHANGED, SDL_WINDOWEVENT_RESIZED,
        SDL_WINDOWEVENT_MINIMIZED, SDL_WINDOWEVENT_MAXIMIZED, SDL_WINDOWEVENT_RESTORED]
  · by_cases h5 : event = SDL_WINDOWEVENT_RESIZED
    · subst h5
      by_cases hs : sym = SDLK_RETURN <;> cases hf : w.m_fullscreen <;>
        simp [hs, hf, SDL_WINDOWEVENT_SIZE_CHANGED, SDL_WINDOWEVENT_RESIZED,
          SDL_WINDOWEVENT_MINIMIZED, SDL_WINDOWEVENT_MAXIMIZED, SDL_WINDOWEVENT_RESTORED]
    · by_cases h7 : event = SDL_WINDOWEVENT_MINIMIZED
      · subst h7
        by_cases hs : sym = SDLK_RETURN <;> cases hf : w.m_fullscreen <;>
          simp [hs, hf, SDL_WINDOWEVENT_SIZE_CHANGED, SDL_WINDOWEVENT_RESIZED,
            SDL_WINDOWEVENT_MINIMIZED, SDL_WINDOWEVENT_MAXIMIZED, SDL_WINDOWEVENT_RESTORED]
      · by_cases h8 : event = SDL_WINDOWEVENT_MAXIMIZED
        · subst h8
          by_cases hs : sym = SDLK_RETURN <;> cases hf : w.m_fullscreen <;>
            simp [hs, hf, SDL_WINDOWEVENT_SIZE_CHANGED, SDL_WINDOWEVENT_RESIZED,
              SDL_WINDOWEVENT_MINIMIZED, SDL_WINDOWEVENT_MAXIMIZED, SDL_WINDOWEVENT_RESTORED]
        · by_cases h9 : event = SDL_WINDOWEVENT_RESTORED
          · subst h9
            by_cases hs : sym = SDLK_RETURN <;> cases hf : w.m_fullscreen <;>
              simp [hs, hf, SDL_WINDOWEVENT_SIZE_CHANGED, SDL_WINDOWEVENT_RESIZED,
                SDL_WINDOWEVENT_MINIMIZED, SDL_WINDOWEVENT_MAXIMIZED, SDL_WINDOWEVENT_RESTORED]
          · by_cases hs : sym = SDLK_RETURN <;> cases hf : w.m_fullscreen <;>
              simp [hs, hf, h5, h6, h7, h8, h9]

/-! ## Padding of uniform buffer sizes -/

theorem and_not_low_bits (x k : Nat) (hx : x < 2 ^ 64) (hk : k ≤ 64) :
    x &&& (2 ^ 64 - 1 - (2 ^ k - 1)) = x / 2 ^ k * 2 ^ k := by
  apply Nat.eq_of_testBit_eq
  intro i
  have hmask : 2 ^ 64 - 1 - (2 ^ k - 1) = (2 ^ (64 - k) - 1) <<< k := by
    rw [Nat.shiftLeft_eq, Nat.sub_mul, ← Nat.pow_add, Nat.one_mul]
    have h64 : 64 - k + k = 64 := by omega
    rw [h64]
    have hpos : 0 < 2 ^ k := Nat.two_pow_pos k
    omega
  have hright : x / 2 ^ k * 2 ^ k = (x >>> k) <<< k := by
    rw [Nat.shiftLeft_eq, Nat.shiftRight_eq_div_pow]
  rw [hmask, hright, Nat.testBit_and, Nat.testBit_shiftLeft, Nat.testBit_shiftLeft,
    Nat.testBit_shiftRight, Nat.testBit_two_pow_sub_one]
  by_cases hik : k ≤ i
  · have hadd : k + (i - k) = i := by omega
    rw [hadd]
    by_cases hi : i < 64
    · have : i - k < 64 - k := by omega
      simp [hik, this]
    · have hfalse : x.testBit i = false :=
        Nat.testBit_lt_two_pow (lt_of_lt_of_le hx (Nat.pow_le_pow_right (by decide) (by omega)))
      simp [hfalse]
  · simp [hik]

/-- C30: for every original size and every minimum alignment `a` that is a power of two,
both `size_t` values and with `originalSize + a - 1` not overflowing `size_t`,
`pad_uniform_buffer_size` returns the smallest multiple of `a` that is greater than or equal
to the original size; for `a = 0` it returns the original size unchanged. -/
theorem VulkanEngine.pad_uniform_buffer_size_smallest_multiple (originalSize : Nat) :
    (∀ k, 2 ^ k < 2 ^ 64 → originalSize + 2 ^ k - 1 < 2 ^ 64 →
      2 ^ k ∣ VulkanEngine.pad_uniform_buffer_size (2 ^ k) originalSize
      ∧ originalSize ≤ VulkanEngine.pad_uniform_buffer_size (2 ^ k) originalSize
      ∧ ∀ m, 2 ^ k ∣ m → originalSize ≤ m →
        VulkanEngine.pad_uniform_buffer_size (2 ^ k) originalSize ≤ m)
    ∧ VulkanEngine.pad_uniform_buffer_size 0 originalSize = originalSize := by
  refine ⟨?_, rfl⟩
  intro k hk hno
  have hpos : 0 < 2 ^ k := Nat.two_pow_pos k
  have hk64 : k ≤ 64 := by
    by_contra hgt
    have : 2 ^ 64 ≤ 2 ^ k := Nat.pow_le_pow_right (by decide) (by omega)
    omega
  have hvalue : VulkanEngine.pad_uniform_buffer_size (2 ^ k) originalSize
      = (originalSize + 2 ^ k - 1) / 2 ^ k * 2 ^ k := by
    unfold VulkanEngine.pad_uniform_buffer_size
    simp only [gt_iff_lt, hpos, if_true]
    rw [Nat.mod_eq_of_lt hno]
    exact and_not_low_bits _ k hno hk64
  rw [hvalue]
  have hle : (originalSize + 2 ^ k - 1) / 2 ^ k * 2 ^ k ≤ originalSize + 2 ^ k - 1 :=
    Nat.div_mul_le_self _ _
  have hlt : originalSize + 2 ^ k - 1 < (originalSize + 2 ^ k - 1) / 2 ^ k * 2 ^ k + 2 ^ k := by
    exact Nat.lt_div_mul_add hpos
  refine ⟨Nat.dvd_mul_left _ _, by omega, ?_⟩
  intro m hdvd hm
  obtain ⟨c, hc⟩ := hdvd
  rw [hc, Nat.mul_comm (2 ^ k) c]
  apply Nat.mul_le_mul_right
  by_contra hcq
  have hcq2 : c + 1 ≤ (originalSize + 2 ^ k - 1) / 2 ^ k := by omega
  have hmul : (c + 1) * 2 ^ k ≤ (originalSize + 2 ^ k - 1) / 2 ^ k * 2 ^ k :=
    Nat.mul_le_mul_right _ hcq2
  rw [Nat.add_mul, Nat.one_mul] at hmul
  rw [hc, Nat.mul_comm (2 ^ k) c] at hm
  omega

/-- Witness of C30: with the alignment `256 = 2 ^ 8` the size 300 is padded to 512, a
multiple of 256 that is not below 300. -/
theorem VulkanEngine.pad_uniform_buffer_size_smallest_multiple_witness :
    VulkanEngine.pad_uniform_buffer_size (2 ^ 8) 300 = 512
    ∧ 2 ^ 8 ∣ VulkanEngine.pad_uniform_buffer_size (2 ^ 8) 300
    ∧ 300 ≤ VulkanEngine.pad_uniform_buffer_size (2 ^ 8) 300 :=
  ⟨by decide,
    ((VulkanEngine.pad_uniform_buffer_size_smallest_multiple 300).1 8 (by decide)
      (by decide)).1,
    ((VulkanEngine.pad_uniform_buffer_size_smallest_multiple 300).1 8 (by decide)
      (by decide)).2.1⟩

end moo
